import Mathlib

/-!
# Climate simulation of `genmap2derosion` (climate.go), biome lookup of
`genworldvoronoi` (biomes.go), potions of `genpotions` (genpotions.go) and
rooms of `gamerogueish` (world.go)

A shallow embedding of the climate simulation, of the two biome classifiers, of
the potion crafting and of the room overlap test, and of the properties their
specification states about them.

Modelling conventions.

* `float64` values are exact rationals (`ℚ`); decimal literals of the source
  (`0.35`, `0.008`, ...) are the corresponding fractions.  Rounding is outside
  the model throughout.  The overflow to an infinity and NaN are outside this
  exact model too; the definitions named `...64` repeat `calcTempMap` and
  `calcHumidityMap` over the values `F64`, which do overflow.
* `int(x)` on a float is truncation toward zero (`truncQ`).
* Slices are lists.  A read `m[i]` is `m.getD i d` and a write `m[i] = v` is
  `m.set i v`; on indices inside the slice these agree with Go, outside Go
  panics.  With all fields of length `dimX * dimY` every index the loops
  compute is inside the slice.
* Grid extents `dimX`, `dimY` are natural numbers.
* The noise generator (`opensimplex`, an external library) is a parameter:
  `opensimplexNew seed` is the `Eval2` function of the generator made from
  `seed`.
* `for` loops are left folds over the list of values of the loop variable.
* Go `int` values are integers (`Int`), or natural numbers where the source
  only produces non-negative values.  The sums of room coordinates in world.go
  are sums of arbitrary `int` values and wrap around modulo `2^64` (`addInt`);
  the other integer operations modelled here act on grid coordinates, slice
  indices and table indices, which stay inside the range of `int`.
* The global random generator (`math/rand`) is a parameter: `rand k` is the
  `k`-th value `rand.Int()` returns during the run, a non-negative integer.
* The integer division and remainder by `dimY` in `genBiome` are those of the
  natural numbers; for `dimY = 0`, where Go panics, they are 0 and the dividend.
* The lookup functions of biomes.go return `Option`: `none` is the run-time
  panic of an index out of range.
* The definitions named `...Checked` repeat a function of climate.go with the
  index checks of the language: they return `Option`, `none` being the panic of
  an index out of range, and agree with the unchecked function where they
  return a value.
* A loop that ends early (`return`, `break`, `continue`) is a recursive function
  over the values of the loop variable that are left.
* The map `effectCount` of genpotions.go is a function `String → Option Nat`,
  `none` for a key that is not in the map; `CraftPotion` returns `Option`,
  `none` being `(nil, false)`.
-/

namespace Genworldvoronoi

/-! ## The biome lookup tables of `genworldvoronoi` (biomes.go) -/

/-- Indexing `t[i]` of a slice by a Go `int`: it fails (a run-time panic) unless
`0 <= i < len(t)`. -/
def index {α : Type} (t : List α) (i : Int) : Option α :=
  if i < 0 then none else t[i.toNat]?

/-- Table `RedblobLookupTable`: rows are elevation zones, columns moisture zones. -/
def RedblobLookupTable : List (List Int) :=
  [[0x7, 0xA, 0x8, 0x8, 0x5, 0x5],
   [0x9, 0xA, 0xA, 0x8, 0x8, 0x5],
   [0x9, 0x9, 0x3, 0x3, 0x2, 0x2],
   [0xD, 0xC, 0x1, 0xB, 0xB, 0xB]]

/-- Function `RedblobClampHeightToIndex(height)`. -/
def RedblobClampHeightToIndex (height : Int) : Int :=
  if height ≤ 4 ∧ height ≥ 1 then height - 1
  else if height < 1 then 0
  else 3

/-- Function `RedblobClampMoistureToIndex(moisture)`. -/
def RedblobClampMoistureToIndex (moisture : Int) : Int :=
  if moisture ≤ 6 ∧ moisture ≥ 1 then moisture - 1
  else if moisture < 1 then 0
  else 5

/-- Function `GetRedblobBiome(height, moisture)`: `none` stands for an index out
of range. -/
def GetRedblobBiome (height moisture : Int) : Option Int :=
  let height := RedblobClampHeightToIndex height
  let moisture := RedblobClampMoistureToIndex moisture
  (index RedblobLookupTable height).bind (fun row => index row moisture)

/-- Table `WhittakerLookupTable`: rows are precipitation (0 dm first), columns
temperature, from +30 °C in column 0 down to -15 °C in column 44. -/
def WhittakerLookupTable : List (List Int) :=
  [[0x3, 0x3, 0x3, 0x3, 0x3, 0x3, 0x3, 0x3, 0x3, 0x3, 0x3, 0x3, 0x3, 0x3, 0x3,
     0x3, 0x7, 0x7, 0x7, 0x7, 0x7, 0x7, 0x7, 0x7, 0x7, 0x7, 0x7, 0x7, 0x7, 0x7,
     0x7, 0x7, 0x7, 0x7, 0x7, 0x7, 0x7, 0x7, 0x7, 0x9, 0x9, 0x9, 0x9, 0x9, 0x9],
   [0x3, 0x3, 0x3, 0x3, 0x3, 0x3, 0x3, 0x3, 0x3, 0x3, 0x3, 0x3, 0x3, 0x3, 0x3,
     0x7, 0x7, 0x7, 0x7, 0x7, 0x7, 0x7, 0x7, 0x7, 0x7, 0x7, 0x7, 0x7, 0x7, 0x7,
     0x7, 0x7, 0x7, 0x7, 0x6, 0x6, 0x6, 0x6, 0x9, 0x9, 0x9, 0x9, 0x9, 0x9, 0x9],
   [0x3, 0x3, 0x3, 0x3, 0x3, 0x3, 0x3, 0x3, 0x3, 0x3, 0x3, 0x3, 0x3, 0x3, 0x3,
     0x7, 0x7, 0x7, 0x7, 0x7, 0x7, 0x7, 0x7, 0x7, 0x7, 0x7, 0x7, 0x7, 0x7, 0x7,
     0x7, 0x7, 0x6, 0x6, 0x6, 0x6, 0x8, 0x9, 0x9, 0x9, 0x9, 0x9, 0x9, 0x9, 0x9],
   [0x3, 0x3, 0x3, 0x3, 0x3, 0x3, 0x3, 0x3, 0x3, 0x3, 0x3, 0x3, 0x3, 0x3, 0x3,
     0x7, 0x7, 0x7, 0x7, 0x7, 0x7, 0x7, 0x7, 0x7, 0x7, 0x7, 0x6, 0x6, 0x6, 0x6,
     0x6, 0x6, 0x6, 0x6, 0x8, 0x8, 0x9, 0x9, 0x9, 0x9, 0x9, 0x0, 0x0, 0x0, 0x0],
   [0x3, 0x3, 0x3, 0x3, 0x3, 0x3, 0x3, 0x3, 0x3, 0x3, 0x3, 0x3, 0x3, 0x3, 0x7,
     0x7, 0x7, 0x7, 0x7, 0x6, 0x6, 0x6, 0x6, 0x6, 0x6, 0x6, 0x6, 0x6, 0x6, 0x6,
     0x6, 0x6, 0x8, 0x8, 0x8, 0x8, 0x9, 0x9, 0x9, 0x9, 0x9, 0x0, 0x0, 0x0, 0x0],
   [0x3, 0x3, 0x3, 0x3, 0x3, 0x3, 0x3, 0x3, 0x3, 0x3, 0x3, 0x3, 0x3, 0x2, 0x6,
     0x6, 0x6, 0x6, 0x6, 0x6, 0x6, 0x6, 0x6, 0x6, 0x6, 0x6, 0x6, 0x6, 0x6, 0x5,
     0x5, 0x8, 0x8, 0x8, 0x8, 0x8, 0x9, 0x9, 0x9, 0x9, 0x0, 0x0, 0x0, 0x0, 0x0],
   [0x3, 0x3, 0x3, 0x3, 0x3, 0x3, 0x3, 0x3, 0x3, 0x2, 0x2, 0x2, 0x2, 0x6, 0x6,
     0x6, 0x6, 0x6, 0x6, 0x6, 0x6, 0x6, 0x6, 0x6, 0x6, 0x6, 0x5, 0x5, 0x5, 0x5,
     0x8, 0x8, 0x8, 0x8, 0x8, 0x9, 0x9, 0x9, 0x9, 0x0, 0x0, 0x0, 0x0, 0x0, 0x0],
   [0x3, 0x3, 0x3, 0x3, 0x3, 0x3, 0x3, 0x2, 0x2, 0x2, 0x2, 0x2, 0x2, 0x6, 0x6,
     0x6, 0x6, 0x6, 0x6, 0x6, 0x6, 0x6, 0x6, 0x5, 0x5, 0x5, 0x5, 0x5, 0x8, 0x8,
     0x8, 0x8, 0x8, 0x8, 0x8, 0x9, 0x9, 0x9, 0x0, 0x0, 0x0, 0x0, 0x0, 0x0, 0x0],
   [0x3, 0x3, 0x3, 0x3, 0x2, 0x2, 0x2, 0x2, 0x2, 0x2, 0x2, 0x2, 0x6, 0x6, 0x6,
     0x6, 0x6, 0x6, 0x6, 0x6, 0x5, 0x5, 0x5, 0x5, 0x5, 0x5, 0x5, 0x5, 0x8, 0x8,
     0x8, 0x8, 0x8, 0x8, 0x8, 0x9, 0x9, 0x0, 0x0, 0x0, 0x0, 0x0, 0x0, 0x0, 0x0],
   [0x3, 0x3, 0x2, 0x2, 0x2, 0x2, 0x2, 0x2, 0x2, 0x2, 0x2, 0x2, 0x6, 0x6, 0x6,
     0x6, 0x6, 0x6, 0x5, 0x5, 0x5, 0x5, 0x5, 0x5, 0x5, 0x5, 0x5, 0x8, 0x8, 0x8,
     0x8, 0x8, 0x8, 0x8, 0x8, 0x9, 0x0, 0x0, 0x0, 0x0, 0x0, 0x0, 0x0, 0x0, 0x0],
   [0x2, 0x2, 0x2, 0x2, 0x2, 0x2, 0x2, 0x2, 0x2, 0x2, 0x2, 0x2, 0x6, 0x6, 0x6,
     0x6, 0x5, 0x5, 0x5, 0x5, 0x5, 0x5, 0x5, 0x5, 0x5, 0x5, 0x5, 0x8, 0x8, 0x8,
     0x8, 0x8, 0x8, 0x8, 0x8, 0x0, 0x0, 0x0, 0x0, 0x0, 0x0, 0x0, 0x0, 0x0, 0x0],
   [0x2, 0x2, 0x2, 0x2, 0x2, 0x2, 0x2, 0x2, 0x2, 0x2, 0x2, 0x2, 0x6, 0x5, 0x5,
     0x5, 0x5, 0x5, 0x5, 0x5, 0x5, 0x5, 0x5, 0x5, 0x5, 0x5, 0x5, 0x8, 0x8, 0x8,
     0x8, 0x8, 0x8, 0x8, 0x0, 0x0, 0x0, 0x0, 0x0, 0x0, 0x0, 0x0, 0x0, 0x0, 0x0],
   [0x2, 0x2, 0x2, 0x2, 0x2, 0x2, 0x2, 0x2, 0x2, 0x2, 0x2, 0x2, 0x5, 0x5, 0x5,
     0x5, 0x5, 0x5, 0x5, 0x5, 0x5, 0x5, 0x5, 0x5, 0x5, 0x5, 0x8, 0x8, 0x8, 0x8,
     0x8, 0x8, 0x8, 0x0, 0x0, 0x0, 0x0, 0x0, 0x0, 0x0, 0x0, 0x0, 0x0, 0x0, 0x0],
   [0x2, 0x2, 0x2, 0x2, 0x2, 0x2, 0x2, 0x2, 0x2, 0x2, 0x2, 0x2, 0x5, 0x5, 0x5,
     0x5, 0x5, 0x5, 0x5, 0x5, 0x5, 0x5, 0x5, 0x5, 0x5, 0x5, 0x8, 0x8, 0x8, 0x8,
     0x8, 0x8, 0x8, 0x0, 0x0, 0x0, 0x0, 0x0, 0x0, 0x0, 0x0, 0x0, 0x0, 0x0, 0x0],
   [0x2, 0x2, 0x2, 0x2, 0x2, 0x2, 0x2, 0x2, 0x2, 0x2, 0x2, 0x2, 0x5, 0x5, 0x5,
     0x5, 0x5, 0x5, 0x5, 0x5, 0x5, 0x5, 0x5, 0x5, 0x5, 0x5, 0x8, 0x8, 0x8, 0x8,
     0x8, 0x8, 0x0, 0x0, 0x0, 0x0, 0x0, 0x0, 0x0, 0x0, 0x0, 0x0, 0x0, 0x0, 0x0],
   [0x2, 0x2, 0x2, 0x2, 0x2, 0x2, 0x2, 0x2, 0x2, 0x2, 0x2, 0x2, 0x5, 0x5, 0x5,
     0x5, 0x5, 0x5, 0x5, 0x5, 0x5, 0x5, 0x5, 0x5, 0x5, 0x4, 0x8, 0x8, 0x8, 0x8,
     0x8, 0x0, 0x0, 0x0, 0x0, 0x0, 0x0, 0x0, 0x0, 0x0, 0x0, 0x0, 0x0, 0x0, 0x0],
   [0x2, 0x2, 0x2, 0x2, 0x2, 0x2, 0x2, 0x2, 0x2, 0x2, 0x2, 0x2, 0x5, 0x5, 0x5,
     0x5, 0x5, 0x5, 0x5, 0x5, 0x5, 0x5, 0x5, 0x5, 0x4, 0x4, 0x8, 0x8, 0x8, 0x8,
     0x0, 0x0, 0x0, 0x0, 0x0, 0x0, 0x0, 0x0, 0x0, 0x0, 0x0, 0x0, 0x0, 0x0, 0x0],
   [0x2, 0x2, 0x2, 0x2, 0x2, 0x2, 0x2, 0x2, 0x2, 0x2, 0x2, 0x2, 0x5, 0x5, 0x5,
     0x5, 0x5, 0x5, 0x5, 0x5, 0x5, 0x5, 0x5, 0x5, 0x4, 0x8, 0x8, 0x8, 0x8, 0x0,
     0x0, 0x0, 0x0, 0x0, 0x0, 0x0, 0x0, 0x0, 0x0, 0x0, 0x0, 0x0, 0x0, 0x0, 0x0],
   [0x2, 0x2, 0x2, 0x2, 0x2, 0x2, 0x2, 0x2, 0x2, 0x2, 0x2, 0x2, 0x5, 0x5, 0x5,
     0x5, 0x5, 0x5, 0x5, 0x5, 0x5, 0x5, 0x5, 0x4, 0x4, 0x8, 0x8, 0x8, 0x0, 0x0,
     0x0, 0x0, 0x0, 0x0, 0x0, 0x0, 0x0, 0x0, 0x0, 0x0, 0x0, 0x0, 0x0, 0x0, 0x0],
   [0x2, 0x2, 0x2, 0x2, 0x2, 0x2, 0x2, 0x2, 0x2, 0x2, 0x2, 0x2, 0x5, 0x5, 0x5,
     0x5, 0x5, 0x5, 0x5, 0x5, 0x5, 0x5, 0x4, 0x4, 0x4, 0x8, 0x8, 0x0, 0x0, 0x0,
     0x0, 0x0, 0x0, 0x0, 0x0, 0x0, 0x0, 0x0, 0x0, 0x0, 0x0, 0x0, 0x0, 0x0, 0x0],
   [0x2, 0x2, 0x2, 0x2, 0x2, 0x2, 0x2, 0x2, 0x2, 0x2, 0x2, 0x2, 0x5, 0x5, 0x5,
     0x5, 0x5, 0x5, 0x5, 0x5, 0x5, 0x4, 0x4, 0x4, 0x4, 0x0, 0x0, 0x0, 0x0, 0x0,
     0x0, 0x0, 0x0, 0x0, 0x0, 0x0, 0x0, 0x0, 0x0, 0x0, 0x0, 0x0, 0x0, 0x0, 0x0],
   [0x2, 0x2, 0x2, 0x2, 0x2, 0x2, 0x2, 0x2, 0x2, 0x2, 0x2, 0x2, 0x5, 0x5, 0x5,
     0x5, 0x5, 0x5, 0x4, 0x4, 0x4, 0x4, 0x4, 0x4, 0x4, 0x0, 0x0, 0x0, 0x0, 0x0,
     0x0, 0x0, 0x0, 0x0, 0x0, 0x0, 0x0, 0x0, 0x0, 0x0, 0x0, 0x0, 0x0, 0x0, 0x0],
   [0x2, 0x2, 0x2, 0x2, 0x2, 0x2, 0x2, 0x2, 0x2, 0x2, 0x2, 0x5, 0x5, 0x5, 0x4,
     0x4, 0x4, 0x4, 0x4, 0x4, 0x4, 0x4, 0x4, 0x4, 0x0, 0x0, 0x0, 0x0, 0x0, 0x0,
     0x0, 0x0, 0x0, 0x0, 0x0, 0x0, 0x0, 0x0, 0x0, 0x0, 0x0, 0x0, 0x0, 0x0, 0x0],
   [0x2, 0x2, 0x2, 0x2, 0x2, 0x2, 0x2, 0x2, 0x2, 0x2, 0x2, 0x4, 0x4, 0x4, 0x4,
     0x4, 0x4, 0x4, 0x4, 0x4, 0x4, 0x4, 0x4, 0x0, 0x0, 0x0, 0x0, 0x0, 0x0, 0x0,
     0x0, 0x0, 0x0, 0x0, 0x0, 0x0, 0x0, 0x0, 0x0, 0x0, 0x0, 0x0, 0x0, 0x0, 0x0],
   [0x2, 0x2, 0x2, 0x2, 0x2, 0x2, 0x2, 0x2, 0x1, 0x1, 0x1, 0x4, 0x4, 0x4, 0x4,
     0x4, 0x4, 0x4, 0x4, 0x4, 0x4, 0x0, 0x0, 0x0, 0x0, 0x0, 0x0, 0x0, 0x0, 0x0,
     0x0, 0x0, 0x0, 0x0, 0x0, 0x0, 0x0, 0x0, 0x0, 0x0, 0x0, 0x0, 0x0, 0x0, 0x0],
   [0x2, 0x2, 0x2, 0x2, 0x2, 0x2, 0x1, 0x1, 0x1, 0x1, 0x1, 0x4, 0x4, 0x4, 0x4,
     0x4, 0x4, 0x4, 0x4, 0x4, 0x0, 0x0, 0x0, 0x0, 0x0, 0x0, 0x0, 0x0, 0x0, 0x0,
     0x0, 0x0, 0x0, 0x0, 0x0, 0x0, 0x0, 0x0, 0x0, 0x0, 0x0, 0x0, 0x0, 0x0, 0x0],
   [0x2, 0x2, 0x2, 0x2, 0x1, 0x1, 0x1, 0x1, 0x1, 0x1, 0x1, 0x4, 0x4, 0x4, 0x4,
     0x4, 0x4, 0x4, 0x4, 0x0, 0x0, 0x0, 0x0, 0x0, 0x0, 0x0, 0x0, 0x0, 0x0, 0x0,
     0x0, 0x0, 0x0, 0x0, 0x0, 0x0, 0x0, 0x0, 0x0, 0x0, 0x0, 0x0, 0x0, 0x0, 0x0],
   [0x2, 0x1, 0x1, 0x1, 0x1, 0x1, 0x1, 0x1, 0x1, 0x1, 0x1, 0x4, 0x4, 0x4, 0x4,
     0x4, 0x4, 0x4, 0x0, 0x0, 0x0, 0x0, 0x0, 0x0, 0x0, 0x0, 0x0, 0x0, 0x0, 0x0,
     0x0, 0x0, 0x0, 0x0, 0x0, 0x0, 0x0, 0x0, 0x0, 0x0, 0x0, 0x0, 0x0, 0x0, 0x0],
   [0x1, 0x1, 0x1, 0x1, 0x1, 0x1, 0x1, 0x1, 0x1, 0x1, 0x1, 0x4, 0x4, 0x4, 0x4,
     0x4, 0x0, 0x0, 0x0, 0x0, 0x0, 0x0, 0x0, 0x0, 0x0, 0x0, 0x0, 0x0, 0x0, 0x0,
     0x0, 0x0, 0x0, 0x0, 0x0, 0x0, 0x0, 0x0, 0x0, 0x0, 0x0, 0x0, 0x0, 0x0, 0x0],
   [0x1, 0x1, 0x1, 0x1, 0x1, 0x1, 0x1, 0x1, 0x1, 0x1, 0x1, 0x4, 0x4, 0x4, 0x4,
     0x0, 0x0, 0x0, 0x0, 0x0, 0x0, 0x0, 0x0, 0x0, 0x0, 0x0, 0x0, 0x0, 0x0, 0x0,
     0x0, 0x0, 0x0, 0x0, 0x0, 0x0, 0x0, 0x0, 0x0, 0x0, 0x0, 0x0, 0x0, 0x0, 0x0],
   [0x1, 0x1, 0x1, 0x1, 0x1, 0x1, 0x1, 0x1, 0x1, 0x1, 0x4, 0x4, 0x4, 0x4, 0x0,
     0x0, 0x0, 0x0, 0x0, 0x0, 0x0, 0x0, 0x0, 0x0, 0x0, 0x0, 0x0, 0x0, 0x0, 0x0,
     0x0, 0x0, 0x0, 0x0, 0x0, 0x0, 0x0, 0x0, 0x0, 0x0, 0x0, 0x0, 0x0, 0x0, 0x0],
   [0x1, 0x1, 0x1, 0x1, 0x1, 0x1, 0x1, 0x1, 0x1, 0x1, 0x4, 0x4, 0x4, 0x4, 0x0,
     0x0, 0x0, 0x0, 0x0, 0x0, 0x0, 0x0, 0x0, 0x0, 0x0, 0x0, 0x0, 0x0, 0x0, 0x0,
     0x0, 0x0, 0x0, 0x0, 0x0, 0x0, 0x0, 0x0, 0x0, 0x0, 0x0, 0x0, 0x0, 0x0, 0x0],
   [0x1, 0x1, 0x1, 0x1, 0x1, 0x1, 0x1, 0x1, 0x1, 0x1, 0x4, 0x4, 0x4, 0x0, 0x0,
     0x0, 0x0, 0x0, 0x0, 0x0, 0x0, 0x0, 0x0, 0x0, 0x0, 0x0, 0x0, 0x0, 0x0, 0x0,
     0x0, 0x0, 0x0, 0x0, 0x0, 0x0, 0x0, 0x0, 0x0, 0x0, 0x0, 0x0, 0x0, 0x0, 0x0],
   [0x1, 0x1, 0x1, 0x1, 0x1, 0x1, 0x1, 0x1, 0x1, 0x1, 0x4, 0x0, 0x0, 0x0, 0x0,
     0x0, 0x0, 0x0, 0x0, 0x0, 0x0, 0x0, 0x0, 0x0, 0x0, 0x0, 0x0, 0x0, 0x0, 0x0,
     0x0, 0x0, 0x0, 0x0, 0x0, 0x0, 0x0, 0x0, 0x0, 0x0, 0x0, 0x0, 0x0, 0x0, 0x0],
   [0x1, 0x1, 0x1, 0x1, 0x1, 0x1, 0x1, 0x1, 0x1, 0x1, 0x0, 0x0, 0x0, 0x0, 0x0,
     0x0, 0x0, 0x0, 0x0, 0x0, 0x0, 0x0, 0x0, 0x0, 0x0, 0x0, 0x0, 0x0, 0x0, 0x0,
     0x0, 0x0, 0x0, 0x0, 0x0, 0x0, 0x0, 0x0, 0x0, 0x0, 0x0, 0x0, 0x0, 0x0, 0x0],
   [0x1, 0x1, 0x1, 0x1, 0x1, 0x1, 0x1, 0x1, 0x1, 0x1, 0x0, 0x0, 0x0, 0x0, 0x0,
     0x0, 0x0, 0x0, 0x0, 0x0, 0x0, 0x0, 0x0, 0x0, 0x0, 0x0, 0x0, 0x0, 0x0, 0x0,
     0x0, 0x0, 0x0, 0x0, 0x0, 0x0, 0x0, 0x0, 0x0, 0x0, 0x0, 0x0, 0x0, 0x0, 0x0],
   [0x1, 0x1, 0x1, 0x1, 0x1, 0x1, 0x1, 0x1, 0x1, 0x1, 0x0, 0x0, 0x0, 0x0, 0x0,
     0x0, 0x0, 0x0, 0x0, 0x0, 0x0, 0x0, 0x0, 0x0, 0x0, 0x0, 0x0, 0x0, 0x0, 0x0,
     0x0, 0x0, 0x0, 0x0, 0x0, 0x0, 0x0, 0x0, 0x0, 0x0, 0x0, 0x0, 0x0, 0x0, 0x0],
   [0x1, 0x1, 0x1, 0x1, 0x1, 0x1, 0x1, 0x1, 0x1, 0x0, 0x0, 0x0, 0x0, 0x0, 0x0,
     0x0, 0x0, 0x0, 0x0, 0x0, 0x0, 0x0, 0x0, 0x0, 0x0, 0x0, 0x0, 0x0, 0x0, 0x0,
     0x0, 0x0, 0x0, 0x0, 0x0, 0x0, 0x0, 0x0, 0x0, 0x0, 0x0, 0x0, 0x0, 0x0, 0x0],
   [0x1, 0x1, 0x1, 0x1, 0x1, 0x1, 0x1, 0x1, 0x1, 0x0, 0x0, 0x0, 0x0, 0x0, 0x0,
     0x0, 0x0, 0x0, 0x0, 0x0, 0x0, 0x0, 0x0, 0x0, 0x0, 0x0, 0x0, 0x0, 0x0, 0x0,
     0x0, 0x0, 0x0, 0x0, 0x0, 0x0, 0x0, 0x0, 0x0, 0x0, 0x0, 0x0, 0x0, 0x0, 0x0],
   [0x1, 0x1, 0x1, 0x1, 0x1, 0x1, 0x1, 0x1, 0x0, 0x0, 0x0, 0x0, 0x0, 0x0, 0x0,
     0x0, 0x0, 0x0, 0x0, 0x0, 0x0, 0x0, 0x0, 0x0, 0x0, 0x0, 0x0, 0x0, 0x0, 0x0,
     0x0, 0x0, 0x0, 0x0, 0x0, 0x0, 0x0, 0x0, 0x0, 0x0, 0x0, 0x0, 0x0, 0x0, 0x0],
   [0x0, 0x1, 0x1, 0x1, 0x1, 0x1, 0x1, 0x1, 0x0, 0x0, 0x0, 0x0, 0x0, 0x0, 0x0,
     0x0, 0x0, 0x0, 0x0, 0x0, 0x0, 0x0, 0x0, 0x0, 0x0, 0x0, 0x0, 0x0, 0x0, 0x0,
     0x0, 0x0, 0x0, 0x0, 0x0, 0x0, 0x0, 0x0, 0x0, 0x0, 0x0, 0x0, 0x0, 0x0, 0x0],
   [0x0, 0x0, 0x1, 0x1, 0x1, 0x1, 0x1, 0x1, 0x0, 0x0, 0x0, 0x0, 0x0, 0x0, 0x0,
     0x0, 0x0, 0x0, 0x0, 0x0, 0x0, 0x0, 0x0, 0x0, 0x0, 0x0, 0x0, 0x0, 0x0, 0x0,
     0x0, 0x0, 0x0, 0x0, 0x0, 0x0, 0x0, 0x0, 0x0, 0x0, 0x0, 0x0, 0x0, 0x0, 0x0],
   [0x0, 0x0, 0x1, 0x1, 0x1, 0x1, 0x1, 0x0, 0x0, 0x0, 0x0, 0x0, 0x0, 0x0, 0x0,
     0x0, 0x0, 0x0, 0x0, 0x0, 0x0, 0x0, 0x0, 0x0, 0x0, 0x0, 0x0, 0x0, 0x0, 0x0,
     0x0, 0x0, 0x0, 0x0, 0x0, 0x0, 0x0, 0x0, 0x0, 0x0, 0x0, 0x0, 0x0, 0x0, 0x0],
   [0x0, 0x0, 0x0, 0x1, 0x1, 0x1, 0x1, 0x0, 0x0, 0x0, 0x0, 0x0, 0x0, 0x0, 0x0,
     0x0, 0x0, 0x0, 0x0, 0x0, 0x0, 0x0, 0x0, 0x0, 0x0, 0x0, 0x0, 0x0, 0x0, 0x0,
     0x0, 0x0, 0x0, 0x0, 0x0, 0x0, 0x0, 0x0, 0x0, 0x0, 0x0, 0x0, 0x0, 0x0, 0x0],
   [0x0, 0x0, 0x0, 0x0, 0x1, 0x1, 0x0, 0x0, 0x0, 0x0, 0x0, 0x0, 0x0, 0x0, 0x0,
     0x0, 0x0, 0x0, 0x0, 0x0, 0x0, 0x0, 0x0, 0x0, 0x0, 0x0, 0x0, 0x0, 0x0, 0x0,
     0x0, 0x0, 0x0, 0x0, 0x0, 0x0, 0x0, 0x0, 0x0, 0x0, 0x0, 0x0, 0x0, 0x0, 0x0]]

/-- Table `WhittakerLookupTableModified`, laid out as `WhittakerLookupTable`. -/
def WhittakerLookupTableModified : List (List Int) :=
  [[0x3, 0x3, 0x3, 0x3, 0x3, 0x3, 0x3, 0x3, 0x3, 0x3, 0x3, 0x3, 0x3, 0x3, 0x3,
     0x3, 0xA, 0xA, 0xA, 0xA, 0xA, 0xA, 0xA, 0xA, 0xA, 0xA, 0xA, 0xA, 0xA, 0xA,
     0xA, 0xA, 0xA, 0xA, 0xA, 0xA, 0xA, 0xA, 0xA, 0x9, 0x9, 0x9, 0x9, 0x9, 0x9],
   [0x3, 0x3, 0x3, 0x3, 0x3, 0x3, 0x3, 0x3, 0x3, 0x3, 0x3, 0x3, 0x3, 0x3, 0x3,
     0x7, 0x7, 0x7, 0x7, 0x7, 0x7, 0x7, 0x7, 0x7, 0x7, 0x7, 0x7, 0x7, 0x7, 0x7,
     0x7, 0x7, 0x7, 0x7, 0x6, 0x6, 0x6, 0x6, 0x9, 0x9, 0x9, 0x9, 0x9, 0x9, 0x9],
   [0x3, 0x3, 0x3, 0x3, 0x3, 0x3, 0x3, 0x3, 0x3, 0x3, 0x3, 0x3, 0x3, 0x3, 0x3,
     0x7, 0x7, 0x7, 0x7, 0x7, 0x7, 0x7, 0x7, 0x7, 0x7, 0x7, 0x7, 0x7, 0x7, 0x7,
     0x7, 0x7, 0x6, 0x6, 0x6, 0x6, 0x8, 0x9, 0x9, 0x9, 0x9, 0x9, 0x9, 0x9, 0x9],
   [0x3, 0x3, 0x3, 0x3, 0x3, 0x3, 0x3, 0x3, 0x3, 0x3, 0x3, 0x3, 0x3, 0x3, 0x3,
     0x7, 0x7, 0x7, 0x7, 0x7, 0x7, 0x7, 0x7, 0x7, 0x7, 0x7, 0x6, 0x6, 0x6, 0x6,
     0x6, 0x6, 0x6, 0x6, 0x8, 0x8, 0x9, 0x9, 0x9, 0x9, 0x9, 0xB, 0xB, 0xB, 0xB],
   [0x3, 0x3, 0x3, 0x3, 0x3, 0x3, 0x3, 0x3, 0x3, 0x3, 0x3, 0x3, 0x3, 0x3, 0x7,
     0x7, 0x7, 0x7, 0x7, 0x6, 0x6, 0x6, 0x6, 0x6, 0x6, 0x6, 0x6, 0x6, 0x6, 0x6,
     0x6, 0x6, 0x8, 0x8, 0x8, 0x8, 0x9, 0x9, 0x9, 0x9, 0x9, 0xB, 0xB, 0xB, 0xB],
   [0x3, 0x3, 0x3, 0x3, 0x3, 0x3, 0x3, 0x3, 0x3, 0x3, 0x3, 0x3, 0x3, 0xE, 0x6,
     0x6, 0x6, 0x6, 0x6, 0x6, 0x6, 0x6, 0x6, 0x6, 0x6, 0x6, 0x6, 0x6, 0x6, 0x5,
     0x5, 0x8, 0x8, 0x8, 0x8, 0x8, 0x9, 0x9, 0x9, 0x9, 0xB, 0xB, 0xB, 0xB, 0xB],
   [0x3, 0x3, 0x3, 0x3, 0x3, 0x3, 0x3, 0x3, 0x3, 0xE, 0xE, 0xE, 0xE, 0x6, 0x6,
     0x6, 0x6, 0x6, 0x6, 0x6, 0x6, 0x6, 0x6, 0x6, 0x6, 0x6, 0x5, 0x5, 0x5, 0x5,
     0x8, 0x8, 0x8, 0x8, 0x8, 0x9, 0x9, 0x9, 0x9, 0xB, 0xB, 0xB, 0xB, 0xB, 0xB],
   [0x3, 0x3, 0x3, 0x3, 0x3, 0x3, 0x3, 0xE, 0xE, 0xE, 0xE, 0xE, 0xE, 0x6, 0x6,
     0x6, 0x6, 0x6, 0x6, 0x6, 0x6, 0x6, 0x6, 0x5, 0x5, 0x5, 0x5, 0x5, 0x8, 0x8,
     0x8, 0x8, 0x8, 0x8, 0x8, 0x9, 0x9, 0x9, 0xB, 0xB, 0xB, 0xB, 0xB, 0xB, 0xB],
   [0x3, 0x3, 0x3, 0x3, 0xE, 0xE, 0xE, 0xE, 0xE, 0xE, 0xE, 0xE, 0x6, 0x6, 0x6,
     0x6, 0x6, 0x6, 0x6, 0x6, 0x5, 0x5, 0x5, 0x5, 0x5, 0x5, 0x5, 0x5, 0x8, 0x8,
     0x8, 0x8, 0x8, 0x8, 0x8, 0x9, 0x9, 0xB, 0xB, 0xB, 0xB, 0xB, 0xB, 0xB, 0xB],
   [0x3, 0x3, 0xE, 0xE, 0xE, 0xE, 0xE, 0xE, 0xE, 0xE, 0xE, 0xE, 0x6, 0x6, 0x6,
     0x6, 0x6, 0x6, 0x5, 0x5, 0x5, 0x5, 0x5, 0x5, 0x5, 0x5, 0x5, 0x8, 0x8, 0x8,
     0x8, 0x8, 0x8, 0x8, 0x8, 0x9, 0xB, 0xB, 0xB, 0xB, 0xB, 0xB, 0xB, 0xB, 0xB],
   [0xE, 0xE, 0xE, 0xE, 0xE, 0xE, 0xE, 0xE, 0x2, 0x2, 0x2, 0x2, 0x6, 0x6, 0x6,
     0x6, 0x5, 0x5, 0x5, 0x5, 0x5, 0x5, 0x5, 0x5, 0x5, 0x5, 0x5, 0x8, 0x8, 0x8,
     0x8, 0x8, 0x8, 0x8, 0x8, 0xB, 0xB, 0xB, 0xB, 0xB, 0xB, 0xB, 0xB, 0xB, 0xB],
   [0xE, 0xE, 0xE, 0xE, 0xE, 0xE, 0x2, 0x2, 0x2, 0x2, 0x2, 0x2, 0x6, 0x5, 0x5,
     0x5, 0x5, 0x5, 0x5, 0x5, 0x5, 0x5, 0x5, 0x5, 0x5, 0x5, 0x5, 0x8, 0x8, 0x8,
     0x8, 0x8, 0x8, 0x8, 0xB, 0xB, 0xB, 0xB, 0xB, 0xB, 0xB, 0xB, 0xB, 0xB, 0xB],
   [0xE, 0xE, 0xE, 0xE, 0xE, 0x2, 0x2, 0x2, 0x2, 0x2, 0x2, 0x2, 0x5, 0x5, 0x5,
     0x5, 0x5, 0x5, 0x5, 0x5, 0x5, 0x5, 0x5, 0x5, 0x5, 0x5, 0x8, 0x8, 0x8, 0x8,
     0x8, 0x8, 0x8, 0xB, 0xB, 0xB, 0xB, 0xB, 0xB, 0xB, 0xB, 0xB, 0xB, 0xB, 0xB],
   [0xE, 0xE, 0xE, 0x2, 0x2, 0x2, 0x2, 0x2, 0x2, 0x2, 0x2, 0x2, 0x5, 0x5, 0x5,
     0x5, 0x5, 0x5, 0x5, 0x5, 0x5, 0x5, 0x5, 0x5, 0x5, 0x5, 0x8, 0x8, 0x8, 0x8,
     0x8, 0x8, 0x8, 0xB, 0xB, 0xB, 0xB, 0xB, 0xB, 0xB, 0xB, 0xB, 0xB, 0xB, 0xB],
   [0xE, 0xE, 0x2, 0x2, 0x2, 0x2, 0x2, 0x2, 0x2, 0x2, 0x2, 0x2, 0x5, 0x5, 0x5,
     0x5, 0x5, 0x5, 0x5, 0x5, 0x5, 0x5, 0x5, 0x5, 0x5, 0x5, 0x8, 0x8, 0x8, 0x8,
     0x8, 0x8, 0xB, 0xB, 0xB, 0xB, 0xB, 0xB, 0xB, 0xB, 0xB, 0xB, 0xB, 0xB, 0xB],
   [0xE, 0x2, 0x2, 0x2, 0x2, 0x2, 0x2, 0x2, 0x2, 0x2, 0x2, 0x2, 0x5, 0x5, 0x5,
     0x5, 0x5, 0x5, 0x5, 0x5, 0x5, 0x5, 0x5, 0x5, 0x5, 0x4, 0x8, 0x8, 0x8, 0x8,
     0x8, 0xB, 0xB, 0xB, 0xB, 0xB, 0xB, 0xB, 0xB, 0xB, 0xB, 0xB, 0xB, 0xB, 0xB],
   [0x2, 0x2, 0x2, 0x2, 0x2, 0x2, 0x2, 0x2, 0x2, 0x2, 0x2, 0x2, 0x5, 0x5, 0x5,
     0x5, 0x5, 0x5, 0x5, 0x5, 0x5, 0x5, 0x5, 0x5, 0x4, 0x4, 0x8, 0x8, 0x8, 0x8,
     0xD, 0xB, 0xB, 0xB, 0xB, 0xB, 0xB, 0xB, 0xB, 0xB, 0xB, 0xB, 0xB, 0xB, 0xB],
   [0x2, 0x2, 0x2, 0x2, 0x2, 0x2, 0x2, 0x2, 0x2, 0x2, 0x2, 0x2, 0x5, 0x5, 0x5,
     0x5, 0x5, 0x5, 0x5, 0x5, 0x5, 0x5, 0x5, 0x5, 0x4, 0x8, 0x8, 0x8, 0x8, 0xD,
     0xD, 0xB, 0xB, 0xB, 0xB, 0xB, 0xB, 0xB, 0xB, 0xB, 0xB, 0xB, 0xB, 0xB, 0xB],
   [0x2, 0x2, 0x2, 0x2, 0x2, 0x2, 0x2, 0x2, 0x2, 0x2, 0x2, 0x2, 0x5, 0x5, 0x5,
     0x5, 0x5, 0x5, 0x5, 0x5, 0x5, 0x5, 0x5, 0x4, 0x4, 0x8, 0x8, 0x8, 0xD, 0xD,
     0xD, 0xB, 0xB, 0xB, 0xB, 0xB, 0xB, 0xB, 0xB, 0xB, 0xB, 0xB, 0xB, 0xB, 0xB],
   [0x2, 0x2, 0x2, 0x2, 0x2, 0x2, 0x2, 0x2, 0x2, 0x2, 0x2, 0x2, 0x5, 0x5, 0x5,
     0x5, 0x5, 0x5, 0x5, 0x5, 0x5, 0x5, 0x4, 0x4, 0x4, 0x8, 0x8, 0xD, 0xD, 0xD,
     0xD, 0xB, 0xB, 0xB, 0xB, 0xB, 0xB, 0xB, 0xB, 0xB, 0xB, 0xB, 0xB, 0xB, 0xB],
   [0x2, 0x2, 0x2, 0x2, 0x2, 0x2, 0x2, 0x2, 0x2, 0x2, 0x2, 0x2, 0x5, 0x5, 0x5,
     0x5, 0x5, 0x5, 0x5, 0x5, 0x5, 0x4, 0x4, 0x4, 0x4, 0xD, 0xD, 0xD, 0xD, 0xD,
     0xD, 0xB, 0xB, 0xB, 0xB, 0xB, 0xB, 0xB, 0xB, 0xB, 0xB, 0xB, 0xB, 0xB, 0xB],
   [0x2, 0x2, 0x2, 0x2, 0x2, 0x2, 0x2, 0x2, 0x2, 0x2, 0x2, 0x2, 0x5, 0x5, 0x5,
     0x5, 0x5, 0x5, 0x4, 0x4, 0x4, 0x4, 0x4, 0x4, 0x4, 0xD, 0xD, 0xD, 0xD, 0xD,
     0xD, 0xB, 0xB, 0xB, 0xB, 0xB, 0xB, 0xB, 0xB, 0xB, 0xB, 0xB, 0xB, 0xB, 0xB],
   [0x2, 0x2, 0x2, 0x2, 0x2, 0x2, 0x2, 0x2, 0x2, 0x2, 0x2, 0x5, 0x5, 0x5, 0x4,
     0x4, 0x4, 0x4, 0x4, 0x4, 0x4, 0x4, 0x4, 0x4, 0xD, 0xD, 0xD, 0xD, 0xD, 0xD,
     0xD, 0xB, 0xB, 0xB, 0xB, 0xB, 0xB, 0xB, 0xB, 0xB, 0xB, 0xB, 0xB, 0xB, 0xB],
   [0x2, 0x2, 0x2, 0x2, 0x2, 0x2, 0x2, 0x2, 0x2, 0x2, 0x2, 0x4, 0x4, 0x4, 0x4,
     0x4, 0x4, 0x4, 0x4, 0x4, 0x4, 0x4, 0x4, 0xD, 0xD, 0xD, 0xD, 0xD, 0xD, 0xD,
     0xD, 0xB, 0xB, 0xB, 0xB, 0xB, 0xB, 0xB, 0xB, 0xB, 0xB, 0xB, 0xB, 0xB, 0xB],
   [0x2, 0x2, 0x2, 0x2, 0x2, 0x2, 0x2, 0x2, 0x1, 0x1, 0x1, 0x4, 0x4, 0x4, 0x4,
     0x4, 0x4, 0x4, 0x4, 0x4, 0x4, 0xD, 0xD, 0xD, 0xD, 0xD, 0xD, 0xD, 0xD, 0xD,
     0xD, 0xB, 0xB, 0xB, 0xB, 0xB, 0xB, 0xB, 0xB, 0xB, 0xB, 0xB, 0xB, 0xB, 0xB],
   [0x2, 0x2, 0x2, 0x2, 0x2, 0x2, 0x1, 0x1, 0x1, 0x1, 0x1, 0x4, 0x4, 0x4, 0x4,
     0x4, 0x4, 0x4, 0x4, 0x4, 0xD, 0xD, 0xD, 0xD, 0xD, 0xD, 0xD, 0xD, 0xD, 0xD,
     0xD, 0xD, 0xB, 0xB, 0xB, 0xB, 0xB, 0xB, 0xB, 0xB, 0xB, 0xB, 0xB, 0xB, 0xB],
   [0x2, 0x2, 0x2, 0x2, 0x1, 0x1, 0x1, 0x1, 0x1, 0x1, 0x1, 0x4, 0x4, 0x4, 0x4,
     0x4, 0x4, 0x4, 0x4, 0xD, 0xD, 0xD, 0xD, 0xD, 0xD, 0xD, 0xD, 0xD, 0xD, 0xD,
     0xD, 0xD, 0xB, 0xB, 0xB, 0xB, 0xB, 0xB, 0xB, 0xB, 0xB, 0xB, 0xB, 0xB, 0xB],
   [0x2, 0x1, 0x1, 0x1, 0x1, 0x1, 0x1, 0x1, 0x1, 0x1, 0x1, 0x4, 0x4, 0x4, 0x4,
     0x4, 0x4, 0x4, 0xD, 0xD, 0xD, 0xD, 0xD, 0xD, 0xD, 0xD, 0xD, 0xD, 0xD, 0xD,
     0xD, 0xD, 0xB, 0xB, 0xB, 0xB, 0xB, 0xB, 0xB, 0xB, 0xB, 0xB, 0xB, 0xB, 0xB],
   [0x1, 0x1, 0x1, 0x1, 0x1, 0x1, 0x1, 0x1, 0x1, 0x1, 0x1, 0x4, 0x4, 0x4, 0x4,
     0x4, 0xD, 0xD, 0xD, 0xD, 0xD, 0xD, 0xD, 0xD, 0xD, 0xD, 0xD, 0xD, 0xD, 0xD,
     0xD, 0xD, 0xB, 0xB, 0xB, 0xB, 0xB, 0xB, 0xB, 0xB, 0xB, 0xB, 0xB, 0xB, 0xB],
   [0x1, 0x1, 0x1, 0x1, 0x1, 0x1, 0x1, 0x1, 0x1, 0x1, 0x1, 0x4, 0x4, 0x4, 0x4,
     0xD, 0xD, 0xD, 0xD, 0xD, 0xD, 0xD, 0xD, 0xD, 0xD, 0xD, 0xD, 0xD, 0xD, 0xD,
     0xD, 0xD, 0xB, 0xB, 0xB, 0xB, 0xB, 0xB, 0xB, 0xB, 0xB, 0xB, 0xB, 0xB, 0xB],
   [0x1, 0x1, 0x1, 0x1, 0x1, 0x1, 0x1, 0x1, 0x1, 0x1, 0x4, 0x4, 0x4, 0x4, 0xD,
     0xD, 0xD, 0xD, 0xD, 0xD, 0xD, 0xD, 0xD, 0xD, 0xD, 0xD, 0xD, 0xD, 0xD, 0xD,
     0xD, 0xD, 0xB, 0xB, 0xB, 0xB, 0xB, 0xB, 0xB, 0xB, 0xB, 0xB, 0xB, 0xB, 0xB],
   [0x1, 0x1, 0x1, 0x1, 0x1, 0x1, 0x1, 0x1, 0x1, 0x1, 0x4, 0x4, 0x4, 0x4, 0xD,
     0xD, 0xD, 0xD, 0xD, 0xD, 0xD, 0xD, 0xD, 0xD, 0xD, 0xD, 0xD, 0xD, 0xD, 0xD,
     0xD, 0xD, 0xB, 0xB, 0xB, 0xB, 0xB, 0xB, 0xB, 0xB, 0xB, 0xB, 0xB, 0xB, 0xB],
   [0x1, 0x1, 0x1, 0x1, 0x1, 0x1, 0x1, 0x1, 0x1, 0x1, 0x4, 0x4, 0x4, 0xD, 0xD,
     0xD, 0xD, 0xD, 0xD, 0xD, 0xD, 0xD, 0xD, 0xD, 0xD, 0xD, 0xD, 0xD, 0xD, 0xD,
     0xD, 0xD, 0xB, 0xB, 0xB, 0xB, 0xB, 0xB, 0xB, 0xB, 0xB, 0xB, 0xB, 0xB, 0xB],
   [0x1, 0x1, 0x1, 0x1, 0x1, 0x1, 0x1, 0x1, 0x1, 0x1, 0x4, 0xC, 0xC, 0xD, 0xD,
     0xD, 0xD, 0xD, 0xD, 0xD, 0xD, 0xD, 0xD, 0xD, 0xD, 0xD, 0xD, 0xD, 0xD, 0xD,
     0xD, 0xD, 0xB, 0xB, 0xB, 0xB, 0xB, 0xB, 0xB, 0xB, 0xB, 0xB, 0xB, 0xB, 0xB],
   [0x1, 0x1, 0x1, 0x1, 0x1, 0x1, 0x1, 0x1, 0x1, 0x1, 0xC, 0xC, 0xC, 0xD, 0xD,
     0xD, 0x0, 0x0, 0x0, 0x0, 0x0, 0x0, 0x0, 0x0, 0x0, 0x0, 0x0, 0x0, 0x0, 0xD,
     0xD, 0xD, 0xB, 0xB, 0xB, 0xB, 0xB, 0xB, 0xB, 0xB, 0xB, 0xB, 0xB, 0xB, 0xB],
   [0x1, 0x1, 0x1, 0x1, 0x1, 0x1, 0x1, 0x1, 0x1, 0x1, 0xC, 0xC, 0xC, 0xD, 0xD,
     0xD, 0x0, 0x0, 0x0, 0x0, 0x0, 0x0, 0x0, 0x0, 0x0, 0x0, 0x0, 0x0, 0x0, 0x0,
     0xD, 0xD, 0xB, 0xB, 0xB, 0xB, 0xB, 0xB, 0xB, 0xB, 0xB, 0xB, 0xB, 0xB, 0xB],
   [0x1, 0x1, 0x1, 0x1, 0x1, 0x1, 0x1, 0x1, 0x1, 0x1, 0xC, 0xC, 0xC, 0xD, 0xD,
     0xD, 0x0, 0x0, 0x0, 0x0, 0x0, 0x0, 0x0, 0x0, 0x0, 0x0, 0x0, 0x0, 0x0, 0x0,
     0xD, 0xD, 0xD, 0xB, 0xB, 0xB, 0xB, 0xB, 0xB, 0xB, 0xB, 0xB, 0xB, 0xB, 0xB],
   [0x1, 0x1, 0x1, 0x1, 0x1, 0x1, 0x1, 0x1, 0x1, 0xC, 0xC, 0xC, 0xC, 0xD, 0xD,
     0xD, 0x0, 0x0, 0x0, 0x0, 0x0, 0x0, 0x0, 0x0, 0x0, 0x0, 0x0, 0x0, 0x0, 0x0,
     0x0, 0xD, 0xD, 0xB, 0xB, 0xB, 0xB, 0xB, 0xB, 0xB, 0xB, 0xB, 0xB, 0xB, 0xB],
   [0x1, 0x1, 0x1, 0x1, 0x1, 0x1, 0x1, 0x1, 0x1, 0xC, 0xC, 0xC, 0xC, 0xD, 0xD,
     0x0, 0x0, 0x0, 0x0, 0x0, 0x0, 0x0, 0x0, 0x0, 0x0, 0x0, 0x0, 0x0, 0x0, 0x0,
     0x0, 0xD, 0xD, 0xB, 0xB, 0xB, 0xB, 0xB, 0xB, 0xB, 0xB, 0xB, 0xB, 0xB, 0xB],
   [0x1, 0x1, 0x1, 0x1, 0x1, 0x1, 0x1, 0x1, 0xC, 0xC, 0xC, 0xC, 0xC, 0xD, 0xD,
     0x0, 0x0, 0x0, 0x0, 0x0, 0x0, 0x0, 0x0, 0x0, 0x0, 0x0, 0x0, 0x0, 0x0, 0x0,
     0x0, 0xD, 0xD, 0xB, 0xB, 0xB, 0xB, 0xB, 0xB, 0xB, 0xB, 0xB, 0xB, 0xB, 0xB],
   [0xC, 0x1, 0x1, 0x1, 0x1, 0x1, 0x1, 0x1, 0xC, 0xC, 0xC, 0xC, 0xC, 0xD, 0xD,
     0x0, 0x0, 0x0, 0x0, 0x0, 0x0, 0x0, 0x0, 0x0, 0x0, 0x0, 0x0, 0x0, 0x0, 0x0,
     0x0, 0xD, 0xD, 0xB, 0xB, 0xB, 0xB, 0xB, 0xB, 0xB, 0xB, 0xB, 0xB, 0xB, 0xB],
   [0xC, 0xC, 0x1, 0x1, 0x1, 0x1, 0x1, 0x1, 0xC, 0xC, 0xC, 0xC, 0xC, 0xC, 0xD,
     0x0, 0x0, 0x0, 0x0, 0x0, 0x0, 0x0, 0x0, 0x0, 0x0, 0x0, 0x0, 0x0, 0x0, 0x0,
     0x0, 0xD, 0xD, 0xB, 0xB, 0xB, 0xB, 0xB, 0xB, 0xB, 0xB, 0xB, 0xB, 0xB, 0xB],
   [0xC, 0xC, 0x1, 0x1, 0x1, 0x1, 0x1, 0xC, 0xC, 0xC, 0xC, 0xC, 0xC, 0xC, 0xD,
     0x0, 0x0, 0x0, 0x0, 0x0, 0x0, 0x0, 0x0, 0x0, 0x0, 0x0, 0x0, 0x0, 0x0, 0x0,
     0x0, 0xD, 0xD, 0xB, 0xB, 0xB, 0xB, 0xB, 0xB, 0xB, 0xB, 0xB, 0xB, 0xB, 0xB],
   [0xC, 0xC, 0xC, 0x1, 0x1, 0x1, 0x1, 0xC, 0xC, 0xC, 0xC, 0xC, 0xC, 0xC, 0xD,
     0x0, 0x0, 0x0, 0x0, 0x0, 0x0, 0x0, 0x0, 0x0, 0x0, 0x0, 0x0, 0x0, 0x0, 0x0,
     0x0, 0xD, 0xD, 0xB, 0xB, 0xB, 0xB, 0xB, 0xB, 0xB, 0xB, 0xB, 0xB, 0xB, 0xB],
   [0xC, 0xC, 0xC, 0xC, 0x1, 0x1, 0xC, 0xC, 0xC, 0xC, 0xC, 0xC, 0xC, 0xC, 0xC,
     0x0, 0x0, 0x0, 0x0, 0x0, 0x0, 0x0, 0x0, 0x0, 0x0, 0x0, 0x0, 0x0, 0x0, 0x0,
     0x0, 0xD, 0xD, 0xB, 0xB, 0xB, 0xB, 0xB, 0xB, 0xB, 0xB, 0xB, 0xB, 0xB, 0xB]]

/-- Constant `minTemperatureC`. -/
def minTemperatureC : Int := -15

/-- Constant `maxTemperatureC`. -/
def maxTemperatureC : Int := 30

/-- Constant `minPrecipitationDM`. -/
def minPrecipitationDM : Int := 0

/-- Constant `maxPrecipitationDM`. -/
def maxPrecipitationDM : Int := 45

/-- The expression of the last statement of `WhittakerClampTemperatureToIndex`,
`return 44 - (temp + 15)`. -/
def whittakerLinearIndex (temp : Int) : Int := 44 - (temp + 15)

/-- Function `WhittakerClampTemperatureToIndex(temp)`; both guards compare with
`minTemperatureC`, as in the source. -/
def WhittakerClampTemperatureToIndex (temp : Int) : Int :=
  if temp ≤ minTemperatureC then 44
  else if temp ≥ minTemperatureC then 0
  else whittakerLinearIndex temp

/-- Function `WhittakerClampPrecipitationToIndex(prec)`. -/
def WhittakerClampPrecipitationToIndex (prec : Int) : Int :=
  if prec ≥ maxPrecipitationDM then 44
  else if prec ≤ minPrecipitationDM then 0
  else prec

/-- Function `GetWhittakerBiome(temperature, precipitation)`: `none` stands for
an index out of range. -/
def GetWhittakerBiome (temperature precipitation : Int) : Option Int :=
  let temperature := WhittakerClampTemperatureToIndex temperature
  let precipitation := WhittakerClampPrecipitationToIndex precipitation
  (index WhittakerLookupTable precipitation).bind (fun row => index row temperature)

/-- Function `GetWhittakerModBiome(temperature, precipitation)`: `none` stands
for an index out of range. -/
def GetWhittakerModBiome (temperature precipitation : Int) : Option Int :=
  let temperature := WhittakerClampTemperatureToIndex temperature
  let precipitation := WhittakerClampPrecipitationToIndex precipitation
  (index WhittakerLookupTableModified precipitation).bind (fun row => index row temperature)

/-- The value `x` forced into `[lo, hi]`. -/
def clamp (x lo hi : Int) : Int := max lo (min hi x)

/-! ## Resource flags (geoResources.go) and the diagram of the Redblob table -/

/-- Body of the loop of `sumResources` for bit position `i`; `r` is the value of
the byte and `1<<i` has the type of `r`, a byte. -/
def sumResourcesStep (r : Nat) (sum : Nat) (i : Nat) : Nat :=
  if r &&& ((1 <<< i) % 256) ≠ 0 then sum + (i + 1) else sum

/-- Function `sumResources(r)` for a byte `r`, given by its value `0 <= r < 256`. -/
def sumResources (r : Nat) : Nat :=
  (List.range 8).foldl (sumResourcesStep r) 0

/-- Constant `RedblobBiomeTundra`. -/
def RedblobBiomeTundra : Int := 0x1
/-- Constant `RedblobBiomeTaiga`. -/
def RedblobBiomeTaiga : Int := 0x2
/-- Constant `RedblobBiomeShrubland`. -/
def RedblobBiomeShrubland : Int := 0x3
/-- Constant `RedblobBiomeTemperateRainForest`. -/
def RedblobBiomeTemperateRainForest : Int := 0x4
/-- Constant `RedblobBiomeTropicalRainForest`. -/
def RedblobBiomeTropicalRainForest : Int := 0x5
/-- Constant `RedblobBiomeTropicalSeasonalForest`. -/
def RedblobBiomeTropicalSeasonalForest : Int := 0x6
/-- Constant `RedblobBiomeSubtropicalDesert`. -/
def RedblobBiomeSubtropicalDesert : Int := 0x7
/-- Constant `RedblobBiomeTemperateSeasonalForest`. -/
def RedblobBiomeTemperateSeasonalForest : Int := 0x8
/-- Constant `RedblobBiomeTemperateDesert`. -/
def RedblobBiomeTemperateDesert : Int := 0x9
/-- Constant `RedblobBiomeGrassland`. -/
def RedblobBiomeGrassland : Int := 0xA
/-- Constant `RedblobBiomeSnow`. -/
def RedblobBiomeSnow : Int := 0xB
/-- Constant `RedblobBiomeBare`. -/
def RedblobBiomeBare : Int := 0xC
/-- Constant `RedblobBiomeScorched`. -/
def RedblobBiomeScorched : Int := 0xD

/-- The diagram of the doc comment "Biomes definition" above
`RedblobLookupTable`: row `h - 1` is elevation zone `h` (the bottom row of the
diagram first), column `m - 1` is moisture zone `m` (the rightmost column of
the diagram first). -/
def redblobDiagram : List (List Int) :=
  [[RedblobBiomeSubtropicalDesert, RedblobBiomeGrassland,
      RedblobBiomeTropicalSeasonalForest, RedblobBiomeTropicalSeasonalForest,
      RedblobBiomeTropicalRainForest, RedblobBiomeTropicalRainForest],
   [RedblobBiomeTemperateDesert, RedblobBiomeGrassland, RedblobBiomeGrassland,
      RedblobBiomeTemperateSeasonalForest, RedblobBiomeTemperateSeasonalForest,
      RedblobBiomeTemperateRainForest],
   [RedblobBiomeTemperateDesert, RedblobBiomeTemperateDesert, RedblobBiomeShrubland,
      RedblobBiomeShrubland, RedblobBiomeTaiga, RedblobBiomeTaiga],
   [RedblobBiomeScorched, RedblobBiomeBare, RedblobBiomeTundra, RedblobBiomeSnow,
      RedblobBiomeSnow, RedblobBiomeSnow]]

/-- The biome the diagram shows for elevation zone `h` and moisture zone `m`. -/
def redblobDiagramBiome (h m : Int) : Option Int :=
  (index redblobDiagram (h - 1)).bind (fun row => index row (m - 1))

end Genworldvoronoi

namespace Genpotions

/-! ## The potions of `genpotions` (genpotions.go) -/

/-- The struct `Ingredient`. -/
structure Ingredient where
  Name : String
  Effects : List String
deriving DecidableEq

/-- The loop of `hasEffect` over the remaining effects, with its early return. -/
def hasEffectLoop (effect : String) : List String → Bool
  | [] => false
  | e :: rest => if e = effect then true else hasEffectLoop effect rest

/-- Method `Ingredient.hasEffect(effect)`. -/
def hasEffect (ing : Ingredient) (effect : String) : Bool :=
  hasEffectLoop effect ing.Effects

/-- Method `Ingredient.getSharedEffects(other)`: the loop appends `e` when
`!other.hasEffect(e)`. -/
def getSharedEffects (ing other : Ingredient) : List String :=
  ing.Effects.foldl (fun effects e => if !hasEffect other e then effects ++ [e] else effects) []

/-- The loop of `hasSomeEffects` over the remaining effects, with its early
return. -/
def hasSomeEffectsLoop (ing : Ingredient) : List String → Bool
  | [] => false
  | e :: rest => if hasEffect ing e then true else hasSomeEffectsLoop ing rest

/-- Method `Ingredient.hasSomeEffects(effects)`. -/
def hasSomeEffects (ing : Ingredient) (effects : List String) : Bool :=
  hasSomeEffectsLoop ing effects

/-- The inner loop of `CanCraftPotion` over the remaining ingredients `in2`;
the result is the flag `valid` after the loop. -/
def canCraftInner (in1 : Ingredient) : List Ingredient → Bool
  | [] => false
  | in2 :: rest =>
    if in1.Name = in2.Name then canCraftInner in1 rest
    else if hasSomeEffects in1 in2.Effects then true
    else canCraftInner in1 rest

/-- The outer loop of `CanCraftPotion` over the remaining ingredients `in1`. -/
def canCraftOuter (ingredients : List Ingredient) : List Ingredient → Bool
  | [] => true
  | in1 :: rest =>
    if !canCraftInner in1 ingredients then false else canCraftOuter ingredients rest

/-- Function `CanCraftPotion(ingredients...)`. -/
def CanCraftPotion (ingredients : List Ingredient) : Bool :=
  canCraftOuter ingredients ingredients

/-- The struct `Potion`. -/
structure Potion where
  Name : String
  Ingredients : List Ingredient
  Effects : List String
deriving DecidableEq

/-- Body of the counting loop of `CraftPotion` for one effect `e`: the state is
the slice `effects` and the map `effectCount` (`none` for a missing key). -/
def craftCount (st : List String × (String → Option Nat)) (e : String) :
    List String × (String → Option Nat) :=
  let effects := if (st.2 e).isSome then st.1 else st.1 ++ [e]
  (effects, fun k => if k = e then some ((st.2 e).getD 0 + 1) else st.2 k)

/-- Function `CraftPotion(ingredients...)`; `none` stands for `(nil, false)`. -/
def CraftPotion (ingredients : List Ingredient) : Option Potion :=
  if !CanCraftPotion ingredients then none
  else
    let st := ingredients.foldl (fun st ing => ing.Effects.foldl craftCount st)
      (([] : List String), fun (_ : String) => (none : Option Nat))
    let potionEffects := st.1.foldl
      (fun acc e => if (st.2 e).getD 0 > 1 then acc ++ [e] else acc) []
    some { Name := "Potion of " ++ ", ".intercalate potionEffects
           Ingredients := ingredients
           Effects := potionEffects }


/-- The effects of all ingredients, in the order in which the counting loops of
`CraftPotion` visit them. -/
def allEffects (ingredients : List Ingredient) : List String :=
  (ingredients.map (fun ing => ing.Effects)).flatten

/-- The state of the counting loops of `CraftPotion` after the effects `s`:
the map holds the number of occurrences so far and the slice holds the effects
seen, ordered by their first occurrence. -/
structure Counted (s : List String) (st : List String × (String → Option Nat)) : Prop where
  count : ∀ k, st.2 k = if s.count k = 0 then none else some (s.count k)
  mem : ∀ k, k ∈ st.1 ↔ k ∈ s
  order : st.1.Pairwise (fun a b => s.indexOf a < s.indexOf b)

end Genpotions

namespace Gamerogueish

/-! ## The rooms of `gamerogueish` (world.go) -/

/-- The struct `Room`: top left corner `(X, Y)`, width `W` and height `H`. -/
structure Room where
  X : Int
  Y : Int
  W : Int
  H : Int
deriving DecidableEq

/-- The value a Go `int` of 64 bits holds after an operation whose exact result
is `x`: the result wraps around modulo `2^64` into `-2^63 <= v < 2^63`. -/
def wrapInt (x : Int) : Int :=
  (x + 9223372036854775808) % 18446744073709551616 - 9223372036854775808

/-- The sum `a + b` of two Go `int` values. -/
def addInt (a b : Int) : Int := wrapInt (a + b)

/-- Method `Room.Overlaps(rooms)`: the loop over the remaining rooms, with its
two `continue` and its `return true`. -/
def Overlaps (r : Room) : List Room → Bool
  | [] => false
  | room :: rest =>
    if addInt r.X r.W < room.X ∨ r.X > addInt room.X room.W then Overlaps r rest
    else if addInt r.Y r.H < room.Y ∨ r.Y > addInt room.Y room.H then Overlaps r rest
    else true

/-- The cells `(x, y)` that `World.CarveRoom(room)` sets: the loops run over
`room.Y <= y < room.Y+room.H` and `room.X <= x < room.X+room.W`. -/
def carves (room : Room) (x y : Int) : Prop :=
  room.Y ≤ y ∧ y < addInt room.Y room.H ∧ room.X ≤ x ∧ x < addInt room.X room.W

/-- The closed rectangle `X <= x <= X+W`, `Y <= y <= Y+H` around a room, as a set
of points of the plane: its cells and the wall cells right of and below it. -/
def reaches (room : Room) (x y : Int) : Prop :=
  room.Y ≤ y ∧ y ≤ room.Y + room.H ∧ room.X ≤ x ∧ x ≤ room.X + room.W

/-- A value of type `int`: `-2^63 <= v < 2^63`. -/
def IsInt (v : Int) : Prop := -9223372036854775808 ≤ v ∧ v < 9223372036854775808

/-- A room whose four fields are values of type `int`. -/
def Room.IsRoom (room : Room) : Prop :=
  IsInt room.X ∧ IsInt room.Y ∧ IsInt room.W ∧ IsInt room.H

/-- The far corner `(X+W, Y+H)` of the room is inside the range of `int`: the two
sums do not wrap. -/
def Room.Fits (room : Room) : Prop :=
  room.X + room.W < 9223372036854775808 ∧ room.Y + room.H < 9223372036854775808

instance (v : Int) : Decidable (IsInt v) := by unfold IsInt; infer_instance

instance (room : Room) : Decidable room.IsRoom := by unfold Room.IsRoom; infer_instance

instance (room : Room) : Decidable room.Fits := by unfold Room.Fits; infer_instance

end Gamerogueish

namespace Genheightmap

/-! ## The range of a heightmap in `genheightmap` (genheightmap.go) -/

/-- Body of the loop of `MinMax` for one element `h`; the state is `(min, max)`. -/
def minMaxStep (st : ℚ × ℚ) (h : ℚ) : ℚ × ℚ :=
  let max := if h > st.2 then h else st.2
  let min := if h < st.1 then h else st.1
  (min, max)

/-- Function `MinMax(hm)`: the pair `(min, max)`. -/
def MinMax (hm : List ℚ) : ℚ × ℚ :=
  if hm.length = 0 then (0, 0)
  else hm.foldl minMaxStep (hm.getD 0 0, hm.getD 0 0)

end Genheightmap

namespace Genmap2derosion

/-! ## The model -/

/-- Conversion `int(x)` of a float to an integer: truncation toward zero. -/
def truncQ (x : ℚ) : Int := Int.tdiv x.num x.den

/-- The builtin `copy(dst, src)`: the first `min (len dst) (len src)` elements
of `dst` are overwritten with those of `src`. -/
def goCopy {α : Type} (dst src : List α) : List α :=
  src.take dst.length ++ dst.drop src.length

/-- The struct `Climate`. -/
structure Climate where
  perlin : ℚ → ℚ → ℚ
  seed : Int
  dimX : Nat
  dimY : Nat
  TempMap : List ℚ
  HumidityMap : List ℚ
  CloudMap : List Bool
  RainMap : List Bool
  WindMap : List ℚ
  WindDirection : ℚ × ℚ
  AvgRainMap : List ℚ
  AvgWindMap : List ℚ
  AvgCloudMap : List ℚ
  AvgTempMap : List ℚ
  AvgHumidityMap : List ℚ
  biomeMap : List Int
  heightmap : List ℚ

/-- The upwind coordinate along one axis:
`k := i + off; if k < 0 || k >= d { k = i }`. -/
def upwind (i : Nat) (off : Int) (d : Nat) : Nat :=
  if (i : Int) + off < 0 ∨ (i : Int) + off ≥ (d : Int) then i else ((i : Int) + off).toNat

/-- Function `calcMovingAverage(v, newv, i)`: one step of the running mean. -/
def calcMovingAverage (v newv : ℚ) (i : Nat) : ℚ :=
  (v * (i : ℚ) + newv) / ((i + 1 : Nat) : ℚ)

/-- Function `calcMovingAverageBool(v, newv, i)`: a boolean sample counts as 1 or 0. -/
def calcMovingAverageBool (v : ℚ) (newv : Bool) (i : Nat) : ℚ :=
  if newv then calcMovingAverage v 1 i else calcMovingAverage v 0 i

/-- Body of the double loop of `calcWind` at cell `(i, j)`. -/
def calcWindCell (dx dy : Nat) (wdx wdy : ℚ) (c : Climate) (i j : Nat) : Climate :=
  let idx := i * dy + j
  let k := upwind i (truncQ (10 * wdx)) dx
  let l := upwind j (truncQ (10 * wdy)) dy
  let speed : ℚ := 5 * (1 - (c.heightmap.getD idx 0 - c.heightmap.getD (k * dy + l) 0) / 1000)
  { c with WindMap := c.WindMap.set idx speed }

/-- Method `Climate.calcWind(day)`: sets the wind direction from the noise and
the wind speed of every cell. -/
def calcWind (c : Climate) (day : Int) : Climate :=
  let timeInterval : ℚ := (day : ℚ) / 365
  let c1 : Climate := { c with
    WindDirection := (c.perlin timeInterval (c.seed : ℚ),
                      c.perlin timeInterval (timeInterval + (c.seed : ℚ))) }
  let dx := c1.dimX
  let dy := c1.dimY
  let wdx := c1.WindDirection.1
  let wdy := c1.WindDirection.2
  (List.range dx).foldl
    (fun c i => (List.range dy).foldl (fun c j => calcWindCell dx dy wdx wdy c i j) c) c1

/-- Body of the double loop of `calcTempMap` at cell `(i, j)`. -/
def calcTempCell (oldTempMap : List ℚ) (dx dy : Nat) (wdx wdy : ℚ) (c : Climate)
    (i j : Nat) : Climate :=
  let idx := i * dy + j
  let k := upwind i (truncQ (2 * c.WindMap.getD idx 0 * wdx)) dx
  let l := upwind j (truncQ (2 * c.WindMap.getD idx 0 * wdy)) dy
  let t := c.TempMap.set idx (oldTempMap.getD (k * dy + l) 0)
  let newTemp := (t.getD (idx - dy - 1) 0 + t.getD (idx + dy - 1) 0 + t.getD (idx + dy + 1) 0
    + t.getD (idx - dy + 1) 0 + t.getD idx 0) / 5
  let addCool := (1 / 2 : ℚ) * (c.WindMap.getD idx 0 - 5)
  let addSun : ℚ :=
    if !(c.CloudMap.getD idx false) then (1 - c.heightmap.getD idx 0 / 2000) * (8 / 1000) else 0
  let addRain : ℚ := if c.RainMap.getD idx false ∧ newTemp > 0 then -(1 / 100) else 0
  let newTemp := newTemp + (8 / 10) * (1 - newTemp) * addSun + (6 / 10) * newTemp * (addRain + addCool)
  let newTemp := if newTemp > 1 then 1 else if newTemp < 0 then 0 else newTemp
  { c with TempMap := t.set idx newTemp }

/-- Method `Climate.calcTempMap()`: updates the interior cells of `TempMap` in
place, row by row. -/
def calcTempMap (c : Climate) : Climate :=
  let oldTempMap := goCopy (List.replicate (c.dimX * c.dimY) (0 : ℚ)) c.TempMap
  let dx := c.dimX
  let dy := c.dimY
  let wdx := c.WindDirection.1
  let wdy := c.WindDirection.2
  (List.range' 1 (dx - 2)).foldl
    (fun c i => (List.range' 1 (dy - 2)).foldl
      (fun c j => calcTempCell oldTempMap dx dy wdx wdy c i j) c) c

/-- Body of the double loop of `calcHumidityMap` at cell `(i, j)`. -/
def calcHumidityCell (oldHumidMap : List ℚ) (dx dy : Nat) (wdx wdy : ℚ) (c : Climate)
    (i j : Nat) : Climate :=
  let idx := i * dy + j
  let k := upwind i (truncQ (2 * c.WindMap.getD idx 0 * wdx)) dx
  let l := upwind j (truncQ (2 * c.WindMap.getD idx 0 * wdy)) c.dimY
  let m := c.HumidityMap.set idx (oldHumidMap.getD (k * dy + l) 0)
  let newHumidity := (m.getD (idx - dy - 1) 0 + m.getD (idx + dy - 1) 0 + m.getD (idx + dy + 1) 0
    + m.getD (idx - dy + 1) 0 + m.getD idx 0 + m.getD (idx + 1) 0 + m.getD (idx - 1) 0
    + m.getD (idx + dy) 0 + m.getD (idx - dy) 0) / 9
  let addHumidity : ℚ :=
    if !(c.CloudMap.getD idx false) then
      (if c.heightmap.getD idx 0 ≤ 200 then (5 / 100) * c.TempMap.getD idx 0 else 1 / 100)
    else 0
  let addRain : ℚ := if c.RainMap.getD idx false then -newHumidity * (8 / 10) else 0
  let newHumidity := newHumidity + newHumidity * addRain + (1 - newHumidity) * addHumidity
  let newHumidity := if newHumidity > 1 then 1 else if newHumidity < 0 then 0 else newHumidity
  { c with HumidityMap := m.set idx newHumidity }

/-- Method `Climate.calcHumidityMap()`: updates the interior cells of
`HumidityMap` in place, row by row. -/
def calcHumidityMap (c : Climate) : Climate :=
  let oldHumidMap := goCopy (List.replicate (c.dimX * c.dimY) (0 : ℚ)) c.HumidityMap
  let dx := c.dimX
  let dy := c.dimY
  let wdx := c.WindDirection.1
  let wdy := c.WindDirection.2
  (List.range' 1 (dx - 2)).foldl
    (fun c i => (List.range' 1 (dy - 2)).foldl
      (fun c j => calcHumidityCell oldHumidMap dx dy wdx wdy c i j) c) c

/-- Body of the double loop of `calcRainMap` at cell `(i, j)`. -/
def calcRainCell (oldCloudMap oldRainMap : List Bool) (dx dy : Nat) (wdx wdy : ℚ)
    (c : Climate) (i j : Nat) : Climate :=
  let idx := i * dy + j
  let k := upwind i (truncQ (2 * c.WindMap.getD idx 0 * wdx)) dx
  let l := upwind j (truncQ (2 * c.WindMap.getD idx 0 * wdy)) dy
  if c.HumidityMap.getD idx 0 ≥ 35 / 100 + (1 / 2) * c.TempMap.getD idx 0 then
    { c with RainMap := c.RainMap.set idx true,
             CloudMap := c.CloudMap.set idx (oldCloudMap.getD (k * dy + l) false) }
  else if c.HumidityMap.getD idx 0 ≥ 3 / 10 + (3 / 10) * c.TempMap.getD idx 0 then
    { c with CloudMap := c.CloudMap.set idx true,
             RainMap := c.RainMap.set idx (oldRainMap.getD (k * dy + l) false) }
  else
    { c with CloudMap := c.CloudMap.set idx false,
             RainMap := c.RainMap.set idx false }

/-- Body of the loop `for i := range oldRainMap` of `calcRainMap`. -/
def calcRainClearCell (c : Climate) (i : Nat) : Climate :=
  { c with CloudMap := c.CloudMap.set i false, RainMap := c.RainMap.set i false }

/-- Method `Climate.calcRainMap()`: clears both flag fields, then classifies the
interior cells. -/
def calcRainMap (c : Climate) : Climate :=
  let oldCloudMap := goCopy (List.replicate (c.dimX * c.dimY) false) c.CloudMap
  let oldRainMap := goCopy (List.replicate (c.dimX * c.dimY) false) c.RainMap
  let c1 := (List.range oldRainMap.length).foldl calcRainClearCell c
  let dx := c1.dimX
  let dy := c1.dimY
  let wdx := c1.WindDirection.1
  let wdy := c1.WindDirection.2
  (List.range' 1 (dx - 2)).foldl
    (fun c i => (List.range' 1 (dy - 2)).foldl
      (fun c j => calcRainCell oldCloudMap oldRainMap dx dy wdx wdy c i j) c) c1

/-- Body of the temperature loop of `init` at index `i`. -/
def initTempCell (c : Climate) (i : Nat) : Climate :=
  if c.heightmap.getD i 0 > 200 then
    { c with TempMap := c.TempMap.set i (1 - c.heightmap.getD i 0 / 2000) }
  else
    { c with TempMap := c.TempMap.set i (7 / 10) }

/-- Body of the humidity loop of `init` at index `i`. -/
def initHumidityCell (c : Climate) (i : Nat) : Climate :=
  if c.heightmap.getD i 0 < 200 then
    { c with HumidityMap := c.HumidityMap.set i (4 / 10) }
  else
    { c with HumidityMap := c.HumidityMap.set i (2 / 10) }

/-- Body of the rain loop of `init` at index `i`. -/
def initRainCell (c : Climate) (i : Nat) : Climate :=
  { c with RainMap := c.RainMap.set i false }

/-- Body of the cloud loop of `init` at index `i`. -/
def initCloudCell (c : Climate) (i : Nat) : Climate :=
  { c with CloudMap := c.CloudMap.set i false }

/-- Method `Climate.init(day)`; the noise generator is already in place. -/
def init (c : Climate) (day : Int) : Climate :=
  let c := calcWind c day
  let c := (List.range c.TempMap.length).foldl initTempCell c
  let c := (List.range c.HumidityMap.length).foldl initHumidityCell c
  let c := (List.range c.RainMap.length).foldl initRainCell c
  (List.range c.CloudMap.length).foldl initCloudCell c

/-- Constructor `NewClimate(dimX, dimY, day, seed, heightmap)`. -/
def NewClimate (opensimplexNew : Int → ℚ → ℚ → ℚ) (dimX dimY : Nat) (day seed : Int)
    (heightmap : List ℚ) : Climate :=
  let idxSize := dimX * dimY
  init
    { perlin := opensimplexNew seed
      seed := seed
      dimX := dimX
      dimY := dimY
      TempMap := List.replicate idxSize 0
      HumidityMap := List.replicate idxSize 0
      CloudMap := List.replicate idxSize false
      RainMap := List.replicate idxSize false
      WindMap := List.replicate idxSize 0
      WindDirection := (0, 0)
      AvgRainMap := List.replicate idxSize 0
      AvgWindMap := List.replicate idxSize 0
      AvgCloudMap := List.replicate idxSize 0
      AvgTempMap := List.replicate idxSize 0
      AvgHumidityMap := List.replicate idxSize 0
      biomeMap := List.replicate idxSize 0
      heightmap := heightmap } day

/-- Method `Climate.runSimulation(day)`: one simulated day. -/
def runSimulation (c : Climate) (day : Int) : Climate :=
  calcRainMap (calcHumidityMap (calcTempMap (calcWind c day)))

/-- A run of simulated days, one `runSimulation` per entry of `days`. -/
def runDays (c : Climate) (days : List Int) : Climate :=
  days.foldl runSimulation c

/-- Body of the loop `for i := range c.heightmap` that clears the averages in
`calcAverage`. -/
def calcAverageClearCell (c : Climate) (i : Nat) : Climate :=
  { c with AvgRainMap := c.AvgRainMap.set i 0,
           AvgWindMap := c.AvgWindMap.set i 0,
           AvgCloudMap := c.AvgCloudMap.set i 0,
           AvgTempMap := c.AvgTempMap.set i 0,
           AvgHumidityMap := c.AvgHumidityMap.set i 0 }

/-- Body of the loop `for idx := range c.heightmap` of `calcAverage` on day `i`:
the moving averages of cell `idx` are updated from the state `simulation`. -/
def calcAverageCell (simulation : Climate) (i : Nat) (c : Climate) (idx : Nat) : Climate :=
  { c with
    AvgWindMap := c.AvgWindMap.set idx
      (calcMovingAverage (c.AvgWindMap.getD idx 0) (simulation.WindMap.getD idx 0) i),
    AvgRainMap := c.AvgRainMap.set idx
      (calcMovingAverageBool (c.AvgRainMap.getD idx 0) (simulation.RainMap.getD idx false) i),
    AvgCloudMap := c.AvgCloudMap.set idx
      (calcMovingAverageBool (c.AvgCloudMap.getD idx 0) (simulation.CloudMap.getD idx false) i),
    AvgTempMap := c.AvgTempMap.set idx
      (calcMovingAverage (c.AvgTempMap.getD idx 0) (simulation.TempMap.getD idx 0) i),
    AvgHumidityMap := c.AvgHumidityMap.set idx
      (calcMovingAverage (c.AvgHumidityMap.getD idx 0) (simulation.HumidityMap.getD idx 0) i) }

/-- Day `i` of the loop of `calcAverage`, on the pair of the receiver `c` and
the state `simulation`: the simulation advances one day, then every cell's
averages are updated. -/
def calcAverageDay (p : Climate × Climate) (i : Nat) : Climate × Climate :=
  let simulation := calcRainMap (calcHumidityMap (calcTempMap (calcWind p.2 (i : Int))))
  ((List.range p.1.heightmap.length).foldl (calcAverageCell simulation i) p.1, simulation)

/-- The run of `calcAverage` with its day loop stopped after `days` iterations:
the receiver and the simulation at that point. -/
def calcAverageFor (opensimplexNew : Int → ℚ → ℚ → ℚ) (c : Climate) (days : Nat) :
    Climate × Climate :=
  let startDay : Int := 0
  let c := (List.range c.heightmap.length).foldl calcAverageClearCell c
  let simulation := NewClimate opensimplexNew c.dimX c.dimY startDay c.seed c.heightmap
  (List.range days).foldl calcAverageDay (c, simulation)

/-- Method `Climate.calcAverage()`: `years := 1`, so the loop runs `years * 365` days. -/
def calcAverage (opensimplexNew : Int → ℚ → ℚ → ℚ) (c : Climate) : Climate :=
  let years := 1
  (calcAverageFor opensimplexNew c (years * 365)).1

/-- The jitter test of the hills band of `genBiome`,
`AvgRainMap[i] < 0.001 && x+rand.Int()%4-2 > 5 && x+rand.Int()%4-2 < 95 &&
y+rand.Int()%4-2 > 5 && y+rand.Int()%4-2 < 95`, evaluated left to right with the
short circuit of `&&`.  `rand k` is the `k`-th value the generator returns and
`n` the number of values drawn before; the result is the truth value and the
number of values drawn after. -/
def rockyTest (rand : Nat → Nat) (n : Nat) (avgRain : ℚ) (x y : Nat) : Bool × Nat :=
  if avgRain < 1 / 1000 then
    if (x : Int) + ((rand n % 4 : Nat) : Int) - 2 > 5 then
      if (x : Int) + ((rand (n + 1) % 4 : Nat) : Int) - 2 < 95 then
        if (y : Int) + ((rand (n + 2) % 4 : Nat) : Int) - 2 > 5 then
          if (y : Int) + ((rand (n + 3) % 4 : Nat) : Int) - 2 < 95 then (true, n + 4)
          else (false, n + 4)
        else (false, n + 3)
      else (false, n + 2)
    else (false, n + 1)
  else (false, n)

/-- Body of the loop `for i := range c.heightmap` of `genBiome`, on the pair of
the state and the number of random values drawn so far. -/
def genBiomeCell (rand : Nat → Nat) (st : Climate × Nat) (i : Nat) : Climate × Nat :=
  let c := st.1
  let d := c.heightmap.getD i 0
  if d ≤ 200 then ({ c with biomeMap := c.biomeMap.set i 0 }, st.2)
  else if d ≤ 204 then ({ c with biomeMap := c.biomeMap.set i 1 }, st.2)
  else if d ≤ 210 then ({ c with biomeMap := c.biomeMap.set i 2 }, st.2)
  else if d ≤ 220 then ({ c with biomeMap := c.biomeMap.set i 3 }, st.2)
  else if d ≤ 600 then
    if c.AvgRainMap.getD i 0 ≥ 2 / 100 then ({ c with biomeMap := c.biomeMap.set i 4 }, st.2)
    else ({ c with biomeMap := c.biomeMap.set i 5 }, st.2)
  else if d ≤ 1300 then
    let x := i / c.dimY
    let y := i % c.dimY
    let t := rockyTest rand st.2 (c.AvgRainMap.getD i 0) x y
    if t.1 then ({ c with biomeMap := c.biomeMap.set i 6 }, t.2)
    else if d ≤ 1100 then ({ c with biomeMap := c.biomeMap.set i 7 }, t.2)
    else ({ c with biomeMap := c.biomeMap.set i 8 }, t.2)
  else if d ≤ 1500 then ({ c with biomeMap := c.biomeMap.set i 9 }, st.2)
  else ({ c with biomeMap := c.biomeMap.set i 10 }, st.2)

/-- Method `Climate.genBiome()`; `rand` is the sequence of values the global
random generator returns to the calls `rand.Int()` of this run. -/
def genBiome (rand : Nat → Nat) (c : Climate) : Climate :=
  ((List.range c.heightmap.length).foldl (genBiomeCell rand) (c, 0)).1

/-! ## The constructor with the index checks of the language -/

/-- An assignment `l[i] = v` to a slice: `none` stands for the run-time panic
"index out of range". -/
def writeAt {α : Type} (l : List α) (i : Nat) (v : α) : Option (List α) :=
  if i < l.length then some (l.set i v) else none

/-- Body of the double loop of `calcWind` at cell `(i, j)` with the index
checks of the language: the reads `heightmap[idx]`, `heightmap[k*dy+l]` and the
write `WindMap[idx]`. -/
def calcWindCellChecked (dx dy : Nat) (wdx wdy : ℚ) (c : Climate) (i j : Nat) :
    Option Climate :=
  let idx := i * dy + j
  let k := upwind i (truncQ (10 * wdx)) dx
  let l := upwind j (truncQ (10 * wdy)) dy
  match c.heightmap[idx]?, c.heightmap[k * dy + l]? with
  | some h, some hu =>
    match writeAt c.WindMap idx (5 * (1 - (h - hu) / 1000)) with
    | some w => some { c with WindMap := w }
    | none => none
  | _, _ => none

/-- Method `Climate.calcWind(day)` with index checks. -/
def calcWindChecked (c : Climate) (day : Int) : Option Climate :=
  let timeInterval : ℚ := (day : ℚ) / 365
  let c1 : Climate := { c with
    WindDirection := (c.perlin timeInterval (c.seed : ℚ),
                      c.perlin timeInterval (timeInterval + (c.seed : ℚ))) }
  let dx := c1.dimX
  let dy := c1.dimY
  let wdx := c1.WindDirection.1
  let wdy := c1.WindDirection.2
  (List.range dx).foldlM
    (fun c i => (List.range dy).foldlM (fun c j => calcWindCellChecked dx dy wdx wdy c i j) c)
    c1

/-- Body of the temperature loop of `init` at index `i`, with index checks. -/
def initTempCellChecked (c : Climate) (i : Nat) : Option Climate :=
  match c.heightmap[i]? with
  | some h =>
    if h > 200 then
      match writeAt c.TempMap i (1 - h / 2000) with
      | some t => some { c with TempMap := t }
      | none => none
    else
      match writeAt c.TempMap i (7 / 10) with
      | some t => some { c with TempMap := t }
      | none => none
  | none => none

/-- Body of the humidity loop of `init` at index `i`, with index checks. -/
def initHumidityCellChecked (c : Climate) (i : Nat) : Option Climate :=
  match c.heightmap[i]? with
  | some h =>
    if h < 200 then
      match writeAt c.HumidityMap i (4 / 10) with
      | some t => some { c with HumidityMap := t }
      | none => none
    else
      match writeAt c.HumidityMap i (2 / 10) with
      | some t => some { c with HumidityMap := t }
      | none => none
  | none => none

/-- Body of the rain loop of `init` at index `i`, with the index check. -/
def initRainCellChecked (c : Climate) (i : Nat) : Option Climate :=
  match writeAt c.RainMap i false with
  | some t => some { c with RainMap := t }
  | none => none

/-- Body of the cloud loop of `init` at index `i`, with the index check. -/
def initCloudCellChecked (c : Climate) (i : Nat) : Option Climate :=
  match writeAt c.CloudMap i false with
  | some t => some { c with CloudMap := t }
  | none => none

/-- Method `Climate.init(day)` with index checks. -/
def initChecked (c : Climate) (day : Int) : Option Climate :=
  match calcWindChecked c day with
  | none => none
  | some c =>
    match (List.range c.TempMap.length).foldlM initTempCellChecked c with
    | none => none
    | some c =>
      match (List.range c.HumidityMap.length).foldlM initHumidityCellChecked c with
      | none => none
      | some c =>
        match (List.range c.RainMap.length).foldlM initRainCellChecked c with
        | none => none
        | some c => (List.range c.CloudMap.length).foldlM initCloudCellChecked c

/-- Constructor `NewClimate(dimX, dimY, day, seed, heightmap)` with index
checks: `none` when a slice index is out of range during construction. -/
def NewClimateChecked (opensimplexNew : Int → ℚ → ℚ → ℚ) (dimX dimY : Nat) (day seed : Int)
    (heightmap : List ℚ) : Option Climate :=
  let idxSize := dimX * dimY
  initChecked
    { perlin := opensimplexNew seed
      seed := seed
      dimX := dimX
      dimY := dimY
      TempMap := List.replicate idxSize 0
      HumidityMap := List.replicate idxSize 0
      CloudMap := List.replicate idxSize false
      RainMap := List.replicate idxSize false
      WindMap := List.replicate idxSize 0
      WindDirection := (0, 0)
      AvgRainMap := List.replicate idxSize 0
      AvgWindMap := List.replicate idxSize 0
      AvgCloudMap := List.replicate idxSize 0
      AvgTempMap := List.replicate idxSize 0
      AvgHumidityMap := List.replicate idxSize 0
      biomeMap := List.replicate idxSize 0
      heightmap := heightmap } day

/-- Body of the loop `for i := range c.heightmap` that clears the averages in
`calcAverage`, with index checks. -/
def calcAverageClearCellChecked (c : Climate) (i : Nat) : Option Climate :=
  match writeAt c.AvgRainMap i 0, writeAt c.AvgWindMap i 0, writeAt c.AvgCloudMap i 0,
    writeAt c.AvgTempMap i 0, writeAt c.AvgHumidityMap i 0 with
  | some r, some w, some cl, some t, some h =>
    some { c with AvgRainMap := r, AvgWindMap := w, AvgCloudMap := cl, AvgTempMap := t,
                  AvgHumidityMap := h }
  | _, _, _, _, _ => none

/-- The first loop of `calcAverage`, with index checks; `calcAverage` panics
when this loop does. -/
def calcAverageClearChecked (c : Climate) : Option Climate :=
  (List.range c.heightmap.length).foldlM calcAverageClearCellChecked c

/-! ## The update of one cell and the double-buffered reference step -/

/-- The interior cells of a `dx` by `dy` grid in the order in which the double
loops of the step functions visit them. -/
def interiorCells (dx dy : Nat) : List (Nat × Nat) :=
  (List.range' 1 (dx - 2)).flatMap (fun i => (List.range' 1 (dy - 2)).map (fun j => (i, j)))

/-- The part of the body of `calcTempMap` after the averaging: the new
temperature of cell `idx` from the mean `newTemp` of its stencil, with the
final clamp. -/
def tempUpdate (c : Climate) (idx : Nat) (newTemp : ℚ) : ℚ :=
  let addCool := (1 / 2 : ℚ) * (c.WindMap.getD idx 0 - 5)
  let addSun : ℚ :=
    if !(c.CloudMap.getD idx false) then (1 - c.heightmap.getD idx 0 / 2000) * (8 / 1000) else 0
  let addRain : ℚ := if c.RainMap.getD idx false ∧ newTemp > 0 then -(1 / 100) else 0
  let newTemp := newTemp + (8 / 10) * (1 - newTemp) * addSun + (6 / 10) * newTemp * (addRain + addCool)
  if newTemp > 1 then 1 else if newTemp < 0 then 0 else newTemp

/-- The part of the body of `calcHumidityMap` after the averaging: the new
humidity of cell `idx` from the mean `newHumidity` of its stencil, with the
final clamp. -/
def humidityUpdate (c : Climate) (idx : Nat) (newHumidity : ℚ) : ℚ :=
  let addHumidity : ℚ :=
    if !(c.CloudMap.getD idx false) then
      (if c.heightmap.getD idx 0 ≤ 200 then (5 / 100) * c.TempMap.getD idx 0 else 1 / 100)
    else 0
  let addRain : ℚ := if c.RainMap.getD idx false then -newHumidity * (8 / 10) else 0
  let newHumidity := newHumidity + newHumidity * addRain + (1 - newHumidity) * addHumidity
  if newHumidity > 1 then 1 else if newHumidity < 0 then 0 else newHumidity

/-- The double-buffered reference step for the temperature, in the words of
the specification: first the transported value `old[upwind(c)]` is stored in a
scratch field for every interior cell `c`, the boundary cells keeping their old
value; then every interior cell is set to the clamped update of the mean of
the scratch field over its stencil (the four diagonal neighbours and the cell). -/
def calcTempMapTwoPass (c : Climate) : Climate :=
  let dx := c.dimX
  let dy := c.dimY
  let old := c.TempMap
  let scratch := (interiorCells dx dy).foldl
    (fun (t : List ℚ) (p : Nat × Nat) =>
      t.set (p.1 * dy + p.2)
        (old.getD
          (upwind p.1 (truncQ (2 * c.WindMap.getD (p.1 * dy + p.2) 0 * c.WindDirection.1)) dx * dy
            + upwind p.2 (truncQ (2 * c.WindMap.getD (p.1 * dy + p.2) 0 * c.WindDirection.2)) dy)
          0)) old
  let fresh := (interiorCells dx dy).foldl
    (fun (t : List ℚ) (p : Nat × Nat) =>
      t.set (p.1 * dy + p.2)
        (tempUpdate c (p.1 * dy + p.2)
          ((scratch.getD (p.1 * dy + p.2 - dy - 1) 0 + scratch.getD (p.1 * dy + p.2 + dy - 1) 0
            + scratch.getD (p.1 * dy + p.2 + dy + 1) 0 + scratch.getD (p.1 * dy + p.2 - dy + 1) 0
            + scratch.getD (p.1 * dy + p.2) 0) / 5))) old
  { c with TempMap := fresh }

/-- The double-buffered reference step for the humidity, in the words of the
specification: as `calcTempMapTwoPass`, with the stencil of nine cells (the
four diagonal and the four orthogonal neighbours and the cell). -/
def calcHumidityMapTwoPass (c : Climate) : Climate :=
  let dx := c.dimX
  let dy := c.dimY
  let old := c.HumidityMap
  let scratch := (interiorCells dx dy).foldl
    (fun (t : List ℚ) (p : Nat × Nat) =>
      t.set (p.1 * dy + p.2)
        (old.getD
          (upwind p.1 (truncQ (2 * c.WindMap.getD (p.1 * dy + p.2) 0 * c.WindDirection.1)) dx * dy
            + upwind p.2 (truncQ (2 * c.WindMap.getD (p.1 * dy + p.2) 0 * c.WindDirection.2)) dy)
          0)) old
  let fresh := (interiorCells dx dy).foldl
    (fun (t : List ℚ) (p : Nat × Nat) =>
      t.set (p.1 * dy + p.2)
        (humidityUpdate c (p.1 * dy + p.2)
          ((scratch.getD (p.1 * dy + p.2 - dy - 1) 0 + scratch.getD (p.1 * dy + p.2 + dy - 1) 0
            + scratch.getD (p.1 * dy + p.2 + dy + 1) 0 + scratch.getD (p.1 * dy + p.2 - dy + 1) 0
            + scratch.getD (p.1 * dy + p.2) 0 + scratch.getD (p.1 * dy + p.2 + 1) 0
            + scratch.getD (p.1 * dy + p.2 - 1) 0 + scratch.getD (p.1 * dy + p.2 + dy) 0
            + scratch.getD (p.1 * dy + p.2 - dy) 0) / 9))) old
  { c with HumidityMap := fresh }

/-- The slice index `k*dy + l` of the upwind cell of `(i, j)` as `calcTempMap`,
`calcHumidityMap` and `calcRainMap` compute it: `k := i + int(2*WindMap[idx]*wdx)`,
put back to `i` when it is outside `0 <= k < dimX`, and `l` likewise from `j`,
`wdy` and `dimY`. -/
def upwindCell (c : Climate) (i j : Nat) : Nat :=
  upwind i (truncQ (2 * c.WindMap.getD (i * c.dimY + j) 0 * c.WindDirection.1)) c.dimX * c.dimY
    + upwind j (truncQ (2 * c.WindMap.getD (i * c.dimY + j) 0 * c.WindDirection.2)) c.dimY

/-! ## The step functions with the index checks of the language -/

/-- A read `l[i]` with a Go `int` as index: `none` stands for the run-time
panic "index out of range", also for a negative index. -/
def readIdx {α : Type} (l : List α) (i : Int) : Option α :=
  if i < 0 then none else l[i.toNat]?

/-- An assignment `l[i] = v` with a Go `int` as index: `none` stands for the
run-time panic "index out of range", also for a negative index. -/
def writeIdx {α : Type} (l : List α) (i : Int) (v : α) : Option (List α) :=
  if i < 0 then none else if i.toNat < l.length then some (l.set i.toNat v) else none

/-- The index `k*dy + l` of the upwind cell of `(i, j)` in `calcTempMap`,
`calcHumidityMap` and `calcRainMap`, with the two reads of `WindMap[idx]`
checked; `dyl` is the bound `l` is compared with (`dy`, or the field `dimY` in
`calcHumidityMap`). -/
def upwindIndexChecked (c : Climate) (dx dy dyl : Nat) (wdx wdy : ℚ) (i j : Nat) :
    Option Int :=
  (readIdx c.WindMap ((i : Int) * dy + j)).bind fun w1 =>
  (readIdx c.WindMap ((i : Int) * dy + j)).bind fun w2 =>
  some ((upwind i (truncQ (2 * w1 * wdx)) dx : Int) * dy
    + (upwind j (truncQ (2 * w2 * wdy)) dyl : Int))

/-- The mean over the stencil of `calcTempMap` around `idx`, its five reads
checked. -/
def stencilTempChecked (t : List ℚ) (idx dy : Int) : Option ℚ :=
  (readIdx t (idx - dy - 1)).bind fun a1 =>
  (readIdx t (idx + dy - 1)).bind fun a2 =>
  (readIdx t (idx + dy + 1)).bind fun a3 =>
  (readIdx t (idx - dy + 1)).bind fun a4 =>
  (readIdx t idx).bind fun a5 =>
  some ((a1 + a2 + a3 + a4 + a5) / 5)

/-- The mean over the stencil of `calcHumidityMap` around `idx`, its nine reads
checked. -/
def stencilHumidityChecked (m : List ℚ) (idx dy : Int) : Option ℚ :=
  (readIdx m (idx - dy - 1)).bind fun a1 =>
  (readIdx m (idx + dy - 1)).bind fun a2 =>
  (readIdx m (idx + dy + 1)).bind fun a3 =>
  (readIdx m (idx - dy + 1)).bind fun a4 =>
  (readIdx m idx).bind fun a5 =>
  (readIdx m (idx + 1)).bind fun a6 =>
  (readIdx m (idx - 1)).bind fun a7 =>
  (readIdx m (idx + dy)).bind fun a8 =>
  (readIdx m (idx - dy)).bind fun a9 =>
  some ((a1 + a2 + a3 + a4 + a5 + a6 + a7 + a8 + a9) / 9)

/-- The part of the body of `calcTempMap` after the averaging, its reads
checked: `WindMap[idx]`, `CloudMap[idx]`, `heightmap[idx]` when there is no
cloud, `RainMap[idx]`. -/
def tempUpdateChecked (c : Climate) (idx : Int) (newTemp : ℚ) : Option ℚ :=
  (readIdx c.WindMap idx).bind fun w =>
  (readIdx c.CloudMap idx).bind fun cloud =>
  (if !cloud then (readIdx c.heightmap idx).bind fun h => some ((1 - h / 2000) * (8 / 1000))
    else some (0 : ℚ)).bind fun addSun =>
  (readIdx c.RainMap idx).bind fun rain =>
  let addCool := (1 / 2 : ℚ) * (w - 5)
  let addRain : ℚ := if rain ∧ newTemp > 0 then -(1 / 100) else 0
  let newTemp := newTemp + (8 / 10) * (1 - newTemp) * addSun + (6 / 10) * newTemp * (addRain + addCool)
  some (if newTemp > 1 then 1 else if newTemp < 0 then 0 else newTemp)

/-- The part of the body of `calcHumidityMap` after the averaging, its reads
checked: `CloudMap[idx]`, and when there is no cloud `heightmap[idx]` and for
low ground `TempMap[idx]`, then `RainMap[idx]`. -/
def humidityUpdateChecked (c : Climate) (idx : Int) (newHumidity : ℚ) : Option ℚ :=
  (readIdx c.CloudMap idx).bind fun cloud =>
  (if !cloud then
      (readIdx c.heightmap idx).bind fun h =>
        if h ≤ 200 then (readIdx c.TempMap idx).bind fun t => some ((5 / 100) * t)
        else some (1 / 100)
    else some (0 : ℚ)).bind fun addHumidity =>
  (readIdx c.RainMap idx).bind fun rain =>
  let addRain : ℚ := if rain then -newHumidity * (8 / 10) else 0
  let newHumidity := newHumidity + newHumidity * addRain + (1 - newHumidity) * addHumidity
  some (if newHumidity > 1 then 1 else if newHumidity < 0 then 0 else newHumidity)

/-- Body of the double loop of `calcTempMap` at cell `(i, j)` with the index
checks of the language; every index is computed in `int` as in the source. -/
def calcTempCellChecked (oldTempMap : List ℚ) (dx dy : Nat) (wdx wdy : ℚ) (c : Climate)
    (i j : Nat) : Option Climate :=
  (upwindIndexChecked c dx dy dy wdx wdy i j).bind fun src =>
  (readIdx oldTempMap src).bind fun v =>
  (writeIdx c.TempMap ((i : Int) * dy + j) v).bind fun t =>
  (stencilTempChecked t ((i : Int) * dy + j) dy).bind fun newTemp =>
  (tempUpdateChecked c ((i : Int) * dy + j) newTemp).bind fun newTemp =>
  (writeIdx t ((i : Int) * dy + j) newTemp).bind fun t =>
  some { c with TempMap := t }

/-- Method `Climate.calcTempMap()` with index checks. -/
def calcTempMapChecked (c : Climate) : Option Climate :=
  let oldTempMap := goCopy (List.replicate (c.dimX * c.dimY) (0 : ℚ)) c.TempMap
  let dx := c.dimX
  let dy := c.dimY
  let wdx := c.WindDirection.1
  let wdy := c.WindDirection.2
  (List.range' 1 (dx - 2)).foldlM
    (fun c i => (List.range' 1 (dy - 2)).foldlM
      (fun c j => calcTempCellChecked oldTempMap dx dy wdx wdy c i j) c) c

/-- Body of the double loop of `calcHumidityMap` at cell `(i, j)` with the
index checks of the language. -/
def calcHumidityCellChecked (oldHumidMap : List ℚ) (dx dy : Nat) (wdx wdy : ℚ) (c : Climate)
    (i j : Nat) : Option Climate :=
  (upwindIndexChecked c dx dy c.dimY wdx wdy i j).bind fun src =>
  (readIdx oldHumidMap src).bind fun v =>
  (writeIdx c.HumidityMap ((i : Int) * dy + j) v).bind fun m =>
  (stencilHumidityChecked m ((i : Int) * dy + j) dy).bind fun newHumidity =>
  (humidityUpdateChecked c ((i : Int) * dy + j) newHumidity).bind fun newHumidity =>
  (writeIdx m ((i : Int) * dy + j) newHumidity).bind fun m =>
  some { c with HumidityMap := m }

/-- Method `Climate.calcHumidityMap()` with index checks. -/
def calcHumidityMapChecked (c : Climate) : Option Climate :=
  let oldHumidMap := goCopy (List.replicate (c.dimX * c.dimY) (0 : ℚ)) c.HumidityMap
  let dx := c.dimX
  let dy := c.dimY
  let wdx := c.WindDirection.1
  let wdy := c.WindDirection.2
  (List.range' 1 (dx - 2)).foldlM
    (fun c i => (List.range' 1 (dy - 2)).foldlM
      (fun c j => calcHumidityCellChecked oldHumidMap dx dy wdx wdy c i j) c) c

/-- Body of the double loop of `calcRainMap` at cell `(i, j)` with the index
checks of the language. -/
def calcRainCellChecked (oldCloudMap oldRainMap : List Bool) (dx dy : Nat) (wdx wdy : ℚ)
    (c : Climate) (i j : Nat) : Option Climate :=
  (upwindIndexChecked c dx dy dy wdx wdy i j).bind fun src =>
  (readIdx c.HumidityMap ((i : Int) * dy + j)).bind fun h =>
  (readIdx c.TempMap ((i : Int) * dy + j)).bind fun t =>
  if h ≥ 35 / 100 + (1 / 2) * t then
    (writeIdx c.RainMap ((i : Int) * dy + j) true).bind fun r =>
    (readIdx oldCloudMap src).bind fun v =>
    (writeIdx c.CloudMap ((i : Int) * dy + j) v).bind fun cl =>
    some { c with RainMap := r, CloudMap := cl }
  else
    (readIdx c.HumidityMap ((i : Int) * dy + j)).bind fun h =>
    (readIdx c.TempMap ((i : Int) * dy + j)).bind fun t =>
    if h ≥ 3 / 10 + (3 / 10) * t then
      (writeIdx c.CloudMap ((i : Int) * dy + j) true).bind fun cl =>
      (readIdx oldRainMap src).bind fun v =>
      (writeIdx c.RainMap ((i : Int) * dy + j) v).bind fun r =>
      some { c with CloudMap := cl, RainMap := r }
    else
      (writeIdx c.CloudMap ((i : Int) * dy + j) false).bind fun cl =>
      (writeIdx c.RainMap ((i : Int) * dy + j) false).bind fun r =>
      some { c with CloudMap := cl, RainMap := r }

/-- Body of the loop `for i := range oldRainMap` of `calcRainMap` with the index
checks of the language. -/
def calcRainClearCellChecked (c : Climate) (i : Nat) : Option Climate :=
  (writeAt c.CloudMap i false).bind fun cl =>
  (writeAt c.RainMap i false).bind fun r =>
  some { c with CloudMap := cl, RainMap := r }

/-- Method `Climate.calcRainMap()` with index checks. -/
def calcRainMapChecked (c : Climate) : Option Climate :=
  let oldCloudMap := goCopy (List.replicate (c.dimX * c.dimY) false) c.CloudMap
  let oldRainMap := goCopy (List.replicate (c.dimX * c.dimY) false) c.RainMap
  ((List.range oldRainMap.length).foldlM calcRainClearCellChecked c).bind fun c1 =>
  let dx := c1.dimX
  let dy := c1.dimY
  let wdx := c1.WindDirection.1
  let wdy := c1.WindDirection.2
  (List.range' 1 (dx - 2)).foldlM
    (fun c i => (List.range' 1 (dy - 2)).foldlM
      (fun c j => calcRainCellChecked oldCloudMap oldRainMap dx dy wdx wdy c i j) c) c1

/-- Method `Climate.runSimulation(day)` with index checks: the four steps in
turn, none of them run after a panic. -/
def runSimulationChecked (c : Climate) (day : Int) : Option Climate :=
  (calcWindChecked c day).bind fun c =>
  (calcTempMapChecked c).bind fun c =>
  (calcHumidityMapChecked c).bind fun c =>
  calcRainMapChecked c

/-! ## Example states -/

/-- A 7 x 7 example state at sea level except for the last cell `(6, 6)`, which
lies in the hills band; it never rains. -/
def hillGrid : Climate :=
  { perlin := fun _ _ => 0
    seed := 0
    dimX := 7
    dimY := 7
    TempMap := List.replicate 49 (7 / 10)
    HumidityMap := List.replicate 49 (2 / 10)
    CloudMap := List.replicate 49 false
    RainMap := List.replicate 49 false
    WindMap := List.replicate 49 5
    WindDirection := (0, 0)
    AvgRainMap := List.replicate 49 0
    AvgWindMap := List.replicate 49 5
    AvgCloudMap := List.replicate 49 0
    AvgTempMap := List.replicate 49 (7 / 10)
    AvgHumidityMap := List.replicate 49 (2 / 10)
    biomeMap := List.replicate 49 0
    heightmap := List.replicate 48 100 ++ [1000] }

/-- A 3 x 3 example state with one cell in each elevation band. -/
def bandGrid : Climate :=
  { perlin := fun _ _ => 0
    seed := 0
    dimX := 3
    dimY := 3
    TempMap := List.replicate 9 (7 / 10)
    HumidityMap := List.replicate 9 (2 / 10)
    CloudMap := List.replicate 9 false
    RainMap := List.replicate 9 false
    WindMap := List.replicate 9 5
    WindDirection := (0, 0)
    AvgRainMap := [0, 0, 0, 0, 3 / 100, 0, 1 / 100, 0, 0]
    AvgWindMap := List.replicate 9 5
    AvgCloudMap := List.replicate 9 0
    AvgTempMap := List.replicate 9 (7 / 10)
    AvgHumidityMap := List.replicate 9 (2 / 10)
    biomeMap := List.replicate 9 0
    heightmap := [100, 202, 207, 215, 400, 1000, 1200, 1400, 1600] }

/-- A 3 x 3 example state with uniform temperature `1/2`, uniform humidity `h`,
uniform wind speed 5 and wind direction `(1/10, 1/10)`, so that the upwind cell of
the interior cell `(1, 1)` is `(2, 2)`, the only cell with cloud and rain. -/
def rainGrid (h : ℚ) : Climate :=
  { perlin := fun _ _ => 1 / 10
    seed := 0
    dimX := 3
    dimY := 3
    TempMap := List.replicate 9 (1 / 2)
    HumidityMap := List.replicate 9 h
    CloudMap := [false, false, false, false, false, false, false, false, true]
    RainMap := [false, false, false, false, false, false, false, false, true]
    WindMap := List.replicate 9 5
    WindDirection := (1 / 10, 1 / 10)
    AvgRainMap := List.replicate 9 0
    AvgWindMap := List.replicate 9 0
    AvgCloudMap := List.replicate 9 0
    AvgTempMap := List.replicate 9 0
    AvgHumidityMap := List.replicate 9 0
    biomeMap := List.replicate 9 0
    heightmap := List.replicate 9 100 }

/-- A 3 x 3 example state with one high cell `(2, 1)` and constant noise `1/10`,
so that the wind offset `int(10 * 0.1)` is one cell along each axis. -/
def windGrid : Climate :=
  NewClimate (fun _ _ _ => 1 / 10) 3 3 0 0 [100, 100, 100, 100, 100, 100, 100, 1100, 100]

/-- A 3 x 3 example state: a high corner, constant noise `1/10`. -/
def grid3 : Climate :=
  NewClimate (fun _ _ _ => 1 / 10) 3 3 0 0 [3700, 100, 100, 100, 300, 100, 100, 100, 100]

/-- A 3 x 3 example state: every cell at elevation 200, noise constantly 0, so
that the wind direction is `(0, 0)`. -/
def flatGrid : Climate :=
  NewClimate (fun _ _ _ => 0) 3 3 0 0 (List.replicate 9 200)

/-- A 4 x 4 example state: level ground at elevation 300, no wind direction,
wind speed 5, temperature 0.7 and humidity 0.2 everywhere, no cloud, no rain. -/
def stepGrid : Climate :=
  { perlin := fun _ _ => 0
    seed := 0
    dimX := 4
    dimY := 4
    TempMap := List.replicate 16 (7 / 10)
    HumidityMap := List.replicate 16 (2 / 10)
    CloudMap := List.replicate 16 false
    RainMap := List.replicate 16 false
    WindMap := List.replicate 16 5
    WindDirection := (0, 0)
    AvgRainMap := List.replicate 16 0
    AvgWindMap := List.replicate 16 0
    AvgCloudMap := List.replicate 16 0
    AvgTempMap := List.replicate 16 0
    AvgHumidityMap := List.replicate 16 0
    biomeMap := List.replicate 16 0
    heightmap := List.replicate 16 300 }

/-- A 4 x 4 example state with temperatures far below 0, humidities far above 1,
a storm of wind speed 1000000 and ground far above and below every band. -/
def wildGrid : Climate :=
  { stepGrid with
    TempMap := List.replicate 16 (-1000)
    HumidityMap := List.replicate 16 5000
    WindMap := List.replicate 16 1000000
    WindDirection := (-3, 7)
    heightmap := [-90000, 5, 700000, 1, 2, 3, 4, -5, 6, 7, 80000, 9, 0, 0, 0, 0] }

/-- A 4 x 4 example state with the wind direction `(0.06, 0)` and the wind
speed 5, so that the product `2 * 5 * 0.06` is 0.6; the cell `(1, 1)` is wet
enough to rain and the cell `(2, 1)` below it is the only cloudy one. -/
def driftGrid : Climate :=
  { stepGrid with
    WindDirection := (6 / 100, 0)
    HumidityMap := [2 / 10, 2 / 10, 2 / 10, 2 / 10, 2 / 10, 9 / 10, 2 / 10, 2 / 10,
                    2 / 10, 2 / 10, 2 / 10, 2 / 10, 2 / 10, 2 / 10, 2 / 10, 2 / 10]
    CloudMap := [false, false, false, false, false, false, false, false,
                 false, true, false, false, false, false, false, false] }

/-- A 4 x 4 example state in which every cell, the boundary included, is
cloudy and raining. -/
def cloudyGrid : Climate :=
  { stepGrid with
    CloudMap := List.replicate 16 true
    RainMap := List.replicate 16 true }

/-- A 9 x 9 example state at sea level except for the last cell `(8, 8)`, which
lies in the hills band; it never rains. -/
def jitterGrid : Climate :=
  { hillGrid with
    dimX := 9
    dimY := 9
    AvgRainMap := List.replicate 81 0
    biomeMap := List.replicate 81 0
    heightmap := List.replicate 80 100 ++ [1000] }

/-! ## Values of `float64` that can overflow -/

/-- A `float64` value with its overflow: a finite value, one of the two
infinities, or NaN.  Finite values are exact rationals: rounding, the two signs
of zero and the gradual underflow are left out. -/
inductive F64 where
  | fin (q : ℚ)
  | pinf
  | ninf
  | nan
deriving DecidableEq

/-- The largest finite value of `float64`, `(2^53 - 1) * 2^971`, about `1.797e308`. -/
def maxFloat64 : ℚ := (2 ^ 53 - 1) * 2 ^ 971

/-- The `float64` an operation returns whose exact result is `q`: beyond the
largest finite value the result is an infinity. -/
def F64.ofRat (q : ℚ) : F64 :=
  if q > maxFloat64 then F64.pinf else if q < -maxFloat64 then F64.ninf else F64.fin q

/-- Unary minus. -/
def F64.neg : F64 → F64
  | F64.fin a => F64.fin (-a)
  | F64.pinf => F64.ninf
  | F64.ninf => F64.pinf
  | F64.nan => F64.nan

/-- Addition: the sum of the two infinities is NaN. -/
def F64.add : F64 → F64 → F64
  | F64.fin a, F64.fin b => F64.ofRat (a + b)
  | F64.fin _, F64.pinf => F64.pinf
  | F64.fin _, F64.ninf => F64.ninf
  | F64.pinf, F64.fin _ => F64.pinf
  | F64.ninf, F64.fin _ => F64.ninf
  | F64.pinf, F64.pinf => F64.pinf
  | F64.ninf, F64.ninf => F64.ninf
  | F64.pinf, F64.ninf => F64.nan
  | F64.ninf, F64.pinf => F64.nan
  | F64.nan, _ => F64.nan
  | _, F64.nan => F64.nan

/-- Subtraction. -/
def F64.sub (a b : F64) : F64 := F64.add a (F64.neg b)

/-- Multiplication: zero times an infinity is NaN. -/
def F64.mul : F64 → F64 → F64
  | F64.fin a, F64.fin b => F64.ofRat (a * b)
  | F64.fin a, F64.pinf => if a > 0 then F64.pinf else if a < 0 then F64.ninf else F64.nan
  | F64.fin a, F64.ninf => if a > 0 then F64.ninf else if a < 0 then F64.pinf else F64.nan
  | F64.pinf, F64.fin b => if b > 0 then F64.pinf else if b < 0 then F64.ninf else F64.nan
  | F64.ninf, F64.fin b => if b > 0 then F64.ninf else if b < 0 then F64.pinf else F64.nan
  | F64.pinf, F64.pinf => F64.pinf
  | F64.ninf, F64.ninf => F64.pinf
  | F64.pinf, F64.ninf => F64.ninf
  | F64.ninf, F64.pinf => F64.ninf
  | F64.nan, _ => F64.nan
  | _, F64.nan => F64.nan

/-- Division; the source divides by the positive constants 5, 9 and 2000 only. -/
def F64.div : F64 → F64 → F64
  | F64.fin a, F64.fin b =>
    if b = 0 then (if a > 0 then F64.pinf else if a < 0 then F64.ninf else F64.nan)
    else F64.ofRat (a / b)
  | F64.fin _, F64.pinf => F64.fin 0
  | F64.fin _, F64.ninf => F64.fin 0
  | F64.pinf, F64.fin b => if b ≥ 0 then F64.pinf else F64.ninf
  | F64.ninf, F64.fin b => if b ≥ 0 then F64.ninf else F64.pinf
  | F64.pinf, F64.pinf => F64.nan
  | F64.ninf, F64.ninf => F64.nan
  | F64.pinf, F64.ninf => F64.nan
  | F64.ninf, F64.pinf => F64.nan
  | F64.nan, _ => F64.nan
  | _, F64.nan => F64.nan

/-- Comparison `a < b`: false as soon as one side is NaN. -/
def F64.lt : F64 → F64 → Bool
  | F64.fin a, F64.fin b => decide (a < b)
  | F64.fin _, F64.pinf => true
  | F64.ninf, F64.fin _ => true
  | F64.ninf, F64.pinf => true
  | _, _ => false

/-- Comparison `a <= b`: false as soon as one side is NaN. -/
def F64.le : F64 → F64 → Bool
  | F64.fin a, F64.fin b => decide (a ≤ b)
  | F64.fin _, F64.pinf => true
  | F64.ninf, F64.fin _ => true
  | F64.ninf, F64.pinf => true
  | F64.pinf, F64.pinf => true
  | F64.ninf, F64.ninf => true
  | _, _ => false

instance : Add F64 := ⟨F64.add⟩

instance : Sub F64 := ⟨F64.sub⟩

instance : Mul F64 := ⟨F64.mul⟩

instance : Div F64 := ⟨F64.div⟩

instance : Neg F64 := ⟨F64.neg⟩

/-- The fields of the struct `Climate` that `calcTempMap` and `calcHumidityMap`
read or write, holding `float64` values that can overflow. -/
structure Climate64 where
  dimX : Nat
  dimY : Nat
  TempMap : List F64
  HumidityMap : List F64
  CloudMap : List Bool
  RainMap : List Bool
  WindMap : List F64
  WindDirection : F64 × F64
  heightmap : List F64

/-- The upwind coordinate along one axis from the float offset:
`k := i + int(off); if k < 0 || k >= d { k = i }`.  For a finite offset it is
`upwind` at the truncated offset.  The conversion `int(off)` of an infinity or
of NaN is left to the implementation by the language; on amd64 it is the least
`int`, on arm64 the least or the largest `int` or 0, and in each case the guard
leaves `k = i`. -/
def upwind64 (i : Nat) (off : F64) (d : Nat) : Nat :=
  match off with
  | F64.fin q => upwind i (truncQ q) d
  | _ => i

/-- The part of the body of `calcTempMap` after the averaging, over `float64`
values that can overflow: the new temperature of cell `idx` from the mean
`newTemp` of its stencil, with the final clamp. -/
def tempUpdate64 (c : Climate64) (idx : Nat) (newTemp : F64) : F64 :=
  let addCool := F64.fin (1 / 2) * (c.WindMap.getD idx (F64.fin 0) - F64.fin 5)
  let addSun : F64 :=
    if !(c.CloudMap.getD idx false) then
      (F64.fin 1 - c.heightmap.getD idx (F64.fin 0) / F64.fin 2000) * F64.fin (8 / 1000)
    else F64.fin 0
  let addRain : F64 :=
    if c.RainMap.getD idx false && F64.lt (F64.fin 0) newTemp then F64.fin (-(1 / 100))
    else F64.fin 0
  let newTemp := newTemp + F64.fin (8 / 10) * (F64.fin 1 - newTemp) * addSun
    + F64.fin (6 / 10) * newTemp * (addRain + addCool)
  if F64.lt (F64.fin 1) newTemp then F64.fin 1
  else if F64.lt newTemp (F64.fin 0) then F64.fin 0
  else newTemp

/-- The part of the body of `calcHumidityMap` after the averaging, over
`float64` values that can overflow: the new humidity of cell `idx` from the mean
`newHumidity` of its stencil, with the final clamp. -/
def humidityUpdate64 (c : Climate64) (idx : Nat) (newHumidity : F64) : F64 :=
  let addHumidity : F64 :=
    if !(c.CloudMap.getD idx false) then
      (if F64.le (c.heightmap.getD idx (F64.fin 0)) (F64.fin 200) then
        F64.fin (5 / 100) * c.TempMap.getD idx (F64.fin 0)
      else F64.fin (1 / 100))
    else F64.fin 0
  let addRain : F64 :=
    if c.RainMap.getD idx false then -newHumidity * F64.fin (8 / 10) else F64.fin 0
  let newHumidity := newHumidity + newHumidity * addRain + (F64.fin 1 - newHumidity) * addHumidity
  if F64.lt (F64.fin 1) newHumidity then F64.fin 1
  else if F64.lt newHumidity (F64.fin 0) then F64.fin 0
  else newHumidity

/-- Body of the double loop of `calcTempMap` at cell `(i, j)`, over `float64`
values that can overflow. -/
def calcTempCell64 (oldTempMap : List F64) (dx dy : Nat) (wdx wdy : F64) (c : Climate64)
    (i j : Nat) : Climate64 :=
  let idx := i * dy + j
  let k := upwind64 i (F64.fin 2 * c.WindMap.getD idx (F64.fin 0) * wdx) dx
  let l := upwind64 j (F64.fin 2 * c.WindMap.getD idx (F64.fin 0) * wdy) dy
  let t := c.TempMap.set idx (oldTempMap.getD (k * dy + l) (F64.fin 0))
  let newTemp := (t.getD (idx - dy - 1) (F64.fin 0) + t.getD (idx + dy - 1) (F64.fin 0)
    + t.getD (idx + dy + 1) (F64.fin 0) + t.getD (idx - dy + 1) (F64.fin 0)
    + t.getD idx (F64.fin 0)) / F64.fin 5
  { c with TempMap := t.set idx (tempUpdate64 c idx newTemp) }

/-- Method `Climate.calcTempMap()` over `float64` values that can overflow. -/
def calcTempMap64 (c : Climate64) : Climate64 :=
  let oldTempMap := goCopy (List.replicate (c.dimX * c.dimY) (F64.fin 0)) c.TempMap
  let dx := c.dimX
  let dy := c.dimY
  let wdx := c.WindDirection.1
  let wdy := c.WindDirection.2
  (List.range' 1 (dx - 2)).foldl
    (fun c i => (List.range' 1 (dy - 2)).foldl
      (fun c j => calcTempCell64 oldTempMap dx dy wdx wdy c i j) c) c

/-- Body of the double loop of `calcHumidityMap` at cell `(i, j)`, over
`float64` values that can overflow. -/
def calcHumidityCell64 (oldHumidMap : List F64) (dx dy : Nat) (wdx wdy : F64) (c : Climate64)
    (i j : Nat) : Climate64 :=
  let idx := i * dy + j
  let k := upwind64 i (F64.fin 2 * c.WindMap.getD idx (F64.fin 0) * wdx) dx
  let l := upwind64 j (F64.fin 2 * c.WindMap.getD idx (F64.fin 0) * wdy) c.dimY
  let m := c.HumidityMap.set idx (oldHumidMap.getD (k * dy + l) (F64.fin 0))
  let newHumidity := (m.getD (idx - dy - 1) (F64.fin 0) + m.getD (idx + dy - 1) (F64.fin 0)
    + m.getD (idx + dy + 1) (F64.fin 0) + m.getD (idx - dy + 1) (F64.fin 0)
    + m.getD idx (F64.fin 0) + m.getD (idx + 1) (F64.fin 0) + m.getD (idx - 1) (F64.fin 0)
    + m.getD (idx + dy) (F64.fin 0) + m.getD (idx - dy) (F64.fin 0)) / F64.fin 9
  { c with HumidityMap := m.set idx (humidityUpdate64 c idx newHumidity) }

/-- Method `Climate.calcHumidityMap()` over `float64` values that can overflow. -/
def calcHumidityMap64 (c : Climate64) : Climate64 :=
  let oldHumidMap := goCopy (List.replicate (c.dimX * c.dimY) (F64.fin 0)) c.HumidityMap
  let dx := c.dimX
  let dy := c.dimY
  let wdx := c.WindDirection.1
  let wdy := c.WindDirection.2
  (List.range' 1 (dx - 2)).foldl
    (fun c i => (List.range' 1 (dy - 2)).foldl
      (fun c j => calcHumidityCell64 oldHumidMap dx dy wdx wdy c i j) c) c

/-- A 3 x 3 state of still air whose temperatures and wind speeds are `1e200`
and whose elevations are `-1e200`: finite values of `float64`. -/
def hugeGrid : Climate64 :=
  { dimX := 3
    dimY := 3
    TempMap := List.replicate 9 (F64.fin (10 ^ 200))
    HumidityMap := List.replicate 9 (F64.fin (-(10 ^ 200)))
    CloudMap := List.replicate 9 false
    RainMap := List.replicate 9 true
    WindMap := List.replicate 9 (F64.fin (10 ^ 200))
    WindDirection := (F64.fin 0, F64.fin 0)
    heightmap := List.replicate 9 (F64.fin (-(10 ^ 200))) }

/-- A finite value of the unit interval `[0, 1]`. -/
def F64.InUnit : F64 → Prop
  | F64.fin q => 0 ≤ q ∧ q ≤ 1
  | _ => False

/-- A finite value of magnitude at most `B`. -/
def F64.Within (B : ℚ) : F64 → Prop
  | F64.fin q => |q| ≤ B
  | _ => False

/-- What the clamp leaves: a finite value of `[0, 1]`, or NaN. -/
def F64.Clamped (v : F64) : Prop := v = F64.nan ∨ v.InUnit

/-- Every element of the slice is finite with magnitude at most `1e100`. -/
def AllWithin (l : List F64) : Prop := ∀ v ∈ l, F64.Within (10 ^ 100) v

/-- A 4 x 4 state with finite values of large magnitude and either sign, all of
them far below `1e100`. -/
def mildGrid : Climate64 :=
  { dimX := 4
    dimY := 4
    TempMap := List.replicate 16 (F64.fin (-1000))
    HumidityMap := List.replicate 16 (F64.fin 5000)
    CloudMap := List.replicate 16 false
    RainMap := List.replicate 16 true
    WindMap := List.replicate 16 (F64.fin 1000000)
    WindDirection := (F64.fin (-3), F64.fin 7)
    heightmap := [-90000, 5, 700000, 1, 2, 3, 4, -5, 6, 7, 80000, 9, 0, 0, 0, 0].map F64.fin }

instance (v : F64) : Decidable v.InUnit := by
  cases v <;> unfold F64.InUnit <;> infer_instance

instance (B : ℚ) (v : F64) : Decidable (F64.Within B v) := by
  cases v <;> unfold F64.Within <;> infer_instance

instance (l : List F64) : Decidable (AllWithin l) := by
  unfold AllWithin
  infer_instance

/-! ## Predicates used in the proofs -/

/-- A quantity that does not depend on the fields the simulation writes. -/
structure Static {β : Type} (g : Climate → β) : Prop where
  wind : ∀ (s : Climate) (t : List ℚ), g { s with WindMap := t } = g s
  windDir : ∀ (s : Climate) (t : ℚ × ℚ), g { s with WindDirection := t } = g s
  temp : ∀ (s : Climate) (t : List ℚ), g { s with TempMap := t } = g s
  humid : ∀ (s : Climate) (t : List ℚ), g { s with HumidityMap := t } = g s
  cloudRain : ∀ (s : Climate) (t u : List Bool), g { s with CloudMap := t, RainMap := u } = g s

/-- A value of the unit interval `[0, 1]`. -/
def InUnit (x : ℚ) : Prop := 0 ≤ x ∧ x ≤ 1

/-- All five state fields have length `L`. -/
def Sized (L : Nat) (s : Climate) : Prop :=
  s.TempMap.length = L ∧ s.HumidityMap.length = L ∧ s.CloudMap.length = L
    ∧ s.RainMap.length = L ∧ s.WindMap.length = L

/-- The receiver of `calcAverage` keeps its heightmap and the lengths of its
average fields. -/
def SameShape (c s : Climate) : Prop :=
  s.heightmap = c.heightmap ∧ s.AvgWindMap.length = c.AvgWindMap.length
    ∧ s.AvgRainMap.length = c.AvgRainMap.length ∧ s.AvgCloudMap.length = c.AvgCloudMap.length
    ∧ s.AvgTempMap.length = c.AvgTempMap.length
    ∧ s.AvgHumidityMap.length = c.AvgHumidityMap.length

/-- What the double loop of `calcRainMap` reads but does not write, and the
lengths it keeps. -/
def RainFrame (c s : Climate) : Prop :=
  s.HumidityMap = c.HumidityMap ∧ s.TempMap = c.TempMap ∧ s.WindMap = c.WindMap
    ∧ s.RainMap.length = c.RainMap.length ∧ s.CloudMap.length = c.CloudMap.length

/-- What `genBiome` reads but does not write, and the length it keeps. -/
def BiomeFrame (c s : Climate) : Prop :=
  s.heightmap = c.heightmap ∧ s.AvgRainMap = c.AvgRainMap ∧ s.dimY = c.dimY
    ∧ s.biomeMap.length = c.biomeMap.length

/-- The code one iteration of `genBiome` writes, as one expression of the
elevation `d`, the average rain `avg` and the outcome `rocky` of the jitter
test: the branches of `genBiomeCell` in their order. -/
def biomeCode (d avg : ℚ) (rocky : Bool) : Int :=
  if d ≤ 200 then 0
  else if d ≤ 204 then 1
  else if d ≤ 210 then 2
  else if d ≤ 220 then 3
  else if d ≤ 600 then (if avg ≥ 2 / 100 then 4 else 5)
  else if d ≤ 1300 then (if rocky then 6 else if d ≤ 1100 then 7 else 8)
  else if d ≤ 1500 then 9
  else 10

/-- The simulated days `0, ..., k-1`. -/
def firstDays (k : Nat) : List Int := (List.range k).map (fun (i : Nat) => (i : Int))

/-- A quantity that does not depend on the average fields. -/
def AvgStatic {β : Type} (g : Climate → β) : Prop :=
  ∀ (s : Climate) (a b c d e : List ℚ),
    g { s with
        AvgRainMap := a
        AvgWindMap := b
        AvgCloudMap := c
        AvgTempMap := d
        AvgHumidityMap := e } = g s

/-- The average fields have the length of the heightmap. -/
def AvgSized (c : Climate) : Prop :=
  c.AvgRainMap.length = c.heightmap.length ∧ c.AvgWindMap.length = c.heightmap.length
    ∧ c.AvgCloudMap.length = c.heightmap.length ∧ c.AvgTempMap.length = c.heightmap.length
    ∧ c.AvgHumidityMap.length = c.heightmap.length

/-- The flat scenario on a `dx` by `dy` grid: every cell at elevation 200 with
wind speed 5, no cloud and no rain, temperatures in `[0.7, 1]` and humidities
in `[0.2, 1]`. -/
structure Flat (dx dy : Nat) (s : Climate) : Prop where
  dimX : s.dimX = dx
  dimY : s.dimY = dy
  sized : Sized (dx * dy) s
  height : ∀ n, n < dx * dy → s.heightmap.getD n 0 = 200
  wind : ∀ n, n < dx * dy → s.WindMap.getD n 0 = 5
  cloud : ∀ n, s.CloudMap.getD n false = false
  rain : ∀ n, s.RainMap.getD n false = false
  temp : ∀ n, n < dx * dy → 7 / 10 ≤ s.TempMap.getD n 0 ∧ s.TempMap.getD n 0 ≤ 1
  humid : ∀ n, n < dx * dy → 2 / 10 ≤ s.HumidityMap.getD n 0 ∧ s.HumidityMap.getD n 0 ≤ 1

/-- The state keeps its heightmap and the lengths of the fields `init` writes. -/
def InitShape (L : Nat) (hm : List ℚ) (s : Climate) : Prop :=
  s.heightmap = hm ∧ Sized L s

/-- The fields a temperature or humidity pass reads but does not write. -/
def SameInputs (c s : Climate) : Prop :=
  s.dimX = c.dimX ∧ s.dimY = c.dimY ∧ s.WindMap = c.WindMap ∧ s.CloudMap = c.CloudMap
    ∧ s.RainMap = c.RainMap ∧ s.heightmap = c.heightmap

/-- The fields have length `dx * dy`, the heightmap too, and `dimY` is `dy`. -/
def StepShape (dx dy : Nat) (s : Climate) : Prop :=
  Sized (dx * dy) s ∧ s.heightmap.length = dx * dy ∧ s.dimY = dy

/-! ## Generic facts about loops and slice updates -/

/-- A property kept by every iteration of a loop holds after the loop. -/
theorem foldl_keep {σ α : Type} (f : σ → α → σ) (P : σ → Prop) (l : List α)
    (h : ∀ s a, a ∈ l → P s → P (f s a)) (s : σ) (hs : P s) : P (l.foldl f s) := by
  induction l generalizing s with
  | nil => exact hs
  | cons a l ih =>
    simp only [List.foldl_cons]
    exact ih (fun s b hb => h s b (List.mem_cons_of_mem a hb)) _
      (h s a (List.mem_cons_self a l) hs)

/-- A property that some iteration establishes and every iteration keeps holds
after the loop. -/
theorem foldl_reach {σ α : Type} (f : σ → α → σ) (Inv Good : σ → Prop) (tgt : α → Prop)
    (l : List α)
    (hinv : ∀ s a, a ∈ l → Inv s → Inv (f s a))
    (hkeep : ∀ s a, a ∈ l → Inv s → Good s → Good (f s a))
    (hset : ∀ s a, a ∈ l → Inv s → tgt a → Good (f s a))
    (s : σ) (hs : Inv s) (h : (∃ a ∈ l, tgt a) ∨ Good s) : Good (l.foldl f s) := by
  induction l generalizing s with
  | nil =>
    rcases h with ⟨a, ha, _⟩ | h
    · cases ha
    · exact h
  | cons a l ih =>
    simp only [List.foldl_cons]
    have hmem := List.mem_cons_self a l
    apply ih (fun s b hb => hinv s b (List.mem_cons_of_mem a hb))
      (fun s b hb => hkeep s b (List.mem_cons_of_mem a hb))
      (fun s b hb => hset s b (List.mem_cons_of_mem a hb)) _ (hinv s a hmem hs)
    rcases h with ⟨b, hb, hb2⟩ | h
    · rcases List.mem_cons.1 hb with rfl | hb1
      · exact Or.inr (hset s b hmem hs hb2)
      · exact Or.inl ⟨b, hb1, hb2⟩
    · exact Or.inr (hkeep s a hmem hs h)

theorem getD_set {α : Type} (l : List α) (m n : Nat) (a d : α) :
    (l.set m a).getD n d = if m = n ∧ m < l.length then a else l.getD n d := by
  simp only [List.getD_eq_getElem?_getD, List.getElem?_set]
  by_cases h : m = n
  · subst h
    by_cases h2 : m < l.length
    · simp [h2]
    · simp [h2, List.getElem?_eq_none (Nat.le_of_not_lt h2)]
  · simp [h]

theorem getD_set_ne {α : Type} (l : List α) (m n : Nat) (a d : α) (h : m ≠ n) :
    (l.set m a).getD n d = l.getD n d := by
  rw [getD_set]; simp [h]

theorem getD_set_self {α : Type} (l : List α) (m : Nat) (a d : α) (h : m < l.length) :
    (l.set m a).getD m d = a := by
  rw [getD_set]; simp [h]

theorem getD_of_length_le {α : Type} (l : List α) (n : Nat) (d : α) (h : l.length ≤ n) :
    l.getD n d = d := by
  simp [List.getD_eq_getElem?_getD, List.getElem?_eq_none h]

/-- Row-major indices of two cells of the grid coincide only for the same cell. -/
theorem idx_inj {dy i j i2 j2 : Nat} (hj : j < dy) (hj2 : j2 < dy)
    (h : i * dy + j = i2 * dy + j2) : i = i2 ∧ j = j2 := by
  have h1 : (i * dy + j) / dy = (i2 * dy + j2) / dy := by rw [h]
  have h2 : (i * dy + j) % dy = (i2 * dy + j2) % dy := by rw [h]
  have hpos : 0 < dy := Nat.lt_of_le_of_lt (Nat.zero_le _) hj
  rw [Nat.mul_comm i, Nat.mul_comm i2, Nat.mul_add_div hpos, Nat.mul_add_div hpos,
    Nat.div_eq_of_lt hj, Nat.div_eq_of_lt hj2] at h1
  rw [Nat.mul_comm i, Nat.mul_comm i2, Nat.mul_add_mod, Nat.mul_add_mod,
    Nat.mod_eq_of_lt hj, Nat.mod_eq_of_lt hj2] at h2
  exact ⟨by simpa using h1, h2⟩

theorem idx_lt {dx dy i j : Nat} (hi : i < dx) (hj : j < dy) : i * dy + j < dx * dy := by
  calc i * dy + j < i * dy + dy := Nat.add_lt_add_left hj _
    _ = (i + 1) * dy := by ring
    _ ≤ dx * dy := Nat.mul_le_mul_right _ hi

theorem mem_interior {d i : Nat} : i ∈ List.range' 1 (d - 2) ↔ 0 < i ∧ i + 1 < d := by
  rw [List.mem_range'_1]; omega

/-- The clamp at the end of the temperature and humidity updates. -/
theorem clamp_range (x : ℚ) :
    0 ≤ (if x > 1 then 1 else if x < 0 then 0 else x)
      ∧ (if x > 1 then 1 else if x < 0 then 0 else x) ≤ 1 := by
  split_ifs with h1 h2
  · exact ⟨zero_le_one, le_refl _⟩
  · exact ⟨le_refl _, zero_le_one⟩
  · exact ⟨not_lt.1 h2, not_lt.1 h1⟩

/-! ## What each update leaves alone -/

theorem calcWind_frame {β : Type} (g : Climate → β)
    (hw : ∀ (s : Climate) (t : List ℚ), g { s with WindMap := t } = g s)
    (hd : ∀ (s : Climate) (t : ℚ × ℚ), g { s with WindDirection := t } = g s)
    (c : Climate) (day : Int) : g (calcWind c day) = g c := by
  unfold calcWind
  refine foldl_keep _ (fun s => g s = g c) _ ?_ _ (hd c _)
  intro s i _ hs
  refine foldl_keep _ (fun s => g s = g c) _ ?_ s hs
  intro s j _ hs
  exact (hw s _).trans hs

theorem calcTempMap_frame {β : Type} (g : Climate → β)
    (hg : ∀ (s : Climate) (t : List ℚ), g { s with TempMap := t } = g s) (c : Climate) :
    g (calcTempMap c) = g c := by
  unfold calcTempMap
  refine foldl_keep _ (fun s => g s = g c) _ ?_ c rfl
  intro s i _ hs
  refine foldl_keep _ (fun s => g s = g c) _ ?_ s hs
  intro s j _ hs
  exact (hg s _).trans hs

theorem calcHumidityMap_frame {β : Type} (g : Climate → β)
    (hg : ∀ (s : Climate) (t : List ℚ), g { s with HumidityMap := t } = g s) (c : Climate) :
    g (calcHumidityMap c) = g c := by
  unfold calcHumidityMap
  refine foldl_keep _ (fun s => g s = g c) _ ?_ c rfl
  intro s i _ hs
  refine foldl_keep _ (fun s => g s = g c) _ ?_ s hs
  intro s j _ hs
  exact (hg s _).trans hs

theorem calcRainCell_frame {β : Type} (g : Climate → β)
    (hg : ∀ (s : Climate) (t u : List Bool), g { s with CloudMap := t, RainMap := u } = g s)
    (oc orn : List Bool) (dx dy : Nat) (wdx wdy : ℚ) (c : Climate) (i j : Nat) :
    g (calcRainCell oc orn dx dy wdx wdy c i j) = g c := by
  unfold calcRainCell
  dsimp only
  split_ifs
  · exact hg c _ _
  · exact hg c _ _
  · exact hg c _ _

theorem calcRainClear_frame {β : Type} (g : Climate → β)
    (hg : ∀ (s : Climate) (t u : List Bool), g { s with CloudMap := t, RainMap := u } = g s)
    (c : Climate) (l : List Nat) : g (l.foldl calcRainClearCell c) = g c := by
  refine foldl_keep _ (fun s => g s = g c) _ ?_ c rfl
  intro s i _ hs
  exact (hg s _ _).trans hs

theorem calcRainMap_frame {β : Type} (g : Climate → β)
    (hg : ∀ (s : Climate) (t u : List Bool), g { s with CloudMap := t, RainMap := u } = g s)
    (c : Climate) : g (calcRainMap c) = g c := by
  unfold calcRainMap
  refine foldl_keep _ (fun s => g s = g c) _ ?_ _ (calcRainClear_frame g hg c _)
  intro s i _ hs
  refine foldl_keep _ (fun s => g s = g c) _ ?_ s hs
  intro s j _ hs
  exact (calcRainCell_frame g hg _ _ _ _ _ _ s i j).trans hs

theorem init_frame {β : Type} (g : Climate → β)
    (hw : ∀ (s : Climate) (t : List ℚ), g { s with WindMap := t } = g s)
    (hd : ∀ (s : Climate) (t : ℚ × ℚ), g { s with WindDirection := t } = g s)
    (ht : ∀ (s : Climate) (t : List ℚ), g { s with TempMap := t } = g s)
    (hh : ∀ (s : Climate) (t : List ℚ), g { s with HumidityMap := t } = g s)
    (hcr : ∀ (s : Climate) (t u : List Bool), g { s with CloudMap := t, RainMap := u } = g s)
    (c : Climate) (day : Int) : g (init c day) = g c := by
  unfold init
  refine foldl_keep _ (fun s => g s = g c) _ ?_ _ ?_
  · intro s i _ hs
    exact (hcr s _ s.RainMap).trans hs
  refine foldl_keep _ (fun s => g s = g c) _ ?_ _ ?_
  · intro s i _ hs
    exact (hcr s s.CloudMap _).trans hs
  refine foldl_keep _ (fun s => g s = g c) _ ?_ _ ?_
  · intro s i _ hs
    unfold initHumidityCell
    split_ifs
    · exact (hh s _).trans hs
    · exact (hh s _).trans hs
  refine foldl_keep _ (fun s => g s = g c) _ ?_ _ ?_
  · intro s i _ hs
    unfold initTempCell
    split_ifs
    · exact (ht s _).trans hs
    · exact (ht s _).trans hs
  exact calcWind_frame g hw hd c day

theorem static_dimX : Static (fun s => s.dimX) :=
  ⟨fun _ _ => rfl, fun _ _ => rfl, fun _ _ => rfl, fun _ _ => rfl, fun _ _ _ => rfl⟩

theorem static_dimY : Static (fun s => s.dimY) :=
  ⟨fun _ _ => rfl, fun _ _ => rfl, fun _ _ => rfl, fun _ _ => rfl, fun _ _ _ => rfl⟩

theorem static_heightmap : Static (fun s => s.heightmap) :=
  ⟨fun _ _ => rfl, fun _ _ => rfl, fun _ _ => rfl, fun _ _ => rfl, fun _ _ _ => rfl⟩

theorem static_perlin : Static (fun s => s.perlin) :=
  ⟨fun _ _ => rfl, fun _ _ => rfl, fun _ _ => rfl, fun _ _ => rfl, fun _ _ _ => rfl⟩

theorem static_seed : Static (fun s => s.seed) :=
  ⟨fun _ _ => rfl, fun _ _ => rfl, fun _ _ => rfl, fun _ _ => rfl, fun _ _ _ => rfl⟩

theorem runSimulation_frame {β : Type} (g : Climate → β) (hg : Static g) (c : Climate)
    (day : Int) : g (runSimulation c day) = g c := by
  unfold runSimulation
  rw [calcRainMap_frame g hg.cloudRain, calcHumidityMap_frame g hg.humid,
    calcTempMap_frame g hg.temp, calcWind_frame g hg.wind hg.windDir]

theorem runDays_frame {β : Type} (g : Climate → β) (hg : Static g) (c : Climate)
    (days : List Int) : g (runDays c days) = g c := by
  unfold runDays
  refine foldl_keep _ (fun s => g s = g c) _ ?_ c rfl
  intro s d _ hs
  exact (runSimulation_frame g hg s d).trans hs

theorem NewClimate_frame {β : Type} (g : Climate → β) (hg : Static g)
    (noise : Int → ℚ → ℚ → ℚ) (dimX dimY : Nat) (day seed : Int) (heightmap : List ℚ) :
    g (NewClimate noise dimX dimY day seed heightmap)
      = g { perlin := noise seed, seed := seed, dimX := dimX, dimY := dimY,
            TempMap := List.replicate (dimX * dimY) 0,
            HumidityMap := List.replicate (dimX * dimY) 0,
            CloudMap := List.replicate (dimX * dimY) false,
            RainMap := List.replicate (dimX * dimY) false,
            WindMap := List.replicate (dimX * dimY) 0,
            WindDirection := (0, 0),
            AvgRainMap := List.replicate (dimX * dimY) 0,
            AvgWindMap := List.replicate (dimX * dimY) 0,
            AvgCloudMap := List.replicate (dimX * dimY) 0,
            AvgTempMap := List.replicate (dimX * dimY) 0,
            AvgHumidityMap := List.replicate (dimX * dimY) 0,
            biomeMap := List.replicate (dimX * dimY) 0,
            heightmap := heightmap } := by
  unfold NewClimate
  exact init_frame g hg.wind hg.windDir hg.temp hg.humid hg.cloudRain _ day

/-! ## The clamp on temperature and humidity -/

theorem inUnit_zero : InUnit 0 := ⟨le_refl _, zero_le_one⟩

theorem getD_set_inUnit (t : List ℚ) (m n : Nat) (x : ℚ) (hx : InUnit x)
    (hn : InUnit (t.getD n 0) ∨ m = n) : InUnit ((t.set m x).getD n 0) := by
  rw [getD_set]
  split_ifs with h
  · exact hx
  · rcases hn with hn | hn
    · exact hn
    · subst hn
      have : t.length ≤ m := by
        by_contra hlt
        exact h ⟨rfl, Nat.lt_of_not_le hlt⟩
      rw [getD_of_length_le _ _ _ this]
      exact inUnit_zero

theorem calcTempCell_inUnit (old : List ℚ) (dx dy : Nat) (wdx wdy : ℚ) (c : Climate)
    (i j n : Nat) (h : InUnit (c.TempMap.getD n 0) ∨ i * dy + j = n) :
    InUnit ((calcTempCell old dx dy wdx wdy c i j).TempMap.getD n 0) := by
  unfold calcTempCell
  dsimp only
  apply getD_set_inUnit _ _ _ _ (clamp_range _)
  by_cases hn : i * dy + j = n
  · exact Or.inr hn
  · rcases h with h | h
    · left
      rw [getD_set_ne _ _ _ _ _ hn]
      exact h
    · exact absurd h hn

theorem calcHumidityCell_inUnit (old : List ℚ) (dx dy : Nat) (wdx wdy : ℚ) (c : Climate)
    (i j n : Nat) (h : InUnit (c.HumidityMap.getD n 0) ∨ i * dy + j = n) :
    InUnit ((calcHumidityCell old dx dy wdx wdy c i j).HumidityMap.getD n 0) := by
  unfold calcHumidityCell
  dsimp only
  apply getD_set_inUnit _ _ _ _ (clamp_range _)
  by_cases hn : i * dy + j = n
  · exact Or.inr hn
  · rcases h with h | h
    · left
      rw [getD_set_ne _ _ _ _ _ hn]
      exact h
    · exact absurd h hn

/-- After one row of `calcTempMap` a cell is in `[0, 1]` if it was before or
if it is an interior cell of that row. -/
theorem calcTempRow_inUnit (old : List ℚ) (dx dy : Nat) (wdx wdy : ℚ) (s : Climate)
    (i n : Nat)
    (h : InUnit (s.TempMap.getD n 0) ∨ ∃ j, 0 < j ∧ j + 1 < dy ∧ i * dy + j = n) :
    InUnit (((List.range' 1 (dy - 2)).foldl
      (fun c j => calcTempCell old dx dy wdx wdy c i j) s).TempMap.getD n 0) := by
  refine foldl_reach (fun c j => calcTempCell old dx dy wdx wdy c i j) (fun _ => True)
    (fun s => InUnit (s.TempMap.getD n 0)) (fun j => i * dy + j = n) _
    (fun _ _ _ _ => trivial) ?_ ?_ s trivial ?_
  · intro s j _ _ hs
    exact calcTempCell_inUnit _ _ _ _ _ s i j n (Or.inl hs)
  · intro s j _ _ hj
    exact calcTempCell_inUnit _ _ _ _ _ s i j n (Or.inr hj)
  · rcases h with h | ⟨j, hj0, hj1, hn⟩
    · exact Or.inr h
    · exact Or.inl ⟨j, mem_interior.2 ⟨hj0, hj1⟩, hn⟩

/-- After `calcTempMap` a cell is in `[0, 1]` if it was before or if it is an
interior cell. -/
theorem calcTempMap_inUnit (c : Climate) (n : Nat)
    (h : InUnit (c.TempMap.getD n 0)
      ∨ ∃ i j, 0 < i ∧ i + 1 < c.dimX ∧ 0 < j ∧ j + 1 < c.dimY ∧ i * c.dimY + j = n) :
    InUnit ((calcTempMap c).TempMap.getD n 0) := by
  unfold calcTempMap
  dsimp only
  refine foldl_reach (fun c1 i => (List.range' 1 (c.dimY - 2)).foldl
      (fun c2 j => calcTempCell (goCopy (List.replicate (c.dimX * c.dimY) (0 : ℚ)) c.TempMap)
        c.dimX c.dimY c.WindDirection.1 c.WindDirection.2 c2 i j) c1)
    (fun _ => True) (fun s => InUnit (s.TempMap.getD n 0))
    (fun i => ∃ j, 0 < j ∧ j + 1 < c.dimY ∧ i * c.dimY + j = n) _
    (fun _ _ _ _ => trivial) ?_ ?_ c trivial ?_
  · intro s i _ _ hs
    exact calcTempRow_inUnit _ _ _ _ _ s i n (Or.inl hs)
  · intro s i _ _ hi
    exact calcTempRow_inUnit _ _ _ _ _ s i n (Or.inr hi)
  · rcases h with h | ⟨i, j, hi0, hi1, hj0, hj1, hn⟩
    · exact Or.inr h
    · exact Or.inl ⟨i, mem_interior.2 ⟨hi0, hi1⟩, j, hj0, hj1, hn⟩

/-- After one row of `calcHumidityMap` a cell is in `[0, 1]` if it was before or
if it is an interior cell of that row. -/
theorem calcHumidityRow_inUnit (old : List ℚ) (dx dy : Nat) (wdx wdy : ℚ) (s : Climate)
    (i n : Nat)
    (h : InUnit (s.HumidityMap.getD n 0) ∨ ∃ j, 0 < j ∧ j + 1 < dy ∧ i * dy + j = n) :
    InUnit (((List.range' 1 (dy - 2)).foldl
      (fun c j => calcHumidityCell old dx dy wdx wdy c i j) s).HumidityMap.getD n 0) := by
  refine foldl_reach (fun c j => calcHumidityCell old dx dy wdx wdy c i j) (fun _ => True)
    (fun s => InUnit (s.HumidityMap.getD n 0)) (fun j => i * dy + j = n) _
    (fun _ _ _ _ => trivial) ?_ ?_ s trivial ?_
  · intro s j _ _ hs
    exact calcHumidityCell_inUnit _ _ _ _ _ s i j n (Or.inl hs)
  · intro s j _ _ hj
    exact calcHumidityCell_inUnit _ _ _ _ _ s i j n (Or.inr hj)
  · rcases h with h | ⟨j, hj0, hj1, hn⟩
    · exact Or.inr h
    · exact Or.inl ⟨j, mem_interior.2 ⟨hj0, hj1⟩, hn⟩

/-- After `calcHumidityMap` a cell is in `[0, 1]` if it was before or if it is an
interior cell. -/
theorem calcHumidityMap_inUnit (c : Climate) (n : Nat)
    (h : InUnit (c.HumidityMap.getD n 0)
      ∨ ∃ i j, 0 < i ∧ i + 1 < c.dimX ∧ 0 < j ∧ j + 1 < c.dimY ∧ i * c.dimY + j = n) :
    InUnit ((calcHumidityMap c).HumidityMap.getD n 0) := by
  unfold calcHumidityMap
  dsimp only
  refine foldl_reach (fun c1 i => (List.range' 1 (c.dimY - 2)).foldl
      (fun c2 j => calcHumidityCell (goCopy (List.replicate (c.dimX * c.dimY) (0 : ℚ)) c.HumidityMap)
        c.dimX c.dimY c.WindDirection.1 c.WindDirection.2 c2 i j) c1)
    (fun _ => True) (fun s => InUnit (s.HumidityMap.getD n 0))
    (fun i => ∃ j, 0 < j ∧ j + 1 < c.dimY ∧ i * c.dimY + j = n) _
    (fun _ _ _ _ => trivial) ?_ ?_ c trivial ?_
  · intro s i _ _ hs
    exact calcHumidityRow_inUnit _ _ _ _ _ s i n (Or.inl hs)
  · intro s i _ _ hi
    exact calcHumidityRow_inUnit _ _ _ _ _ s i n (Or.inr hi)
  · rcases h with h | ⟨i, j, hi0, hi1, hj0, hj1, hn⟩
    · exact Or.inr h
    · exact Or.inl ⟨i, mem_interior.2 ⟨hi0, hi1⟩, j, hj0, hj1, hn⟩

/-! ## Slice lengths -/

theorem calcWind_sized (L : Nat) (c : Climate) (day : Int) (h : Sized L c) :
    Sized L (calcWind c day) := by
  unfold calcWind
  refine foldl_keep _ (Sized L) _ ?_ _ h
  intro s i _ hs
  refine foldl_keep _ (Sized L) _ ?_ s hs
  intro s j _ hs
  unfold calcWindCell
  simpa [Sized] using hs

theorem calcTempMap_sized (L : Nat) (c : Climate) (h : Sized L c) :
    Sized L (calcTempMap c) := by
  unfold calcTempMap
  refine foldl_keep _ (Sized L) _ ?_ _ h
  intro s i _ hs
  refine foldl_keep _ (Sized L) _ ?_ s hs
  intro s j _ hs
  unfold calcTempCell
  simpa [Sized] using hs

theorem calcHumidityMap_sized (L : Nat) (c : Climate) (h : Sized L c) :
    Sized L (calcHumidityMap c) := by
  unfold calcHumidityMap
  refine foldl_keep _ (Sized L) _ ?_ _ h
  intro s i _ hs
  refine foldl_keep _ (Sized L) _ ?_ s hs
  intro s j _ hs
  unfold calcHumidityCell
  simpa [Sized] using hs

theorem calcRainMap_sized (L : Nat) (c : Climate) (h : Sized L c) :
    Sized L (calcRainMap c) := by
  unfold calcRainMap
  refine foldl_keep _ (Sized L) _ ?_ _ ?_
  · intro s i _ hs
    refine foldl_keep _ (Sized L) _ ?_ s hs
    intro s j _ hs
    unfold calcRainCell
    dsimp only
    split_ifs <;> simpa [Sized] using hs
  · refine foldl_keep _ (Sized L) _ ?_ _ h
    intro s i _ hs
    simpa [Sized, calcRainClearCell] using hs

theorem init_sized (L : Nat) (c : Climate) (day : Int) (h : Sized L c) :
    Sized L (init c day) := by
  unfold init
  refine foldl_keep _ (Sized L) _ ?_ _ ?_
  · intro s i _ hs
    simpa [Sized, initCloudCell] using hs
  refine foldl_keep _ (Sized L) _ ?_ _ ?_
  · intro s i _ hs
    simpa [Sized, initRainCell] using hs
  refine foldl_keep _ (Sized L) _ ?_ _ ?_
  · intro s i _ hs
    unfold initHumidityCell
    split_ifs <;> simpa [Sized] using hs
  refine foldl_keep _ (Sized L) _ ?_ _ ?_
  · intro s i _ hs
    unfold initTempCell
    split_ifs <;> simpa [Sized] using hs
  exact calcWind_sized L c day h

theorem NewClimate_sized (noise : Int → ℚ → ℚ → ℚ) (dimX dimY : Nat) (day seed : Int)
    (heightmap : List ℚ) : Sized (dimX * dimY) (NewClimate noise dimX dimY day seed heightmap) := by
  unfold NewClimate
  apply init_sized
  simp [Sized]

theorem runSimulation_sized (L : Nat) (c : Climate) (day : Int) (h : Sized L c) :
    Sized L (runSimulation c day) := by
  unfold runSimulation
  exact calcRainMap_sized L _ (calcHumidityMap_sized L _ (calcTempMap_sized L _
    (calcWind_sized L c day h)))

theorem runDays_sized (L : Nat) (c : Climate) (days : List Int) (h : Sized L c) :
    Sized L (runDays c days) := by
  unfold runDays
  refine foldl_keep _ (Sized L) _ ?_ c h
  intro s d _ hs
  exact runSimulation_sized L s d hs

/-! ## The initial fields -/

theorem initTempCell_ne (s : Climate) (a n : Nat) (h : a ≠ n) :
    (initTempCell s a).TempMap.getD n 0 = s.TempMap.getD n 0 := by
  unfold initTempCell
  split_ifs
  · exact getD_set_ne _ _ _ _ _ h
  · exact getD_set_ne _ _ _ _ _ h

theorem initTempCell_self (s : Climate) (n : Nat) (h : n < s.TempMap.length) :
    (initTempCell s n).TempMap.getD n 0
      = if s.heightmap.getD n 0 > 200 then 1 - s.heightmap.getD n 0 / 2000 else 7 / 10 := by
  unfold initTempCell
  split_ifs
  · exact getD_set_self _ _ _ _ h
  · exact getD_set_self _ _ _ _ h

theorem initTempCell_inv (s : Climate) (a : Nat) :
    (initTempCell s a).heightmap = s.heightmap
      ∧ (initTempCell s a).TempMap.length = s.TempMap.length := by
  unfold initTempCell
  split_ifs <;> simp

/-- Loop `for i := range c.TempMap` of `init`: the value written at index `n`. -/
theorem initTemp_getD (c : Climate) (n : Nat) (hn : n < c.TempMap.length) :
    ((List.range c.TempMap.length).foldl initTempCell c).TempMap.getD n 0
      = if c.heightmap.getD n 0 > 200 then 1 - c.heightmap.getD n 0 / 2000 else 7 / 10 := by
  refine foldl_reach initTempCell
    (fun s => s.heightmap = c.heightmap ∧ s.TempMap.length = c.TempMap.length)
    (fun s => s.TempMap.getD n 0
      = if c.heightmap.getD n 0 > 200 then 1 - c.heightmap.getD n 0 / 2000 else 7 / 10)
    (fun a => a = n) _ ?_ ?_ ?_ c ⟨rfl, rfl⟩ (Or.inl ⟨n, List.mem_range.2 hn, rfl⟩)
  · intro s a _ hs
    exact ⟨(initTempCell_inv s a).1.trans hs.1, (initTempCell_inv s a).2.trans hs.2⟩
  · intro s a _ hs hg
    by_cases ha : a = n
    · subst ha
      rw [initTempCell_self s a (hs.2 ▸ hn), hs.1]
    · rw [initTempCell_ne s a n ha]
      exact hg
  · intro s a _ hs ha
    subst ha
    rw [initTempCell_self s a (hs.2 ▸ hn), hs.1]

theorem initHumidityCell_ne (s : Climate) (a n : Nat) (h : a ≠ n) :
    (initHumidityCell s a).HumidityMap.getD n 0 = s.HumidityMap.getD n 0 := by
  unfold initHumidityCell
  split_ifs
  · exact getD_set_ne _ _ _ _ _ h
  · exact getD_set_ne _ _ _ _ _ h

theorem initHumidityCell_self (s : Climate) (n : Nat) (h : n < s.HumidityMap.length) :
    (initHumidityCell s n).HumidityMap.getD n 0
      = if s.heightmap.getD n 0 < 200 then 4 / 10 else 2 / 10 := by
  unfold initHumidityCell
  split_ifs
  · exact getD_set_self _ _ _ _ h
  · exact getD_set_self _ _ _ _ h

theorem initHumidityCell_inv (s : Climate) (a : Nat) :
    (initHumidityCell s a).heightmap = s.heightmap
      ∧ (initHumidityCell s a).HumidityMap.length = s.HumidityMap.length := by
  unfold initHumidityCell
  split_ifs <;> simp

/-- Loop `for i := range c.HumidityMap` of `init`: the value written at index `n`. -/
theorem initHumidity_getD (c : Climate) (n : Nat) (hn : n < c.HumidityMap.length) :
    ((List.range c.HumidityMap.length).foldl initHumidityCell c).HumidityMap.getD n 0
      = if c.heightmap.getD n 0 < 200 then 4 / 10 else 2 / 10 := by
  refine foldl_reach initHumidityCell
    (fun s => s.heightmap = c.heightmap ∧ s.HumidityMap.length = c.HumidityMap.length)
    (fun s => s.HumidityMap.getD n 0
      = if c.heightmap.getD n 0 < 200 then 4 / 10 else 2 / 10)
    (fun a => a = n) _ ?_ ?_ ?_ c ⟨rfl, rfl⟩ (Or.inl ⟨n, List.mem_range.2 hn, rfl⟩)
  · intro s a _ hs
    exact ⟨(initHumidityCell_inv s a).1.trans hs.1, (initHumidityCell_inv s a).2.trans hs.2⟩
  · intro s a _ hs hg
    by_cases ha : a = n
    · subst ha
      rw [initHumidityCell_self s a (hs.2 ▸ hn), hs.1]
    · rw [initHumidityCell_ne s a n ha]
      exact hg
  · intro s a _ hs ha
    subst ha
    rw [initHumidityCell_self s a (hs.2 ▸ hn), hs.1]

theorem calcWind_heightmap (c : Climate) (day : Int) :
    (calcWind c day).heightmap = c.heightmap :=
  calcWind_frame (fun s => s.heightmap) (fun _ _ => rfl) (fun _ _ => rfl) c day

theorem calcWind_TempMap (c : Climate) (day : Int) : (calcWind c day).TempMap = c.TempMap :=
  calcWind_frame (fun s => s.TempMap) (fun _ _ => rfl) (fun _ _ => rfl) c day

theorem calcWind_HumidityMap (c : Climate) (day : Int) :
    (calcWind c day).HumidityMap = c.HumidityMap :=
  calcWind_frame (fun s => s.HumidityMap) (fun _ _ => rfl) (fun _ _ => rfl) c day

theorem initTemp_frame {β : Type} (g : Climate → β)
    (ht : ∀ (s : Climate) (t : List ℚ), g { s with TempMap := t } = g s) (c : Climate)
    (l : List Nat) : g (l.foldl initTempCell c) = g c := by
  refine foldl_keep _ (fun s => g s = g c) _ ?_ c rfl
  intro s i _ hs
  unfold initTempCell
  split_ifs
  · exact (ht s _).trans hs
  · exact (ht s _).trans hs

theorem initHumidity_frame {β : Type} (g : Climate → β)
    (hh : ∀ (s : Climate) (t : List ℚ), g { s with HumidityMap := t } = g s) (c : Climate)
    (l : List Nat) : g (l.foldl initHumidityCell c) = g c := by
  refine foldl_keep _ (fun s => g s = g c) _ ?_ c rfl
  intro s i _ hs
  unfold initHumidityCell
  split_ifs
  · exact (hh s _).trans hs
  · exact (hh s _).trans hs

theorem initRain_frame {β : Type} (g : Climate → β)
    (hr : ∀ (s : Climate) (t : List Bool), g { s with RainMap := t } = g s) (c : Climate)
    (l : List Nat) : g (l.foldl initRainCell c) = g c := by
  refine foldl_keep _ (fun s => g s = g c) _ ?_ c rfl
  intro s i _ hs
  exact (hr s _).trans hs

theorem initCloud_frame {β : Type} (g : Climate → β)
    (hc : ∀ (s : Climate) (t : List Bool), g { s with CloudMap := t } = g s) (c : Climate)
    (l : List Nat) : g (l.foldl initCloudCell c) = g c := by
  refine foldl_keep _ (fun s => g s = g c) _ ?_ c rfl
  intro s i _ hs
  exact (hc s _).trans hs

/-- The temperature `init` writes into every cell of `TempMap`. -/
theorem init_TempMap_getD (c : Climate) (day : Int) (n : Nat) (hn : n < c.TempMap.length) :
    (init c day).TempMap.getD n 0
      = if c.heightmap.getD n 0 > 200 then 1 - c.heightmap.getD n 0 / 2000 else 7 / 10 := by
  unfold init
  dsimp only
  rw [initCloud_frame (fun s => s.TempMap.getD n 0) (fun _ _ => rfl),
    initRain_frame (fun s => s.TempMap.getD n 0) (fun _ _ => rfl),
    initHumidity_frame (fun s => s.TempMap.getD n 0) (fun _ _ => rfl)]
  have h := initTemp_getD (calcWind c day) n (by rw [calcWind_TempMap]; exact hn)
  rw [calcWind_heightmap] at h
  exact h

/-- The humidity `init` writes into every cell of `HumidityMap`. -/
theorem init_HumidityMap_getD (c : Climate) (day : Int) (n : Nat)
    (hn : n < c.HumidityMap.length) :
    (init c day).HumidityMap.getD n 0
      = if c.heightmap.getD n 0 < 200 then 4 / 10 else 2 / 10 := by
  unfold init
  dsimp only
  rw [initCloud_frame (fun s => s.HumidityMap.getD n 0) (fun _ _ => rfl),
    initRain_frame (fun s => s.HumidityMap.getD n 0) (fun _ _ => rfl)]
  have h := initHumidity_getD ((List.range (calcWind c day).TempMap.length).foldl initTempCell
    (calcWind c day)) n (by
      rw [initTemp_frame (fun s => s.HumidityMap) (fun _ _ => rfl), calcWind_HumidityMap]
      exact hn)
  rw [initTemp_frame (fun s => s.heightmap) (fun _ _ => rfl), calcWind_heightmap] at h
  exact h

theorem NewClimate_TempMap_getD (noise : Int → ℚ → ℚ → ℚ) (dimX dimY : Nat) (day seed : Int)
    (heightmap : List ℚ) (n : Nat) (hn : n < dimX * dimY) :
    (NewClimate noise dimX dimY day seed heightmap).TempMap.getD n 0
      = if heightmap.getD n 0 > 200 then 1 - heightmap.getD n 0 / 2000 else 7 / 10 := by
  unfold NewClimate
  exact init_TempMap_getD _ day n (by simpa using hn)

theorem NewClimate_HumidityMap_getD (noise : Int → ℚ → ℚ → ℚ) (dimX dimY : Nat)
    (day seed : Int) (heightmap : List ℚ) (n : Nat) (hn : n < dimX * dimY) :
    (NewClimate noise dimX dimY day seed heightmap).HumidityMap.getD n 0
      = if heightmap.getD n 0 < 200 then 4 / 10 else 2 / 10 := by
  unfold NewClimate
  exact init_HumidityMap_getD _ day n (by simpa using hn)

theorem NewClimate_dimX (noise : Int → ℚ → ℚ → ℚ) (dimX dimY : Nat) (day seed : Int)
    (heightmap : List ℚ) : (NewClimate noise dimX dimY day seed heightmap).dimX = dimX :=
  NewClimate_frame (fun s => s.dimX) static_dimX noise dimX dimY day seed heightmap

theorem NewClimate_dimY (noise : Int → ℚ → ℚ → ℚ) (dimX dimY : Nat) (day seed : Int)
    (heightmap : List ℚ) : (NewClimate noise dimX dimY day seed heightmap).dimY = dimY :=
  NewClimate_frame (fun s => s.dimY) static_dimY noise dimX dimY day seed heightmap

theorem NewClimate_heightmap (noise : Int → ℚ → ℚ → ℚ) (dimX dimY : Nat) (day seed : Int)
    (heightmap : List ℚ) :
    (NewClimate noise dimX dimY day seed heightmap).heightmap = heightmap :=
  NewClimate_frame (fun s => s.heightmap) static_heightmap noise dimX dimY day seed heightmap

/-- One simulated day keeps a temperature cell in `[0, 1]` and brings every
interior cell into `[0, 1]`. -/
theorem runSimulation_temp_inUnit (c : Climate) (day : Int) (n : Nat)
    (h : InUnit (c.TempMap.getD n 0)
      ∨ ∃ i j, 0 < i ∧ i + 1 < c.dimX ∧ 0 < j ∧ j + 1 < c.dimY ∧ i * c.dimY + j = n) :
    InUnit ((runSimulation c day).TempMap.getD n 0) := by
  unfold runSimulation
  rw [calcRainMap_frame (fun s => s.TempMap.getD n 0) (fun _ _ _ => rfl),
    calcHumidityMap_frame (fun s => s.TempMap.getD n 0) (fun _ _ => rfl)]
  apply calcTempMap_inUnit
  rw [calcWind_TempMap,
    calcWind_frame (fun s => s.dimX) (fun _ _ => rfl) (fun _ _ => rfl),
    calcWind_frame (fun s => s.dimY) (fun _ _ => rfl) (fun _ _ => rfl)]
  exact h

/-- One simulated day keeps a humidity cell in `[0, 1]`. -/
theorem runSimulation_humidity_inUnit (c : Climate) (day : Int) (n : Nat)
    (h : InUnit (c.HumidityMap.getD n 0)) :
    InUnit ((runSimulation c day).HumidityMap.getD n 0) := by
  unfold runSimulation
  rw [calcRainMap_frame (fun s => s.HumidityMap.getD n 0) (fun _ _ _ => rfl)]
  apply calcHumidityMap_inUnit
  left
  rw [calcTempMap_frame (fun s => s.HumidityMap.getD n 0) (fun _ _ => rfl), calcWind_HumidityMap]
  exact h

theorem runDays_cons (c : Climate) (d : Int) (ds : List Int) :
    runDays c (d :: ds) = runDays (runSimulation c d) ds := by
  unfold runDays
  exact List.foldl_cons _ _

theorem runDays_temp_inUnit (c : Climate) (days : List Int) (n : Nat)
    (h : InUnit (c.TempMap.getD n 0)) : InUnit ((runDays c days).TempMap.getD n 0) := by
  unfold runDays
  refine foldl_keep _ (fun s => InUnit (s.TempMap.getD n 0)) _ ?_ c h
  intro s d _ hs
  exact runSimulation_temp_inUnit s d n (Or.inl hs)

theorem runDays_humidity_inUnit (c : Climate) (days : List Int) (n : Nat)
    (h : InUnit (c.HumidityMap.getD n 0)) : InUnit ((runDays c days).HumidityMap.getD n 0) := by
  unfold runDays
  refine foldl_keep _ (fun s => InUnit (s.HumidityMap.getD n 0)) _ ?_ c h
  intro s d _ hs
  exact runSimulation_humidity_inUnit s d n hs

/-! ## Clamp invariants of the simulated state -/

/-- C1 (as amended): after `NewClimate` and at least one simulated day, `TempMap`
has `dimX * dimY` cells, every interior cell lies in `[0, 1]`, and so does every
boundary cell whose elevation is at most 2000. -/
theorem C1_tempMap_interior_clamped (noise : Int → ℚ → ℚ → ℚ) (dimX dimY : Nat)
    (day seed : Int) (heightmap : List ℚ) (days : List Int) (hdays : days ≠ [])
    (i j : Nat) (hi : i < dimX) (hj : j < dimY)
    (hcell : (0 < i ∧ i + 1 < dimX ∧ 0 < j ∧ j + 1 < dimY)
      ∨ heightmap.getD (i * dimY + j) 0 ≤ 2000) :
    (runDays (NewClimate noise dimX dimY day seed heightmap) days).TempMap.length = dimX * dimY
    ∧ 0 ≤ (runDays (NewClimate noise dimX dimY day seed heightmap) days).TempMap.getD
        (i * dimY + j) 0
    ∧ (runDays (NewClimate noise dimX dimY day seed heightmap) days).TempMap.getD
        (i * dimY + j) 0 ≤ 1 := by
  have hsz := runDays_sized _ _ days (NewClimate_sized noise dimX dimY day seed heightmap)
  refine ⟨hsz.1, ?_⟩
  obtain ⟨d, ds, rfl⟩ := List.exists_cons_of_ne_nil hdays
  rw [runDays_cons]
  apply runDays_temp_inUnit
  apply runSimulation_temp_inUnit
  rcases hcell with ⟨hi0, hi1, hj0, hj1⟩ | hh
  · right
    rw [NewClimate_dimX, NewClimate_dimY]
    exact ⟨i, j, hi0, hi1, hj0, hj1, rfl⟩
  · left
    rw [NewClimate_TempMap_getD _ _ _ _ _ _ _ (idx_lt hi hj)]
    unfold InUnit
    split_ifs with h200
    · constructor
      · linarith
      · linarith
    · norm_num

/-- C1 (witness): an interior cell of a 3 x 3 grid after one day. -/
theorem C1_tempMap_interior_clamped_witness :
    (runDays (NewClimate (fun _ _ _ => 0) 3 3 0 0
        [3700, 100, 100, 100, 100, 100, 100, 100, 100]) [0]).TempMap.length = 3 * 3
    ∧ 0 ≤ (runDays (NewClimate (fun _ _ _ => 0) 3 3 0 0
        [3700, 100, 100, 100, 100, 100, 100, 100, 100]) [0]).TempMap.getD (1 * 3 + 1) 0
    ∧ (runDays (NewClimate (fun _ _ _ => 0) 3 3 0 0
        [3700, 100, 100, 100, 100, 100, 100, 100, 100]) [0]).TempMap.getD (1 * 3 + 1) 0 ≤ 1 :=
  C1_tempMap_interior_clamped (fun _ _ _ => 0) 3 3 0 0
    [3700, 100, 100, 100, 100, 100, 100, 100, 100] [0] (by decide) 1 1 (by decide) (by decide)
    (Or.inl (by decide))

/-- C1 (counterexample): on a 3 x 3 grid whose corner cell has elevation 3700,
the corner of `TempMap` is `-17/20` after `NewClimate` and one simulated day. -/
theorem C1_tempMap_boundary_below_zero :
    (runDays (NewClimate (fun _ _ _ => 0) 3 3 0 0
        [3700, 100, 100, 100, 100, 100, 100, 100, 100]) [0]).TempMap.getD 0 0 = -17 / 20
    ∧ ¬ (0 ≤ (runDays (NewClimate (fun _ _ _ => 0) 3 3 0 0
        [3700, 100, 100, 100, 100, 100, 100, 100, 100]) [0]).TempMap.getD 0 0) := by
  decide!

/-- C2: after `NewClimate` and any number of simulated days, `HumidityMap` has
`dimX * dimY` cells and every one of them lies in `[0, 1]`. -/
theorem C2_humidityMap_clamped (noise : Int → ℚ → ℚ → ℚ) (dimX dimY : Nat)
    (day seed : Int) (heightmap : List ℚ) (days : List Int) :
    (runDays (NewClimate noise dimX dimY day seed heightmap) days).HumidityMap.length
      = dimX * dimY
    ∧ ∀ v ∈ (runDays (NewClimate noise dimX dimY day seed heightmap) days).HumidityMap,
        0 ≤ v ∧ v ≤ 1 := by
  have hsz := runDays_sized _ _ days (NewClimate_sized noise dimX dimY day seed heightmap)
  refine ⟨hsz.2.1, ?_⟩
  intro v hv
  obtain ⟨n, hn, rfl⟩ := List.mem_iff_getElem.1 hv
  rw [← List.getD_eq_getElem _ 0 hn]
  apply runDays_humidity_inUnit
  rw [hsz.2.1] at hn
  rw [NewClimate_HumidityMap_getD _ _ _ _ _ _ _ hn]
  unfold InUnit
  split_ifs <;> norm_num

/-! ## The border of the grid -/

/-- The row-major index of a border cell differs from that of any interior cell. -/
theorem border_ne_interior {dx dy i j a b : Nat} (hj : j < dy)
    (hb : i = 0 ∨ i + 1 = dx ∨ j = 0 ∨ j + 1 = dy)
    (ha : a ∈ List.range' 1 (dx - 2)) (hb2 : b ∈ List.range' 1 (dy - 2)) :
    a * dy + b ≠ i * dy + j := by
  intro h
  have ha1 := mem_interior.1 ha
  have hb1 := mem_interior.1 hb2
  have := idx_inj (by omega) hj h
  omega

theorem calcTempCell_getElem_ne (old : List ℚ) (dx dy : Nat) (wdx wdy : ℚ) (c : Climate)
    (i j n : Nat) (h : i * dy + j ≠ n) :
    (calcTempCell old dx dy wdx wdy c i j).TempMap[n]? = c.TempMap[n]? := by
  unfold calcTempCell
  dsimp only
  rw [List.getElem?_set_ne h, List.getElem?_set_ne h]

theorem calcHumidityCell_getElem_ne (old : List ℚ) (dx dy : Nat) (wdx wdy : ℚ) (c : Climate)
    (i j n : Nat) (h : i * dy + j ≠ n) :
    (calcHumidityCell old dx dy wdx wdy c i j).HumidityMap[n]? = c.HumidityMap[n]? := by
  unfold calcHumidityCell
  dsimp only
  rw [List.getElem?_set_ne h, List.getElem?_set_ne h]

/-- Border cells are not written by `calcTempMap`. -/
theorem calcTempMap_border (c : Climate) (i j : Nat) (hj : j < c.dimY)
    (hb : i = 0 ∨ i + 1 = c.dimX ∨ j = 0 ∨ j + 1 = c.dimY) :
    (calcTempMap c).TempMap[i * c.dimY + j]? = c.TempMap[i * c.dimY + j]? := by
  unfold calcTempMap
  dsimp only
  refine foldl_keep _ (fun s => s.TempMap[i * c.dimY + j]? = c.TempMap[i * c.dimY + j]?) _ ?_ c rfl
  intro s a ha hs
  refine foldl_keep _ (fun s => s.TempMap[i * c.dimY + j]? = c.TempMap[i * c.dimY + j]?) _ ?_ s hs
  intro s b hb2 hs
  rw [calcTempCell_getElem_ne _ _ _ _ _ _ _ _ _ (border_ne_interior hj hb ha hb2)]
  exact hs

/-- Border cells are not written by `calcHumidityMap`. -/
theorem calcHumidityMap_border (c : Climate) (i j : Nat) (hj : j < c.dimY)
    (hb : i = 0 ∨ i + 1 = c.dimX ∨ j = 0 ∨ j + 1 = c.dimY) :
    (calcHumidityMap c).HumidityMap[i * c.dimY + j]? = c.HumidityMap[i * c.dimY + j]? := by
  unfold calcHumidityMap
  dsimp only
  refine foldl_keep _
    (fun s => s.HumidityMap[i * c.dimY + j]? = c.HumidityMap[i * c.dimY + j]?) _ ?_ c rfl
  intro s a ha hs
  refine foldl_keep _
    (fun s => s.HumidityMap[i * c.dimY + j]? = c.HumidityMap[i * c.dimY + j]?) _ ?_ s hs
  intro s b hb2 hs
  rw [calcHumidityCell_getElem_ne _ _ _ _ _ _ _ _ _ (border_ne_interior hj hb ha hb2)]
  exact hs

/-- A double loop over the interior of a grid without interior runs no iteration. -/
theorem interior_loop_empty (f : Climate → Nat → Nat → Climate) (dx dy : Nat)
    (h : dx ≤ 2 ∨ dy ≤ 2) (c : Climate) :
    (List.range' 1 (dx - 2)).foldl
      (fun c i => (List.range' 1 (dy - 2)).foldl (fun c j => f c i j) c) c = c := by
  rcases h with h | h
  · have : dx - 2 = 0 := by omega
    rw [this]
    rfl
  · have : dy - 2 = 0 := by omega
    rw [this]
    refine foldl_keep _ (fun s => s = c) _ ?_ c rfl
    intro s i _ hs
    exact hs

/-- C3: on a state whose fields have length `dimX * dimY`, `calcTempMap` leaves
`TempMap` and `calcHumidityMap` leaves `HumidityMap` unchanged at every border
cell; with `dimX <= 2` or `dimY <= 2` both calls return the state unchanged. -/
theorem C3_boundary_exclusion (c : Climate)
    (hT : c.TempMap.length = c.dimX * c.dimY) (hH : c.HumidityMap.length = c.dimX * c.dimY) :
    (∀ i j, i < c.dimX → j < c.dimY → (i = 0 ∨ i + 1 = c.dimX ∨ j = 0 ∨ j + 1 = c.dimY) →
      (calcTempMap c).TempMap[i * c.dimY + j]? = c.TempMap[i * c.dimY + j]?
      ∧ (calcHumidityMap c).HumidityMap[i * c.dimY + j]? = c.HumidityMap[i * c.dimY + j]?)
    ∧ (calcTempMap c).TempMap.length = c.dimX * c.dimY
    ∧ (calcHumidityMap c).HumidityMap.length = c.dimX * c.dimY
    ∧ (c.dimX ≤ 2 ∨ c.dimY ≤ 2 → calcTempMap c = c ∧ calcHumidityMap c = c) := by
  refine ⟨fun i j _ hj hb => ⟨calcTempMap_border c i j hj hb, calcHumidityMap_border c i j hj hb⟩,
    ?_, ?_, ?_⟩
  · unfold calcTempMap
    refine foldl_keep _ (fun s => s.TempMap.length = c.dimX * c.dimY) _ ?_ c hT
    intro s i _ hs
    refine foldl_keep _ (fun s => s.TempMap.length = c.dimX * c.dimY) _ ?_ s hs
    intro s j _ hs
    unfold calcTempCell
    simpa using hs
  · unfold calcHumidityMap
    refine foldl_keep _ (fun s => s.HumidityMap.length = c.dimX * c.dimY) _ ?_ c hH
    intro s i _ hs
    refine foldl_keep _ (fun s => s.HumidityMap.length = c.dimX * c.dimY) _ ?_ s hs
    intro s j _ hs
    unfold calcHumidityCell
    simpa using hs
  · intro h
    exact ⟨interior_loop_empty _ _ _ h c, interior_loop_empty _ _ _ h c⟩

/-- C3 (witness): the 3 x 3 example state and its corner cell `(0, 2)`. -/
theorem C3_boundary_exclusion_witness :
    grid3.TempMap.length = grid3.dimX * grid3.dimY
    ∧ grid3.HumidityMap.length = grid3.dimX * grid3.dimY
    ∧ (calcTempMap grid3).TempMap[0 * grid3.dimY + 2]? = grid3.TempMap[0 * grid3.dimY + 2]?
    ∧ (calcHumidityMap grid3).HumidityMap[0 * grid3.dimY + 2]?
        = grid3.HumidityMap[0 * grid3.dimY + 2]? :=
  ⟨by decide!, by decide!,
    ((C3_boundary_exclusion grid3 (by decide!) (by decide!)).1 0 2 (by decide!) (by decide!)
      (Or.inl rfl)).1,
    ((C3_boundary_exclusion grid3 (by decide!) (by decide!)).1 0 2 (by decide!) (by decide!)
      (Or.inl rfl)).2⟩

/-! ## Running means -/

theorem calcMovingAverageBool_eq (v : ℚ) (b : Bool) (i : Nat) :
    calcMovingAverageBool v b i = calcMovingAverage v (if b then 1 else 0) i := by
  unfold calcMovingAverageBool
  cases b <;> simp

/-- A sequence advanced by `calcMovingAverage` holds the arithmetic mean of the
samples seen so far, whatever its starting value. -/
theorem movingAverage_mean (A v : Nat → ℚ)
    (hstep : ∀ k, A (k + 1) = calcMovingAverage (A k) (v k) k) (k : Nat) :
    A (k + 1) = (∑ i ∈ Finset.range (k + 1), v i) / ((k + 1 : Nat) : ℚ) := by
  induction k with
  | zero =>
    rw [hstep 0]
    simp [calcMovingAverage]
  | succ k ih =>
    rw [hstep (k + 1), ih, Finset.sum_range_succ _ (k + 1)]
    unfold calcMovingAverage
    have h1 : ((k + 1 : Nat) : ℚ) ≠ 0 := by exact_mod_cast Nat.succ_ne_zero k
    rw [div_mul_cancel₀ _ h1]

theorem foldl_range_succ {σ : Type} (f : σ → Nat → σ) (s : σ) (k : Nat) :
    (List.range (k + 1)).foldl f s = f ((List.range k).foldl f s) k := by
  rw [List.range_succ, List.foldl_append]
  rfl

/-- Folding `calcMovingAverage` over the samples `v 0, ..., v (N-1)`. -/
theorem foldl_calcMovingAverage (v : Nat → ℚ) (avg : ℚ) (N : Nat) (hN : 1 ≤ N) :
    (List.range N).foldl (fun a i => calcMovingAverage a (v i) i) avg
      = (∑ i ∈ Finset.range N, v i) / (N : ℚ) := by
  obtain ⟨k, rfl⟩ : ∃ k, N = k + 1 := ⟨N - 1, by omega⟩
  exact movingAverage_mean
    (fun n => (List.range n).foldl (fun a i => calcMovingAverage a (v i) i) avg) v
    (fun n => foldl_range_succ _ _ n) k

/-- A loop over `0, ..., L-1` whose iteration `a` only touches what `get` reads
when `a = n`: after the loop `get` is what iteration `n` left. -/
theorem foldl_range_at {σ β : Type} (f : σ → Nat → σ) (get : σ → β) (n : Nat)
    (hne : ∀ s a, a ≠ n → get (f s a) = get s) (s : σ) (L : Nat) (hn : n < L) :
    get ((List.range L).foldl f s) = get (f ((List.range n).foldl f s) n) := by
  induction L with
  | zero => omega
  | succ L ih =>
    rw [foldl_range_succ]
    by_cases h : L = n
    · subst h
      rfl
    · rw [hne _ _ h]
      exact ih (by omega)

/-- A loop over `0, ..., L-1` whose iteration `a` rewrites cell `a` of a slice
`proj` by `upd` and leaves the other cells alone rewrites cell `n` once. -/
theorem foldl_range_update (f : Climate → Nat → Climate) (proj : Climate → List ℚ)
    (upd : ℚ → ℚ) (n : Nat)
    (hne : ∀ s a, a ≠ n → (proj (f s a)).getD n 0 = (proj s).getD n 0)
    (hlen : ∀ s a, (proj (f s a)).length = (proj s).length)
    (hupd : ∀ s, n < (proj s).length → (proj (f s n)).getD n 0 = upd ((proj s).getD n 0))
    (c : Climate) (L : Nat) (hn : n < L) (hc : n < (proj c).length) :
    (proj ((List.range L).foldl f c)).getD n 0 = upd ((proj c).getD n 0) := by
  rw [foldl_range_at f (fun s => (proj s).getD n 0) n hne c L hn]
  have h1 : (proj ((List.range n).foldl f c)).length = (proj c).length :=
    foldl_keep f (fun s => (proj s).length = (proj c).length) _
      (fun s a _ hs => (hlen s a).trans hs) c rfl
  have h2 : (proj ((List.range n).foldl f c)).getD n 0 = (proj c).getD n 0 :=
    foldl_keep f (fun s => (proj s).getD n 0 = (proj c).getD n 0) _
      (fun s a ha hs => (hne s a (Nat.ne_of_lt (List.mem_range.1 ha))).trans hs) c rfl
  rw [hupd _ (h1 ▸ hc), h2]

theorem sameShape_refl (c : Climate) : SameShape c c := ⟨rfl, rfl, rfl, rfl, rfl, rfl⟩

theorem calcAverageCell_shape (sim : Climate) (i : Nat) (c s : Climate) (a : Nat)
    (h : SameShape c s) : SameShape c (calcAverageCell sim i s a) := by
  unfold calcAverageCell
  simpa [SameShape] using h

theorem calcAverageClearCell_shape (c s : Climate) (a : Nat) (h : SameShape c s) :
    SameShape c (calcAverageClearCell s a) := by
  unfold calcAverageClearCell
  simpa [SameShape] using h

theorem calcAverageDay_eq (p : Climate × Climate) (i : Nat) :
    calcAverageDay p i = ((List.range p.1.heightmap.length).foldl
      (calcAverageCell (runSimulation p.2 (i : Int)) i) p.1, runSimulation p.2 (i : Int)) := by
  unfold calcAverageDay runSimulation
  rfl

theorem calcAverageDay_shape (c : Climate) (p : Climate × Climate) (i : Nat)
    (h : SameShape c p.1) : SameShape c (calcAverageDay p i).1 := by
  rw [calcAverageDay_eq]
  exact foldl_keep _ (SameShape c) _ (fun s a _ hs => calcAverageCell_shape _ _ c s a hs) _ h

theorem calcAverageFor_succ (noise : Int → ℚ → ℚ → ℚ) (c : Climate) (k : Nat) :
    calcAverageFor noise c (k + 1) = calcAverageDay (calcAverageFor noise c k) k := by
  unfold calcAverageFor
  exact foldl_range_succ _ _ k

theorem calcAverageFor_shape (noise : Int → ℚ → ℚ → ℚ) (c : Climate) (k : Nat) :
    SameShape c (calcAverageFor noise c k).1 := by
  induction k with
  | zero =>
    unfold calcAverageFor
    exact foldl_keep _ (SameShape c) _ (fun s a _ hs => calcAverageClearCell_shape c s a hs) c
      (sameShape_refl c)
  | succ k ih =>
    rw [calcAverageFor_succ]
    exact calcAverageDay_shape c _ k ih

/-- One day of `calcAverage` advances cell `n` of `AvgWindMap` by one
`calcMovingAverage` step on the day's `WindMap` value. -/
theorem calcAverageDay_AvgWindMap (p : Climate × Climate) (i n : Nat)
    (hn : n < p.1.heightmap.length) (hF : n < p.1.AvgWindMap.length) :
    (calcAverageDay p i).1.AvgWindMap.getD n 0
      = calcMovingAverage (p.1.AvgWindMap.getD n 0) ((runSimulation p.2 (i : Int)).WindMap.getD n 0) i := by
  rw [calcAverageDay_eq]
  dsimp only
  refine foldl_range_update (calcAverageCell (runSimulation p.2 (i : Int)) i)
    (fun s => s.AvgWindMap)
    (fun a => calcMovingAverage a ((runSimulation p.2 (i : Int)).WindMap.getD n 0) i) n ?_ ?_ ?_ p.1 _ hn hF
  · intro s a ha
    unfold calcAverageCell
    exact getD_set_ne _ _ _ _ _ ha
  · intro s a
    unfold calcAverageCell
    exact List.length_set _ _ _
  · intro s hs
    unfold calcAverageCell
    dsimp only
    rw [getD_set_self _ _ _ _ hs]

/-- After `k + 1` days of `calcAverage`, cell `n` of `AvgWindMap` is the mean of
the `k + 1` daily `WindMap` values seen. -/
theorem calcAverageFor_AvgWindMap (noise : Int → ℚ → ℚ → ℚ) (c : Climate) (n k : Nat)
    (hn : n < c.heightmap.length) (hF : n < c.AvgWindMap.length) :
    (calcAverageFor noise c (k + 1)).1.AvgWindMap.getD n 0
      = (∑ i ∈ Finset.range (k + 1), (((calcAverageFor noise c (i + 1)).2).WindMap.getD n 0))
        / ((k + 1 : Nat) : ℚ) := by
  refine movingAverage_mean (fun k => (calcAverageFor noise c k).1.AvgWindMap.getD n 0)
    (fun i => (((calcAverageFor noise c (i + 1)).2).WindMap.getD n 0)) ?_ k
  intro k
  have hsh := calcAverageFor_shape noise c k
  have h := calcAverageDay_AvgWindMap (calcAverageFor noise c k) k n (by rw [hsh.1]; exact hn)
    (by rw [hsh.2.1]; exact hF)
  have h2 : (calcAverageFor noise c (k + 1)).2 = runSimulation (calcAverageFor noise c k).2 (k : Int) := by
    rw [calcAverageFor_succ, calcAverageDay_eq]
  dsimp only
  rw [h2, calcAverageFor_succ]
  exact h

/-- One day of `calcAverage` advances cell `n` of `AvgRainMap` by one
`calcMovingAverage` step on the day's `RainMap` value. -/
theorem calcAverageDay_AvgRainMap (p : Climate × Climate) (i n : Nat)
    (hn : n < p.1.heightmap.length) (hF : n < p.1.AvgRainMap.length) :
    (calcAverageDay p i).1.AvgRainMap.getD n 0
      = calcMovingAverage (p.1.AvgRainMap.getD n 0) (if (runSimulation p.2 (i : Int)).RainMap.getD n false then 1 else 0) i := by
  rw [calcAverageDay_eq]
  dsimp only
  refine foldl_range_update (calcAverageCell (runSimulation p.2 (i : Int)) i)
    (fun s => s.AvgRainMap)
    (fun a => calcMovingAverage a (if (runSimulation p.2 (i : Int)).RainMap.getD n false then 1 else 0) i) n ?_ ?_ ?_ p.1 _ hn hF
  · intro s a ha
    unfold calcAverageCell
    exact getD_set_ne _ _ _ _ _ ha
  · intro s a
    unfold calcAverageCell
    exact List.length_set _ _ _
  · intro s hs
    unfold calcAverageCell
    dsimp only
    rw [getD_set_self _ _ _ _ hs]
    rw [calcMovingAverageBool_eq]

/-- After `k + 1` days of `calcAverage`, cell `n` of `AvgRainMap` is the mean of
the `k + 1` daily `RainMap` values seen. -/
theorem calcAverageFor_AvgRainMap (noise : Int → ℚ → ℚ → ℚ) (c : Climate) (n k : Nat)
    (hn : n < c.heightmap.length) (hF : n < c.AvgRainMap.length) :
    (calcAverageFor noise c (k + 1)).1.AvgRainMap.getD n 0
      = (∑ i ∈ Finset.range (k + 1), (if ((calcAverageFor noise c (i + 1)).2).RainMap.getD n false then 1 else 0))
        / ((k + 1 : Nat) : ℚ) := by
  refine movingAverage_mean (fun k => (calcAverageFor noise c k).1.AvgRainMap.getD n 0)
    (fun i => (if ((calcAverageFor noise c (i + 1)).2).RainMap.getD n false then 1 else 0)) ?_ k
  intro k
  have hsh := calcAverageFor_shape noise c k
  have h := calcAverageDay_AvgRainMap (calcAverageFor noise c k) k n (by rw [hsh.1]; exact hn)
    (by rw [hsh.2.2.1]; exact hF)
  have h2 : (calcAverageFor noise c (k + 1)).2 = runSimulation (calcAverageFor noise c k).2 (k : Int) := by
    rw [calcAverageFor_succ, calcAverageDay_eq]
  dsimp only
  rw [h2, calcAverageFor_succ]
  exact h

/-- One day of `calcAverage` advances cell `n` of `AvgCloudMap` by one
`calcMovingAverage` step on the day's `CloudMap` value. -/
theorem calcAverageDay_AvgCloudMap (p : Climate × Climate) (i n : Nat)
    (hn : n < p.1.heightmap.length) (hF : n < p.1.AvgCloudMap.length) :
    (calcAverageDay p i).1.AvgCloudMap.getD n 0
      = calcMovingAverage (p.1.AvgCloudMap.getD n 0) (if (runSimulation p.2 (i : Int)).CloudMap.getD n false then 1 else 0) i := by
  rw [calcAverageDay_eq]
  dsimp only
  refine foldl_range_update (calcAverageCell (runSimulation p.2 (i : Int)) i)
    (fun s => s.AvgCloudMap)
    (fun a => calcMovingAverage a (if (runSimulation p.2 (i : Int)).CloudMap.getD n false then 1 else 0) i) n ?_ ?_ ?_ p.1 _ hn hF
  · intro s a ha
    unfold calcAverageCell
    exact getD_set_ne _ _ _ _ _ ha
  · intro s a
    unfold calcAverageCell
    exact List.length_set _ _ _
  · intro s hs
    unfold calcAverageCell
    dsimp only
    rw [getD_set_self _ _ _ _ hs]
    rw [calcMovingAverageBool_eq]

/-- After `k + 1` days of `calcAverage`, cell `n` of `AvgCloudMap` is the mean of
the `k + 1` daily `CloudMap` values seen. -/
theorem calcAverageFor_AvgCloudMap (noise : Int → ℚ → ℚ → ℚ) (c : Climate) (n k : Nat)
    (hn : n < c.heightmap.length) (hF : n < c.AvgCloudMap.length) :
    (calcAverageFor noise c (k + 1)).1.AvgCloudMap.getD n 0
      = (∑ i ∈ Finset.range (k + 1), (if ((calcAverageFor noise c (i + 1)).2).CloudMap.getD n false then 1 else 0))
        / ((k + 1 : Nat) : ℚ) := by
  refine movingAverage_mean (fun k => (calcAverageFor noise c k).1.AvgCloudMap.getD n 0)
    (fun i => (if ((calcAverageFor noise c (i + 1)).2).CloudMap.getD n false then 1 else 0)) ?_ k
  intro k
  have hsh := calcAverageFor_shape noise c k
  have h := calcAverageDay_AvgCloudMap (calcAverageFor noise c k) k n (by rw [hsh.1]; exact hn)
    (by rw [hsh.2.2.2.1]; exact hF)
  have h2 : (calcAverageFor noise c (k + 1)).2 = runSimulation (calcAverageFor noise c k).2 (k : Int) := by
    rw [calcAverageFor_succ, calcAverageDay_eq]
  dsimp only
  rw [h2, calcAverageFor_succ]
  exact h

/-- One day of `calcAverage` advances cell `n` of `AvgTempMap` by one
`calcMovingAverage` step on the day's `TempMap` value. -/
theorem calcAverageDay_AvgTempMap (p : Climate × Climate) (i n : Nat)
    (hn : n < p.1.heightmap.length) (hF : n < p.1.AvgTempMap.length) :
    (calcAverageDay p i).1.AvgTempMap.getD n 0
      = calcMovingAverage (p.1.AvgTempMap.getD n 0) ((runSimulation p.2 (i : Int)).TempMap.getD n 0) i := by
  rw [calcAverageDay_eq]
  dsimp only
  refine foldl_range_update (calcAverageCell (runSimulation p.2 (i : Int)) i)
    (fun s => s.AvgTempMap)
    (fun a => calcMovingAverage a ((runSimulation p.2 (i : Int)).TempMap.getD n 0) i) n ?_ ?_ ?_ p.1 _ hn hF
  · intro s a ha
    unfold calcAverageCell
    exact getD_set_ne _ _ _ _ _ ha
  · intro s a
    unfold calcAverageCell
    exact List.length_set _ _ _
  · intro s hs
    unfold calcAverageCell
    dsimp only
    rw [getD_set_self _ _ _ _ hs]

/-- After `k + 1` days of `calcAverage`, cell `n` of `AvgTempMap` is the mean of
the `k + 1` daily `TempMap` values seen. -/
theorem calcAverageFor_AvgTempMap (noise : Int → ℚ → ℚ → ℚ) (c : Climate) (n k : Nat)
    (hn : n < c.heightmap.length) (hF : n < c.AvgTempMap.length) :
    (calcAverageFor noise c (k + 1)).1.AvgTempMap.getD n 0
      = (∑ i ∈ Finset.range (k + 1), (((calcAverageFor noise c (i + 1)).2).TempMap.getD n 0))
        / ((k + 1 : Nat) : ℚ) := by
  refine movingAverage_mean (fun k => (calcAverageFor noise c k).1.AvgTempMap.getD n 0)
    (fun i => (((calcAverageFor noise c (i + 1)).2).TempMap.getD n 0)) ?_ k
  intro k
  have hsh := calcAverageFor_shape noise c k
  have h := calcAverageDay_AvgTempMap (calcAverageFor noise c k) k n (by rw [hsh.1]; exact hn)
    (by rw [hsh.2.2.2.2.1]; exact hF)
  have h2 : (calcAverageFor noise c (k + 1)).2 = runSimulation (calcAverageFor noise c k).2 (k : Int) := by
    rw [calcAverageFor_succ, calcAverageDay_eq]
  dsimp only
  rw [h2, calcAverageFor_succ]
  exact h

/-- One day of `calcAverage` advances cell `n` of `AvgHumidityMap` by one
`calcMovingAverage` step on the day's `HumidityMap` value. -/
theorem calcAverageDay_AvgHumidityMap (p : Climate × Climate) (i n : Nat)
    (hn : n < p.1.heightmap.length) (hF : n < p.1.AvgHumidityMap.length) :
    (calcAverageDay p i).1.AvgHumidityMap.getD n 0
      = calcMovingAverage (p.1.AvgHumidityMap.getD n 0) ((runSimulation p.2 (i : Int)).HumidityMap.getD n 0) i := by
  rw [calcAverageDay_eq]
  dsimp only
  refine foldl_range_update (calcAverageCell (runSimulation p.2 (i : Int)) i)
    (fun s => s.AvgHumidityMap)
    (fun a => calcMovingAverage a ((runSimulation p.2 (i : Int)).HumidityMap.getD n 0) i) n ?_ ?_ ?_ p.1 _ hn hF
  · intro s a ha
    unfold calcAverageCell
    exact getD_set_ne _ _ _ _ _ ha
  · intro s a
    unfold calcAverageCell
    exact List.length_set _ _ _
  · intro s hs
    unfold calcAverageCell
    dsimp only
    rw [getD_set_self _ _ _ _ hs]

/-- After `k + 1` days of `calcAverage`, cell `n` of `AvgHumidityMap` is the mean of
the `k + 1` daily `HumidityMap` values seen. -/
theorem calcAverageFor_AvgHumidityMap (noise : Int → ℚ → ℚ → ℚ) (c : Climate) (n k : Nat)
    (hn : n < c.heightmap.length) (hF : n < c.AvgHumidityMap.length) :
    (calcAverageFor noise c (k + 1)).1.AvgHumidityMap.getD n 0
      = (∑ i ∈ Finset.range (k + 1), (((calcAverageFor noise c (i + 1)).2).HumidityMap.getD n 0))
        / ((k + 1 : Nat) : ℚ) := by
  refine movingAverage_mean (fun k => (calcAverageFor noise c k).1.AvgHumidityMap.getD n 0)
    (fun i => (((calcAverageFor noise c (i + 1)).2).HumidityMap.getD n 0)) ?_ k
  intro k
  have hsh := calcAverageFor_shape noise c k
  have h := calcAverageDay_AvgHumidityMap (calcAverageFor noise c k) k n (by rw [hsh.1]; exact hn)
    (by rw [hsh.2.2.2.2.2]; exact hF)
  have h2 : (calcAverageFor noise c (k + 1)).2 = runSimulation (calcAverageFor noise c k).2 (k : Int) := by
    rw [calcAverageFor_succ, calcAverageDay_eq]
  dsimp only
  rw [h2, calcAverageFor_succ]
  exact h

/-- The mean of samples that are each 0 or 1 lies in `[0, 1]`. -/
theorem mean_boole_inUnit (f : Nat → Bool) (k : Nat) :
    InUnit ((∑ i ∈ Finset.range (k + 1), if f i then (1 : ℚ) else 0) / ((k + 1 : Nat) : ℚ)) := by
  have hpos : (0 : ℚ) < ((k + 1 : Nat) : ℚ) := by exact_mod_cast Nat.succ_pos k
  have h0 : (0 : ℚ) ≤ ∑ i ∈ Finset.range (k + 1), if f i then (1 : ℚ) else 0 :=
    Finset.sum_nonneg (fun i _ => by split_ifs <;> norm_num)
  have h1 : (∑ i ∈ Finset.range (k + 1), if f i then (1 : ℚ) else 0) ≤ ((k + 1 : Nat) : ℚ) := by
    calc (∑ i ∈ Finset.range (k + 1), if f i then (1 : ℚ) else 0)
        ≤ ∑ _i ∈ Finset.range (k + 1), (1 : ℚ) :=
          Finset.sum_le_sum (fun i _ => by split_ifs <;> norm_num)
      _ = ((k + 1 : Nat) : ℚ) := by simp
  exact ⟨div_nonneg h0 (le_of_lt hpos), (div_le_one hpos).2 h1⟩

/-- C4: folding `calcMovingAverage` over `N >= 1` samples from any starting
value gives their arithmetic mean; and after `N` days of the averaging run
every cell of every average field is the mean of the `N` daily values of the
simulation (booleans counting as 1 and 0). -/
theorem C4_running_mean (N : Nat) (hN : 1 ≤ N) (v : Nat → ℚ) (avg : ℚ)
    (noise : Int → ℚ → ℚ → ℚ) (c : Climate) (idx : Nat) :
    (List.range N).foldl (fun a i => calcMovingAverage a (v i) i) avg
      = (∑ i ∈ Finset.range N, v i) / (N : ℚ)
    ∧ (idx < c.heightmap.length →
      (idx < c.AvgWindMap.length →
        (calcAverageFor noise c N).1.AvgWindMap.getD idx 0
          = (∑ i ∈ Finset.range N, (calcAverageFor noise c (i + 1)).2.WindMap.getD idx 0)
            / (N : ℚ))
      ∧ (idx < c.AvgRainMap.length →
        (calcAverageFor noise c N).1.AvgRainMap.getD idx 0
          = (∑ i ∈ Finset.range N,
              if (calcAverageFor noise c (i + 1)).2.RainMap.getD idx false then 1 else 0)
            / (N : ℚ))
      ∧ (idx < c.AvgCloudMap.length →
        (calcAverageFor noise c N).1.AvgCloudMap.getD idx 0
          = (∑ i ∈ Finset.range N,
              if (calcAverageFor noise c (i + 1)).2.CloudMap.getD idx false then 1 else 0)
            / (N : ℚ))
      ∧ (idx < c.AvgTempMap.length →
        (calcAverageFor noise c N).1.AvgTempMap.getD idx 0
          = (∑ i ∈ Finset.range N, (calcAverageFor noise c (i + 1)).2.TempMap.getD idx 0)
            / (N : ℚ))
      ∧ (idx < c.AvgHumidityMap.length →
        (calcAverageFor noise c N).1.AvgHumidityMap.getD idx 0
          = (∑ i ∈ Finset.range N, (calcAverageFor noise c (i + 1)).2.HumidityMap.getD idx 0)
            / (N : ℚ))) := by
  refine ⟨foldl_calcMovingAverage v avg N hN, ?_⟩
  obtain ⟨k, rfl⟩ : ∃ k, N = k + 1 := ⟨N - 1, by omega⟩
  intro hidx
  exact ⟨calcAverageFor_AvgWindMap noise c idx k hidx,
    calcAverageFor_AvgRainMap noise c idx k hidx,
    calcAverageFor_AvgCloudMap noise c idx k hidx,
    calcAverageFor_AvgTempMap noise c idx k hidx,
    calcAverageFor_AvgHumidityMap noise c idx k hidx⟩

/-- C4 (witness): two samples, and two days of averaging on the 3 x 3 example
state at its interior cell. -/
theorem C4_running_mean_witness :
    (List.range 2).foldl (fun (a : ℚ) (i : Nat) => calcMovingAverage a ((i : ℚ) + 1) i) 7
      = (∑ i ∈ Finset.range 2, (((i : Nat) : ℚ) + 1)) / ((2 : Nat) : ℚ)
    ∧ (calcAverageFor (fun _ _ _ => 1 / 10) grid3 2).1.AvgTempMap.getD 4 0
      = (∑ i ∈ Finset.range 2,
          (calcAverageFor (fun _ _ _ => 1 / 10) grid3 (i + 1)).2.TempMap.getD 4 0)
        / ((2 : Nat) : ℚ) :=
  ⟨(C4_running_mean 2 (by decide) (fun i => (i : ℚ) + 1) 7 (fun _ _ _ => 1 / 10) grid3 4).1,
    ((C4_running_mean 2 (by decide) (fun i => (i : ℚ) + 1) 7 (fun _ _ _ => 1 / 10) grid3 4).2
      (by decide!)).2.2.2.1 (by decide!)⟩

/-- C5: folding `calcMovingAverageBool` from 0 over `N >= 1` booleans gives the
number of `true` among them divided by `N`; and after `calcAverage` every cell
of `AvgRainMap` and of `AvgCloudMap` lies in `[0, 1]`. -/
theorem C5_boolean_averages (N : Nat) (hN : 1 ≤ N) (b : Nat → Bool)
    (noise : Int → ℚ → ℚ → ℚ) (c : Climate) :
    (List.range N).foldl (fun a i => calcMovingAverageBool a (b i) i) 0
      = (((Finset.range N).filter (fun i => b i = true)).card : ℚ) / (N : ℚ)
    ∧ (c.AvgRainMap.length = c.heightmap.length →
        ∀ x ∈ (calcAverage noise c).AvgRainMap, 0 ≤ x ∧ x ≤ 1)
    ∧ (c.AvgCloudMap.length = c.heightmap.length →
        ∀ x ∈ (calcAverage noise c).AvgCloudMap, 0 ≤ x ∧ x ≤ 1) := by
  have hca : calcAverage noise c = (calcAverageFor noise c (364 + 1)).1 := rfl
  have hsh := calcAverageFor_shape noise c (364 + 1)
  refine ⟨?_, ?_, ?_⟩
  · simp only [calcMovingAverageBool_eq]
    rw [foldl_calcMovingAverage (fun i => if b i then 1 else 0) 0 N hN, Finset.sum_boole]
  · intro hlen x hx
    rw [hca] at hx
    obtain ⟨n, hn, rfl⟩ := List.mem_iff_getElem.1 hx
    rw [← List.getD_eq_getElem _ 0 hn]
    rw [hsh.2.2.1] at hn
    rw [calcAverageFor_AvgRainMap noise c n 364 (hlen ▸ hn) hn]
    exact mean_boole_inUnit _ 364
  · intro hlen x hx
    rw [hca] at hx
    obtain ⟨n, hn, rfl⟩ := List.mem_iff_getElem.1 hx
    rw [← List.getD_eq_getElem _ 0 hn]
    rw [hsh.2.2.2.1] at hn
    rw [calcAverageFor_AvgCloudMap noise c n 364 (hlen ▸ hn) hn]
    exact mean_boole_inUnit _ 364

/-- C5 (witness): three booleans, and the 3 x 3 example state. -/
theorem C5_boolean_averages_witness :
    (List.range 3).foldl (fun a i => calcMovingAverageBool a (decide (i ≠ 1)) i) 0
      = (((Finset.range 3).filter (fun i => decide (i ≠ 1) = true)).card : ℚ) / ((3 : Nat) : ℚ)
    ∧ ∀ x ∈ (calcAverage (fun _ _ _ => 1 / 10) grid3).AvgRainMap, 0 ≤ x ∧ x ≤ 1 :=
  ⟨(C5_boolean_averages 3 (by decide) (fun i => decide (i ≠ 1)) (fun _ _ _ => 1 / 10) grid3).1,
    (C5_boolean_averages 3 (by decide) (fun i => decide (i ≠ 1)) (fun _ _ _ => 1 / 10)
      grid3).2.1 (by decide!)⟩

/-! ## Rain and cloud -/

/-- In a double loop over rows `la` and columns `lb` whose iteration `(a, b)`
leaves `get` alone unless `(a, b) = (i, j)`, `get` ends as iteration `(i, j)`
set it. -/
theorem grid_loop_cell {β : Type} (f : Climate → Nat → Nat → Climate) (get : Climate → β)
    (la lb : List Nat) (dy i j : Nat) (v : β) (Inv : Climate → Prop)
    (hinv : ∀ s a b, Inv s → Inv (f s a b))
    (hne : ∀ s a b, b < dy → (a ≠ i ∨ b ≠ j) → get (f s a b) = get s)
    (hcell : ∀ s, Inv s → get (f s i j) = v)
    (hlb : ∀ b ∈ lb, b < dy) (hi : i ∈ la) (hj : j ∈ lb) (s0 : Climate) (h0 : Inv s0) :
    get (la.foldl (fun c a => lb.foldl (fun c b => f c a b) c) s0) = v := by
  have hstep : ∀ s a b, b ∈ lb → Inv s → get s = v → get (f s a b) = v := by
    intro s a b hb hs hg
    by_cases hab : a = i ∧ b = j
    · rw [hab.1, hab.2]
      exact hcell s hs
    · rw [hne s a b (hlb b hb) (by tauto)]
      exact hg
  have hrow_inv : ∀ s a, Inv s → Inv (lb.foldl (fun c b => f c a b) s) := by
    intro s a hs
    exact foldl_keep (fun c b => f c a b) Inv _ (fun s b _ h => hinv s a b h) s hs
  refine foldl_reach (fun c a => lb.foldl (fun c b => f c a b) c)
    Inv (fun s => get s = v) (fun a => a = i) _ (fun s a _ hs => hrow_inv s a hs) ?_ ?_ s0 h0
    (Or.inl ⟨i, hi, rfl⟩)
  · intro s a _ hs hg
    exact (foldl_keep (fun c b => f c a b) (fun s => Inv s ∧ get s = v) _
      (fun s b hb h => ⟨hinv s a b h.1, hstep s a b hb h.1 h.2⟩) s ⟨hs, hg⟩).2
  · intro s a _ hs ha
    subst ha
    exact foldl_reach (fun c b => f c a b) Inv (fun s => get s = v) (fun b => b = j) _
      (fun s b _ h => hinv s a b h) (fun s b hb h hg => hstep s a b hb h hg)
      (fun s b _ h hb => by subst hb; exact hcell s h) s hs
      (Or.inl ⟨j, hj, rfl⟩)

/-- The double loop over the interior, see `grid_loop_cell`. -/
theorem interior_loop_cell {β : Type} (f : Climate → Nat → Nat → Climate) (get : Climate → β)
    (dx dy i j : Nat) (v : β) (Inv : Climate → Prop)
    (hinv : ∀ s a b, Inv s → Inv (f s a b))
    (hne : ∀ s a b, b < dy → (a ≠ i ∨ b ≠ j) → get (f s a b) = get s)
    (hcell : ∀ s, Inv s → get (f s i j) = v)
    (hi : 0 < i ∧ i + 1 < dx) (hj : 0 < j ∧ j + 1 < dy) (s0 : Climate) (h0 : Inv s0) :
    get ((List.range' 1 (dx - 2)).foldl
      (fun c a => (List.range' 1 (dy - 2)).foldl (fun c b => f c a b) c) s0) = v :=
  grid_loop_cell f get _ _ dy i j v Inv hinv hne hcell
    (fun b hb => by have := mem_interior.1 hb; omega) (mem_interior.2 hi) (mem_interior.2 hj)
    s0 h0

theorem upwind_lt (i : Nat) (off : Int) (d : Nat) (h : i < d) : upwind i off d < d := by
  unfold upwind
  split_ifs with h1
  · exact h
  · omega

theorem goCopy_of_length {α : Type} (d : α) (L : Nat) (src : List α) (h : src.length = L) :
    goCopy (List.replicate L d) src = src := by
  unfold goCopy
  simp [h]

theorem calcRainCell_rainFrame (oc orn : List Bool) (dx dy : Nat) (wdx wdy : ℚ)
    (c s : Climate) (a b : Nat) (h : RainFrame c s) :
    RainFrame c (calcRainCell oc orn dx dy wdx wdy s a b) := by
  unfold calcRainCell
  dsimp only
  split_ifs <;> simpa [RainFrame] using h

theorem calcRainClear_rainFrame (c : Climate) (l : List Nat) :
    RainFrame c (l.foldl calcRainClearCell c) := by
  refine foldl_keep _ (RainFrame c) _ ?_ c ⟨rfl, rfl, rfl, rfl, rfl⟩
  intro s a _ hs
  unfold calcRainClearCell
  simpa [RainFrame] using hs

theorem calcRainCell_ne (oc orn : List Bool) (dx dy : Nat) (wdx wdy : ℚ) (s : Climate)
    (a b n : Nat) (h : a * dy + b ≠ n) :
    ((calcRainCell oc orn dx dy wdx wdy s a b).RainMap.getD n false,
      (calcRainCell oc orn dx dy wdx wdy s a b).CloudMap.getD n false)
      = (s.RainMap.getD n false, s.CloudMap.getD n false) := by
  unfold calcRainCell
  dsimp only
  split_ifs <;> simp only [getD_set_ne _ _ _ _ _ h]

/-- The value pair (rain, cloud) of an interior cell after `calcRainMap` is the
one its own iteration of the double loop writes. -/
theorem calcRainMap_cell (c : Climate) (i j : Nat) (R C : Bool)
    (hi : 0 < i ∧ i + 1 < c.dimX) (hj : 0 < j ∧ j + 1 < c.dimY)
    (hcell : ∀ s, RainFrame c s →
      ((calcRainCell (goCopy (List.replicate (c.dimX * c.dimY) false) c.CloudMap)
          (goCopy (List.replicate (c.dimX * c.dimY) false) c.RainMap)
          c.dimX c.dimY c.WindDirection.1 c.WindDirection.2 s i j).RainMap.getD
            (i * c.dimY + j) false,
        (calcRainCell (goCopy (List.replicate (c.dimX * c.dimY) false) c.CloudMap)
          (goCopy (List.replicate (c.dimX * c.dimY) false) c.RainMap)
          c.dimX c.dimY c.WindDirection.1 c.WindDirection.2 s i j).CloudMap.getD
            (i * c.dimY + j) false) = (R, C)) :
    ((calcRainMap c).RainMap.getD (i * c.dimY + j) false,
      (calcRainMap c).CloudMap.getD (i * c.dimY + j) false) = (R, C) := by
  unfold calcRainMap
  dsimp only
  rw [calcRainClear_frame (fun s => s.dimX) (fun _ _ _ => rfl),
    calcRainClear_frame (fun s => s.dimY) (fun _ _ _ => rfl),
    calcRainClear_frame (fun s => s.WindDirection) (fun _ _ _ => rfl)]
  refine interior_loop_cell
    (fun s a b => calcRainCell (goCopy (List.replicate (c.dimX * c.dimY) false) c.CloudMap)
      (goCopy (List.replicate (c.dimX * c.dimY) false) c.RainMap)
      c.dimX c.dimY c.WindDirection.1 c.WindDirection.2 s a b)
    (fun s => (s.RainMap.getD (i * c.dimY + j) false, s.CloudMap.getD (i * c.dimY + j) false))
    c.dimX c.dimY i j (R, C) (RainFrame c) ?_ ?_ hcell hi hj _ (calcRainClear_rainFrame c _)
  · intro s a b hs
    exact calcRainCell_rainFrame _ _ _ _ _ _ c s a b hs
  · intro s a b hb hab
    apply calcRainCell_ne
    intro h
    have := idx_inj hb (by omega) h
    omega

theorem calcRainMap_lengths (c : Climate) :
    (calcRainMap c).RainMap.length = c.RainMap.length
      ∧ (calcRainMap c).CloudMap.length = c.CloudMap.length := by
  unfold calcRainMap
  dsimp only
  refine foldl_keep _ (fun (s : Climate) =>
    s.RainMap.length = c.RainMap.length ∧ s.CloudMap.length = c.CloudMap.length) _ ?_ _ ?_
  · intro s a _ hs
    refine foldl_keep _ (fun (s : Climate) =>
      s.RainMap.length = c.RainMap.length ∧ s.CloudMap.length = c.CloudMap.length) _ ?_ s hs
    intro s b _ hs
    unfold calcRainCell
    dsimp only
    split_ifs <;> simpa using hs
  · have h := calcRainClear_rainFrame c (List.range
      (goCopy (List.replicate (c.dimX * c.dimY) false) c.RainMap).length)
    exact ⟨h.2.2.2.1, h.2.2.2.2⟩

/-- C6: on a state whose cloud and rain fields have length `dimX * dimY`, at an
interior cell `(i, j)` with humidity at least `0.35 + 0.5 * temperature`,
`calcRainMap` sets the rain flag and sets the cloud flag to the previous cloud
flag of the upwind cell `(k, l)`; that is the cell's own index only when
`(k, l) = (i, j)`. -/
theorem C6_raining_transition (c : Climate) (i j : Nat)
    (hC : c.CloudMap.length = c.dimX * c.dimY) (hR : c.RainMap.length = c.dimX * c.dimY)
    (hi0 : 0 < i) (hi1 : i + 1 < c.dimX) (hj0 : 0 < j) (hj1 : j + 1 < c.dimY)
    (hwet : c.HumidityMap.getD (i * c.dimY + j) 0
      ≥ 35 / 100 + (1 / 2) * c.TempMap.getD (i * c.dimY + j) 0) :
    (calcRainMap c).RainMap.length = c.dimX * c.dimY
    ∧ (calcRainMap c).CloudMap.length = c.dimX * c.dimY
    ∧ (calcRainMap c).RainMap.getD (i * c.dimY + j) false = true
    ∧ (calcRainMap c).CloudMap.getD (i * c.dimY + j) false
      = c.CloudMap.getD
          (upwind i (truncQ (2 * c.WindMap.getD (i * c.dimY + j) 0 * c.WindDirection.1)) c.dimX
            * c.dimY
          + upwind j (truncQ (2 * c.WindMap.getD (i * c.dimY + j) 0 * c.WindDirection.2)) c.dimY)
          false
    ∧ (upwind i (truncQ (2 * c.WindMap.getD (i * c.dimY + j) 0 * c.WindDirection.1)) c.dimX
          * c.dimY
        + upwind j (truncQ (2 * c.WindMap.getD (i * c.dimY + j) 0 * c.WindDirection.2)) c.dimY
        = i * c.dimY + j
      ↔ upwind i (truncQ (2 * c.WindMap.getD (i * c.dimY + j) 0 * c.WindDirection.1)) c.dimX = i
        ∧ upwind j (truncQ (2 * c.WindMap.getD (i * c.dimY + j) 0 * c.WindDirection.2)) c.dimY
          = j) := by
  have hlen := calcRainMap_lengths c
  have hidx : i * c.dimY + j < c.dimX * c.dimY := idx_lt (by omega) (by omega)
  have h := calcRainMap_cell c i j true
    (c.CloudMap.getD
      (upwind i (truncQ (2 * c.WindMap.getD (i * c.dimY + j) 0 * c.WindDirection.1)) c.dimX
        * c.dimY
      + upwind j (truncQ (2 * c.WindMap.getD (i * c.dimY + j) 0 * c.WindDirection.2)) c.dimY)
      false) ⟨hi0, hi1⟩ ⟨hj0, hj1⟩ (by
    intro s hs
    unfold calcRainCell
    dsimp only
    rw [hs.1, hs.2.1, hs.2.2.1, if_pos hwet]
    dsimp only
    rw [getD_set_self _ _ _ _ (by rw [hs.2.2.2.1, hR]; exact hidx),
      getD_set_self _ _ _ _ (by rw [hs.2.2.2.2, hC]; exact hidx),
      goCopy_of_length false _ _ hC])
  refine ⟨hlen.1.trans hR, hlen.2.trans hC, (Prod.mk.inj h).1, (Prod.mk.inj h).2, ?_⟩
  constructor
  · intro he
    exact idx_inj (upwind_lt _ _ _ (by omega)) (by omega) he
  · rintro ⟨h1, h2⟩
    rw [h1, h2]

/-- C6 (witness): the example state with humidity `9/10`; the interior cell
takes the cloud flag `true` of its upwind cell `(2, 2)`. -/
theorem C6_raining_transition_witness :
    (calcRainMap (rainGrid (9 / 10))).RainMap.getD (1 * (rainGrid (9 / 10)).dimY + 1) false = true
    ∧ (calcRainMap (rainGrid (9 / 10))).CloudMap.getD (1 * (rainGrid (9 / 10)).dimY + 1) false
      = true :=
  ⟨(C6_raining_transition (rainGrid (9 / 10)) 1 1 (by decide!) (by decide!) (by decide!)
      (by decide!) (by decide!) (by decide!) (by decide!)).2.2.1,
    (C6_raining_transition (rainGrid (9 / 10)) 1 1 (by decide!) (by decide!) (by decide!)
      (by decide!) (by decide!) (by decide!) (by decide!)).2.2.2.1.trans (by decide!)⟩

/-- C7: at an interior cell with `0.30 + 0.3 * temperature <= humidity
< 0.35 + 0.5 * temperature`, `calcRainMap` sets the cloud flag and sets the rain
flag to the previous rain flag of the upwind cell. -/
theorem C7_cloudy_transition (c : Climate) (i j : Nat)
    (hC : c.CloudMap.length = c.dimX * c.dimY) (hR : c.RainMap.length = c.dimX * c.dimY)
    (hi0 : 0 < i) (hi1 : i + 1 < c.dimX) (hj0 : 0 < j) (hj1 : j + 1 < c.dimY)
    (hlo : 3 / 10 + (3 / 10) * c.TempMap.getD (i * c.dimY + j) 0
      ≤ c.HumidityMap.getD (i * c.dimY + j) 0)
    (hhi : c.HumidityMap.getD (i * c.dimY + j) 0
      < 35 / 100 + (1 / 2) * c.TempMap.getD (i * c.dimY + j) 0) :
    (calcRainMap c).RainMap.length = c.dimX * c.dimY
    ∧ (calcRainMap c).CloudMap.length = c.dimX * c.dimY
    ∧ (calcRainMap c).CloudMap.getD (i * c.dimY + j) false = true
    ∧ (calcRainMap c).RainMap.getD (i * c.dimY + j) false
      = c.RainMap.getD
          (upwind i (truncQ (2 * c.WindMap.getD (i * c.dimY + j) 0 * c.WindDirection.1)) c.dimX
            * c.dimY
          + upwind j (truncQ (2 * c.WindMap.getD (i * c.dimY + j) 0 * c.WindDirection.2)) c.dimY)
          false := by
  have hlen := calcRainMap_lengths c
  have hidx : i * c.dimY + j < c.dimX * c.dimY := idx_lt (by omega) (by omega)
  have h := calcRainMap_cell c i j
    (c.RainMap.getD
      (upwind i (truncQ (2 * c.WindMap.getD (i * c.dimY + j) 0 * c.WindDirection.1)) c.dimX
        * c.dimY
      + upwind j (truncQ (2 * c.WindMap.getD (i * c.dimY + j) 0 * c.WindDirection.2)) c.dimY)
      false) true ⟨hi0, hi1⟩ ⟨hj0, hj1⟩ (by
    intro s hs
    unfold calcRainCell
    dsimp only
    rw [hs.1, hs.2.1, hs.2.2.1, if_neg (not_le.2 hhi), if_pos hlo]
    dsimp only
    rw [getD_set_self _ _ _ _ (by rw [hs.2.2.2.1, hR]; exact hidx),
      getD_set_self _ _ _ _ (by rw [hs.2.2.2.2, hC]; exact hidx),
      goCopy_of_length false _ _ hR])
  exact ⟨hlen.1.trans hR, hlen.2.trans hC, (Prod.mk.inj h).2, (Prod.mk.inj h).1⟩

/-- C7 (witness): the example state with humidity `1/2`; the interior cell takes
the rain flag `true` of its upwind cell `(2, 2)`. -/
theorem C7_cloudy_transition_witness :
    (calcRainMap (rainGrid (1 / 2))).CloudMap.getD (1 * (rainGrid (1 / 2)).dimY + 1) false = true
    ∧ (calcRainMap (rainGrid (1 / 2))).RainMap.getD (1 * (rainGrid (1 / 2)).dimY + 1) false
      = true :=
  ⟨(C7_cloudy_transition (rainGrid (1 / 2)) 1 1 (by decide!) (by decide!) (by decide!)
      (by decide!) (by decide!) (by decide!) (by decide!) (by decide!)).2.2.1,
    (C7_cloudy_transition (rainGrid (1 / 2)) 1 1 (by decide!) (by decide!) (by decide!)
      (by decide!) (by decide!) (by decide!) (by decide!) (by decide!)).2.2.2.trans
      (by decide!)⟩

/-- C8: at an interior cell with humidity below both `0.35 + 0.5 * temperature`
and `0.30 + 0.3 * temperature`, `calcRainMap` clears the cloud flag and the rain
flag, whatever the previous flags of the cell and of its upwind cell. -/
theorem C8_clear_transition (c : Climate) (i j : Nat)
    (hC : c.CloudMap.length = c.dimX * c.dimY) (hR : c.RainMap.length = c.dimX * c.dimY)
    (hi0 : 0 < i) (hi1 : i + 1 < c.dimX) (hj0 : 0 < j) (hj1 : j + 1 < c.dimY)
    (h1 : c.HumidityMap.getD (i * c.dimY + j) 0
      < 35 / 100 + (1 / 2) * c.TempMap.getD (i * c.dimY + j) 0)
    (h2 : c.HumidityMap.getD (i * c.dimY + j) 0
      < 3 / 10 + (3 / 10) * c.TempMap.getD (i * c.dimY + j) 0) :
    (calcRainMap c).RainMap.length = c.dimX * c.dimY
    ∧ (calcRainMap c).CloudMap.length = c.dimX * c.dimY
    ∧ (calcRainMap c).CloudMap[i * c.dimY + j]? = some false
    ∧ (calcRainMap c).RainMap[i * c.dimY + j]? = some false := by
  have hlen := calcRainMap_lengths c
  have hidx : i * c.dimY + j < c.dimX * c.dimY := idx_lt (by omega) (by omega)
  have h := calcRainMap_cell c i j false false ⟨hi0, hi1⟩ ⟨hj0, hj1⟩ (by
    intro s hs
    unfold calcRainCell
    dsimp only
    rw [hs.1, hs.2.1, hs.2.2.1, if_neg (not_le.2 h1), if_neg (not_le.2 h2)]
    dsimp only
    rw [getD_set_self _ _ _ _ (by rw [hs.2.2.2.1, hR]; exact hidx),
      getD_set_self _ _ _ _ (by rw [hs.2.2.2.2, hC]; exact hidx)])
  have hRl : i * c.dimY + j < (calcRainMap c).RainMap.length := by rw [hlen.1, hR]; exact hidx
  have hCl : i * c.dimY + j < (calcRainMap c).CloudMap.length := by rw [hlen.2, hC]; exact hidx
  refine ⟨hlen.1.trans hR, hlen.2.trans hC, ?_, ?_⟩
  · rw [List.getElem?_eq_getElem hCl, ← List.getD_eq_getElem _ false hCl, (Prod.mk.inj h).2]
  · rw [List.getElem?_eq_getElem hRl, ← List.getD_eq_getElem _ false hRl, (Prod.mk.inj h).1]

/-- C8 (witness): the example state with humidity `1/5`. -/
theorem C8_clear_transition_witness :
    (calcRainMap (rainGrid (1 / 5))).CloudMap[1 * (rainGrid (1 / 5)).dimY + 1]? = some false
    ∧ (calcRainMap (rainGrid (1 / 5))).RainMap[1 * (rainGrid (1 / 5)).dimY + 1]? = some false :=
  ⟨(C8_clear_transition (rainGrid (1 / 5)) 1 1 (by decide!) (by decide!) (by decide!)
      (by decide!) (by decide!) (by decide!) (by decide!) (by decide!)).2.2.1,
    (C8_clear_transition (rainGrid (1 / 5)) 1 1 (by decide!) (by decide!) (by decide!)
      (by decide!) (by decide!) (by decide!) (by decide!) (by decide!)).2.2.2⟩

/-! ## Wind -/

/-- The wind speed `calcWind` writes at a cell `(i, j)` of the grid. -/
theorem calcWind_cell (c : Climate) (day : Int) (i j : Nat)
    (hW : c.WindMap.length = c.dimX * c.dimY) (hi : i < c.dimX) (hj : j < c.dimY) :
    (calcWind c day).WindMap.getD (i * c.dimY + j) 0
      = 5 * (1 - (c.heightmap.getD (i * c.dimY + j) 0
          - c.heightmap.getD
              (upwind i (truncQ (10 * c.perlin ((day : ℚ) / 365) (c.seed : ℚ))) c.dimX * c.dimY
                + upwind j (truncQ (10 * c.perlin ((day : ℚ) / 365)
                    ((day : ℚ) / 365 + (c.seed : ℚ)))) c.dimY) 0) / 1000) := by
  unfold calcWind
  dsimp only
  refine grid_loop_cell
    (fun s a b => calcWindCell c.dimX c.dimY (c.perlin ((day : ℚ) / 365) (c.seed : ℚ))
      (c.perlin ((day : ℚ) / 365) ((day : ℚ) / 365 + (c.seed : ℚ))) s a b)
    (fun s => s.WindMap.getD (i * c.dimY + j) 0) _ _ c.dimY i j _
    (fun s => s.heightmap = c.heightmap ∧ s.WindMap.length = c.WindMap.length)
    ?_ ?_ ?_ (fun b hb => List.mem_range.1 hb) (List.mem_range.2 hi) (List.mem_range.2 hj)
    _ ⟨rfl, rfl⟩
  · intro s a b hs
    unfold calcWindCell
    simpa using hs
  · intro s a b hb hab
    unfold calcWindCell
    dsimp only
    apply getD_set_ne
    intro h
    have := idx_inj hb hj h
    omega
  · intro s hs
    unfold calcWindCell
    dsimp only
    rw [getD_set_self _ _ _ _ (by rw [hs.2, hW]; exact idx_lt hi hj), hs.1]

theorem calcWind_WindDirection (c : Climate) (day : Int) :
    (calcWind c day).WindDirection
      = (c.perlin ((day : ℚ) / 365) (c.seed : ℚ),
         c.perlin ((day : ℚ) / 365) ((day : ℚ) / 365 + (c.seed : ℚ))) := by
  unfold calcWind
  dsimp only
  refine foldl_keep _ (fun (s : Climate) => s.WindDirection = _) _ ?_ _ rfl
  intro s a _ hs
  refine foldl_keep _ (fun (s : Climate) => s.WindDirection = _) _ ?_ s hs
  intro s b _ hs
  exact hs

theorem truncQ_zero : truncQ 0 = 0 := by decide

theorem upwind_zero (i d : Nat) : upwind i 0 d = i := by
  unfold upwind
  split_ifs
  · rfl
  · simp

theorem upwind_outside (i : Nat) (off : Int) (d : Nat)
    (h : (i : Int) + off < 0 ∨ (d : Int) ≤ (i : Int) + off) : upwind i off d = i := by
  unfold upwind
  rw [if_pos h]

theorem upwind_inside (i : Nat) (off : Int) (d : Nat)
    (h0 : 0 ≤ (i : Int) + off) (h1 : (i : Int) + off < (d : Int)) :
    ((upwind i off d : Nat) : Int) = (i : Int) + off := by
  unfold upwind
  rw [if_neg (by omega)]
  exact Int.toNat_of_nonneg h0

/-- The wind speed at `(i, j)` after `calcWind`, with the upwind cell `(k, l)`
taken along the wind direction the call has set. -/
theorem calcWind_speed (c : Climate) (day : Int) (i j k l : Nat)
    (hW : c.WindMap.length = c.dimX * c.dimY) (hi : i < c.dimX) (hj : j < c.dimY)
    (hk : k = upwind i (truncQ (10 * (calcWind c day).WindDirection.1)) c.dimX)
    (hl : l = upwind j (truncQ (10 * (calcWind c day).WindDirection.2)) c.dimY) :
    (calcWind c day).WindMap.getD (i * c.dimY + j) 0
      = 5 * (1 - (c.heightmap.getD (i * c.dimY + j) 0
          - c.heightmap.getD (k * c.dimY + l) 0) / 1000) := by
  rw [calcWind_WindDirection] at hk hl
  rw [hk, hl]
  exact calcWind_cell c day i j hW hi hj

/-- C9: after `calcWind` the wind speed at every cell `(i, j)` is
`5 * (1 - (heightmap[i*dimY+j] - heightmap[k*dimY+l]) / 1000)` for its upwind
cell `(k, l)`; it is above 5 exactly when the upwind cell is higher, below 5
exactly when it is lower, and 5 exactly when both are level, in particular on
a flat heightmap and when the wind direction is `(0, 0)`. -/
theorem C9_wind_speed (c : Climate) (day : Int) (i j k l : Nat)
    (hW : c.WindMap.length = c.dimX * c.dimY) (hi : i < c.dimX) (hj : j < c.dimY)
    (hk : k = upwind i (truncQ (10 * (calcWind c day).WindDirection.1)) c.dimX)
    (hl : l = upwind j (truncQ (10 * (calcWind c day).WindDirection.2)) c.dimY) :
    (calcWind c day).WindMap.length = c.dimX * c.dimY
    ∧ (calcWind c day).WindMap.getD (i * c.dimY + j) 0
      = 5 * (1 - (c.heightmap.getD (i * c.dimY + j) 0
          - c.heightmap.getD (k * c.dimY + l) 0) / 1000)
    ∧ (5 < (calcWind c day).WindMap.getD (i * c.dimY + j) 0
        ↔ c.heightmap.getD (i * c.dimY + j) 0 < c.heightmap.getD (k * c.dimY + l) 0)
    ∧ ((calcWind c day).WindMap.getD (i * c.dimY + j) 0 < 5
        ↔ c.heightmap.getD (k * c.dimY + l) 0 < c.heightmap.getD (i * c.dimY + j) 0)
    ∧ ((calcWind c day).WindMap.getD (i * c.dimY + j) 0 = 5
        ↔ c.heightmap.getD (k * c.dimY + l) 0 = c.heightmap.getD (i * c.dimY + j) 0)
    ∧ ((∀ m n, m < c.dimX * c.dimY → n < c.dimX * c.dimY →
          c.heightmap.getD m 0 = c.heightmap.getD n 0) →
        (calcWind c day).WindMap.getD (i * c.dimY + j) 0 = 5)
    ∧ ((calcWind c day).WindDirection = (0, 0) →
        (calcWind c day).WindMap.getD (i * c.dimY + j) 0 = 5) := by
  have hs := calcWind_speed c day i j k l hW hi hj hk hl
  have hlen : (calcWind c day).WindMap.length = c.dimX * c.dimY := by
    unfold calcWind
    dsimp only
    refine foldl_keep _ (fun (s : Climate) => s.WindMap.length = c.dimX * c.dimY) _ ?_ _ hW
    intro s a _ hs
    refine foldl_keep _ (fun (s : Climate) => s.WindMap.length = c.dimX * c.dimY) _ ?_ s hs
    intro s b _ hs
    unfold calcWindCell
    simpa using hs
  have h3 : (calcWind c day).WindMap.getD (i * c.dimY + j) 0 = 5
      ↔ c.heightmap.getD (k * c.dimY + l) 0 = c.heightmap.getD (i * c.dimY + j) 0 := by
    rw [hs]
    constructor
    · intro h
      linarith
    · intro h
      rw [h]
      norm_num
  refine ⟨hlen, hs, ?_, ?_, h3, ?_, ?_⟩
  · rw [hs]
    constructor
    · intro h
      linarith
    · intro h
      linarith
  · rw [hs]
    constructor
    · intro h
      linarith
    · intro h
      linarith
  · intro hflat
    have hk2 : k < c.dimX := hk ▸ upwind_lt _ _ _ hi
    have hl2 : l < c.dimY := hl ▸ upwind_lt _ _ _ hj
    exact h3.2 (hflat _ _ (idx_lt hk2 hl2) (idx_lt hi hj))
  · intro hdir
    rw [hdir] at hk hl
    simp only [mul_zero, truncQ_zero, upwind_zero] at hk hl
    rw [h3, hk, hl]

/-- C9 (witness): cell `(1, 0)` of the example state, whose upwind cell
`(2, 1)` is 1000 higher: the speed is 10. -/
theorem C9_wind_speed_witness :
    (calcWind windGrid 0).WindMap.getD (1 * windGrid.dimY + 0) 0
      = 5 * (1 - (windGrid.heightmap.getD (1 * windGrid.dimY + 0) 0
          - windGrid.heightmap.getD (2 * windGrid.dimY + 1) 0) / 1000)
    ∧ 5 < (calcWind windGrid 0).WindMap.getD (1 * windGrid.dimY + 0) 0 :=
  ⟨(C9_wind_speed windGrid 0 1 0 2 1 (by decide!) (by decide!) (by decide!) (by decide!)
      (by decide!)).2.1,
    (C9_wind_speed windGrid 0 1 0 2 1 (by decide!) (by decide!) (by decide!) (by decide!)
      (by decide!)).2.2.1.2 (by decide!)⟩

/-- C10 (as amended): in `calcWind` each coordinate of the upwind cell falls
back on its own: `k = i` when `i + int(10 * wdx)` is outside `[0, dimX)` and
`l = j` when `j + int(10 * wdy)` is outside `[0, dimY)`; when both are outside,
the upwind cell is the cell itself and its wind speed is exactly 5. -/
theorem C10_wind_edge_fallback (c : Climate) (day : Int) (i j k l : Nat)
    (hW : c.WindMap.length = c.dimX * c.dimY) (hi : i < c.dimX) (hj : j < c.dimY)
    (hk : k = upwind i (truncQ (10 * (calcWind c day).WindDirection.1)) c.dimX)
    (hl : l = upwind j (truncQ (10 * (calcWind c day).WindDirection.2)) c.dimY) :
    (((i : Int) + truncQ (10 * (calcWind c day).WindDirection.1) < 0
        ∨ (c.dimX : Int) ≤ (i : Int) + truncQ (10 * (calcWind c day).WindDirection.1)) → k = i)
    ∧ (((j : Int) + truncQ (10 * (calcWind c day).WindDirection.2) < 0
        ∨ (c.dimY : Int) ≤ (j : Int) + truncQ (10 * (calcWind c day).WindDirection.2)) → l = j)
    ∧ (0 ≤ (i : Int) + truncQ (10 * (calcWind c day).WindDirection.1) →
        (i : Int) + truncQ (10 * (calcWind c day).WindDirection.1) < (c.dimX : Int) →
        (k : Int) = (i : Int) + truncQ (10 * (calcWind c day).WindDirection.1))
    ∧ (0 ≤ (j : Int) + truncQ (10 * (calcWind c day).WindDirection.2) →
        (j : Int) + truncQ (10 * (calcWind c day).WindDirection.2) < (c.dimY : Int) →
        (l : Int) = (j : Int) + truncQ (10 * (calcWind c day).WindDirection.2))
    ∧ (calcWind c day).WindMap.getD (i * c.dimY + j) 0
      = 5 * (1 - (c.heightmap.getD (i * c.dimY + j) 0
          - c.heightmap.getD (k * c.dimY + l) 0) / 1000)
    ∧ (k = i → l = j → (calcWind c day).WindMap.getD (i * c.dimY + j) 0 = 5) := by
  have hs := calcWind_speed c day i j k l hW hi hj hk hl
  refine ⟨fun h => hk.trans (upwind_outside _ _ _ h), fun h => hl.trans (upwind_outside _ _ _ h),
    fun h0 h1 => hk ▸ upwind_inside _ _ _ h0 h1, fun h0 h1 => hl ▸ upwind_inside _ _ _ h0 h1,
    hs, ?_⟩
  intro h1 h2
  rw [hs, h1, h2]
  norm_num

/-- C10 (witness): the corner `(2, 2)` of the example state, whose upwind
location `(3, 3)` is outside along both axes. -/
theorem C10_wind_edge_fallback_witness :
    (windGrid.dimX : Int) ≤ (2 : Int) + truncQ (10 * (calcWind windGrid 0).WindDirection.1)
    ∧ (windGrid.dimY : Int) ≤ (2 : Int) + truncQ (10 * (calcWind windGrid 0).WindDirection.2)
    ∧ (calcWind windGrid 0).WindMap.getD (2 * windGrid.dimY + 2) 0 = 5 :=
  ⟨by decide!, by decide!,
    (C10_wind_edge_fallback windGrid 0 2 2 2 2 (by decide!) (by decide!) (by decide!)
      (by decide!) (by decide!)).2.2.2.2.2 rfl rfl⟩

/-- C10 (counterexample): at cell `(2, 0)` of the example state the location 10
units upwind, `(3, 1)`, is outside the grid, yet the upwind cell used is
`(2, 1)`, not `(2, 0)`, and the wind speed is 10, not 5. -/
theorem C10_upwind_row_out_column_in :
    (windGrid.dimX : Int) ≤ (2 : Int) + truncQ (10 * (calcWind windGrid 0).WindDirection.1)
    ∧ upwind 2 (truncQ (10 * (calcWind windGrid 0).WindDirection.1)) windGrid.dimX = 2
    ∧ upwind 0 (truncQ (10 * (calcWind windGrid 0).WindDirection.2)) windGrid.dimY = 1
    ∧ (calcWind windGrid 0).WindMap.getD (2 * windGrid.dimY + 0) 0 = 10
    ∧ (calcWind windGrid 0).WindMap.getD (2 * windGrid.dimY + 0) 0 ≠ 5 := by
  decide!

/-! ## Biomes by elevation band -/

theorem genBiomeCell_biomeMap (rand : Nat → Nat) (st : Climate × Nat) (i : Nat) :
    (genBiomeCell rand st i).1.biomeMap
      = st.1.biomeMap.set i (biomeCode (st.1.heightmap.getD i 0) (st.1.AvgRainMap.getD i 0)
          (rockyTest rand st.2 (st.1.AvgRainMap.getD i 0) (i / st.1.dimY) (i % st.1.dimY)).1) := by
  unfold genBiomeCell biomeCode
  dsimp only
  split_ifs <;> rfl

theorem genBiomeCell_pos (rand : Nat → Nat) (st : Climate × Nat) (i : Nat) :
    (genBiomeCell rand st i).2
      = if 600 < st.1.heightmap.getD i 0 ∧ st.1.heightmap.getD i 0 ≤ 1300 then
          (rockyTest rand st.2 (st.1.AvgRainMap.getD i 0) (i / st.1.dimY) (i % st.1.dimY)).2
        else st.2 := by
  unfold genBiomeCell
  dsimp only
  split_ifs with h1 h2 h3 h4 h5 h6 h7 h8 h9 h10 <;>
    first
      | rfl
      | (exfalso; rcases ‹_ ∧ _› with ⟨ha, hb⟩; linarith)
      | (exfalso; apply ‹¬(_ ∧ _)›; constructor <;> linarith)

theorem genBiomeCell_frame {β : Type} (g : Climate → β)
    (hg : ∀ (s : Climate) (b : List Int), g { s with biomeMap := b } = g s)
    (rand : Nat → Nat) (st : Climate × Nat) (i : Nat) : g (genBiomeCell rand st i).1 = g st.1 := by
  unfold genBiomeCell
  dsimp only
  split_ifs <;> exact hg _ _

theorem genBiome_frame {β : Type} (g : Climate → β)
    (hg : ∀ (s : Climate) (b : List Int), g { s with biomeMap := b } = g s)
    (rand : Nat → Nat) (c : Climate) (l : List Nat) (k : Nat) :
    g (l.foldl (genBiomeCell rand) (c, k)).1 = g c := by
  refine foldl_keep (genBiomeCell rand) (fun st => g st.1 = g c) _ ?_ (c, k) rfl
  intro st i _ hs
  exact (genBiomeCell_frame g hg rand st i).trans hs

theorem genBiome_biomeFrame (rand : Nat → Nat) (c : Climate) (l : List Nat) (k : Nat) :
    BiomeFrame c (l.foldl (genBiomeCell rand) (c, k)).1 := by
  refine foldl_keep (genBiomeCell rand) (fun st => BiomeFrame c st.1) _ ?_ (c, k)
    ⟨rfl, rfl, rfl, rfl⟩
  intro st i _ hs
  refine ⟨(genBiomeCell_frame (fun s => s.heightmap) (fun _ _ => rfl) rand st i).trans hs.1,
    (genBiomeCell_frame (fun s => s.AvgRainMap) (fun _ _ => rfl) rand st i).trans hs.2.1,
    (genBiomeCell_frame (fun s => s.dimY) (fun _ _ => rfl) rand st i).trans hs.2.2.1, ?_⟩
  rw [genBiomeCell_biomeMap, List.length_set]
  exact hs.2.2.2

/-- The code `genBiome` leaves in cell `n`: the one its iteration `n` writes,
with the jitter test run on the random values not yet drawn at that point. -/
theorem genBiome_value (rand : Nat → Nat) (c : Climate) (n : Nat)
    (hn : n < c.heightmap.length) (hb : n < c.biomeMap.length) :
    (genBiome rand c).biomeMap[n]?
      = some (biomeCode (c.heightmap.getD n 0) (c.AvgRainMap.getD n 0)
          (rockyTest rand ((List.range n).foldl (genBiomeCell rand) (c, 0)).2
            (c.AvgRainMap.getD n 0) (n / c.dimY) (n % c.dimY)).1) := by
  unfold genBiome
  have hfr := genBiome_biomeFrame rand c (List.range n) 0
  rw [foldl_range_at (genBiomeCell rand) (fun st => st.1.biomeMap[n]?) n ?_ (c, 0) _ hn]
  · rw [genBiomeCell_biomeMap, hfr.1, hfr.2.1, hfr.2.2.1]
    exact List.getElem?_set_self (by rw [hfr.2.2.2]; exact hb)
  · intro st a ha
    show (genBiomeCell rand st a).1.biomeMap[n]? = st.1.biomeMap[n]?
    rw [genBiomeCell_biomeMap]
    exact List.getElem?_set_ne ha

theorem genBiome_biomeMap_length (rand : Nat → Nat) (c : Climate) :
    (genBiome rand c).biomeMap.length = c.biomeMap.length :=
  (genBiome_biomeFrame rand c _ 0).2.2.2

theorem rockyTest_wet (rand : Nat → Nat) (n : Nat) (avg : ℚ) (x y : Nat)
    (h : avg ≥ 1 / 1000) : rockyTest rand n avg x y = (false, n) := by
  unfold rockyTest
  rw [if_neg (not_lt.2 h)]

/-- C16: `genBiome` assigns 0 to a cell of elevation `d <= 200`, 1 for
`200 < d <= 204`, 2 for `204 < d <= 210`, 3 for `210 < d <= 220`, 9 for
`1300 < d <= 1500` and 10 for `d > 1500`, whatever `AvgRainMap` and the random
values are. -/
theorem C16_elevation_bands (rand : Nat → Nat) (c : Climate) (n : Nat)
    (hn : n < c.heightmap.length) (hb : n < c.biomeMap.length) :
    (c.heightmap.getD n 0 ≤ 200 → (genBiome rand c).biomeMap[n]? = some 0)
    ∧ (200 < c.heightmap.getD n 0 → c.heightmap.getD n 0 ≤ 204 →
        (genBiome rand c).biomeMap[n]? = some 1)
    ∧ (204 < c.heightmap.getD n 0 → c.heightmap.getD n 0 ≤ 210 →
        (genBiome rand c).biomeMap[n]? = some 2)
    ∧ (210 < c.heightmap.getD n 0 → c.heightmap.getD n 0 ≤ 220 →
        (genBiome rand c).biomeMap[n]? = some 3)
    ∧ (1300 < c.heightmap.getD n 0 → c.heightmap.getD n 0 ≤ 1500 →
        (genBiome rand c).biomeMap[n]? = some 9)
    ∧ (1500 < c.heightmap.getD n 0 → (genBiome rand c).biomeMap[n]? = some 10) := by
  rw [genBiome_value rand c n hn hb]
  unfold biomeCode
  refine ⟨?_, ?_, ?_, ?_, ?_, ?_⟩
  · intro h
    rw [if_pos h]
  · intro h1 h2
    rw [if_neg (not_le.2 h1), if_pos h2]
  · intro h1 h2
    rw [if_neg (by linarith), if_neg (not_le.2 h1), if_pos h2]
  · intro h1 h2
    rw [if_neg (by linarith), if_neg (by linarith), if_neg (not_le.2 h1), if_pos h2]
  · intro h1 h2
    rw [if_neg (by linarith), if_neg (by linarith), if_neg (by linarith), if_neg (by linarith),
      if_neg (by linarith), if_neg (not_le.2 h1), if_pos h2]
  · intro h1
    rw [if_neg (by linarith), if_neg (by linarith), if_neg (by linarith), if_neg (by linarith),
      if_neg (by linarith), if_neg (by linarith), if_neg (not_le.2 h1)]

/-- C16 (witness): the cells of elevation 202 and 1400 of the example state. -/
theorem C16_elevation_bands_witness :
    (genBiome (fun _ => 0) bandGrid).biomeMap[1]? = some 1
    ∧ (genBiome (fun _ => 0) bandGrid).biomeMap[7]? = some 9 :=
  ⟨(C16_elevation_bands (fun _ => 0) bandGrid 1 (by decide!) (by decide!)).2.1
      (by decide!) (by decide!),
    (C16_elevation_bands (fun _ => 0) bandGrid 7 (by decide!) (by decide!)).2.2.2.2.1
      (by decide!) (by decide!)⟩

/-- C17: `genBiome` assigns to a cell of elevation `220 < d <= 600` the code 4
if its `AvgRainMap` value is at least 0.02 and 5 otherwise, whatever the random
values and the other fields are. -/
theorem C17_plains_band (rand : Nat → Nat) (c : Climate) (n : Nat)
    (hn : n < c.heightmap.length) (hb : n < c.biomeMap.length)
    (h1 : 220 < c.heightmap.getD n 0) (h2 : c.heightmap.getD n 0 ≤ 600) :
    (c.AvgRainMap.getD n 0 ≥ 2 / 100 → (genBiome rand c).biomeMap[n]? = some 4)
    ∧ (c.AvgRainMap.getD n 0 < 2 / 100 → (genBiome rand c).biomeMap[n]? = some 5) := by
  rw [genBiome_value rand c n hn hb]
  unfold biomeCode
  rw [if_neg (by linarith), if_neg (by linarith), if_neg (by linarith), if_neg (not_le.2 h1),
    if_pos h2]
  constructor
  · intro h
    rw [if_pos h]
  · intro h
    rw [if_neg (not_le.2 h)]

/-- C17 (witness): the cell of elevation 400 and average rain 0.03 of the
example state. -/
theorem C17_plains_band_witness :
    (genBiome (fun _ => 0) bandGrid).biomeMap[4]? = some 4 :=
  (C17_plains_band (fun _ => 0) bandGrid 4 (by decide!) (by decide!) (by decide!)
    (by decide!)).1 (by decide!)

/-- C18: `genBiome` assigns to a cell of elevation `600 < d <= 1300` one of 6,
7, 8; never 6 when its `AvgRainMap` value is at least 0.001; and when the code
is not 6 it is 7 for `d <= 1100` and 8 otherwise. -/
theorem C18_hills_band (rand : Nat → Nat) (c : Climate) (n : Nat)
    (hn : n < c.heightmap.length) (hb : n < c.biomeMap.length)
    (h1 : 600 < c.heightmap.getD n 0) (h2 : c.heightmap.getD n 0 ≤ 1300) :
    ((genBiome rand c).biomeMap[n]? = some 6 ∨ (genBiome rand c).biomeMap[n]? = some 7
        ∨ (genBiome rand c).biomeMap[n]? = some 8)
    ∧ (c.AvgRainMap.getD n 0 ≥ 1 / 1000 → (genBiome rand c).biomeMap[n]? ≠ some 6)
    ∧ ((genBiome rand c).biomeMap[n]? ≠ some 6 →
        (c.heightmap.getD n 0 ≤ 1100 → (genBiome rand c).biomeMap[n]? = some 7)
        ∧ (1100 < c.heightmap.getD n 0 → (genBiome rand c).biomeMap[n]? = some 8)) := by
  rw [genBiome_value rand c n hn hb]
  unfold biomeCode
  rw [if_neg (by linarith), if_neg (by linarith), if_neg (by linarith), if_neg (by linarith),
    if_neg (not_le.2 h1), if_pos h2]
  refine ⟨?_, ?_, ?_⟩
  · split_ifs <;> simp
  · intro h
    rw [rockyTest_wet rand _ _ _ _ h, if_neg (by simp)]
    split_ifs
    · decide
    · decide
  · intro h
    split_ifs at h ⊢ with hr hd
    · exact absurd rfl h
    · exact ⟨fun _ => rfl, fun h3 => absurd hd (not_le.2 h3)⟩
    · exact ⟨fun h3 => absurd h3 hd, fun _ => rfl⟩

/-- C18 (witness): the cell of elevation 1200 and average rain 0.01 of the
example state. -/
theorem C18_hills_band_witness :
    (genBiome (fun _ => 2) bandGrid).biomeMap[6]? ≠ some 6
    ∧ (genBiome (fun _ => 2) bandGrid).biomeMap[6]? = some 8 :=
  ⟨(C18_hills_band (fun _ => 2) bandGrid 6 (by decide!) (by decide!) (by decide!)
      (by decide!)).2.1 (by decide!),
    ((C18_hills_band (fun _ => 2) bandGrid 6 (by decide!) (by decide!) (by decide!)
      (by decide!)).2.2
      ((C18_hills_band (fun _ => 2) bandGrid 6 (by decide!) (by decide!) (by decide!)
        (by decide!)).2.1 (by decide!))).2 (by decide!)⟩

theorem biomeCode_rocky (d avg : ℚ) (r1 r2 : Bool) (h : ¬(600 < d ∧ d ≤ 1300)) :
    biomeCode d avg r1 = biomeCode d avg r2 := by
  unfold biomeCode
  split_ifs <;> first | rfl | (exfalso; apply h; constructor <;> linarith)

/-- With the same random values, two runs on states that agree on `heightmap`,
`AvgRainMap` and `dimY` have drawn the same number of values at every cell. -/
theorem genBiome_pos_congr (rand : Nat → Nat) (c1 c2 : Climate)
    (hh : c1.heightmap = c2.heightmap) (hr : c1.AvgRainMap = c2.AvgRainMap)
    (hy : c1.dimY = c2.dimY) (k : Nat) :
    ((List.range k).foldl (genBiomeCell rand) (c1, 0)).2
      = ((List.range k).foldl (genBiomeCell rand) (c2, 0)).2 := by
  induction k with
  | zero => rfl
  | succ k ih =>
    have h1 := genBiome_biomeFrame rand c1 (List.range k) 0
    have h2 := genBiome_biomeFrame rand c2 (List.range k) 0
    rw [foldl_range_succ, foldl_range_succ, genBiomeCell_pos, genBiomeCell_pos,
      h1.1, h1.2.1, h1.2.2.1, h2.1, h2.2.1, h2.2.2.1, ih, hh, hr, hy]

/-- C19 (as amended): two runs of `genBiome` on states with the same `dimY`,
`heightmap` and `AvgRainMap` give a cell the same biome when the random
generator returns the same values to both, and, whatever it returns, when the
cell is outside the dry hills band (`600 < d <= 1300` with average rain below
0.001). -/
theorem C19_biome_determinism (rand1 rand2 : Nat → Nat) (c1 c2 : Climate) (n : Nat)
    (hh : c1.heightmap = c2.heightmap) (hr : c1.AvgRainMap = c2.AvgRainMap)
    (hy : c1.dimY = c2.dimY) (hl : c1.biomeMap.length = c2.biomeMap.length)
    (hn : n < c1.heightmap.length) (hb : n < c1.biomeMap.length) :
    (rand1 = rand2 → (genBiome rand1 c1).biomeMap[n]? = (genBiome rand2 c2).biomeMap[n]?)
    ∧ (¬(600 < c1.heightmap.getD n 0 ∧ c1.heightmap.getD n 0 ≤ 1300
          ∧ c1.AvgRainMap.getD n 0 < 1 / 1000) →
        (genBiome rand1 c1).biomeMap[n]? = (genBiome rand2 c2).biomeMap[n]?) := by
  rw [genBiome_value rand1 c1 n hn hb,
    genBiome_value rand2 c2 n (hh ▸ hn) (hl ▸ hb), ← hh, ← hr, ← hy]
  constructor
  · intro he
    subst he
    rw [genBiome_pos_congr rand1 c1 c2 hh hr hy n]
  · intro hdry
    by_cases hband : 600 < c1.heightmap.getD n 0 ∧ c1.heightmap.getD n 0 ≤ 1300
    · have hwet : c1.AvgRainMap.getD n 0 ≥ 1 / 1000 := by
        by_contra hlt
        exact hdry ⟨hband.1, hband.2, not_le.1 hlt⟩
      rw [rockyTest_wet rand1 _ _ _ _ hwet, rockyTest_wet rand2 _ _ _ _ hwet]
    · rw [biomeCode_rocky _ _ _ _ hband]

/-- C19 (witness): a sea-level cell of the 7 x 7 example state, two states that
differ in `TempMap`, two different random sequences. -/
theorem C19_biome_determinism_witness :
    (genBiome (fun _ => 0) hillGrid).biomeMap[0]?
      = (genBiome (fun _ => 2) { hillGrid with TempMap := [] }).biomeMap[0]? :=
  (C19_biome_determinism (fun _ => 0) (fun _ => 2) hillGrid { hillGrid with TempMap := [] } 0
    rfl rfl rfl rfl (by decide!) (by decide!)).2 (by decide!)

/-- C19 (counterexample): on the 7 x 7 example state the dry hills cell
`(6, 6)` becomes 7 (temperate forest) when every random value is 0 and 6 (rocky
hills) when every random value is 2: the same `dimY`, `heightmap` and
`AvgRainMap` give two different biome maps. -/
theorem C19_biome_varies_with_draws :
    (genBiome (fun _ => 0) hillGrid).biomeMap[48]? = some 7
    ∧ (genBiome (fun _ => 2) hillGrid).biomeMap[48]? = some 6
    ∧ (genBiome (fun _ => 0) hillGrid).biomeMap ≠ (genBiome (fun _ => 2) hillGrid).biomeMap := by
  decide!

/-- The simulation instance inside `calcAverage` keeps the heightmap it was
given. -/
theorem calcAverageFor_simulation_heightmap (noise : Int → ℚ → ℚ → ℚ) (c : Climate)
    (k : Nat) : (calcAverageFor noise c k).2.heightmap = c.heightmap := by
  induction k with
  | zero =>
    unfold calcAverageFor
    simp only [List.range_zero, List.foldl_nil]
    rw [NewClimate_heightmap]
    exact foldl_keep calcAverageClearCell (fun s => s.heightmap = c.heightmap) _
      (fun s a _ hs => hs) c rfl
  | succ k ih =>
    rw [calcAverageFor_succ, calcAverageDay_eq]
    dsimp only
    rw [runSimulation_frame (fun s => s.heightmap) static_heightmap]
    exact ih

/-- C20: the heightmap is the same after `calcWind`, `calcTempMap`,
`calcHumidityMap`, `calcRainMap`, `runSimulation`, `calcAverage` (after every
number of its days, in the receiver and in its simulation instance) and
`genBiome` as before. -/
theorem C20_heightmap_read_only (noise : Int → ℚ → ℚ → ℚ) (rand : Nat → Nat) (c : Climate)
    (day : Int) (k : Nat) :
    (calcWind c day).heightmap = c.heightmap
    ∧ (calcTempMap c).heightmap = c.heightmap
    ∧ (calcHumidityMap c).heightmap = c.heightmap
    ∧ (calcRainMap c).heightmap = c.heightmap
    ∧ (runSimulation c day).heightmap = c.heightmap
    ∧ (calcAverageFor noise c k).1.heightmap = c.heightmap
    ∧ (calcAverageFor noise c k).2.heightmap = c.heightmap
    ∧ (calcAverage noise c).heightmap = c.heightmap
    ∧ (genBiome rand c).heightmap = c.heightmap := by
  have hca : calcAverage noise c = (calcAverageFor noise c (1 * 365)).1 := rfl
  refine ⟨calcWind_heightmap c day,
    calcTempMap_frame (fun s => s.heightmap) (fun _ _ => rfl) c,
    calcHumidityMap_frame (fun s => s.heightmap) (fun _ _ => rfl) c,
    calcRainMap_frame (fun s => s.heightmap) (fun _ _ _ => rfl) c,
    runSimulation_frame (fun s => s.heightmap) static_heightmap c day,
    (calcAverageFor_shape noise c k).1,
    calcAverageFor_simulation_heightmap noise c k, ?_, ?_⟩
  · rw [hca]
    exact (calcAverageFor_shape noise c (1 * 365)).1
  · unfold genBiome
    exact genBiome_frame (fun s => s.heightmap) (fun _ _ => rfl) rand c _ 0

/-! ## Averaging and replay -/

theorem calcAverageClear_frame {β : Type} (g : Climate → β)
    (hg : AvgStatic g)
    (c : Climate) (l : List Nat) : g (l.foldl calcAverageClearCell c) = g c := by
  refine foldl_keep calcAverageClearCell (fun s => g s = g c) _ ?_ c rfl
  intro s i _ hs
  exact (hg s _ _ _ _ _).trans hs

theorem calcAverageCells_frame {β : Type} (g : Climate → β)
    (hg : AvgStatic g)
    (sim : Climate) (i : Nat) (c : Climate) (l : List Nat) :
    g (l.foldl (calcAverageCell sim i) c) = g c := by
  refine foldl_keep (calcAverageCell sim i) (fun s => g s = g c) _ ?_ c rfl
  intro s a _ hs
  exact (hg s _ _ _ _ _).trans hs

theorem calcAverageFor_zero (noise : Int → ℚ → ℚ → ℚ) (c : Climate) :
    calcAverageFor noise c 0
      = ((List.range c.heightmap.length).foldl calcAverageClearCell c,
         NewClimate noise c.dimX c.dimY 0 c.seed c.heightmap) := by
  unfold calcAverageFor
  simp only [List.range_zero, List.foldl_nil]
  rw [calcAverageClear_frame (fun s => s.dimX) (fun _ _ _ _ _ _ => rfl),
    calcAverageClear_frame (fun s => s.dimY) (fun _ _ _ _ _ _ => rfl),
    calcAverageClear_frame (fun s => s.seed) (fun _ _ _ _ _ _ => rfl),
    calcAverageClear_frame (fun s => s.heightmap) (fun _ _ _ _ _ _ => rfl)]

/-- The receiver of `calcAverage` keeps everything but its average fields. -/
theorem calcAverageFor_frame {β : Type} (g : Climate → β)
    (hg : AvgStatic g)
    (noise : Int → ℚ → ℚ → ℚ) (c : Climate) (k : Nat) :
    g (calcAverageFor noise c k).1 = g c := by
  induction k with
  | zero =>
    rw [calcAverageFor_zero]
    exact calcAverageClear_frame g hg c _
  | succ k ih =>
    rw [calcAverageFor_succ, calcAverageDay_eq]
    dsimp only
    rw [calcAverageCells_frame g hg]
    exact ih

theorem runDays_append (c : Climate) (l : List Int) (d : Int) :
    runDays c (l ++ [d]) = runSimulation (runDays c l) d := by
  unfold runDays
  simp only [List.foldl_append, List.foldl_cons, List.foldl_nil]

theorem firstDays_succ (k : Nat) : firstDays (k + 1) = firstDays k ++ [(k : Int)] := by
  unfold firstDays
  rw [List.range_succ, List.map_append]
  rfl

/-- The simulation instance of `calcAverage` after `k` days is the state
`NewClimate` returns, run through the days `0, ..., k-1`. -/
theorem calcAverageFor_simulation (noise : Int → ℚ → ℚ → ℚ) (c : Climate) (k : Nat) :
    (calcAverageFor noise c k).2
      = runDays (NewClimate noise c.dimX c.dimY 0 c.seed c.heightmap) (firstDays k) := by
  induction k with
  | zero =>
    rw [calcAverageFor_zero]
    unfold runDays firstDays
    simp only [List.range_zero, List.map_nil, List.foldl_nil]
  | succ k ih =>
    rw [calcAverageFor_succ, calcAverageDay_eq, firstDays_succ, runDays_append]
    dsimp only
    rw [ih]

theorem list_ext_getD {α : Type} (d : α) (l1 l2 : List α) (hl : l1.length = l2.length)
    (h : ∀ n, n < l1.length → l1.getD n d = l2.getD n d) : l1 = l2 := by
  apply List.ext_getElem hl
  intro n h1 h2
  have := h n h1
  rwa [List.getD_eq_getElem _ d h1, List.getD_eq_getElem _ d h2] at this

theorem calcAverage_eq (noise : Int → ℚ → ℚ → ℚ) (c : Climate) :
    calcAverage noise c = (calcAverageFor noise c (364 + 1)).1 := rfl

/-- C21: `calcAverage` leaves the six current-state fields of its receiver as
they were, and two receivers that agree on `dimX`, `dimY`, `seed` and
`heightmap` (with average fields of the length of the heightmap) get the same
five average fields, whatever their other fields held. -/
theorem C21_average_independent_of_display (noise : Int → ℚ → ℚ → ℚ) (c1 c2 : Climate)
    (hx : c1.dimX = c2.dimX) (hy : c1.dimY = c2.dimY) (hs : c1.seed = c2.seed)
    (hh : c1.heightmap = c2.heightmap) (h1 : AvgSized c1) (h2 : AvgSized c2) :
    ((calcAverage noise c1).TempMap = c1.TempMap
      ∧ (calcAverage noise c1).HumidityMap = c1.HumidityMap
      ∧ (calcAverage noise c1).CloudMap = c1.CloudMap
      ∧ (calcAverage noise c1).RainMap = c1.RainMap
      ∧ (calcAverage noise c1).WindMap = c1.WindMap
      ∧ (calcAverage noise c1).WindDirection = c1.WindDirection)
    ∧ (calcAverage noise c1).AvgRainMap = (calcAverage noise c2).AvgRainMap
    ∧ (calcAverage noise c1).AvgWindMap = (calcAverage noise c2).AvgWindMap
    ∧ (calcAverage noise c1).AvgCloudMap = (calcAverage noise c2).AvgCloudMap
    ∧ (calcAverage noise c1).AvgTempMap = (calcAverage noise c2).AvgTempMap
    ∧ (calcAverage noise c1).AvgHumidityMap = (calcAverage noise c2).AvgHumidityMap := by
  rw [calcAverage_eq, calcAverage_eq]
  have hsim : ∀ k, (calcAverageFor noise c1 k).2 = (calcAverageFor noise c2 k).2 := by
    intro k
    rw [calcAverageFor_simulation, calcAverageFor_simulation, hx, hy, hs, hh]
  have s1 := calcAverageFor_shape noise c1 (364 + 1)
  have s2 := calcAverageFor_shape noise c2 (364 + 1)
  refine ⟨⟨calcAverageFor_frame (fun s => s.TempMap) (fun _ _ _ _ _ _ => rfl) noise c1 _,
    calcAverageFor_frame (fun s => s.HumidityMap) (fun _ _ _ _ _ _ => rfl) noise c1 _,
    calcAverageFor_frame (fun s => s.CloudMap) (fun _ _ _ _ _ _ => rfl) noise c1 _,
    calcAverageFor_frame (fun s => s.RainMap) (fun _ _ _ _ _ _ => rfl) noise c1 _,
    calcAverageFor_frame (fun s => s.WindMap) (fun _ _ _ _ _ _ => rfl) noise c1 _,
    calcAverageFor_frame (fun s => s.WindDirection) (fun _ _ _ _ _ _ => rfl) noise c1 _⟩,
    ?_, ?_, ?_, ?_, ?_⟩
  · apply list_ext_getD 0 _ _ (by rw [s1.2.2.1, s2.2.2.1, h1.1, h2.1, hh])
    intro n hn
    rw [s1.2.2.1, h1.1] at hn
    rw [calcAverageFor_AvgRainMap noise c1 n 364 hn (h1.1 ▸ hn),
      calcAverageFor_AvgRainMap noise c2 n 364 (hh ▸ hn) (by rw [h2.1, ← hh]; exact hn)]
    simp only [hsim]
  · apply list_ext_getD 0 _ _ (by rw [s1.2.1, s2.2.1, h1.2.1, h2.2.1, hh])
    intro n hn
    rw [s1.2.1, h1.2.1] at hn
    rw [calcAverageFor_AvgWindMap noise c1 n 364 hn (h1.2.1 ▸ hn),
      calcAverageFor_AvgWindMap noise c2 n 364 (hh ▸ hn) (by rw [h2.2.1, ← hh]; exact hn)]
    simp only [hsim]
  · apply list_ext_getD 0 _ _ (by rw [s1.2.2.2.1, s2.2.2.2.1, h1.2.2.1, h2.2.2.1, hh])
    intro n hn
    rw [s1.2.2.2.1, h1.2.2.1] at hn
    rw [calcAverageFor_AvgCloudMap noise c1 n 364 hn (h1.2.2.1 ▸ hn),
      calcAverageFor_AvgCloudMap noise c2 n 364 (hh ▸ hn) (by rw [h2.2.2.1, ← hh]; exact hn)]
    simp only [hsim]
  · apply list_ext_getD 0 _ _ (by rw [s1.2.2.2.2.1, s2.2.2.2.2.1, h1.2.2.2.1, h2.2.2.2.1, hh])
    intro n hn
    rw [s1.2.2.2.2.1, h1.2.2.2.1] at hn
    rw [calcAverageFor_AvgTempMap noise c1 n 364 hn (h1.2.2.2.1 ▸ hn),
      calcAverageFor_AvgTempMap noise c2 n 364 (hh ▸ hn)
        (by rw [h2.2.2.2.1, ← hh]; exact hn)]
    simp only [hsim]
  · apply list_ext_getD 0 _ _ (by rw [s1.2.2.2.2.2, s2.2.2.2.2.2, h1.2.2.2.2, h2.2.2.2.2, hh])
    intro n hn
    rw [s1.2.2.2.2.2, h1.2.2.2.2] at hn
    rw [calcAverageFor_AvgHumidityMap noise c1 n 364 hn (h1.2.2.2.2 ▸ hn),
      calcAverageFor_AvgHumidityMap noise c2 n 364 (hh ▸ hn)
        (by rw [h2.2.2.2.2, ← hh]; exact hn)]
    simp only [hsim]

/-- C21 (witness): the 3 x 3 example state and a copy of it with other
temperatures and other previous averages. -/
theorem C21_average_independent_of_display_witness :
    (calcAverage (fun _ _ _ => 1 / 10) grid3).TempMap = grid3.TempMap
    ∧ (calcAverage (fun _ _ _ => 1 / 10) grid3).AvgTempMap
      = (calcAverage (fun _ _ _ => 1 / 10)
          { grid3 with TempMap := List.replicate 9 1,
                       AvgTempMap := List.replicate 9 5 }).AvgTempMap :=
  ⟨(C21_average_independent_of_display (fun _ _ _ => 1 / 10) grid3
      { grid3 with TempMap := List.replicate 9 1, AvgTempMap := List.replicate 9 5 }
      (by decide!) (by decide!) (by decide!) (by decide!)
      (by unfold AvgSized; decide!) (by unfold AvgSized; decide!)).1.1,
    (C21_average_independent_of_display (fun _ _ _ => 1 / 10) grid3
      { grid3 with TempMap := List.replicate 9 1, AvgTempMap := List.replicate 9 5 }
      (by decide!) (by decide!) (by decide!) (by decide!)
      (by unfold AvgSized; decide!) (by unfold AvgSized; decide!)).2.2.2.2.1⟩

theorem NewClimate_seed (noise : Int → ℚ → ℚ → ℚ) (dimX dimY : Nat) (day seed : Int)
    (heightmap : List ℚ) : (NewClimate noise dimX dimY day seed heightmap).seed = seed :=
  NewClimate_frame (fun s => s.seed) static_seed noise dimX dimY day seed heightmap

theorem NewClimate_avgSized (noise : Int → ℚ → ℚ → ℚ) (dimX dimY : Nat) (day seed : Int)
    (heightmap : List ℚ) :
    (NewClimate noise dimX dimY day seed heightmap).AvgRainMap.length = dimX * dimY
    ∧ (NewClimate noise dimX dimY day seed heightmap).AvgWindMap.length = dimX * dimY
    ∧ (NewClimate noise dimX dimY day seed heightmap).AvgCloudMap.length = dimX * dimY
    ∧ (NewClimate noise dimX dimY day seed heightmap).AvgTempMap.length = dimX * dimY
    ∧ (NewClimate noise dimX dimY day seed heightmap).AvgHumidityMap.length = dimX * dimY := by
  refine ⟨?_, ?_, ?_, ?_, ?_⟩
  · rw [NewClimate_frame (fun s => s.AvgRainMap.length)
      ⟨fun _ _ => rfl, fun _ _ => rfl, fun _ _ => rfl, fun _ _ => rfl, fun _ _ _ => rfl⟩]
    exact List.length_replicate _ _
  · rw [NewClimate_frame (fun s => s.AvgWindMap.length)
      ⟨fun _ _ => rfl, fun _ _ => rfl, fun _ _ => rfl, fun _ _ => rfl, fun _ _ _ => rfl⟩]
    exact List.length_replicate _ _
  · rw [NewClimate_frame (fun s => s.AvgCloudMap.length)
      ⟨fun _ _ => rfl, fun _ _ => rfl, fun _ _ => rfl, fun _ _ => rfl, fun _ _ _ => rfl⟩]
    exact List.length_replicate _ _
  · rw [NewClimate_frame (fun s => s.AvgTempMap.length)
      ⟨fun _ _ => rfl, fun _ _ => rfl, fun _ _ => rfl, fun _ _ => rfl, fun _ _ _ => rfl⟩]
    exact List.length_replicate _ _
  · rw [NewClimate_frame (fun s => s.AvgHumidityMap.length)
      ⟨fun _ _ => rfl, fun _ _ => rfl, fun _ _ => rfl, fun _ _ => rfl, fun _ _ _ => rfl⟩]
    exact List.length_replicate _ _

/-- C22: for the state `c` that `NewClimate(dimX, dimY, 0, seed, heightmap)`
returns and every `k`, the simulation instance of `calcAverage` after its first
`k` loop iterations is `c` after `runSimulation(0), ..., runSimulation(k-1)`,
in all its fields; hence every cell of the average fields that `calcAverage`
leaves in `c` is the mean of the 365 replayed daily values. -/
theorem C22_replay_reproduces_averaging (noise : Int → ℚ → ℚ → ℚ) (dimX dimY : Nat)
    (seed : Int) (heightmap : List ℚ) (c : Climate)
    (hc : c = NewClimate noise dimX dimY 0 seed heightmap) (k idx : Nat) :
    (calcAverageFor noise c k).2 = runDays c (firstDays k)
    ∧ ((calcAverageFor noise c k).2.TempMap = (runDays c (firstDays k)).TempMap
      ∧ (calcAverageFor noise c k).2.HumidityMap = (runDays c (firstDays k)).HumidityMap
      ∧ (calcAverageFor noise c k).2.CloudMap = (runDays c (firstDays k)).CloudMap
      ∧ (calcAverageFor noise c k).2.RainMap = (runDays c (firstDays k)).RainMap
      ∧ (calcAverageFor noise c k).2.WindMap = (runDays c (firstDays k)).WindMap
      ∧ (calcAverageFor noise c k).2.WindDirection = (runDays c (firstDays k)).WindDirection)
    ∧ (idx < heightmap.length → idx < dimX * dimY →
      (calcAverage noise c).AvgTempMap.getD idx 0
        = (∑ i ∈ Finset.range 365, (runDays c (firstDays (i + 1))).TempMap.getD idx 0) / 365
      ∧ (calcAverage noise c).AvgHumidityMap.getD idx 0
        = (∑ i ∈ Finset.range 365, (runDays c (firstDays (i + 1))).HumidityMap.getD idx 0) / 365
      ∧ (calcAverage noise c).AvgWindMap.getD idx 0
        = (∑ i ∈ Finset.range 365, (runDays c (firstDays (i + 1))).WindMap.getD idx 0) / 365
      ∧ (calcAverage noise c).AvgRainMap.getD idx 0
        = (∑ i ∈ Finset.range 365,
            if (runDays c (firstDays (i + 1))).RainMap.getD idx false then 1 else 0) / 365
      ∧ (calcAverage noise c).AvgCloudMap.getD idx 0
        = (∑ i ∈ Finset.range 365,
            if (runDays c (firstDays (i + 1))).CloudMap.getD idx false then 1 else 0) / 365) := by
  have hnew : NewClimate noise c.dimX c.dimY 0 c.seed c.heightmap = c := by
    rw [hc, NewClimate_dimX, NewClimate_dimY, NewClimate_seed, NewClimate_heightmap]
  have hsim : ∀ k, (calcAverageFor noise c k).2 = runDays c (firstDays k) := by
    intro k
    rw [calcAverageFor_simulation, hnew]
  refine ⟨hsim k, ?_, ?_⟩
  · rw [hsim k]
    exact ⟨rfl, rfl, rfl, rfl, rfl, rfl⟩
  · intro h1 h2
    have hh : c.heightmap = heightmap := by rw [hc, NewClimate_heightmap]
    have ha := NewClimate_avgSized noise dimX dimY 0 seed heightmap
    rw [← hc] at ha
    rw [calcAverage_eq,
      calcAverageFor_AvgTempMap noise c idx 364 (hh ▸ h1) (by rw [ha.2.2.2.1]; exact h2),
      calcAverageFor_AvgHumidityMap noise c idx 364 (hh ▸ h1) (by rw [ha.2.2.2.2]; exact h2),
      calcAverageFor_AvgWindMap noise c idx 364 (hh ▸ h1) (by rw [ha.2.1]; exact h2),
      calcAverageFor_AvgRainMap noise c idx 364 (hh ▸ h1) (by rw [ha.1]; exact h2),
      calcAverageFor_AvgCloudMap noise c idx 364 (hh ▸ h1) (by rw [ha.2.2.1]; exact h2)]
    simp only [hsim]
    norm_num

/-- C22 (witness): the 3 x 3 example state after two days. -/
theorem C22_replay_reproduces_averaging_witness :
    (calcAverageFor (fun _ _ _ => 1 / 10) grid3 2).2 = runDays grid3 (firstDays 2) :=
  (C22_replay_reproduces_averaging (fun _ _ _ => 1 / 10) 3 3 0
    [3700, 100, 100, 100, 300, 100, 100, 100, 100] grid3 rfl 2 4).1

/-! ## The flat scenario at sea level -/

/-- C23 (counterexample): on the flat 3 x 3 grid at elevation 200 with wind
direction `(0, 0)`, one day (`calcTempMap`, `calcHumidityMap`, `calcRainMap`)
moves the centre cell from temperature 0.7 to 0.701728 and from its humidity
seed to 0.22806912, so the initial state is not a fixed point. -/
theorem C23_flat_state_not_fixed :
    flatGrid.WindDirection = (0, 0)
    ∧ flatGrid.TempMap.getD 4 0 = 7 / 10
    ∧ (calcRainMap (calcHumidityMap (calcTempMap flatGrid))).TempMap.getD 4 0
        = 701728 / 1000000
    ∧ (calcRainMap (calcHumidityMap (calcTempMap flatGrid))).HumidityMap.getD 4 0
        = 22806912 / 100000000
    ∧ (calcRainMap (calcHumidityMap (calcTempMap flatGrid))).HumidityMap.getD 4 0
        ≠ flatGrid.HumidityMap.getD 4 0
    ∧ (runSimulation flatGrid 0).TempMap.getD 4 0 ≠ 7 / 10 := by
  decide!

/-- Variant of `grid_loop_cell` whose invariant is only kept by the iterations
the loop runs. -/
theorem grid_loop_reach (f : Climate → Nat → Nat → Climate) (Good : Climate → Prop)
    (la lb : List Nat) (i j : Nat) (Inv : Climate → Prop)
    (hinv : ∀ s a b, a ∈ la → b ∈ lb → Inv s → Inv (f s a b))
    (hkeep : ∀ s a b, a ∈ la → b ∈ lb → (a ≠ i ∨ b ≠ j) → Inv s → Good s → Good (f s a b))
    (hcell : ∀ s, Inv s → Good (f s i j))
    (hi : i ∈ la) (hj : j ∈ lb) (s0 : Climate) (h0 : Inv s0) :
    Inv (la.foldl (fun c a => lb.foldl (fun c b => f c a b) c) s0)
      ∧ Good (la.foldl (fun c a => lb.foldl (fun c b => f c a b) c) s0) := by
  have hstep : ∀ s a b, a ∈ la → b ∈ lb → Inv s → Good s → Good (f s a b) := by
    intro s a b ha hb hs hg
    by_cases hab : a = i ∧ b = j
    · rw [hab.1, hab.2]
      exact hcell s hs
    · exact hkeep s a b ha hb (by tauto) hs hg
  have hrow_inv : ∀ s a, a ∈ la → Inv s → Inv (lb.foldl (fun c b => f c a b) s) := by
    intro s a ha hs
    exact foldl_keep (fun c b => f c a b) Inv _ (fun s b hb h => hinv s a b ha hb h) s hs
  refine ⟨foldl_keep (fun c a => lb.foldl (fun c b => f c a b) c) Inv _
    (fun s a ha hs => hrow_inv s a ha hs) s0 h0, ?_⟩
  refine foldl_reach (fun c a => lb.foldl (fun c b => f c a b) c)
    Inv Good (fun a => a = i) _ (fun s a ha hs => hrow_inv s a ha hs) ?_ ?_ s0 h0
    (Or.inl ⟨i, hi, rfl⟩)
  · intro s a ha hs hg
    exact (foldl_keep (fun c b => f c a b) (fun s => Inv s ∧ Good s) _
      (fun s b hb h => ⟨hinv s a b ha hb h.1, hstep s a b ha hb h.1 h.2⟩) s ⟨hs, hg⟩).2
  · intro s a ha hs hai
    subst hai
    exact foldl_reach (fun c b => f c a b) Inv Good (fun b => b = j) _
      (fun s b hb h => hinv s a b ha hb h) (fun s b hb h hg => hstep s a b ha hb h hg)
      (fun s b _ h hb => by subst hb; exact hcell s h) s hs
      (Or.inl ⟨j, hj, rfl⟩)

/-- The cells a step reads around an interior cell lie in the grid. -/
theorem interior_neighbours {dx dy i j : Nat} (hi : 0 < i ∧ i + 1 < dx)
    (hj : 0 < j ∧ j + 1 < dy) :
    dy + 1 ≤ i * dy + j ∧ i * dy + j + dy + 1 < dx * dy := by
  have h1 : (i + 1) * dy + (j + 1) < dx * dy := idx_lt hi.2 hj.2
  have h2 : (i + 1) * dy = i * dy + dy := by ring
  have h3 : 1 * dy ≤ i * dy := Nat.mul_le_mul_right _ hi.1
  omega

theorem getD_set_between (t : List ℚ) (m n : Nat) (x lo hi : ℚ) (hx : lo ≤ x ∧ x ≤ hi)
    (hn : lo ≤ t.getD n 0 ∧ t.getD n 0 ≤ hi) :
    lo ≤ (t.set m x).getD n 0 ∧ (t.set m x).getD n 0 ≤ hi := by
  rw [getD_set]
  split_ifs
  · exact hx
  · exact hn

/-- The temperature update of an interior cell in the flat scenario. -/
theorem flat_temp_value (a : ℚ) (h1 : 7 / 10 ≤ a) (h2 : a ≤ 1) :
    7 / 10 < (if a + 8 / 10 * (1 - a) * ((1 - 200 / 2000) * (8 / 1000))
          + 6 / 10 * a * (0 + 1 / 2 * (5 - 5)) > 1 then (1 : ℚ)
        else if a + 8 / 10 * (1 - a) * ((1 - 200 / 2000) * (8 / 1000))
          + 6 / 10 * a * (0 + 1 / 2 * (5 - 5)) < 0 then 0
        else a + 8 / 10 * (1 - a) * ((1 - 200 / 2000) * (8 / 1000))
          + 6 / 10 * a * (0 + 1 / 2 * (5 - 5)))
    ∧ (if a + 8 / 10 * (1 - a) * ((1 - 200 / 2000) * (8 / 1000))
          + 6 / 10 * a * (0 + 1 / 2 * (5 - 5)) > 1 then (1 : ℚ)
        else if a + 8 / 10 * (1 - a) * ((1 - 200 / 2000) * (8 / 1000))
          + 6 / 10 * a * (0 + 1 / 2 * (5 - 5)) < 0 then 0
        else a + 8 / 10 * (1 - a) * ((1 - 200 / 2000) * (8 / 1000))
          + 6 / 10 * a * (0 + 1 / 2 * (5 - 5))) ≤ 1 := by
  split_ifs with h3 h4
  · constructor <;> linarith
  · exfalso; linarith
  · constructor <;> linarith

theorem calcTempCell_flat (old : List ℚ) (dx dy : Nat) (wdx wdy : ℚ) (s : Climate)
    (i j : Nat) (hold : ∀ n, n < dx * dy → 7 / 10 ≤ old.getD n 0 ∧ old.getD n 0 ≤ 1)
    (hs : Flat dx dy s) (hi : 0 < i ∧ i + 1 < dx) (hj : 0 < j ∧ j + 1 < dy) :
    Flat dx dy (calcTempCell old dx dy wdx wdy s i j)
      ∧ 7 / 10 < (calcTempCell old dx dy wdx wdy s i j).TempMap.getD (i * dy + j) 0 := by
  obtain ⟨hn1, hn2⟩ := interior_neighbours hi hj
  have hup : upwind i (truncQ (2 * s.WindMap.getD (i * dy + j) 0 * wdx)) dx * dy
      + upwind j (truncQ (2 * s.WindMap.getD (i * dy + j) 0 * wdy)) dy < dx * dy :=
    idx_lt (upwind_lt _ _ _ (by omega)) (upwind_lt _ _ _ (by omega))
  have hval : 7 / 10 < (calcTempCell old dx dy wdx wdy s i j).TempMap.getD (i * dy + j) 0
      ∧ (calcTempCell old dx dy wdx wdy s i j).TempMap.getD (i * dy + j) 0 ≤ 1 := by
    unfold calcTempCell
    dsimp only
    rw [getD_set_self _ _ _ _ (by rw [List.length_set, hs.sized.1]; omega),
      hs.wind _ (by omega), hs.cloud, hs.rain, hs.height _ (by omega)]
    simp only [Bool.not_false, if_true, Bool.false_eq_true, false_and, if_false]
    have hb : ∀ n, n < dx * dy →
        7 / 10 ≤ (s.TempMap.set (i * dy + j) (old.getD
          (upwind i (truncQ (2 * 5 * wdx)) dx * dy
            + upwind j (truncQ (2 * 5 * wdy)) dy) 0)).getD n 0
        ∧ (s.TempMap.set (i * dy + j) (old.getD
          (upwind i (truncQ (2 * 5 * wdx)) dx * dy
            + upwind j (truncQ (2 * 5 * wdy)) dy) 0)).getD n 0 ≤ 1 := by
      intro n hn
      refine getD_set_between _ _ _ _ _ _ (hold _ ?_) (hs.temp n hn)
      exact idx_lt (upwind_lt _ _ _ (by omega)) (upwind_lt _ _ _ (by omega))
    obtain ⟨l1, u1⟩ := hb (i * dy + j - dy - 1) (by omega)
    obtain ⟨l2, u2⟩ := hb (i * dy + j + dy - 1) (by omega)
    obtain ⟨l3, u3⟩ := hb (i * dy + j + dy + 1) (by omega)
    obtain ⟨l4, u4⟩ := hb (i * dy + j - dy + 1) (by omega)
    obtain ⟨l5, u5⟩ := hb (i * dy + j) (by omega)
    refine flat_temp_value _ ?_ ?_
    · linarith
    · rw [div_le_one (by norm_num)]
      linarith
  refine ⟨?_, hval.1⟩
  have hT : ∀ n, n ≠ i * dy + j →
      (calcTempCell old dx dy wdx wdy s i j).TempMap.getD n 0 = s.TempMap.getD n 0 := by
    intro n hn
    rw [List.getD_eq_getElem?_getD, List.getD_eq_getElem?_getD,
      calcTempCell_getElem_ne _ _ _ _ _ _ _ _ _ (Ne.symm hn)]
  refine ⟨hs.dimX, hs.dimY, ⟨?_, hs.sized.2⟩, hs.height, hs.wind, hs.cloud, hs.rain, ?_,
    hs.humid⟩
  · unfold calcTempCell
    dsimp only
    rw [List.length_set, List.length_set, hs.sized.1]
  · intro n hn
    by_cases h : n = i * dy + j
    · rw [h]
      exact ⟨le_of_lt hval.1, hval.2⟩
    · rw [hT n h]
      exact hs.temp n hn

/-- In the flat scenario `calcTempMap` keeps the scenario and leaves every
interior cell above 0.7. -/
theorem calcTempMap_flat (dx dy : Nat) (c : Climate) (hc : Flat dx dy c) :
    Flat dx dy (calcTempMap c)
      ∧ ∀ i j, 0 < i ∧ i + 1 < dx → 0 < j ∧ j + 1 < dy →
        7 / 10 < (calcTempMap c).TempMap.getD (i * dy + j) 0 := by
  have hold : ∀ n, n < dx * dy →
      7 / 10 ≤ (goCopy (List.replicate (c.dimX * c.dimY) (0 : ℚ)) c.TempMap).getD n 0
      ∧ (goCopy (List.replicate (c.dimX * c.dimY) (0 : ℚ)) c.TempMap).getD n 0 ≤ 1 := by
    intro n hn
    rw [goCopy_of_length 0 _ _ (by rw [hc.sized.1, hc.dimX, hc.dimY])]
    exact hc.temp n hn
  have hinv : Flat dx dy (calcTempMap c) := by
    unfold calcTempMap
    dsimp only
    rw [hc.dimX, hc.dimY] at hold ⊢
    refine foldl_keep _ (Flat dx dy) _ ?_ c hc
    intro s a ha hs
    refine foldl_keep _ (Flat dx dy) _ ?_ s hs
    intro s b hb hs
    exact (calcTempCell_flat _ dx dy _ _ s a b hold hs (mem_interior.1 ha)
      (mem_interior.1 hb)).1
  refine ⟨hinv, ?_⟩
  intro i j hi hj
  unfold calcTempMap
  dsimp only
  rw [hc.dimX, hc.dimY] at hold ⊢
  refine (grid_loop_reach
    (calcTempCell (goCopy (List.replicate (dx * dy) (0 : ℚ)) c.TempMap) dx dy
      c.WindDirection.1 c.WindDirection.2)
    (fun s => 7 / 10 < s.TempMap.getD (i * dy + j) 0) _ _ i j (Flat dx dy)
    ?_ ?_ ?_ (mem_interior.2 hi) (mem_interior.2 hj) c hc).2
  · intro s a b ha hb hs
    exact (calcTempCell_flat _ dx dy _ _ s a b hold hs (mem_interior.1 ha)
      (mem_interior.1 hb)).1
  · intro s a b _ hb hne _ hg
    have hb1 := mem_interior.1 hb
    have hidx : a * dy + b ≠ i * dy + j := by
      intro h
      have := idx_inj (by omega) (by omega) h
      omega
    show 7 / 10 < (calcTempCell _ dx dy _ _ s a b).TempMap.getD (i * dy + j) 0
    rw [List.getD_eq_getElem?_getD, calcTempCell_getElem_ne _ _ _ _ _ _ _ _ _ hidx,
      ← List.getD_eq_getElem?_getD]
    exact hg
  · intro s hs
    exact (calcTempCell_flat _ dx dy _ _ s i j hold hs hi hj).2

/-- The humidity update of an interior cell in the flat scenario. -/
theorem flat_humidity_value (a t : ℚ) (h1 : 2 / 10 ≤ a) (h2 : a ≤ 1) (h3 : 7 / 10 ≤ t)
    (h4 : t ≤ 1) :
    2 / 10 < (if a + a * 0 + (1 - a) * (5 / 100 * t) > 1 then (1 : ℚ)
        else if a + a * 0 + (1 - a) * (5 / 100 * t) < 0 then 0
        else a + a * 0 + (1 - a) * (5 / 100 * t))
    ∧ (if a + a * 0 + (1 - a) * (5 / 100 * t) > 1 then (1 : ℚ)
        else if a + a * 0 + (1 - a) * (5 / 100 * t) < 0 then 0
        else a + a * 0 + (1 - a) * (5 / 100 * t)) ≤ 1 := by
  have hp : 0 ≤ (1 - a) * (t - 7 / 10) := mul_nonneg (by linarith) (by linarith)
  have hq : 0 ≤ (1 - a) * (1 - t) := mul_nonneg (by linarith) (by linarith)
  split_ifs with h5 h6
  · constructor <;> linarith
  · exfalso; nlinarith
  · constructor <;> nlinarith

theorem calcHumidityCell_getD_ne (old : List ℚ) (dx dy : Nat) (wdx wdy : ℚ) (c : Climate)
    (i j n : Nat) (h : i * dy + j ≠ n) :
    (calcHumidityCell old dx dy wdx wdy c i j).HumidityMap.getD n 0
      = c.HumidityMap.getD n 0 := by
  rw [List.getD_eq_getElem?_getD, List.getD_eq_getElem?_getD,
    calcHumidityCell_getElem_ne _ _ _ _ _ _ _ _ _ h]

theorem calcHumidityCell_flat (old : List ℚ) (dx dy : Nat) (wdx wdy : ℚ) (s : Climate)
    (i j : Nat) (hold : ∀ n, n < dx * dy → 2 / 10 ≤ old.getD n 0 ∧ old.getD n 0 ≤ 1)
    (hs : Flat dx dy s) (hi : 0 < i ∧ i + 1 < dx) (hj : 0 < j ∧ j + 1 < dy) :
    Flat dx dy (calcHumidityCell old dx dy wdx wdy s i j)
      ∧ 2 / 10
        < (calcHumidityCell old dx dy wdx wdy s i j).HumidityMap.getD (i * dy + j) 0 := by
  obtain ⟨hn1, hn2⟩ := interior_neighbours hi hj
  have hval : 2 / 10
        < (calcHumidityCell old dx dy wdx wdy s i j).HumidityMap.getD (i * dy + j) 0
      ∧ (calcHumidityCell old dx dy wdx wdy s i j).HumidityMap.getD (i * dy + j) 0 ≤ 1 := by
    unfold calcHumidityCell
    dsimp only
    rw [getD_set_self _ _ _ _ (by rw [List.length_set, hs.sized.2.1]; omega),
      hs.wind _ (by omega), hs.cloud, hs.rain, hs.height _ (by omega), hs.dimY]
    simp only [Bool.not_false, if_true, Bool.false_eq_true, if_false, le_refl]
    have hb : ∀ n, n < dx * dy →
        2 / 10 ≤ (s.HumidityMap.set (i * dy + j) (old.getD
          (upwind i (truncQ (2 * 5 * wdx)) dx * dy
            + upwind j (truncQ (2 * 5 * wdy)) dy) 0)).getD n 0
        ∧ (s.HumidityMap.set (i * dy + j) (old.getD
          (upwind i (truncQ (2 * 5 * wdx)) dx * dy
            + upwind j (truncQ (2 * 5 * wdy)) dy) 0)).getD n 0 ≤ 1 := by
      intro n hn
      refine getD_set_between _ _ _ _ _ _ (hold _ ?_) (hs.humid n hn)
      exact idx_lt (upwind_lt _ _ _ (by omega)) (upwind_lt _ _ _ (by omega))
    obtain ⟨l1, u1⟩ := hb (i * dy + j - dy - 1) (by omega)
    obtain ⟨l2, u2⟩ := hb (i * dy + j + dy - 1) (by omega)
    obtain ⟨l3, u3⟩ := hb (i * dy + j + dy + 1) (by omega)
    obtain ⟨l4, u4⟩ := hb (i * dy + j - dy + 1) (by omega)
    obtain ⟨l5, u5⟩ := hb (i * dy + j) (by omega)
    obtain ⟨l6, u6⟩ := hb (i * dy + j + 1) (by omega)
    obtain ⟨l7, u7⟩ := hb (i * dy + j - 1) (by omega)
    obtain ⟨l8, u8⟩ := hb (i * dy + j + dy) (by omega)
    obtain ⟨l9, u9⟩ := hb (i * dy + j - dy) (by omega)
    obtain ⟨lt, ut⟩ := hs.temp (i * dy + j) (by omega)
    refine flat_humidity_value _ _ ?_ ?_ lt ut
    · rw [le_div_iff₀ (by norm_num)]
      linarith
    · rw [div_le_one (by norm_num)]
      linarith
  refine ⟨?_, hval.1⟩
  refine ⟨hs.dimX, hs.dimY, ⟨hs.sized.1, ?_, hs.sized.2.2⟩, hs.height, hs.wind, hs.cloud,
    hs.rain, hs.temp, ?_⟩
  · unfold calcHumidityCell
    dsimp only
    rw [List.length_set, List.length_set, hs.sized.2.1]
  · intro n hn
    by_cases h : i * dy + j = n
    · rw [← h]
      exact ⟨le_of_lt hval.1, hval.2⟩
    · rw [calcHumidityCell_getD_ne _ _ _ _ _ _ _ _ _ h]
      exact hs.humid n hn

/-- In the flat scenario `calcHumidityMap` keeps the scenario and leaves every
interior cell above the humidity 0.2. -/
theorem calcHumidityMap_flat (dx dy : Nat) (c : Climate) (hc : Flat dx dy c) :
    Flat dx dy (calcHumidityMap c)
      ∧ ∀ i j, 0 < i ∧ i + 1 < dx → 0 < j ∧ j + 1 < dy →
        2 / 10 < (calcHumidityMap c).HumidityMap.getD (i * dy + j) 0 := by
  have hold : ∀ n, n < dx * dy →
      2 / 10 ≤ (goCopy (List.replicate (c.dimX * c.dimY) (0 : ℚ)) c.HumidityMap).getD n 0
      ∧ (goCopy (List.replicate (c.dimX * c.dimY) (0 : ℚ)) c.HumidityMap).getD n 0 ≤ 1 := by
    intro n hn
    rw [goCopy_of_length 0 _ _ (by rw [hc.sized.2.1, hc.dimX, hc.dimY])]
    exact hc.humid n hn
  have hinv : Flat dx dy (calcHumidityMap c) := by
    unfold calcHumidityMap
    dsimp only
    rw [hc.dimX, hc.dimY] at hold ⊢
    refine foldl_keep _ (Flat dx dy) _ ?_ c hc
    intro s a ha hs
    refine foldl_keep _ (Flat dx dy) _ ?_ s hs
    intro s b hb hs
    exact (calcHumidityCell_flat _ dx dy _ _ s a b hold hs (mem_interior.1 ha)
      (mem_interior.1 hb)).1
  refine ⟨hinv, ?_⟩
  intro i j hi hj
  unfold calcHumidityMap
  dsimp only
  rw [hc.dimX, hc.dimY] at hold ⊢
  refine (grid_loop_reach
    (calcHumidityCell (goCopy (List.replicate (dx * dy) (0 : ℚ)) c.HumidityMap) dx dy
      c.WindDirection.1 c.WindDirection.2)
    (fun s => 2 / 10 < s.HumidityMap.getD (i * dy + j) 0) _ _ i j (Flat dx dy)
    ?_ ?_ ?_ (mem_interior.2 hi) (mem_interior.2 hj) c hc).2
  · intro s a b ha hb hs
    exact (calcHumidityCell_flat _ dx dy _ _ s a b hold hs (mem_interior.1 ha)
      (mem_interior.1 hb)).1
  · intro s a b _ hb hne _ hg
    have hb1 := mem_interior.1 hb
    have hidx : a * dy + b ≠ i * dy + j := by
      intro h
      have := idx_inj (by omega) (by omega) h
      omega
    show 2 / 10 < (calcHumidityCell _ dx dy _ _ s a b).HumidityMap.getD (i * dy + j) 0
    rw [calcHumidityCell_getD_ne _ _ _ _ _ _ _ _ _ hidx]
    exact hg
  · intro s hs
    exact (calcHumidityCell_flat _ dx dy _ _ s i j hold hs hi hj).2

/-- Over a flat heightmap `calcWind` gives every cell the wind speed 5. -/
theorem calcWind_flat_speed (c : Climate) (day : Int) (h : ℚ)
    (hW : c.WindMap.length = c.dimX * c.dimY)
    (hh : ∀ n, n < c.dimX * c.dimY → c.heightmap.getD n 0 = h) (n : Nat)
    (hn : n < c.dimX * c.dimY) : (calcWind c day).WindMap.getD n 0 = 5 := by
  have hpos : 0 < c.dimY := by
    rcases Nat.eq_zero_or_pos c.dimY with h0 | h0
    · rw [h0] at hn
      simp at hn
    · exact h0
  have hj : n % c.dimY < c.dimY := Nat.mod_lt _ hpos
  have hi : n / c.dimY < c.dimX := by
    rw [Nat.div_lt_iff_lt_mul hpos]
    exact hn
  have hidx : n / c.dimY * c.dimY + n % c.dimY = n := Nat.div_add_mod' n c.dimY
  have := calcWind_cell c day (n / c.dimY) (n % c.dimY) hW hi hj
  rw [hidx, hh n hn, hh _ (idx_lt (upwind_lt _ _ _ hi) (upwind_lt _ _ _ hj))] at this
  rw [this]
  norm_num

theorem calcWind_flat (dx dy : Nat) (c : Climate) (day : Int) (hc : Flat dx dy c) :
    Flat dx dy (calcWind c day) := by
  refine ⟨?_, ?_, calcWind_sized _ c day hc.sized, ?_, ?_, ?_, ?_, ?_, ?_⟩
  · rw [calcWind_frame (fun s => s.dimX) (fun _ _ => rfl) (fun _ _ => rfl)]
    exact hc.dimX
  · rw [calcWind_frame (fun s => s.dimY) (fun _ _ => rfl) (fun _ _ => rfl)]
    exact hc.dimY
  · rw [calcWind_heightmap]
    exact hc.height
  · intro n hn
    refine calcWind_flat_speed c day 200 ?_ ?_ n ?_
    · rw [hc.sized.2.2.2.2, hc.dimX, hc.dimY]
    · rw [hc.dimX, hc.dimY]
      exact hc.height
    · rw [hc.dimX, hc.dimY]
      exact hn
  · rw [calcWind_frame (fun s => s.CloudMap) (fun _ _ => rfl) (fun _ _ => rfl)]
    exact hc.cloud
  · rw [calcWind_frame (fun s => s.RainMap) (fun _ _ => rfl) (fun _ _ => rfl)]
    exact hc.rain
  · rw [calcWind_TempMap]
    exact hc.temp
  · rw [calcWind_HumidityMap]
    exact hc.humid

theorem getD_replicate_same {α : Type} (L n : Nat) (d : α) :
    (List.replicate L d).getD n d = d := by
  rw [List.getD_eq_getElem?_getD, List.getElem?_replicate]
  split_ifs <;> rfl

theorem getD_set_false (l : List Bool) (m : Nat) (h : ∀ n, l.getD n false = false) (n : Nat) :
    (l.set m false).getD n false = false := by
  rw [getD_set]
  split_ifs
  · rfl
  · exact h n

/-- The state `NewClimate` returns has no cloud and no rain. -/
theorem NewClimate_flags (noise : Int → ℚ → ℚ → ℚ) (dimX dimY : Nat) (day seed : Int)
    (heightmap : List ℚ) (n : Nat) :
    (NewClimate noise dimX dimY day seed heightmap).CloudMap.getD n false = false
      ∧ (NewClimate noise dimX dimY day seed heightmap).RainMap.getD n false = false := by
  unfold NewClimate init
  dsimp only
  constructor
  · refine foldl_keep initCloudCell (fun s => ∀ n, s.CloudMap.getD n false = false) _ ?_ _ ?_ n
    · intro s i _ hs
      exact getD_set_false _ _ hs
    · intro n
      rw [initRain_frame (fun s => s.CloudMap.getD n false) (fun _ _ => rfl),
        initHumidity_frame (fun s => s.CloudMap.getD n false) (fun _ _ => rfl),
        initTemp_frame (fun s => s.CloudMap.getD n false) (fun _ _ => rfl),
        calcWind_frame (fun s => s.CloudMap.getD n false) (fun _ _ => rfl) (fun _ _ => rfl)]
      exact getD_replicate_same _ _ _
  · rw [initCloud_frame (fun s => s.RainMap.getD n false) (fun _ _ => rfl)]
    refine foldl_keep initRainCell (fun s => ∀ n, s.RainMap.getD n false = false) _ ?_ _ ?_ n
    · intro s i _ hs
      exact getD_set_false _ _ hs
    · intro n
      rw [initHumidity_frame (fun s => s.RainMap.getD n false) (fun _ _ => rfl),
        initTemp_frame (fun s => s.RainMap.getD n false) (fun _ _ => rfl),
        calcWind_frame (fun s => s.RainMap.getD n false) (fun _ _ => rfl) (fun _ _ => rfl)]
      exact getD_replicate_same _ _ _

/-- The wind speeds of the state `NewClimate` returns over a flat heightmap. -/
theorem NewClimate_flat_speed (noise : Int → ℚ → ℚ → ℚ) (dimX dimY : Nat) (day seed : Int)
    (heightmap : List ℚ) (h : ℚ) (hh : ∀ n, n < dimX * dimY → heightmap.getD n 0 = h)
    (n : Nat) (hn : n < dimX * dimY) :
    (NewClimate noise dimX dimY day seed heightmap).WindMap.getD n 0 = 5 := by
  unfold NewClimate init
  dsimp only
  rw [initCloud_frame (fun s => s.WindMap.getD n 0) (fun _ _ => rfl),
    initRain_frame (fun s => s.WindMap.getD n 0) (fun _ _ => rfl),
    initHumidity_frame (fun s => s.WindMap.getD n 0) (fun _ _ => rfl),
    initTemp_frame (fun s => s.WindMap.getD n 0) (fun _ _ => rfl)]
  exact calcWind_flat_speed _ day h (List.length_replicate _ _) hh n hn

/-- The state `NewClimate` returns over the heightmap that is 200 everywhere
is in the flat scenario. -/
theorem NewClimate_flat (noise : Int → ℚ → ℚ → ℚ) (dimX dimY : Nat) (day seed : Int) :
    Flat dimX dimY
      (NewClimate noise dimX dimY day seed (List.replicate (dimX * dimY) 200)) := by
  have hh : ∀ n, n < dimX * dimY → (List.replicate (dimX * dimY) (200 : ℚ)).getD n 0 = 200 := by
    intro n hn
    rw [List.getD_eq_getElem?_getD, List.getElem?_replicate, if_pos hn]
    rfl
  refine ⟨NewClimate_dimX _ _ _ _ _ _, NewClimate_dimY _ _ _ _ _ _,
    NewClimate_sized _ _ _ _ _ _, ?_, ?_, ?_, ?_, ?_, ?_⟩
  · rw [NewClimate_heightmap]
    exact hh
  · exact NewClimate_flat_speed noise dimX dimY day seed _ 200 hh
  · exact fun n => (NewClimate_flags noise dimX dimY day seed _ n).1
  · exact fun n => (NewClimate_flags noise dimX dimY day seed _ n).2
  · intro n hn
    rw [NewClimate_TempMap_getD _ _ _ _ _ _ n hn, hh n hn]
    norm_num
  · intro n hn
    rw [NewClimate_HumidityMap_getD _ _ _ _ _ _ n hn, hh n hn]
    norm_num

/-- Border cells keep their temperature and humidity over one simulated day. -/
theorem runSimulation_border (c : Climate) (day : Int) (i j : Nat) (hj : j < c.dimY)
    (hb : i = 0 ∨ i + 1 = c.dimX ∨ j = 0 ∨ j + 1 = c.dimY) :
    (runSimulation c day).TempMap[i * c.dimY + j]? = c.TempMap[i * c.dimY + j]?
      ∧ (runSimulation c day).HumidityMap[i * c.dimY + j]?
        = c.HumidityMap[i * c.dimY + j]? := by
  have hx : (calcWind c day).dimX = c.dimX :=
    calcWind_frame (fun s => s.dimX) (fun _ _ => rfl) (fun _ _ => rfl) c day
  have hy : (calcWind c day).dimY = c.dimY :=
    calcWind_frame (fun s => s.dimY) (fun _ _ => rfl) (fun _ _ => rfl) c day
  have hx2 : (calcTempMap (calcWind c day)).dimX = c.dimX :=
    (calcTempMap_frame (fun s => s.dimX) (fun _ _ => rfl) _).trans hx
  have hy2 : (calcTempMap (calcWind c day)).dimY = c.dimY :=
    (calcTempMap_frame (fun s => s.dimY) (fun _ _ => rfl) _).trans hy
  unfold runSimulation
  constructor
  · rw [calcRainMap_frame (fun s => s.TempMap) (fun _ _ _ => rfl),
      calcHumidityMap_frame (fun s => s.TempMap) (fun _ _ => rfl)]
    have := calcTempMap_border (calcWind c day) i j (by rw [hy]; exact hj)
      (by rw [hx, hy]; exact hb)
    rw [hy, calcWind_TempMap] at this
    exact this
  · rw [calcRainMap_frame (fun s => s.HumidityMap) (fun _ _ _ => rfl)]
    have := calcHumidityMap_border (calcTempMap (calcWind c day)) i j (by rw [hy2]; exact hj)
      (by rw [hx2, hy2]; exact hb)
    rw [hy2, calcTempMap_frame (fun s => s.HumidityMap) (fun _ _ => rfl),
      calcWind_HumidityMap] at this
    exact this

/-- Border cells keep their temperature and humidity over any run of days. -/
theorem runDays_border (c : Climate) (days : List Int) (i j : Nat) (hj : j < c.dimY)
    (hb : i = 0 ∨ i + 1 = c.dimX ∨ j = 0 ∨ j + 1 = c.dimY) :
    (runDays c days).TempMap.getD (i * c.dimY + j) 0 = c.TempMap.getD (i * c.dimY + j) 0
      ∧ (runDays c days).HumidityMap.getD (i * c.dimY + j) 0
        = c.HumidityMap.getD (i * c.dimY + j) 0 := by
  unfold runDays
  have key := foldl_keep runSimulation
    (fun s => s.dimX = c.dimX ∧ s.dimY = c.dimY
      ∧ s.TempMap[i * c.dimY + j]? = c.TempMap[i * c.dimY + j]?
      ∧ s.HumidityMap[i * c.dimY + j]? = c.HumidityMap[i * c.dimY + j]?) days
    (by
      intro s d _ hs
      have h := runSimulation_border s d i j (by rw [hs.2.1]; exact hj)
        (by rw [hs.1, hs.2.1]; exact hb)
      rw [hs.2.1] at h
      exact ⟨(runSimulation_frame (fun s => s.dimX) static_dimX s d).trans hs.1,
        (runSimulation_frame (fun s => s.dimY) static_dimY s d).trans hs.2.1,
        h.1.trans hs.2.2.1, h.2.trans hs.2.2.2⟩)
    c ⟨rfl, rfl, rfl, rfl⟩
  rw [List.getD_eq_getElem?_getD, List.getD_eq_getElem?_getD, List.getD_eq_getElem?_getD,
    List.getD_eq_getElem?_getD, key.2.2.1, key.2.2.2]
  exact ⟨rfl, rfl⟩

/-- C23 (amended): over the flat heightmap that is 200 everywhere, starting
from the state of `NewClimate`, every border cell keeps the temperature 0.7 and
its humidity seed over any run of simulated days, whatever the wind direction
(so also for `(0, 0)`); the interior cells do not stay at their seeds: after
the first simulated day every interior cell is warmer than 0.7 and more humid
than its seed. -/
theorem C23_flat_sea_level_border_fixed (noise : Int → ℚ → ℚ → ℚ) (dimX dimY : Nat)
    (day seed : Int) (days : List Int) (d : Int) (i j : Nat) (hi : i < dimX) (hj : j < dimY) :
    (i = 0 ∨ i + 1 = dimX ∨ j = 0 ∨ j + 1 = dimY →
      (runDays (NewClimate noise dimX dimY day seed (List.replicate (dimX * dimY) 200))
          days).TempMap.getD (i * dimY + j) 0 = 7 / 10
      ∧ (runDays (NewClimate noise dimX dimY day seed (List.replicate (dimX * dimY) 200))
          days).HumidityMap.getD (i * dimY + j) 0
        = (NewClimate noise dimX dimY day seed
            (List.replicate (dimX * dimY) 200)).HumidityMap.getD (i * dimY + j) 0)
    ∧ (0 < i ∧ i + 1 < dimX → 0 < j ∧ j + 1 < dimY →
      7 / 10 < (runSimulation
          (NewClimate noise dimX dimY day seed (List.replicate (dimX * dimY) 200))
          d).TempMap.getD (i * dimY + j) 0
      ∧ (NewClimate noise dimX dimY day seed
            (List.replicate (dimX * dimY) 200)).HumidityMap.getD (i * dimY + j) 0
        < (runSimulation
            (NewClimate noise dimX dimY day seed (List.replicate (dimX * dimY) 200))
            d).HumidityMap.getD (i * dimY + j) 0) := by
  have hflat := NewClimate_flat noise dimX dimY day seed
  have hidx : i * dimY + j < dimX * dimY := idx_lt hi hj
  constructor
  · intro hb
    have h := runDays_border
      (NewClimate noise dimX dimY day seed (List.replicate (dimX * dimY) 200)) days i j
      (by rw [hflat.dimY]; exact hj) (by rw [hflat.dimX, hflat.dimY]; exact hb)
    rw [hflat.dimY] at h
    refine ⟨?_, h.2⟩
    rw [h.1, NewClimate_TempMap_getD _ _ _ _ _ _ _ hidx]
    have := hflat.height _ hidx
    rw [NewClimate_heightmap] at this
    rw [this]
    norm_num
  · intro hi2 hj2
    have h1 := calcWind_flat dimX dimY _ d hflat
    have h2 := calcTempMap_flat dimX dimY _ h1
    have h3 := calcHumidityMap_flat dimX dimY _ h2.1
    have hseed : (NewClimate noise dimX dimY day seed
        (List.replicate (dimX * dimY) 200)).HumidityMap.getD (i * dimY + j) 0 = 2 / 10 := by
      have := hflat.height _ hidx
      rw [NewClimate_heightmap] at this
      rw [NewClimate_HumidityMap_getD _ _ _ _ _ _ _ hidx, this]
      norm_num
    rw [hseed]
    unfold runSimulation
    rw [calcRainMap_frame (fun s => s.TempMap) (fun _ _ _ => rfl),
      calcRainMap_frame (fun s => s.HumidityMap) (fun _ _ _ => rfl),
      calcHumidityMap_frame (fun s => s.TempMap) (fun _ _ => rfl)]
    exact ⟨h2.2 i j hi2 hj2, h3.2 i j hi2 hj2⟩

/-- C23 (witness): the centre cell of the flat 3 x 3 grid after the first day. -/
theorem C23_flat_sea_level_border_fixed_witness :
    7 / 10 < (runSimulation (NewClimate (fun _ _ _ => 0) 3 3 0 0 (List.replicate (3 * 3) 200))
      0).TempMap.getD (1 * 3 + 1) 0 :=
  ((C23_flat_sea_level_border_fixed (fun _ _ _ => 0) 3 3 0 0 [0, 1] 0 1 1 (by decide)
    (by decide)).2 ⟨by decide, by decide⟩ ⟨by decide, by decide⟩).1

/-- C24: on the flat 3 x 3 grid whose cells all have elevation exactly 200,
`NewClimate` seeds the temperature 0.7 of sea level but the humidity 0.2 of
land (a cell at 199 gets 0.4), while `calcHumidityMap` applies the evaporation
of sea level to the centre cell (0.2 + 0.8 * 0.05 * 0.7 = 0.228) and `genBiome`
classifies it as water. -/
theorem C24_sea_level_humidity_seed :
    flatGrid.heightmap.getD 4 0 = 200
    ∧ flatGrid.TempMap.getD 4 0 = 7 / 10
    ∧ flatGrid.HumidityMap.getD 4 0 = 2 / 10
    ∧ flatGrid.CloudMap.getD 4 true = false
    ∧ flatGrid.RainMap.getD 4 true = false
    ∧ (NewClimate (fun _ _ _ => 0) 1 1 0 0 [199]).HumidityMap = [4 / 10]
    ∧ (NewClimate (fun _ _ _ => 0) 1 1 0 0 [200]).HumidityMap = [2 / 10]
    ∧ (calcHumidityMap flatGrid).HumidityMap.getD 4 0 = 228 / 1000
    ∧ (genBiome (fun _ => 0) flatGrid).biomeMap.getD 4 1 = 0 := by
  decide!

/-! ## Construction and the size of the heightmap -/

/-- A loop with index checks whose every iteration succeeds, and then agrees
with the unchecked body, succeeds with the result of the unchecked loop. -/
theorem foldlM_some {σ α : Type} (f : σ → α → σ) (g : σ → α → Option σ) (Inv : σ → Prop)
    (l : List α) (h : ∀ s a, a ∈ l → Inv s → g s a = some (f s a) ∧ Inv (f s a))
    (s : σ) (hs : Inv s) : l.foldlM g s = some (l.foldl f s) ∧ Inv (l.foldl f s) := by
  induction l generalizing s with
  | nil => exact ⟨rfl, hs⟩
  | cons a l ih =>
    have ha := h s a (List.mem_cons_self a l) hs
    rw [List.foldlM_cons, ha.1, List.foldl_cons]
    exact ih (fun s b hb => h s b (List.mem_cons_of_mem a hb)) _ ha.2

/-- A loop with index checks fails when one of its iterations fails on every
state the loop can be in. -/
theorem foldlM_none {σ α : Type} (g : σ → α → Option σ) (Inv : σ → Prop) (l : List α)
    (a : α) (ha : a ∈ l) (hfail : ∀ s, Inv s → g s a = none)
    (hinv : ∀ s b t, Inv s → g s b = some t → Inv t) (s : σ) (hs : Inv s) :
    l.foldlM g s = none := by
  induction l generalizing s with
  | nil => cases ha
  | cons b l ih =>
    rw [List.foldlM_cons]
    rcases List.mem_cons.1 ha with rfl | hal
    · rw [hfail s hs]
      rfl
    · cases hb : g s b with
      | none => rfl
      | some t => exact ih hal t (hinv s b t hs hb)

/-- What every successful iteration keeps holds after a successful loop. -/
theorem foldlM_keep_some {σ α : Type} (g : σ → α → Option σ) (Inv : σ → Prop) (l : List α)
    (hinv : ∀ s b t, Inv s → g s b = some t → Inv t) (s t : σ) (hs : Inv s)
    (ht : l.foldlM g s = some t) : Inv t := by
  induction l generalizing s with
  | nil =>
    cases ht
    exact hs
  | cons b l ih =>
    rw [List.foldlM_cons] at ht
    cases hb : g s b with
    | none =>
      rw [hb] at ht
      cases ht
    | some u =>
      rw [hb] at ht
      exact ih u (hinv s b u hs hb) ht

theorem writeAt_some {α : Type} (l : List α) (i : Nat) (v : α) (h : i < l.length) :
    writeAt l i v = some (l.set i v) := by
  unfold writeAt
  rw [if_pos h]

theorem getD_of_getElem? {α : Type} (l : List α) (i : Nat) (d : α) (h : i < l.length) :
    l[i]? = some (l.getD i d) := by
  rw [List.getD_eq_getElem?_getD, List.getElem?_eq_getElem h]
  rfl

theorem calcWindCellChecked_some (dx dy : Nat) (wdx wdy : ℚ) (c : Climate) (i j : Nat)
    (hi : i < dx) (hj : j < dy) (hh : dx * dy ≤ c.heightmap.length)
    (hW : c.WindMap.length = dx * dy) :
    calcWindCellChecked dx dy wdx wdy c i j = some (calcWindCell dx dy wdx wdy c i j) := by
  unfold calcWindCellChecked calcWindCell
  dsimp only
  have h1 : i * dy + j < dx * dy := idx_lt hi hj
  have h2 : upwind i (truncQ (10 * wdx)) dx * dy + upwind j (truncQ (10 * wdy)) dy < dx * dy :=
    idx_lt (upwind_lt _ _ _ hi) (upwind_lt _ _ _ hj)
  rw [getD_of_getElem? c.heightmap _ 0 (by omega), getD_of_getElem? c.heightmap _ 0 (by omega)]
  dsimp only
  rw [writeAt_some _ _ _ (by omega)]

theorem calcWindCell_initShape (L : Nat) (hm : List ℚ) (dx dy : Nat) (wdx wdy : ℚ)
    (c : Climate) (i j : Nat) (h : InitShape L hm c) :
    InitShape L hm (calcWindCell dx dy wdx wdy c i j) := by
  unfold calcWindCell
  exact ⟨h.1, h.2.1, h.2.2.1, h.2.2.2.1, h.2.2.2.2.1, by
    dsimp only
    rw [List.length_set]
    exact h.2.2.2.2.2⟩

/-- With a heightmap of at least `dimX * dimY` cells `calcWind` runs without
an index panic. -/
theorem calcWindChecked_some (c : Climate) (day : Int)
    (hh : c.dimX * c.dimY ≤ c.heightmap.length) (hs : Sized (c.dimX * c.dimY) c) :
    calcWindChecked c day = some (calcWind c day) := by
  unfold calcWindChecked calcWind
  dsimp only
  refine (foldlM_some _ _ (InitShape (c.dimX * c.dimY) c.heightmap) _ ?_ _
    (by exact ⟨rfl, hs⟩)).1
  intro s a ha hs
  refine foldlM_some _ _ (InitShape (c.dimX * c.dimY) c.heightmap) _ ?_ s hs
  intro s b hb hs
  refine ⟨calcWindCellChecked_some _ _ _ _ s a b (List.mem_range.1 ha) (List.mem_range.1 hb)
    (by rw [hs.1]; exact hh) hs.2.2.2.2.2, calcWindCell_initShape _ _ _ _ _ _ s a b hs⟩

theorem calcWindCellChecked_keep (dx dy : Nat) (wdx wdy : ℚ) (c t : Climate) (i j : Nat)
    (h : calcWindCellChecked dx dy wdx wdy c i j = some t) : t.heightmap = c.heightmap := by
  unfold calcWindCellChecked at h
  dsimp only at h
  split at h
  · split at h
    · cases h
      rfl
    · cases h
  · cases h

/-- With a heightmap of fewer than `dimX * dimY` cells `calcWind` panics: the
cell whose index is the length of the heightmap is read out of range. -/
theorem calcWindChecked_none (c : Climate) (day : Int)
    (hh : c.heightmap.length < c.dimX * c.dimY) : calcWindChecked c day = none := by
  have hpos : 0 < c.dimY := by
    rcases Nat.eq_zero_or_pos c.dimY with h0 | h0
    · rw [h0] at hh
      simp at hh
    · exact h0
  have hj : c.heightmap.length % c.dimY < c.dimY := Nat.mod_lt _ hpos
  have hi : c.heightmap.length / c.dimY < c.dimX := by
    rw [Nat.div_lt_iff_lt_mul hpos]
    exact hh
  have hidx : c.heightmap.length / c.dimY * c.dimY + c.heightmap.length % c.dimY
      = c.heightmap.length := Nat.div_add_mod' _ _
  unfold calcWindChecked
  dsimp only
  refine foldlM_none _ (fun s => s.heightmap = c.heightmap) _ (c.heightmap.length / c.dimY)
    (List.mem_range.2 hi) ?_ ?_ _ rfl
  · intro s hs
    refine foldlM_none _ (fun s => s.heightmap = c.heightmap) _ (c.heightmap.length % c.dimY)
      (List.mem_range.2 hj) ?_ ?_ s hs
    · intro s hs
      unfold calcWindCellChecked
      dsimp only
      rw [hidx, hs, List.getElem?_eq_none (le_refl _)]
    · intro s b t hs ht
      exact (calcWindCellChecked_keep _ _ _ _ s t _ b ht).trans hs
  · intro s a t hs ht
    exact foldlM_keep_some _ (fun s => s.heightmap = c.heightmap) _
      (fun s b t hs ht => (calcWindCellChecked_keep _ _ _ _ s t _ b ht).trans hs) s t hs ht

theorem initTempCellChecked_some (L : Nat) (hm : List ℚ) (c : Climate) (i : Nat)
    (hi : i < L) (hh : L ≤ hm.length) (hs : InitShape L hm c) :
    initTempCellChecked c i = some (initTempCell c i) ∧ InitShape L hm (initTempCell c i) := by
  unfold initTempCellChecked initTempCell
  rw [getD_of_getElem? c.heightmap _ 0 (by rw [hs.1]; omega)]
  dsimp only
  split_ifs
  · rw [writeAt_some _ _ _ (by rw [hs.2.1]; exact hi)]
    exact ⟨rfl, hs.1, by dsimp only; rw [List.length_set]; exact hs.2.1, hs.2.2⟩
  · rw [writeAt_some _ _ _ (by rw [hs.2.1]; exact hi)]
    exact ⟨rfl, hs.1, by dsimp only; rw [List.length_set]; exact hs.2.1, hs.2.2⟩

theorem initHumidityCellChecked_some (L : Nat) (hm : List ℚ) (c : Climate) (i : Nat)
    (hi : i < L) (hh : L ≤ hm.length) (hs : InitShape L hm c) :
    initHumidityCellChecked c i = some (initHumidityCell c i)
      ∧ InitShape L hm (initHumidityCell c i) := by
  unfold initHumidityCellChecked initHumidityCell
  rw [getD_of_getElem? c.heightmap _ 0 (by rw [hs.1]; omega)]
  dsimp only
  split_ifs
  · rw [writeAt_some _ _ _ (by rw [hs.2.2.1]; exact hi)]
    exact ⟨rfl, hs.1, hs.2.1, by dsimp only; rw [List.length_set]; exact hs.2.2.1, hs.2.2.2⟩
  · rw [writeAt_some _ _ _ (by rw [hs.2.2.1]; exact hi)]
    exact ⟨rfl, hs.1, hs.2.1, by dsimp only; rw [List.length_set]; exact hs.2.2.1, hs.2.2.2⟩

theorem initRainCellChecked_some (L : Nat) (hm : List ℚ) (c : Climate) (i : Nat)
    (hi : i < L) (hs : InitShape L hm c) :
    initRainCellChecked c i = some (initRainCell c i) ∧ InitShape L hm (initRainCell c i) := by
  unfold initRainCellChecked initRainCell
  rw [writeAt_some _ _ _ (by rw [hs.2.2.2.2.1]; exact hi)]
  exact ⟨rfl, hs.1, hs.2.1, hs.2.2.1, hs.2.2.2.1,
    by dsimp only; rw [List.length_set]; exact hs.2.2.2.2.1, hs.2.2.2.2.2⟩

theorem initCloudCellChecked_some (L : Nat) (hm : List ℚ) (c : Climate) (i : Nat)
    (hi : i < L) (hs : InitShape L hm c) :
    initCloudCellChecked c i = some (initCloudCell c i)
      ∧ InitShape L hm (initCloudCell c i) := by
  unfold initCloudCellChecked initCloudCell
  rw [writeAt_some _ _ _ (by rw [hs.2.2.2.1]; exact hi)]
  exact ⟨rfl, hs.1, hs.2.1, hs.2.2.1,
    by dsimp only; rw [List.length_set]; exact hs.2.2.2.1, hs.2.2.2.2⟩

/-- With a heightmap of at least `dimX * dimY` cells `init` runs without an
index panic. -/
theorem initChecked_some (c : Climate) (day : Int)
    (hh : c.dimX * c.dimY ≤ c.heightmap.length) (hs : Sized (c.dimX * c.dimY) c) :
    initChecked c day = some (init c day) := by
  unfold initChecked init
  rw [calcWindChecked_some c day hh hs]
  dsimp only
  have h0 : InitShape (c.dimX * c.dimY) c.heightmap (calcWind c day) :=
    ⟨calcWind_heightmap c day, calcWind_sized _ c day hs⟩
  have h1 := foldlM_some initTempCell initTempCellChecked
    (InitShape (c.dimX * c.dimY) c.heightmap) (List.range (calcWind c day).TempMap.length)
    (fun s a ha hs => initTempCellChecked_some _ _ s a
      (by rw [← h0.2.1]; exact List.mem_range.1 ha) hh hs) _ h0
  rw [h1.1]
  dsimp only
  have h2 := foldlM_some initHumidityCell initHumidityCellChecked
    (InitShape (c.dimX * c.dimY) c.heightmap) (List.range _)
    (fun s a ha hs => initHumidityCellChecked_some _ _ s a
      (by rw [← h1.2.2.2.1]; exact List.mem_range.1 ha) hh hs) _ h1.2
  rw [h2.1]
  dsimp only
  have h3 := foldlM_some initRainCell initRainCellChecked
    (InitShape (c.dimX * c.dimY) c.heightmap) (List.range _)
    (fun s a ha hs => initRainCellChecked_some _ _ s a
      (by rw [← h2.2.2.2.2.2.1]; exact List.mem_range.1 ha) hs) _ h2.2
  rw [h3.1]
  dsimp only
  exact (foldlM_some initCloudCell initCloudCellChecked
    (InitShape (c.dimX * c.dimY) c.heightmap) (List.range _)
    (fun s a ha hs => initCloudCellChecked_some _ _ s a
      (by rw [← h3.2.2.2.2.1]; exact List.mem_range.1 ha) hs) _ h3.2).1

/-- With a heightmap of fewer than `dimX * dimY` cells `init` panics. -/
theorem initChecked_none (c : Climate) (day : Int)
    (hh : c.heightmap.length < c.dimX * c.dimY) : initChecked c day = none := by
  unfold initChecked
  rw [calcWindChecked_none c day hh]

/-- The constructor with index checks fails exactly when the heightmap has
fewer than `dimX * dimY` cells, and otherwise returns what `NewClimate` returns. -/
theorem NewClimateChecked_eq (noise : Int → ℚ → ℚ → ℚ) (dimX dimY : Nat) (day seed : Int)
    (heightmap : List ℚ) :
    NewClimateChecked noise dimX dimY day seed heightmap
      = if dimX * dimY ≤ heightmap.length
        then some (NewClimate noise dimX dimY day seed heightmap) else none := by
  unfold NewClimateChecked NewClimate
  dsimp only
  split_ifs with h
  · exact initChecked_some _ day h
      ⟨List.length_replicate _ _, List.length_replicate _ _, List.length_replicate _ _,
        List.length_replicate _ _, List.length_replicate _ _⟩
  · exact initChecked_none _ day (Nat.lt_of_not_le h)

theorem writeAt_length {α : Type} (l t : List α) (i : Nat) (v : α)
    (h : writeAt l i v = some t) : t.length = l.length := by
  unfold writeAt at h
  split_ifs at h
  cases h
  exact List.length_set _ _ _

theorem calcAverageClearCellChecked_keep (c t : Climate) (i : Nat)
    (h : calcAverageClearCellChecked c i = some t) :
    t.AvgRainMap.length = c.AvgRainMap.length := by
  unfold calcAverageClearCellChecked at h
  split at h
  · rename_i r w cl tm hu h1 h2 h3 h4 h5
    cases h
    exact writeAt_length _ _ _ _ h1
  · cases h

theorem calcAverageClearCellChecked_none (c : Climate) (i : Nat)
    (h : c.AvgRainMap.length ≤ i) : calcAverageClearCellChecked c i = none := by
  unfold calcAverageClearCellChecked
  have : writeAt c.AvgRainMap i 0 = none := by
    unfold writeAt
    rw [if_neg (by omega)]
  rw [this]

/-- The first loop of `calcAverage` panics on a state whose heightmap is
longer than its `AvgRainMap`. -/
theorem calcAverageClearChecked_none (c : Climate)
    (h : c.AvgRainMap.length < c.heightmap.length) : calcAverageClearChecked c = none := by
  unfold calcAverageClearChecked
  refine foldlM_none _ (fun s => s.AvgRainMap.length = c.AvgRainMap.length) _
    c.AvgRainMap.length (List.mem_range.2 h) ?_ ?_ c rfl
  · intro s hs
    exact calcAverageClearCellChecked_none s _ (by rw [hs])
  · intro s b t hs ht
    exact (calcAverageClearCellChecked_keep s t b ht).trans hs

theorem set_false_of_false (l : List Bool) (m : Nat) (h : ∀ n, l.getD n false = false) :
    l.set m false = l := by
  refine list_ext_getD false _ _ (List.length_set _ _ _) ?_
  intro n _
  rw [getD_set_false l m h n, h n]

/-- On a state without cloud and rain and without interior cells `calcRainMap`
changes nothing. -/
theorem calcRainMap_noop (c : Climate) (hd : c.dimX ≤ 2 ∨ c.dimY ≤ 2)
    (hc : ∀ n, c.CloudMap.getD n false = false) (hr : ∀ n, c.RainMap.getD n false = false) :
    calcRainMap c = c := by
  have hclear : ∀ l : List Nat, l.foldl calcRainClearCell c = c := by
    intro l
    refine foldl_keep calcRainClearCell (fun s => s = c) l ?_ c rfl
    intro s i _ hs
    rw [hs]
    unfold calcRainClearCell
    rw [set_false_of_false _ _ hc, set_false_of_false _ _ hr]
  unfold calcRainMap
  dsimp only
  rw [hclear]
  exact interior_loop_empty _ _ _ hd c

/-- C25 (counterexample): `NewClimate` returns a Climate for a 2 x 2 grid and
for a 1 x 5 grid, neither of which has an interior cell. -/
theorem C25_small_grid_accepted :
    (NewClimateChecked (fun _ _ _ => 0) 2 2 0 0 [100, 100, 100, 100]).isSome = true
    ∧ (NewClimateChecked (fun _ _ _ => 0) 1 5 0 0 [100, 100, 300, 100, 100]).isSome = true := by
  decide!

/-- C25 (amended): `NewClimate` has no check of its dimensions; called with
`dimX <= 2` or `dimY <= 2` and a heightmap of at least `dimX * dimY` cells it
returns a Climate, and on that Climate `calcTempMap`, `calcHumidityMap` and
`calcRainMap` change nothing. -/
theorem C25_small_grid_degenerate (noise : Int → ℚ → ℚ → ℚ) (dimX dimY : Nat)
    (day seed : Int) (heightmap : List ℚ) (hd : dimX ≤ 2 ∨ dimY ≤ 2)
    (hl : dimX * dimY ≤ heightmap.length) :
    NewClimateChecked noise dimX dimY day seed heightmap
      = some (NewClimate noise dimX dimY day seed heightmap)
    ∧ calcTempMap (NewClimate noise dimX dimY day seed heightmap)
      = NewClimate noise dimX dimY day seed heightmap
    ∧ calcHumidityMap (NewClimate noise dimX dimY day seed heightmap)
      = NewClimate noise dimX dimY day seed heightmap
    ∧ calcRainMap (NewClimate noise dimX dimY day seed heightmap)
      = NewClimate noise dimX dimY day seed heightmap := by
  have hd2 : (NewClimate noise dimX dimY day seed heightmap).dimX ≤ 2
      ∨ (NewClimate noise dimX dimY day seed heightmap).dimY ≤ 2 := by
    rw [NewClimate_dimX, NewClimate_dimY]
    exact hd
  refine ⟨?_, ?_, ?_, ?_⟩
  · rw [NewClimateChecked_eq, if_pos hl]
  · unfold calcTempMap
    exact interior_loop_empty _ _ _ hd2 _
  · unfold calcHumidityMap
    exact interior_loop_empty _ _ _ hd2 _
  · exact calcRainMap_noop _ hd2
      (fun n => (NewClimate_flags noise dimX dimY day seed heightmap n).1)
      (fun n => (NewClimate_flags noise dimX dimY day seed heightmap n).2)

/-- C25 (witness): a 2 x 5 grid. -/
theorem C25_small_grid_degenerate_witness :
    NewClimateChecked (fun _ _ _ => 0) 2 5 0 0 (List.replicate 10 100)
      = some (NewClimate (fun _ _ _ => 0) 2 5 0 0 (List.replicate 10 100)) :=
  (C25_small_grid_degenerate (fun _ _ _ => 0) 2 5 0 0 (List.replicate 10 100)
    (Or.inl (by decide)) (by decide)).1

/-- C26 (counterexample): a heightmap of two cells for a 1 x 1 grid is accepted
by `NewClimate`. -/
theorem C26_longer_heightmap_accepted :
    [(100 : ℚ), 100].length ≠ 1 * 1
    ∧ (NewClimateChecked (fun _ _ _ => 0) 1 1 0 0 [100, 100]).isSome = true := by
  decide!

/-- C26 (amended): `NewClimate` fails at construction, by an index panic, if
and only if the heightmap has fewer than `dimX * dimY` cells; a heightmap with
more cells is accepted, and `calcAverage` on the Climate returned then panics
in its first loop. -/
theorem C26_heightmap_size (noise : Int → ℚ → ℚ → ℚ) (dimX dimY : Nat) (day seed : Int)
    (heightmap : List ℚ) :
    (NewClimateChecked noise dimX dimY day seed heightmap = none
      ↔ heightmap.length < dimX * dimY)
    ∧ (dimX * dimY < heightmap.length →
      NewClimateChecked noise dimX dimY day seed heightmap
        = some (NewClimate noise dimX dimY day seed heightmap)
      ∧ calcAverageClearChecked (NewClimate noise dimX dimY day seed heightmap) = none) := by
  rw [NewClimateChecked_eq]
  constructor
  · split_ifs with h
    · exact ⟨fun h2 => (by cases h2), fun h2 => (by omega)⟩
    · exact ⟨fun _ => (by omega), fun _ => rfl⟩
  · intro h
    refine ⟨by rw [if_pos (le_of_lt h)], ?_⟩
    apply calcAverageClearChecked_none
    rw [(NewClimate_avgSized noise dimX dimY day seed heightmap).1, NewClimate_heightmap]
    exact h

/-- C26 (witness): a heightmap of three cells for a 1 x 2 grid. -/
theorem C26_heightmap_size_witness :
    calcAverageClearChecked (NewClimate (fun _ _ _ => 0) 1 2 0 0 [100, 100, 100]) = none :=
  ((C26_heightmap_size (fun _ _ _ => 0) 1 2 0 0 [100, 100, 100]).2 (by decide)).2

/-! ## The order of the updates within one pass -/

/-- A double loop over the interior is a single loop over `interiorCells`. -/
theorem interior_loop_flat (f : Climate → Nat → Nat → Climate) (dx dy : Nat) (c : Climate) :
    (List.range' 1 (dx - 2)).foldl
        (fun c i => (List.range' 1 (dy - 2)).foldl (fun c j => f c i j) c) c
      = (interiorCells dx dy).foldl (fun c p => f c p.1 p.2) c := by
  unfold interiorCells
  generalize List.range' 1 (dx - 2) = la
  induction la generalizing c with
  | nil => rfl
  | cons a la ih =>
    rw [List.foldl_cons, List.flatMap_cons, List.foldl_append, List.foldl_map, ih]

theorem mem_interiorCells {dx dy : Nat} {p : Nat × Nat} :
    p ∈ interiorCells dx dy ↔ (0 < p.1 ∧ p.1 + 1 < dx) ∧ (0 < p.2 ∧ p.2 + 1 < dy) := by
  unfold interiorCells
  rw [List.mem_flatMap]
  constructor
  · rintro ⟨a, ha, hp⟩
    obtain ⟨b, hb, rfl⟩ := List.mem_map.1 hp
    exact ⟨mem_interior.1 ha, mem_interior.1 hb⟩
  · rintro ⟨h1, h2⟩
    exact ⟨p.1, mem_interior.2 h1, List.mem_map.2 ⟨p.2, mem_interior.2 h2, rfl⟩⟩

/-- The loops visit the interior cells in the order of their slice index. -/
theorem interiorCells_sorted (dx dy : Nat) :
    (interiorCells dx dy).Pairwise (fun p q => p.1 * dy + p.2 < q.1 * dy + q.2) := by
  unfold interiorCells
  rw [List.pairwise_flatMap]
  constructor
  · intro a _
    rw [List.pairwise_map]
    refine (List.pairwise_lt_range' 1 (dy - 2)).imp ?_
    intro b b2 hb
    dsimp only
    omega
  · refine (List.pairwise_lt_range' 1 (dx - 2)).imp_of_mem ?_
    intro a a2 _ _ ha x hx y hy
    obtain ⟨b, hb, rfl⟩ := List.mem_map.1 hx
    obtain ⟨b2, hb2, rfl⟩ := List.mem_map.1 hy
    have h1 := mem_interior.1 hb
    have h2 := mem_interior.1 hb2
    dsimp only
    have h3 : (a + 1) * dy ≤ a2 * dy := Nat.mul_le_mul_right _ ha
    have h4 : (a + 1) * dy = a * dy + dy := by ring
    omega

/-- A loop whose iteration `p` writes only the entry `key p`, leaves an entry
alone when no iteration has its key. -/
theorem loop_untouched {σ α β : Type} (g : σ → α → σ) (key : α → Nat) (get : σ → Nat → β)
    (hw : ∀ s p n, key p ≠ n → get (g s p) n = get s n) (l : List α) (n : Nat)
    (hl : ∀ q ∈ l, key q ≠ n) (s : σ) : get (l.foldl g s) n = get s n := by
  induction l generalizing s with
  | nil => rfl
  | cons a l ih =>
    rw [List.foldl_cons, ih (fun q hq => hl q (List.mem_cons_of_mem _ hq)),
      hw s a n (hl a (List.mem_cons_self _ _))]

/-- In a loop that visits the entries in increasing order and whose iteration
`p` writes only the entry `key p`, the iteration `p` runs on a state `s` in
which the entries below `key p` hold their final values and the entries from
`key p` on hold their initial values; the entry `key p` ends as this iteration
leaves it. -/
theorem sorted_loop_cell {σ α β : Type} (g : σ → α → σ) (key : α → Nat) (get : σ → Nat → β)
    (Inv : σ → Prop) (hinv : ∀ s p, Inv s → Inv (g s p))
    (hw : ∀ s p n, key p ≠ n → get (g s p) n = get s n) (l : List α)
    (hsorted : l.Pairwise (fun p q => key p < key q)) (p : α) (hp : p ∈ l) (c : σ)
    (hc : Inv c) :
    ∃ s, Inv s
      ∧ (∀ m, m < key p → get s m = get (l.foldl g c) m)
      ∧ (∀ m, key p ≤ m → get s m = get c m)
      ∧ get (l.foldl g c) (key p) = get (g s p) (key p) := by
  obtain ⟨pre, post, rfl⟩ := List.append_of_mem hp
  rw [List.pairwise_append] at hsorted
  obtain ⟨_, hpost, hcross⟩ := hsorted
  rw [List.pairwise_cons] at hpost
  refine ⟨pre.foldl g c, foldl_keep g Inv pre (fun s a _ hs => hinv s a hs) c hc, ?_, ?_, ?_⟩
  · intro m hm
    rw [List.foldl_append]
    refine (loop_untouched g key get hw (p :: post) m ?_ _).symm
    intro q hq
    rcases List.mem_cons.1 hq with rfl | hq
    · omega
    · have := hpost.1 q hq
      omega
  · intro m hm
    refine loop_untouched g key get hw pre m ?_ c
    intro q hq
    have := hcross q hq p (List.mem_cons_self _ _)
    omega
  · rw [List.foldl_append, List.foldl_cons]
    refine loop_untouched g key get hw post (key p) ?_ _
    intro q hq
    have := hpost.1 q hq
    omega

theorem tempUpdate_congr (c s : Climate) (h : SameInputs c s) (idx : Nat) (m : ℚ) :
    tempUpdate s idx m = tempUpdate c idx m := by
  unfold tempUpdate
  rw [h.2.2.1, h.2.2.2.1, h.2.2.2.2.1, h.2.2.2.2.2]

/-- What iteration `(i, j)` of `calcTempMap` writes into its cell. -/
theorem calcTempCell_value (old : List ℚ) (dx dy : Nat) (wdx wdy : ℚ) (s : Climate)
    (i j : Nat) (hlen : i * dy + j < s.TempMap.length) (h1 : dy + 1 ≤ i * dy + j)
    (h2 : 2 ≤ dy) :
    (calcTempCell old dx dy wdx wdy s i j).TempMap.getD (i * dy + j) 0
      = tempUpdate s (i * dy + j)
          ((s.TempMap.getD (i * dy + j - dy - 1) 0 + s.TempMap.getD (i * dy + j + dy - 1) 0
            + s.TempMap.getD (i * dy + j + dy + 1) 0 + s.TempMap.getD (i * dy + j - dy + 1) 0
            + old.getD
                (upwind i (truncQ (2 * s.WindMap.getD (i * dy + j) 0 * wdx)) dx * dy
                  + upwind j (truncQ (2 * s.WindMap.getD (i * dy + j) 0 * wdy)) dy) 0) / 5) := by
  unfold calcTempCell tempUpdate
  dsimp only
  rw [getD_set_self _ _ _ _ (by rw [List.length_set]; exact hlen),
    getD_set_ne _ _ (i * dy + j - dy - 1) _ _ (by omega),
    getD_set_ne _ _ (i * dy + j + dy - 1) _ _ (by omega),
    getD_set_ne _ _ (i * dy + j + dy + 1) _ _ (by omega),
    getD_set_ne _ _ (i * dy + j - dy + 1) _ _ (by omega),
    getD_set_self _ _ _ _ hlen]

theorem calcTempCell_getD_ne (old : List ℚ) (dx dy : Nat) (wdx wdy : ℚ) (c : Climate)
    (i j n : Nat) (h : i * dy + j ≠ n) :
    (calcTempCell old dx dy wdx wdy c i j).TempMap.getD n 0 = c.TempMap.getD n 0 := by
  rw [List.getD_eq_getElem?_getD, List.getD_eq_getElem?_getD,
    calcTempCell_getElem_ne _ _ _ _ _ _ _ _ _ h]

/-- The value of an interior cell after `calcTempMap`: the update of the mean of
the cell's stencil, in which the two cells of the row above hold their NEW
values, the two cells of the row below their old values, and the cell itself
the old value of its upwind cell. -/
theorem calcTempMap_cell (c : Climate) (i j : Nat)
    (hT : c.TempMap.length = c.dimX * c.dimY)
    (hi : 0 < i ∧ i + 1 < c.dimX) (hj : 0 < j ∧ j + 1 < c.dimY) :
    (calcTempMap c).TempMap.getD (i * c.dimY + j) 0
      = tempUpdate c (i * c.dimY + j)
          (((calcTempMap c).TempMap.getD (i * c.dimY + j - c.dimY - 1) 0
            + c.TempMap.getD (i * c.dimY + j + c.dimY - 1) 0
            + c.TempMap.getD (i * c.dimY + j + c.dimY + 1) 0
            + (calcTempMap c).TempMap.getD (i * c.dimY + j - c.dimY + 1) 0
            + c.TempMap.getD
                (upwind i (truncQ (2 * c.WindMap.getD (i * c.dimY + j) 0 * c.WindDirection.1))
                    c.dimX * c.dimY
                  + upwind j (truncQ (2 * c.WindMap.getD (i * c.dimY + j) 0
                      * c.WindDirection.2)) c.dimY) 0) / 5) := by
  obtain ⟨hn1, hn2⟩ := interior_neighbours hi hj
  have hfold : calcTempMap c = (interiorCells c.dimX c.dimY).foldl
      (fun s p => calcTempCell (goCopy (List.replicate (c.dimX * c.dimY) (0 : ℚ)) c.TempMap)
        c.dimX c.dimY c.WindDirection.1 c.WindDirection.2 s p.1 p.2) c := by
    unfold calcTempMap
    exact interior_loop_flat _ _ _ c
  have hinv : ∀ (s : Climate) (p : Nat × Nat),
      (s.TempMap.length = c.dimX * c.dimY ∧ SameInputs c s) →
      ((calcTempCell (goCopy (List.replicate (c.dimX * c.dimY) (0 : ℚ)) c.TempMap)
          c.dimX c.dimY c.WindDirection.1 c.WindDirection.2 s p.1 p.2).TempMap.length
          = c.dimX * c.dimY
        ∧ SameInputs c (calcTempCell (goCopy (List.replicate (c.dimX * c.dimY) (0 : ℚ))
          c.TempMap) c.dimX c.dimY c.WindDirection.1 c.WindDirection.2 s p.1 p.2)) := by
    intro s p hs
    refine ⟨?_, hs.2⟩
    unfold calcTempCell
    dsimp only
    rw [List.length_set, List.length_set]
    exact hs.1
  obtain ⟨s, ⟨hsl, hsame⟩, hbelow, habove, hcell⟩ := sorted_loop_cell
    (fun (s : Climate) (p : Nat × Nat) =>
      calcTempCell (goCopy (List.replicate (c.dimX * c.dimY) (0 : ℚ)) c.TempMap)
        c.dimX c.dimY c.WindDirection.1 c.WindDirection.2 s p.1 p.2)
    (fun (p : Nat × Nat) => p.1 * c.dimY + p.2) (fun (s : Climate) n => s.TempMap.getD n 0)
    (fun s => s.TempMap.length = c.dimX * c.dimY ∧ SameInputs c s) hinv
    (fun s p n hpn => calcTempCell_getD_ne _ _ _ _ _ s p.1 p.2 n hpn)
    (interiorCells c.dimX c.dimY) (interiorCells_sorted c.dimX c.dimY) (i, j)
    (mem_interiorCells.2 ⟨hi, hj⟩) c ⟨hT, rfl, rfl, rfl, rfl, rfl, rfl⟩
  dsimp only at hbelow habove hcell
  rw [← hfold] at hbelow hcell
  rw [hcell, calcTempCell_value _ _ _ _ _ s i j (by rw [hsl]; omega) hn1 (by omega),
    tempUpdate_congr c s hsame, hbelow (i * c.dimY + j - c.dimY - 1) (by omega),
    hbelow (i * c.dimY + j - c.dimY + 1) (by omega),
    habove (i * c.dimY + j + c.dimY - 1) (by omega),
    habove (i * c.dimY + j + c.dimY + 1) (by omega), hsame.2.2.1,
    goCopy_of_length 0 _ _ hT]

theorem humidityUpdate_congr (c s : Climate) (h : SameInputs c s)
    (ht : s.TempMap = c.TempMap) (idx : Nat) (m : ℚ) :
    humidityUpdate s idx m = humidityUpdate c idx m := by
  unfold humidityUpdate
  rw [h.2.2.2.1, h.2.2.2.2.1, h.2.2.2.2.2, ht]

/-- What iteration `(i, j)` of `calcHumidityMap` writes into its cell. -/
theorem calcHumidityCell_value (old : List ℚ) (dx dy : Nat) (wdx wdy : ℚ) (s : Climate)
    (i j : Nat) (hlen : i * dy + j < s.HumidityMap.length) (h1 : dy + 1 ≤ i * dy + j)
    (h2 : 2 ≤ dy) :
    (calcHumidityCell old dx dy wdx wdy s i j).HumidityMap.getD (i * dy + j) 0
      = humidityUpdate s (i * dy + j)
          ((s.HumidityMap.getD (i * dy + j - dy - 1) 0
            + s.HumidityMap.getD (i * dy + j + dy - 1) 0
            + s.HumidityMap.getD (i * dy + j + dy + 1) 0
            + s.HumidityMap.getD (i * dy + j - dy + 1) 0
            + old.getD
                (upwind i (truncQ (2 * s.WindMap.getD (i * dy + j) 0 * wdx)) dx * dy
                  + upwind j (truncQ (2 * s.WindMap.getD (i * dy + j) 0 * wdy)) s.dimY) 0
            + s.HumidityMap.getD (i * dy + j + 1) 0 + s.HumidityMap.getD (i * dy + j - 1) 0
            + s.HumidityMap.getD (i * dy + j + dy) 0
            + s.HumidityMap.getD (i * dy + j - dy) 0) / 9) := by
  unfold calcHumidityCell humidityUpdate
  dsimp only
  rw [getD_set_self _ _ _ _ (by rw [List.length_set]; exact hlen),
    getD_set_ne _ _ (i * dy + j - dy - 1) _ _ (by omega),
    getD_set_ne _ _ (i * dy + j + dy - 1) _ _ (by omega),
    getD_set_ne _ _ (i * dy + j + dy + 1) _ _ (by omega),
    getD_set_ne _ _ (i * dy + j - dy + 1) _ _ (by omega),
    getD_set_self _ _ _ _ hlen,
    getD_set_ne _ _ (i * dy + j + 1) _ _ (by omega),
    getD_set_ne _ _ (i * dy + j - 1) _ _ (by omega),
    getD_set_ne _ _ (i * dy + j + dy) _ _ (by omega),
    getD_set_ne _ _ (i * dy + j - dy) _ _ (by omega)]

/-- The value of an interior cell after `calcHumidityMap`: the update of the
mean of the cell's stencil, in which the three cells of the row above and the
cell before it in its row hold their NEW values, the cell after it and the
three cells of the row below their old values, and the cell itself the old
value of its upwind cell. -/
theorem calcHumidityMap_cell (c : Climate) (i j : Nat)
    (hH : c.HumidityMap.length = c.dimX * c.dimY)
    (hi : 0 < i ∧ i + 1 < c.dimX) (hj : 0 < j ∧ j + 1 < c.dimY) :
    (calcHumidityMap c).HumidityMap.getD (i * c.dimY + j) 0
      = humidityUpdate c (i * c.dimY + j)
          (((calcHumidityMap c).HumidityMap.getD (i * c.dimY + j - c.dimY - 1) 0
            + c.HumidityMap.getD (i * c.dimY + j + c.dimY - 1) 0
            + c.HumidityMap.getD (i * c.dimY + j + c.dimY + 1) 0
            + (calcHumidityMap c).HumidityMap.getD (i * c.dimY + j - c.dimY + 1) 0
            + c.HumidityMap.getD
                (upwind i (truncQ (2 * c.WindMap.getD (i * c.dimY + j) 0 * c.WindDirection.1))
                    c.dimX * c.dimY
                  + upwind j (truncQ (2 * c.WindMap.getD (i * c.dimY + j) 0
                      * c.WindDirection.2)) c.dimY) 0
            + c.HumidityMap.getD (i * c.dimY + j + 1) 0
            + (calcHumidityMap c).HumidityMap.getD (i * c.dimY + j - 1) 0
            + c.HumidityMap.getD (i * c.dimY + j + c.dimY) 0
            + (calcHumidityMap c).HumidityMap.getD (i * c.dimY + j - c.dimY) 0) / 9) := by
  obtain ⟨hn1, hn2⟩ := interior_neighbours hi hj
  have hfold : calcHumidityMap c = (interiorCells c.dimX c.dimY).foldl
      (fun s p => calcHumidityCell
        (goCopy (List.replicate (c.dimX * c.dimY) (0 : ℚ)) c.HumidityMap)
        c.dimX c.dimY c.WindDirection.1 c.WindDirection.2 s p.1 p.2) c := by
    unfold calcHumidityMap
    exact interior_loop_flat _ _ _ c
  have hinv : ∀ (s : Climate) (p : Nat × Nat),
      (s.HumidityMap.length = c.dimX * c.dimY ∧ SameInputs c s ∧ s.TempMap = c.TempMap) →
      ((calcHumidityCell (goCopy (List.replicate (c.dimX * c.dimY) (0 : ℚ)) c.HumidityMap)
          c.dimX c.dimY c.WindDirection.1 c.WindDirection.2 s p.1 p.2).HumidityMap.length
          = c.dimX * c.dimY
        ∧ SameInputs c (calcHumidityCell (goCopy (List.replicate (c.dimX * c.dimY) (0 : ℚ))
          c.HumidityMap) c.dimX c.dimY c.WindDirection.1 c.WindDirection.2 s p.1 p.2)
        ∧ (calcHumidityCell (goCopy (List.replicate (c.dimX * c.dimY) (0 : ℚ))
          c.HumidityMap) c.dimX c.dimY c.WindDirection.1 c.WindDirection.2 s p.1 p.2).TempMap
          = c.TempMap) := by
    intro s p hs
    refine ⟨?_, hs.2.1, hs.2.2⟩
    unfold calcHumidityCell
    dsimp only
    rw [List.length_set, List.length_set]
    exact hs.1
  obtain ⟨s, ⟨hsl, hsame, hst⟩, hbelow, habove, hcell⟩ := sorted_loop_cell
    (fun (s : Climate) (p : Nat × Nat) =>
      calcHumidityCell (goCopy (List.replicate (c.dimX * c.dimY) (0 : ℚ)) c.HumidityMap)
        c.dimX c.dimY c.WindDirection.1 c.WindDirection.2 s p.1 p.2)
    (fun (p : Nat × Nat) => p.1 * c.dimY + p.2)
    (fun (s : Climate) n => s.HumidityMap.getD n 0)
    (fun s => s.HumidityMap.length = c.dimX * c.dimY ∧ SameInputs c s
      ∧ s.TempMap = c.TempMap) hinv
    (fun s p n hpn => calcHumidityCell_getD_ne _ _ _ _ _ s p.1 p.2 n hpn)
    (interiorCells c.dimX c.dimY) (interiorCells_sorted c.dimX c.dimY) (i, j)
    (mem_interiorCells.2 ⟨hi, hj⟩) c ⟨hH, ⟨rfl, rfl, rfl, rfl, rfl, rfl⟩, rfl⟩
  dsimp only at hbelow habove hcell
  rw [← hfold] at hbelow hcell
  rw [hcell, calcHumidityCell_value _ _ _ _ _ s i j (by rw [hsl]; omega) hn1 (by omega),
    humidityUpdate_congr c s hsame hst,
    hbelow (i * c.dimY + j - c.dimY - 1) (by omega),
    hbelow (i * c.dimY + j - c.dimY + 1) (by omega),
    hbelow (i * c.dimY + j - 1) (by omega),
    hbelow (i * c.dimY + j - c.dimY) (by omega),
    habove (i * c.dimY + j + c.dimY - 1) (by omega),
    habove (i * c.dimY + j + c.dimY + 1) (by omega),
    habove (i * c.dimY + j + 1) (by omega),
    habove (i * c.dimY + j + c.dimY) (by omega), hsame.2.2.1, hsame.2.1,
    goCopy_of_length 0 _ _ hH]


/-- C35 (counterexample): on the level 4 x 4 grid without wind direction the
double-buffered step gives all four interior cells the same temperature and
the same humidity, whereas `calcTempMap` and `calcHumidityMap` give the cells
`(2, 1)` and `(1, 2)` other values, because their stencils hold cells the pass
has already overwritten. -/
theorem C35_update_in_place :
    (calcTempMapTwoPass stepGrid).TempMap.getD 5 0 = 10963 / 15625
    ∧ (calcTempMapTwoPass stepGrid).TempMap.getD 9 0 = 10963 / 15625
    ∧ (calcTempMap stepGrid).TempMap.getD 5 0 = 10963 / 15625
    ∧ (calcTempMap stepGrid).TempMap.getD 9 0 = 171376129 / 244140625
    ∧ (calcHumidityMapTwoPass stepGrid).HumidityMap.getD 5 0 = 26 / 125
    ∧ (calcHumidityMapTwoPass stepGrid).HumidityMap.getD 6 0 = 26 / 125
    ∧ (calcHumidityMap stepGrid).HumidityMap.getD 5 0 = 26 / 125
    ∧ (calcHumidityMap stepGrid).HumidityMap.getD 6 0 = 2611 / 12500
    ∧ (calcTempMap stepGrid).TempMap ≠ (calcTempMapTwoPass stepGrid).TempMap
    ∧ (calcHumidityMap stepGrid).HumidityMap
      ≠ (calcHumidityMapTwoPass stepGrid).HumidityMap := by
  decide!

/-- C35 (amended): `calcTempMap` and `calcHumidityMap` update their field in
place, in the order of the loops.  The new value of an interior cell is the
clamped update of the mean over its stencil, where the cell itself holds the
old value of its upwind cell, the stencil cells the pass has visited before
(the row above, and for the humidity the cell to the left) hold their NEW
values, and the stencil cells it visits later (the row below, and for the
humidity the cell to the right) hold their old values, not transported. -/
theorem C35_in_place_stencil (c : Climate) (i j : Nat)
    (hT : c.TempMap.length = c.dimX * c.dimY) (hH : c.HumidityMap.length = c.dimX * c.dimY)
    (hi : 0 < i ∧ i + 1 < c.dimX) (hj : 0 < j ∧ j + 1 < c.dimY) :
    (calcTempMap c).TempMap.getD (i * c.dimY + j) 0
      = tempUpdate c (i * c.dimY + j)
          (((calcTempMap c).TempMap.getD (i * c.dimY + j - c.dimY - 1) 0
            + c.TempMap.getD (i * c.dimY + j + c.dimY - 1) 0
            + c.TempMap.getD (i * c.dimY + j + c.dimY + 1) 0
            + (calcTempMap c).TempMap.getD (i * c.dimY + j - c.dimY + 1) 0
            + c.TempMap.getD
                (upwind i (truncQ (2 * c.WindMap.getD (i * c.dimY + j) 0 * c.WindDirection.1))
                    c.dimX * c.dimY
                  + upwind j (truncQ (2 * c.WindMap.getD (i * c.dimY + j) 0
                      * c.WindDirection.2)) c.dimY) 0) / 5)
    ∧ (calcHumidityMap c).HumidityMap.getD (i * c.dimY + j) 0
      = humidityUpdate c (i * c.dimY + j)
          (((calcHumidityMap c).HumidityMap.getD (i * c.dimY + j - c.dimY - 1) 0
            + c.HumidityMap.getD (i * c.dimY + j + c.dimY - 1) 0
            + c.HumidityMap.getD (i * c.dimY + j + c.dimY + 1) 0
            + (calcHumidityMap c).HumidityMap.getD (i * c.dimY + j - c.dimY + 1) 0
            + c.HumidityMap.getD
                (upwind i (truncQ (2 * c.WindMap.getD (i * c.dimY + j) 0 * c.WindDirection.1))
                    c.dimX * c.dimY
                  + upwind j (truncQ (2 * c.WindMap.getD (i * c.dimY + j) 0
                      * c.WindDirection.2)) c.dimY) 0
            + c.HumidityMap.getD (i * c.dimY + j + 1) 0
            + (calcHumidityMap c).HumidityMap.getD (i * c.dimY + j - 1) 0
            + c.HumidityMap.getD (i * c.dimY + j + c.dimY) 0
            + (calcHumidityMap c).HumidityMap.getD (i * c.dimY + j - c.dimY) 0) / 9) := by
  constructor
  · exact calcTempMap_cell c i j hT hi hj
  · exact calcHumidityMap_cell c i j hH hi hj

/-- C35 (witness): the cell `(2, 1)` of the level 4 x 4 grid, whose stencil
holds the cell `(1, 2)` that the pass has overwritten before. -/
theorem C35_in_place_stencil_witness :
    (calcTempMap stepGrid).TempMap.getD (2 * stepGrid.dimY + 1) 0
      = tempUpdate stepGrid (2 * stepGrid.dimY + 1)
          (((calcTempMap stepGrid).TempMap.getD (2 * stepGrid.dimY + 1 - stepGrid.dimY - 1) 0
            + stepGrid.TempMap.getD (2 * stepGrid.dimY + 1 + stepGrid.dimY - 1) 0
            + stepGrid.TempMap.getD (2 * stepGrid.dimY + 1 + stepGrid.dimY + 1) 0
            + (calcTempMap stepGrid).TempMap.getD (2 * stepGrid.dimY + 1 - stepGrid.dimY + 1) 0
            + stepGrid.TempMap.getD
                (upwind 2 (truncQ (2 * stepGrid.WindMap.getD (2 * stepGrid.dimY + 1) 0
                    * stepGrid.WindDirection.1)) stepGrid.dimX * stepGrid.dimY
                  + upwind 1 (truncQ (2 * stepGrid.WindMap.getD (2 * stepGrid.dimY + 1) 0
                      * stepGrid.WindDirection.2)) stepGrid.dimY) 0) / 5) :=
  (C35_in_place_stencil stepGrid 2 1 (by decide) (by decide) (by decide) (by decide)).1

/-! ## The clamp for arbitrary field values -/

theorem tempUpdate_inUnit (c : Climate) (idx : Nat) (m : ℚ) :
    0 ≤ tempUpdate c idx m ∧ tempUpdate c idx m ≤ 1 := by
  unfold tempUpdate
  exact clamp_range _

theorem humidityUpdate_inUnit (c : Climate) (idx : Nat) (m : ℚ) :
    0 ≤ humidityUpdate c idx m ∧ humidityUpdate c idx m ≤ 1 := by
  unfold humidityUpdate
  exact clamp_range _

/-! ## The clamp and the overflow of `float64` -/

theorem F64.add_def (a b : F64) : a + b = F64.add a b := rfl

theorem F64.sub_def (a b : F64) : a - b = F64.add a (F64.neg b) := rfl

theorem F64.mul_def (a b : F64) : a * b = F64.mul a b := rfl

theorem F64.div_def (a b : F64) : a / b = F64.div a b := rfl

theorem F64.neg_def (a : F64) : -a = F64.neg a := rfl

/-- Within the finite range an operation returns its exact result. -/
theorem ofRat_eq (q : ℚ) (h : |q| ≤ maxFloat64) : F64.ofRat q = F64.fin q := by
  have h2 := abs_le.1 h
  unfold F64.ofRat
  rw [if_neg (not_lt.2 h2.2), if_neg (not_lt.2 h2.1)]

theorem within_mono {X Y : ℚ} {a : F64} (ha : F64.Within X a) (h : X ≤ Y) : F64.Within Y a := by
  cases a with
  | fin q => exact le_trans ha h
  | pinf => exact ha
  | ninf => exact ha
  | nan => exact ha

theorem within_fin (q X : ℚ) (h : |q| ≤ X) : F64.Within X (F64.fin q) := h

theorem within_add {X Y : ℚ} {a b : F64} (ha : F64.Within X a) (hb : F64.Within Y b) (Z : ℚ)
    (h1 : X + Y ≤ Z) (h2 : Z ≤ maxFloat64) : F64.Within Z (a + b) := by
  cases a with
  | fin p =>
    cases b with
    | fin q =>
      have hpq : |p + q| ≤ Z := le_trans (abs_add p q) (le_trans (add_le_add ha hb) h1)
      show F64.Within Z (F64.ofRat (p + q))
      rw [ofRat_eq _ (le_trans hpq h2)]
      exact hpq
    | pinf => exact hb.elim
    | ninf => exact hb.elim
    | nan => exact hb.elim
  | pinf => exact ha.elim
  | ninf => exact ha.elim
  | nan => exact ha.elim

theorem within_neg {X : ℚ} {a : F64} (ha : F64.Within X a) : F64.Within X (F64.neg a) := by
  cases a with
  | fin p =>
    show |(-p)| ≤ X
    rw [abs_neg]
    exact ha
  | pinf => exact ha.elim
  | ninf => exact ha.elim
  | nan => exact ha.elim

theorem within_sub {X Y : ℚ} {a b : F64} (ha : F64.Within X a) (hb : F64.Within Y b) (Z : ℚ)
    (h1 : X + Y ≤ Z) (h2 : Z ≤ maxFloat64) : F64.Within Z (a - b) := by
  rw [F64.sub_def, ← F64.add_def]
  exact within_add ha (within_neg hb) Z h1 h2

theorem within_mul {X Y : ℚ} {a b : F64} (ha : F64.Within X a) (hb : F64.Within Y b) (Z : ℚ)
    (h1 : X * Y ≤ Z) (h2 : Z ≤ maxFloat64) : F64.Within Z (a * b) := by
  cases a with
  | fin p =>
    cases b with
    | fin q =>
      have hpq : |p * q| ≤ Z := by
        rw [abs_mul]
        exact le_trans (mul_le_mul ha hb (abs_nonneg q) (le_trans (abs_nonneg p) ha)) h1
      show F64.Within Z (F64.ofRat (p * q))
      rw [ofRat_eq _ (le_trans hpq h2)]
      exact hpq
    | pinf => exact hb.elim
    | ninf => exact hb.elim
    | nan => exact hb.elim
  | pinf => exact ha.elim
  | ninf => exact ha.elim
  | nan => exact ha.elim

theorem within_div {X : ℚ} {a : F64} (ha : F64.Within X a) (k : ℚ) (hk : 1 ≤ k)
    (h2 : X ≤ maxFloat64) : F64.Within X (a / F64.fin k) := by
  cases a with
  | fin p =>
    have hk0 : (0 : ℚ) < k := lt_of_lt_of_le zero_lt_one hk
    have hpk : |p / k| ≤ X := by
      rw [abs_div, abs_of_pos hk0]
      exact le_trans (div_le_self (abs_nonneg p) hk) ha
    show F64.Within X (if k = 0 then (if p > 0 then F64.pinf else if p < 0 then F64.ninf
      else F64.nan) else F64.ofRat (p / k))
    rw [if_neg (ne_of_gt hk0), ofRat_eq _ (le_trans hpk h2)]
    exact hpk
  | pinf => exact ha.elim
  | ninf => exact ha.elim
  | nan => exact ha.elim

/-- The clamp leaves a value of `[0, 1]` or lets NaN through. -/
theorem clamp64_range (v : F64) :
    (if F64.lt (F64.fin 1) v then F64.fin 1
      else if F64.lt v (F64.fin 0) then F64.fin 0 else v) = F64.nan
    ∨ F64.InUnit (if F64.lt (F64.fin 1) v then F64.fin 1
      else if F64.lt v (F64.fin 0) then F64.fin 0 else v) := by
  cases v with
  | fin q =>
    right
    simp only [F64.lt, decide_eq_true_eq]
    split_ifs with h1 h2
    · exact ⟨zero_le_one, le_refl _⟩
    · exact ⟨le_refl _, zero_le_one⟩
    · exact ⟨not_lt.1 h2, not_lt.1 h1⟩
  | pinf =>
    right
    simp only [F64.lt, if_true]
    exact ⟨zero_le_one, le_refl _⟩
  | ninf =>
    right
    simp [F64.lt, F64.InUnit]
  | nan =>
    left
    simp [F64.lt]

/-- The clamp of a finite value lies in `[0, 1]`. -/
theorem clamp64_within {X : ℚ} (v : F64) (h : F64.Within X v) :
    F64.InUnit (if F64.lt (F64.fin 1) v then F64.fin 1
      else if F64.lt v (F64.fin 0) then F64.fin 0 else v) := by
  rcases clamp64_range v with h1 | h1
  · cases v with
    | fin q =>
      simp only [F64.lt, decide_eq_true_eq] at h1
      split_ifs at h1
    | pinf => exact h.elim
    | ninf => exact h.elim
    | nan => exact h.elim
  · exact h1

theorem tempUpdate64_range (c : Climate64) (idx : Nat) (m : F64) :
    tempUpdate64 c idx m = F64.nan ∨ F64.InUnit (tempUpdate64 c idx m) := by
  unfold tempUpdate64
  exact clamp64_range _

theorem humidityUpdate64_range (c : Climate64) (idx : Nat) (m : F64) :
    humidityUpdate64 c idx m = F64.nan ∨ F64.InUnit (humidityUpdate64 c idx m) := by
  unfold humidityUpdate64
  exact clamp64_range _

/-- With a wind speed and an elevation of magnitude at most `1e100` and a mean of
magnitude at most `1e101` no step of the temperature update overflows. -/
theorem tempUpdate64_within (c : Climate64) (idx : Nat) (m : F64)
    (hw : F64.Within (10 ^ 100) (c.WindMap.getD idx (F64.fin 0)))
    (hh : F64.Within (10 ^ 100) (c.heightmap.getD idx (F64.fin 0)))
    (hm : F64.Within (10 ^ 101) m) : F64.InUnit (tempUpdate64 c idx m) := by
  unfold tempUpdate64
  dsimp only
  have hcool : F64.Within (10 ^ 101)
      (F64.fin (1 / 2) * (c.WindMap.getD idx (F64.fin 0) - F64.fin 5)) :=
    within_mul (within_fin (1 / 2) 1 (by norm_num [abs_le]))
      (within_sub hw (within_fin 5 5 (by norm_num)) (10 ^ 101) (by norm_num)
        (by norm_num [maxFloat64]))
      (10 ^ 101) (by norm_num) (by norm_num [maxFloat64])
  have hsun : F64.Within (10 ^ 101)
      (if !(c.CloudMap.getD idx false) then
        (F64.fin 1 - c.heightmap.getD idx (F64.fin 0) / F64.fin 2000) * F64.fin (8 / 1000)
      else F64.fin 0) := by
    split_ifs
    · exact within_mul
        (within_sub (within_fin 1 1 (by norm_num))
          (within_div hh 2000 (by norm_num) (by norm_num [maxFloat64])) (10 ^ 101)
          (by norm_num) (by norm_num [maxFloat64]))
        (within_fin (8 / 1000) 1 (by norm_num [abs_le])) (10 ^ 101) (by norm_num)
        (by norm_num [maxFloat64])
    · exact within_fin 0 _ (by norm_num)
  have hrain : F64.Within 1
      (if c.RainMap.getD idx false && F64.lt (F64.fin 0) m then F64.fin (-(1 / 100))
      else F64.fin 0) := by
    split_ifs
    · exact within_fin _ 1 (by norm_num [abs_le])
    · exact within_fin 0 1 (by norm_num)
  refine clamp64_within _ (?_ : F64.Within (10 ^ 205) _)
  refine within_add (within_add hm (within_mul (within_mul
      (within_fin (8 / 10) 1 (by norm_num [abs_le]))
      (within_sub (within_fin 1 1 (by norm_num)) hm (10 ^ 102) (by norm_num)
        (by norm_num [maxFloat64])) (10 ^ 102) (by norm_num) (by norm_num [maxFloat64]))
      hsun (10 ^ 203) (by norm_num) (by norm_num [maxFloat64]))
      (10 ^ 204) (by norm_num) (by norm_num [maxFloat64]))
    (within_mul (within_mul (within_fin (6 / 10) 1 (by norm_num [abs_le])) hm (10 ^ 101)
        (by norm_num) (by norm_num [maxFloat64]))
      (within_add hrain hcool (10 ^ 102) (by norm_num) (by norm_num [maxFloat64]))
      (10 ^ 203) (by norm_num) (by norm_num [maxFloat64]))
    (10 ^ 205) (by norm_num) (by norm_num [maxFloat64])

/-- With a temperature of magnitude at most `1e100` and a mean of magnitude at
most `1e101` no step of the humidity update overflows. -/
theorem humidityUpdate64_within (c : Climate64) (idx : Nat) (m : F64)
    (ht : F64.Within (10 ^ 100) (c.TempMap.getD idx (F64.fin 0)))
    (hm : F64.Within (10 ^ 101) m) : F64.InUnit (humidityUpdate64 c idx m) := by
  unfold humidityUpdate64
  dsimp only
  have hadd : F64.Within (10 ^ 100)
      (if !(c.CloudMap.getD idx false) then
        (if F64.le (c.heightmap.getD idx (F64.fin 0)) (F64.fin 200) then
          F64.fin (5 / 100) * c.TempMap.getD idx (F64.fin 0)
        else F64.fin (1 / 100))
      else F64.fin 0) := by
    split_ifs
    · exact within_mul (within_fin (5 / 100) 1 (by norm_num [abs_le])) ht (10 ^ 100)
        (by norm_num) (by norm_num [maxFloat64])
    · exact within_fin _ _ (by norm_num [abs_le])
    · exact within_fin 0 _ (by norm_num)
  have hrain : F64.Within (10 ^ 101)
      (if c.RainMap.getD idx false then -m * F64.fin (8 / 10) else F64.fin 0) := by
    split_ifs
    · rw [F64.neg_def]
      exact within_mul (within_neg hm) (within_fin (8 / 10) 1 (by norm_num [abs_le]))
        (10 ^ 101) (by norm_num) (by norm_num [maxFloat64])
    · exact within_fin 0 _ (by norm_num)
  refine clamp64_within _ (?_ : F64.Within (10 ^ 204) _)
  exact within_add (within_add hm (within_mul hm hrain (10 ^ 202) (by norm_num)
      (by norm_num [maxFloat64])) (10 ^ 203) (by norm_num) (by norm_num [maxFloat64]))
    (within_mul (within_sub (within_fin 1 1 (by norm_num)) hm (10 ^ 102) (by norm_num)
        (by norm_num [maxFloat64])) hadd (10 ^ 202) (by norm_num) (by norm_num [maxFloat64]))
    (10 ^ 204) (by norm_num) (by norm_num [maxFloat64])

theorem inUnit_within {v : F64} (h : v.InUnit) : F64.Within (10 ^ 100) v := by
  cases v with
  | fin q =>
    have h1 : 0 ≤ q ∧ q ≤ 1 := h
    show |q| ≤ 10 ^ 100
    rw [abs_of_nonneg h1.1]
    exact le_trans h1.2 (by norm_num)
  | pinf => exact h.elim
  | ninf => exact h.elim
  | nan => exact h.elim

theorem within_getD (l : List F64) (h : AllWithin l) (n : Nat) :
    F64.Within (10 ^ 100) (l.getD n (F64.fin 0)) := by
  rw [List.getD_eq_getElem?_getD]
  cases hn : l[n]? with
  | none => exact within_fin 0 _ (by norm_num)
  | some v => exact h v (List.getElem?_mem hn)

theorem within_getD_set (t : List F64) (m : Nat) (v : F64)
    (ht : ∀ n, F64.Within (10 ^ 100) (t.getD n (F64.fin 0))) (hv : F64.Within (10 ^ 100) v)
    (n : Nat) : F64.Within (10 ^ 100) ((t.set m v).getD n (F64.fin 0)) := by
  rw [getD_set]
  split_ifs
  · exact hv
  · exact ht n

theorem within_goCopy (L : Nat) (src : List F64) (h : AllWithin src) :
    AllWithin (goCopy (List.replicate L (F64.fin 0)) src) := by
  intro v hv
  unfold goCopy at hv
  rcases List.mem_append.1 hv with h1 | h1
  · exact h v (List.mem_of_mem_take h1)
  · have h2 := List.mem_of_mem_drop h1
    rw [List.eq_of_mem_replicate h2]
    exact within_fin 0 _ (by norm_num)

/-- A double loop reaches a property of the state that the iteration at `(i, j)`
establishes and no iteration destroys. -/
theorem nested_loop_reach {σ : Type} (f : σ → Nat → Nat → σ) (Inv Good : σ → Prop)
    (la lb : List Nat) (i j : Nat)
    (hinv : ∀ s a b, Inv s → Inv (f s a b))
    (hkeep : ∀ s a b, Inv s → Good s → Good (f s a b))
    (hcell : ∀ s, Inv s → Good (f s i j))
    (hi : i ∈ la) (hj : j ∈ lb) (s0 : σ) (h0 : Inv s0) :
    Good (la.foldl (fun c a => lb.foldl (fun c b => f c a b) c) s0) := by
  have hrow_inv : ∀ s a, Inv s → Inv (lb.foldl (fun c b => f c a b) s) := by
    intro s a hs
    exact foldl_keep (fun c b => f c a b) Inv _ (fun s b _ h => hinv s a b h) s hs
  refine foldl_reach (fun c a => lb.foldl (fun c b => f c a b) c)
    Inv Good (fun a => a = i) _ (fun s a _ hs => hrow_inv s a hs) ?_ ?_ s0 h0
    (Or.inl ⟨i, hi, rfl⟩)
  · intro s a _ hs hg
    exact (foldl_keep (fun c b => f c a b) (fun s => Inv s ∧ Good s) _
      (fun s b _ h => ⟨hinv s a b h.1, hkeep s a b h.1 h.2⟩) s ⟨hs, hg⟩).2
  · intro s a _ hs hai
    subst hai
    exact foldl_reach (fun c b => f c a b) Inv Good (fun b => b = j) _
      (fun s b _ h => hinv s a b h) (fun s b _ h hg => hkeep s a b h hg)
      (fun s b _ h hb => by subst hb; exact hcell s h) s hs
      (Or.inl ⟨j, hj, rfl⟩)

/-- After the update of a cell a cell of `TempMap` holds what the clamp leaves if
it did before or is the cell updated. -/
theorem calcTempCell64_clamped (old : List F64) (dx dy : Nat) (wdx wdy : F64) (c : Climate64)
    (i j n : Nat) (h : (c.TempMap.getD n (F64.fin 0)).Clamped ∨ i * dy + j = n) :
    ((calcTempCell64 old dx dy wdx wdy c i j).TempMap.getD n (F64.fin 0)).Clamped := by
  unfold calcTempCell64
  dsimp only
  rw [getD_set]
  split_ifs with h1
  · exact tempUpdate64_range _ _ _
  · rw [getD_set]
    split_ifs with h2
    · rw [List.length_set] at h1
      exact absurd h2 h1
    · rcases h with h | h
      · exact h
      · rw [List.length_set] at h1
        subst h
        rw [getD_of_length_le _ _ _ (by
          by_contra hlt
          exact h1 ⟨rfl, Nat.lt_of_not_le hlt⟩)]
        exact Or.inr ⟨le_refl _, zero_le_one⟩

theorem calcHumidityCell64_clamped (old : List F64) (dx dy : Nat) (wdx wdy : F64)
    (c : Climate64) (i j n : Nat)
    (h : (c.HumidityMap.getD n (F64.fin 0)).Clamped ∨ i * dy + j = n) :
    ((calcHumidityCell64 old dx dy wdx wdy c i j).HumidityMap.getD n (F64.fin 0)).Clamped := by
  unfold calcHumidityCell64
  dsimp only
  rw [getD_set]
  split_ifs with h1
  · exact humidityUpdate64_range _ _ _
  · rw [getD_set]
    split_ifs with h2
    · rw [List.length_set] at h1
      exact absurd h2 h1
    · rcases h with h | h
      · exact h
      · rw [List.length_set] at h1
        subst h
        rw [getD_of_length_le _ _ _ (by
          by_contra hlt
          exact h1 ⟨rfl, Nat.lt_of_not_le hlt⟩)]
        exact Or.inr ⟨le_refl _, zero_le_one⟩

theorem calcTempMap64_clamped (c : Climate64) (i j : Nat)
    (hi : 0 < i ∧ i + 1 < c.dimX) (hj : 0 < j ∧ j + 1 < c.dimY) :
    ((calcTempMap64 c).TempMap.getD (i * c.dimY + j) (F64.fin 0)).Clamped := by
  unfold calcTempMap64
  dsimp only
  exact nested_loop_reach
    (fun s a b => calcTempCell64 (goCopy (List.replicate (c.dimX * c.dimY) (F64.fin 0)) c.TempMap)
      c.dimX c.dimY c.WindDirection.1 c.WindDirection.2 s a b)
    (fun _ => True) (fun s => (s.TempMap.getD (i * c.dimY + j) (F64.fin 0)).Clamped) _ _ i j
    (fun _ _ _ _ => trivial)
    (fun s a b _ hg => calcTempCell64_clamped _ _ _ _ _ s a b _ (Or.inl hg))
    (fun s _ => calcTempCell64_clamped _ _ _ _ _ s i j _ (Or.inr rfl))
    (mem_interior.2 hi) (mem_interior.2 hj) c trivial

theorem calcHumidityMap64_clamped (c : Climate64) (i j : Nat)
    (hi : 0 < i ∧ i + 1 < c.dimX) (hj : 0 < j ∧ j + 1 < c.dimY) :
    ((calcHumidityMap64 c).HumidityMap.getD (i * c.dimY + j) (F64.fin 0)).Clamped := by
  unfold calcHumidityMap64
  dsimp only
  exact nested_loop_reach
    (fun s a b => calcHumidityCell64
      (goCopy (List.replicate (c.dimX * c.dimY) (F64.fin 0)) c.HumidityMap)
      c.dimX c.dimY c.WindDirection.1 c.WindDirection.2 s a b)
    (fun _ => True) (fun s => (s.HumidityMap.getD (i * c.dimY + j) (F64.fin 0)).Clamped) _ _ i j
    (fun _ _ _ _ => trivial)
    (fun s a b _ hg => calcHumidityCell64_clamped _ _ _ _ _ s a b _ (Or.inl hg))
    (fun s _ => calcHumidityCell64_clamped _ _ _ _ _ s i j _ (Or.inr rfl))
    (mem_interior.2 hi) (mem_interior.2 hj) c trivial

/-- The mean of five values of magnitude at most `1e100` does not overflow. -/
theorem mean5_within (t : List F64) (a b c d e : Nat)
    (ht : ∀ n, F64.Within (10 ^ 100) (t.getD n (F64.fin 0))) :
    F64.Within (10 ^ 101)
      ((t.getD a (F64.fin 0) + t.getD b (F64.fin 0) + t.getD c (F64.fin 0)
        + t.getD d (F64.fin 0) + t.getD e (F64.fin 0)) / F64.fin 5) :=
  within_div
    (within_add (within_add (within_add (within_add (ht a) (ht b) (2 * 10 ^ 100) (by norm_num)
      (by norm_num [maxFloat64])) (ht c) (3 * 10 ^ 100) (by norm_num)
      (by norm_num [maxFloat64])) (ht d) (4 * 10 ^ 100) (by norm_num)
      (by norm_num [maxFloat64])) (ht e) (10 ^ 101) (by norm_num) (by norm_num [maxFloat64]))
    5 (by norm_num) (by norm_num [maxFloat64])

/-- The mean of nine values of magnitude at most `1e100` does not overflow. -/
theorem mean9_within (t : List F64) (a b c d e f g h k : Nat)
    (ht : ∀ n, F64.Within (10 ^ 100) (t.getD n (F64.fin 0))) :
    F64.Within (10 ^ 101)
      ((t.getD a (F64.fin 0) + t.getD b (F64.fin 0) + t.getD c (F64.fin 0)
        + t.getD d (F64.fin 0) + t.getD e (F64.fin 0) + t.getD f (F64.fin 0)
        + t.getD g (F64.fin 0) + t.getD h (F64.fin 0) + t.getD k (F64.fin 0)) / F64.fin 9) :=
  within_div
    (within_add (within_add (within_add (within_add (within_add (within_add (within_add
      (within_add (ht a) (ht b) (2 * 10 ^ 100) (by norm_num) (by norm_num [maxFloat64]))
      (ht c) (3 * 10 ^ 100) (by norm_num) (by norm_num [maxFloat64]))
      (ht d) (4 * 10 ^ 100) (by norm_num) (by norm_num [maxFloat64]))
      (ht e) (5 * 10 ^ 100) (by norm_num) (by norm_num [maxFloat64]))
      (ht f) (6 * 10 ^ 100) (by norm_num) (by norm_num [maxFloat64]))
      (ht g) (7 * 10 ^ 100) (by norm_num) (by norm_num [maxFloat64]))
      (ht h) (8 * 10 ^ 100) (by norm_num) (by norm_num [maxFloat64]))
      (ht k) (10 ^ 101) (by norm_num) (by norm_num [maxFloat64]))
    9 (by norm_num) (by norm_num [maxFloat64])

/-- On a state whose temperatures, wind speeds and elevations have magnitude at
most `1e100` the update of a cell keeps these bounds, and a cell of `TempMap`
lies in `[0, 1]` afterwards if it did before or is the cell updated. -/
theorem calcTempCell64_within (old : List F64) (dx dy : Nat) (wdx wdy : F64) (c : Climate64)
    (i j : Nat) (hold : ∀ n, F64.Within (10 ^ 100) (old.getD n (F64.fin 0)))
    (hT : ∀ n, F64.Within (10 ^ 100) (c.TempMap.getD n (F64.fin 0)))
    (hW : ∀ n, F64.Within (10 ^ 100) (c.WindMap.getD n (F64.fin 0)))
    (hH : ∀ n, F64.Within (10 ^ 100) (c.heightmap.getD n (F64.fin 0))) :
    (∀ n, F64.Within (10 ^ 100)
        ((calcTempCell64 old dx dy wdx wdy c i j).TempMap.getD n (F64.fin 0)))
    ∧ ∀ n, (c.TempMap.getD n (F64.fin 0)).InUnit ∨ i * dy + j = n →
        ((calcTempCell64 old dx dy wdx wdy c i j).TempMap.getD n (F64.fin 0)).InUnit := by
  unfold calcTempCell64
  dsimp only
  have ht := within_getD_set c.TempMap (i * dy + j) _ hT (hold
    (upwind64 i (F64.fin 2 * c.WindMap.getD (i * dy + j) (F64.fin 0) * wdx) dx * dy
      + upwind64 j (F64.fin 2 * c.WindMap.getD (i * dy + j) (F64.fin 0) * wdy) dy))
  have hu := tempUpdate64_within c (i * dy + j) _ (hW _) (hH _)
    (mean5_within _ (i * dy + j - dy - 1) (i * dy + j + dy - 1) (i * dy + j + dy + 1)
      (i * dy + j - dy + 1) (i * dy + j) ht)
  refine ⟨within_getD_set _ _ _ ht (inUnit_within hu), ?_⟩
  intro n h
  rw [getD_set]
  split_ifs with h1
  · exact hu
  · rw [getD_set]
    split_ifs with h2
    · rw [List.length_set] at h1
      exact absurd h2 h1
    · rcases h with h | h
      · exact h
      · rw [List.length_set] at h1
        subst h
        rw [getD_of_length_le _ _ _ (by
          by_contra hlt
          exact h1 ⟨rfl, Nat.lt_of_not_le hlt⟩)]
        exact ⟨le_refl _, zero_le_one⟩

theorem calcHumidityCell64_within (old : List F64) (dx dy : Nat) (wdx wdy : F64)
    (c : Climate64) (i j : Nat) (hold : ∀ n, F64.Within (10 ^ 100) (old.getD n (F64.fin 0)))
    (hM : ∀ n, F64.Within (10 ^ 100) (c.HumidityMap.getD n (F64.fin 0)))
    (hT : ∀ n, F64.Within (10 ^ 100) (c.TempMap.getD n (F64.fin 0))) :
    (∀ n, F64.Within (10 ^ 100)
        ((calcHumidityCell64 old dx dy wdx wdy c i j).HumidityMap.getD n (F64.fin 0)))
    ∧ ∀ n, (c.HumidityMap.getD n (F64.fin 0)).InUnit ∨ i * dy + j = n →
        ((calcHumidityCell64 old dx dy wdx wdy c i j).HumidityMap.getD n (F64.fin 0)).InUnit := by
  unfold calcHumidityCell64
  dsimp only
  have hm := within_getD_set c.HumidityMap (i * dy + j) _ hM (hold
    (upwind64 i (F64.fin 2 * c.WindMap.getD (i * dy + j) (F64.fin 0) * wdx) dx * dy
      + upwind64 j (F64.fin 2 * c.WindMap.getD (i * dy + j) (F64.fin 0) * wdy) c.dimY))
  have hu := humidityUpdate64_within c (i * dy + j) _ (hT _)
    (mean9_within _ (i * dy + j - dy - 1) (i * dy + j + dy - 1) (i * dy + j + dy + 1)
      (i * dy + j - dy + 1) (i * dy + j) (i * dy + j + 1) (i * dy + j - 1) (i * dy + j + dy)
      (i * dy + j - dy) hm)
  refine ⟨within_getD_set _ _ _ hm (inUnit_within hu), ?_⟩
  intro n h
  rw [getD_set]
  split_ifs with h1
  · exact hu
  · rw [getD_set]
    split_ifs with h2
    · rw [List.length_set] at h1
      exact absurd h2 h1
    · rcases h with h | h
      · exact h
      · rw [List.length_set] at h1
        subst h
        rw [getD_of_length_le _ _ _ (by
          by_contra hlt
          exact h1 ⟨rfl, Nat.lt_of_not_le hlt⟩)]
        exact ⟨le_refl _, zero_le_one⟩

theorem calcTempMap64_within (c : Climate64) (i j : Nat)
    (hi : 0 < i ∧ i + 1 < c.dimX) (hj : 0 < j ∧ j + 1 < c.dimY)
    (hT : AllWithin c.TempMap) (hW : AllWithin c.WindMap) (hH : AllWithin c.heightmap) :
    ((calcTempMap64 c).TempMap.getD (i * c.dimY + j) (F64.fin 0)).InUnit := by
  unfold calcTempMap64
  dsimp only
  have hold := within_getD _ (within_goCopy (c.dimX * c.dimY) c.TempMap hT)
  exact nested_loop_reach
    (fun s a b => calcTempCell64 (goCopy (List.replicate (c.dimX * c.dimY) (F64.fin 0)) c.TempMap)
      c.dimX c.dimY c.WindDirection.1 c.WindDirection.2 s a b)
    (fun s => (∀ n, F64.Within (10 ^ 100) (s.TempMap.getD n (F64.fin 0)))
      ∧ (∀ n, F64.Within (10 ^ 100) (s.WindMap.getD n (F64.fin 0)))
      ∧ (∀ n, F64.Within (10 ^ 100) (s.heightmap.getD n (F64.fin 0))))
    (fun s => (s.TempMap.getD (i * c.dimY + j) (F64.fin 0)).InUnit) _ _ i j
    (fun s a b hs =>
      ⟨(calcTempCell64_within _ _ _ _ _ s a b hold hs.1 hs.2.1 hs.2.2).1, hs.2.1, hs.2.2⟩)
    (fun s a b hs hg =>
      (calcTempCell64_within _ _ _ _ _ s a b hold hs.1 hs.2.1 hs.2.2).2 _ (Or.inl hg))
    (fun s hs =>
      (calcTempCell64_within _ _ _ _ _ s i j hold hs.1 hs.2.1 hs.2.2).2 _ (Or.inr rfl))
    (mem_interior.2 hi) (mem_interior.2 hj) c
    ⟨within_getD _ hT, within_getD _ hW, within_getD _ hH⟩

theorem calcHumidityMap64_within (c : Climate64) (i j : Nat)
    (hi : 0 < i ∧ i + 1 < c.dimX) (hj : 0 < j ∧ j + 1 < c.dimY)
    (hM : AllWithin c.HumidityMap) (hT : AllWithin c.TempMap) :
    ((calcHumidityMap64 c).HumidityMap.getD (i * c.dimY + j) (F64.fin 0)).InUnit := by
  unfold calcHumidityMap64
  dsimp only
  have hold := within_getD _ (within_goCopy (c.dimX * c.dimY) c.HumidityMap hM)
  exact nested_loop_reach
    (fun s a b => calcHumidityCell64
      (goCopy (List.replicate (c.dimX * c.dimY) (F64.fin 0)) c.HumidityMap)
      c.dimX c.dimY c.WindDirection.1 c.WindDirection.2 s a b)
    (fun s => (∀ n, F64.Within (10 ^ 100) (s.HumidityMap.getD n (F64.fin 0)))
      ∧ (∀ n, F64.Within (10 ^ 100) (s.TempMap.getD n (F64.fin 0))))
    (fun s => (s.HumidityMap.getD (i * c.dimY + j) (F64.fin 0)).InUnit) _ _ i j
    (fun s a b hs => ⟨(calcHumidityCell64_within _ _ _ _ _ s a b hold hs.1 hs.2).1, hs.2⟩)
    (fun s a b hs hg => (calcHumidityCell64_within _ _ _ _ _ s a b hold hs.1 hs.2).2 _ (Or.inl hg))
    (fun s hs => (calcHumidityCell64_within _ _ _ _ _ s i j hold hs.1 hs.2).2 _ (Or.inr rfl))
    (mem_interior.2 hi) (mem_interior.2 hj) c ⟨within_getD _ hM, within_getD _ hT⟩

/-- C34 (counterexample): on the 3 x 3 state whose temperatures and wind speeds
are `1e200` and whose elevations and humidities are `-1e200`, all of them finite
values of `float64`, the two products of the temperature update overflow to
`-Inf` and `+Inf`, their sum is NaN, both tests of the clamp are false and
`calcTempMap` writes NaN into the interior cell; `calcHumidityMap` does the same. -/
theorem C34_overflow_writes_nan :
    (∀ v ∈ hugeGrid.TempMap ++ hugeGrid.HumidityMap ++ hugeGrid.WindMap ++ hugeGrid.heightmap,
      F64.Within maxFloat64 v)
    ∧ (calcTempMap64 hugeGrid).TempMap.getD (1 * hugeGrid.dimY + 1) (F64.fin 0) = F64.nan
    ∧ (calcHumidityMap64 hugeGrid).HumidityMap.getD (1 * hugeGrid.dimY + 1) (F64.fin 0)
        = F64.nan := by
  decide!

/-- C34 (amended): for every input state whose temperatures, humidities, wind
speeds and elevations are finite with magnitude at most `1e100`, of either sign,
`calcTempMap` leaves every interior cell of `TempMap` in `[0, 1]` and
`calcHumidityMap` leaves every interior cell of `HumidityMap` in `[0, 1]`; for
field values of any magnitude, the infinities and NaN included, every interior
cell is left in `[0, 1]` or is NaN, which the clamp lets through. -/
theorem C34_clamp_without_overflow (c : Climate64) (i j : Nat)
    (hi : 0 < i ∧ i + 1 < c.dimX) (hj : 0 < j ∧ j + 1 < c.dimY) :
    (AllWithin c.TempMap → AllWithin c.WindMap → AllWithin c.heightmap →
      ((calcTempMap64 c).TempMap.getD (i * c.dimY + j) (F64.fin 0)).InUnit)
    ∧ (AllWithin c.HumidityMap → AllWithin c.TempMap →
      ((calcHumidityMap64 c).HumidityMap.getD (i * c.dimY + j) (F64.fin 0)).InUnit)
    ∧ ((calcTempMap64 c).TempMap.getD (i * c.dimY + j) (F64.fin 0) = F64.nan
      ∨ ((calcTempMap64 c).TempMap.getD (i * c.dimY + j) (F64.fin 0)).InUnit)
    ∧ ((calcHumidityMap64 c).HumidityMap.getD (i * c.dimY + j) (F64.fin 0) = F64.nan
      ∨ ((calcHumidityMap64 c).HumidityMap.getD (i * c.dimY + j) (F64.fin 0)).InUnit) :=
  ⟨calcTempMap64_within c i j hi hj, calcHumidityMap64_within c i j hi hj,
    calcTempMap64_clamped c i j hi hj, calcHumidityMap64_clamped c i j hi hj⟩

/-- C34 (witness): the cell `(1, 2)` of a state with values of large magnitude
and either sign. -/
theorem C34_clamp_without_overflow_witness :
    ((calcTempMap64 mildGrid).TempMap.getD (1 * mildGrid.dimY + 2) (F64.fin 0)).InUnit
    ∧ ((calcHumidityMap64 mildGrid).HumidityMap.getD (1 * mildGrid.dimY + 2) (F64.fin 0)).InUnit :=
  ⟨(C34_clamp_without_overflow mildGrid 1 2 (by decide) (by decide)).1
      (by decide!) (by decide!) (by decide!),
    (C34_clamp_without_overflow mildGrid 1 2 (by decide) (by decide)).2.1
      (by decide!) (by decide!)⟩

/-! ## The upwind cell -/

/-- The conversion `int(x)` drops the fraction: it is the floor of a
non-negative and the ceiling of a negative number. -/
theorem truncQ_eq (x : ℚ) : truncQ x = if 0 ≤ x then ⌊x⌋ else ⌈x⌉ := by
  unfold truncQ
  split_ifs with h
  · rw [Rat.floor_def, Int.tdiv_eq_ediv (Rat.num_nonneg.2 h) (Int.natCast_nonneg _)]
  · have hneg : 0 ≤ (-x).num := Rat.num_nonneg.2 (by linarith)
    have h1 : ⌈x⌉ = -⌊-x⌋ := by
      rw [Int.floor_neg, neg_neg]
    rw [h1, Rat.floor_def, Rat.neg_den, Rat.neg_num,
      ← Int.tdiv_eq_ediv (by rw [← Rat.neg_num]; exact hneg) (Int.natCast_nonneg _),
      Int.neg_tdiv, neg_neg]

/-- The rain and cloud flags of an interior cell after `calcRainMap`. -/
theorem calcRainMap_value (c : Climate) (i j : Nat)
    (hC : c.CloudMap.length = c.dimX * c.dimY) (hR : c.RainMap.length = c.dimX * c.dimY)
    (hi : 0 < i ∧ i + 1 < c.dimX) (hj : 0 < j ∧ j + 1 < c.dimY) :
    ((calcRainMap c).RainMap.getD (i * c.dimY + j) false,
      (calcRainMap c).CloudMap.getD (i * c.dimY + j) false)
      = if c.HumidityMap.getD (i * c.dimY + j) 0
            ≥ 35 / 100 + (1 / 2) * c.TempMap.getD (i * c.dimY + j) 0 then
          (true, c.CloudMap.getD (upwindCell c i j) false)
        else if c.HumidityMap.getD (i * c.dimY + j) 0
            ≥ 3 / 10 + (3 / 10) * c.TempMap.getD (i * c.dimY + j) 0 then
          (c.RainMap.getD (upwindCell c i j) false, true)
        else (false, false) := by
  have hidx : i * c.dimY + j < c.dimX * c.dimY := idx_lt (by omega) (by omega)
  by_cases h1 : c.HumidityMap.getD (i * c.dimY + j) 0
      ≥ 35 / 100 + (1 / 2) * c.TempMap.getD (i * c.dimY + j) 0
  · rw [if_pos h1]
    refine calcRainMap_cell c i j _ _ hi hj ?_
    intro s hs
    unfold calcRainCell upwindCell
    dsimp only
    rw [hs.1, hs.2.1, hs.2.2.1, if_pos h1]
    dsimp only
    rw [getD_set_self _ _ _ _ (by rw [hs.2.2.2.1, hR]; exact hidx),
      getD_set_self _ _ _ _ (by rw [hs.2.2.2.2, hC]; exact hidx),
      goCopy_of_length false _ _ hC]
  · rw [if_neg h1]
    by_cases h2 : c.HumidityMap.getD (i * c.dimY + j) 0
        ≥ 3 / 10 + (3 / 10) * c.TempMap.getD (i * c.dimY + j) 0
    · rw [if_pos h2]
      refine calcRainMap_cell c i j _ _ hi hj ?_
      intro s hs
      unfold calcRainCell upwindCell
      dsimp only
      rw [hs.1, hs.2.1, hs.2.2.1, if_neg h1, if_pos h2]
      dsimp only
      rw [getD_set_self _ _ _ _ (by rw [hs.2.2.2.1, hR]; exact hidx),
        getD_set_self _ _ _ _ (by rw [hs.2.2.2.2, hC]; exact hidx),
        goCopy_of_length false _ _ hR]
    · rw [if_neg h2]
      refine calcRainMap_cell c i j _ _ hi hj ?_
      intro s hs
      unfold calcRainCell
      dsimp only
      rw [hs.1, hs.2.1, if_neg h1, if_neg h2]
      dsimp only
      rw [getD_set_self _ _ _ _ (by rw [hs.2.2.2.1, hR]; exact hidx),
        getD_set_self _ _ _ _ (by rw [hs.2.2.2.2, hC]; exact hidx)]

/-- C36 (counterexample): with wind speed 5 and wind direction `(0.06, 0)` the
product is 0.6, whose nearest integer is 1 and whose conversion to `int` is 0.
The raining cell `(1, 1)` takes its cloud flag from itself (no cloud), not from
the cloudy cell `(2, 1)` one row further. -/
theorem C36_offset_not_rounded :
    round (2 * driftGrid.WindMap.getD (1 * 4 + 1) 0 * driftGrid.WindDirection.1) = 1
    ∧ truncQ (2 * driftGrid.WindMap.getD (1 * 4 + 1) 0 * driftGrid.WindDirection.1) = 0
    ∧ driftGrid.CloudMap.getD (1 * 4 + 1) false = false
    ∧ driftGrid.CloudMap.getD ((1 + 1) * 4 + 1) false = true
    ∧ (calcRainMap driftGrid).RainMap.getD (1 * 4 + 1) false = true
    ∧ (calcRainMap driftGrid).CloudMap.getD (1 * 4 + 1) false = false := by
  refine ⟨?_, by decide!, by decide!, by decide!, by decide!, by decide!⟩
  have h : 2 * driftGrid.WindMap.getD (1 * 4 + 1) 0 * driftGrid.WindDirection.1 = 6 / 10 := by
    decide!
  rw [h, round_eq, Int.floor_eq_iff]
  norm_num

/-- C36 (amended): in `calcTempMap`, `calcHumidityMap` and `calcRainMap` the
upwind source cell of an interior cell `(i, j)` is
`(i + int(2*WindMap[idx]*wdx), j + int(2*WindMap[idx]*wdy))`, each product
converted by `int`, that is truncated toward zero (floor of a non-negative,
ceiling of a negative product), before the grid-bounds correction: the
temperature and the humidity of the cell are updated from the old value of
that cell, and a raining or cloudy cell takes its other flag from it. -/
theorem C36_upwind_offset_truncated (c : Climate) (i j : Nat)
    (hT : c.TempMap.length = c.dimX * c.dimY) (hH : c.HumidityMap.length = c.dimX * c.dimY)
    (hC : c.CloudMap.length = c.dimX * c.dimY) (hR : c.RainMap.length = c.dimX * c.dimY)
    (hi : 0 < i ∧ i + 1 < c.dimX) (hj : 0 < j ∧ j + 1 < c.dimY) :
    (∀ x : ℚ, truncQ x = if 0 ≤ x then ⌊x⌋ else ⌈x⌉)
    ∧ (∀ k l : Nat,
        (i : Int) + truncQ (2 * c.WindMap.getD (i * c.dimY + j) 0 * c.WindDirection.1) = k →
        (j : Int) + truncQ (2 * c.WindMap.getD (i * c.dimY + j) 0 * c.WindDirection.2) = l →
        k < c.dimX → l < c.dimY → upwindCell c i j = k * c.dimY + l)
    ∧ (calcTempMap c).TempMap.getD (i * c.dimY + j) 0
      = tempUpdate c (i * c.dimY + j)
          (((calcTempMap c).TempMap.getD (i * c.dimY + j - c.dimY - 1) 0
            + c.TempMap.getD (i * c.dimY + j + c.dimY - 1) 0
            + c.TempMap.getD (i * c.dimY + j + c.dimY + 1) 0
            + (calcTempMap c).TempMap.getD (i * c.dimY + j - c.dimY + 1) 0
            + c.TempMap.getD (upwindCell c i j) 0) / 5)
    ∧ (calcHumidityMap c).HumidityMap.getD (i * c.dimY + j) 0
      = humidityUpdate c (i * c.dimY + j)
          (((calcHumidityMap c).HumidityMap.getD (i * c.dimY + j - c.dimY - 1) 0
            + c.HumidityMap.getD (i * c.dimY + j + c.dimY - 1) 0
            + c.HumidityMap.getD (i * c.dimY + j + c.dimY + 1) 0
            + (calcHumidityMap c).HumidityMap.getD (i * c.dimY + j - c.dimY + 1) 0
            + c.HumidityMap.getD (upwindCell c i j) 0
            + c.HumidityMap.getD (i * c.dimY + j + 1) 0
            + (calcHumidityMap c).HumidityMap.getD (i * c.dimY + j - 1) 0
            + c.HumidityMap.getD (i * c.dimY + j + c.dimY) 0
            + (calcHumidityMap c).HumidityMap.getD (i * c.dimY + j - c.dimY) 0) / 9)
    ∧ (c.HumidityMap.getD (i * c.dimY + j) 0
          ≥ 35 / 100 + (1 / 2) * c.TempMap.getD (i * c.dimY + j) 0 →
        (calcRainMap c).CloudMap.getD (i * c.dimY + j) false
          = c.CloudMap.getD (upwindCell c i j) false)
    ∧ (c.HumidityMap.getD (i * c.dimY + j) 0
          < 35 / 100 + (1 / 2) * c.TempMap.getD (i * c.dimY + j) 0 →
        c.HumidityMap.getD (i * c.dimY + j) 0
          ≥ 3 / 10 + (3 / 10) * c.TempMap.getD (i * c.dimY + j) 0 →
        (calcRainMap c).RainMap.getD (i * c.dimY + j) false
          = c.RainMap.getD (upwindCell c i j) false) := by
  have hrain := calcRainMap_value c i j hC hR hi hj
  refine ⟨truncQ_eq, ?_, calcTempMap_cell c i j hT hi hj, calcHumidityMap_cell c i j hH hi hj,
    ?_, ?_⟩
  · intro k l hk hl hkx hly
    unfold upwindCell upwind
    rw [hk, hl, if_neg (by omega), if_neg (by omega)]
    rfl
  · intro h1
    rw [if_pos h1] at hrain
    exact (Prod.mk.inj hrain).2
  · intro h1 h2
    rw [if_neg (not_le.2 h1), if_pos h2] at hrain
    exact (Prod.mk.inj hrain).1

/-- C36 (witness): the raining cell `(1, 1)` of the example state, whose
upwind cell is the cell itself. -/
theorem C36_upwind_offset_truncated_witness :
    upwindCell driftGrid 1 1 = 1 * driftGrid.dimY + 1
    ∧ (calcRainMap driftGrid).CloudMap.getD (1 * driftGrid.dimY + 1) false
      = driftGrid.CloudMap.getD (upwindCell driftGrid 1 1) false :=
  ⟨(C36_upwind_offset_truncated driftGrid 1 1 (by decide) (by decide) (by decide)
      (by decide) (by decide) (by decide)).2.1 1 1 (by decide!) (by decide!) (by decide)
      (by decide),
    (C36_upwind_offset_truncated driftGrid 1 1 (by decide) (by decide) (by decide)
      (by decide) (by decide) (by decide)).2.2.2.2.1 (by decide!)⟩

/-! ## Cloud and rain on the boundary -/

theorem calcRainCell_flags_ne (oc orn : List Bool) (dx dy : Nat) (wdx wdy : ℚ) (s : Climate)
    (a b n : Nat) (d : Bool) (h : a * dy + b ≠ n) :
    (calcRainCell oc orn dx dy wdx wdy s a b).CloudMap.getD n d = s.CloudMap.getD n d
      ∧ (calcRainCell oc orn dx dy wdx wdy s a b).RainMap.getD n d = s.RainMap.getD n d := by
  unfold calcRainCell
  dsimp only
  split_ifs <;> exact ⟨getD_set_ne _ _ _ _ _ h, getD_set_ne _ _ _ _ _ h⟩

/-- After the first loop of `calcRainMap` both flags of every cell are false. -/
theorem calcRainClear_cleared (c : Climate) (L n : Nat) (hn : n < L)
    (hC : n < c.CloudMap.length) (hR : n < c.RainMap.length) :
    ((List.range L).foldl calcRainClearCell c).CloudMap.getD n true = false
      ∧ ((List.range L).foldl calcRainClearCell c).RainMap.getD n true = false := by
  refine foldl_reach calcRainClearCell
    (fun s => n < s.CloudMap.length ∧ n < s.RainMap.length)
    (fun s => s.CloudMap.getD n true = false ∧ s.RainMap.getD n true = false)
    (fun a => a = n) _ ?_ ?_ ?_ c ⟨hC, hR⟩ (Or.inl ⟨n, List.mem_range.2 hn, rfl⟩)
  · intro s a _ hs
    unfold calcRainClearCell
    dsimp only
    rw [List.length_set, List.length_set]
    exact hs
  · intro s a _ _ hg
    unfold calcRainClearCell
    dsimp only
    rw [getD_set, getD_set]
    constructor
    · split_ifs
      · rfl
      · exact hg.1
    · split_ifs
      · rfl
      · exact hg.2
  · intro s a _ hs ha
    unfold calcRainClearCell
    dsimp only
    rw [ha, getD_set_self _ _ _ _ hs.1, getD_set_self _ _ _ _ hs.2]
    exact ⟨rfl, rfl⟩

/-- After `calcRainMap` both flags of every boundary cell are false. -/
theorem calcRainMap_border (c : Climate) (i j : Nat)
    (hC : c.CloudMap.length = c.dimX * c.dimY) (hR : c.RainMap.length = c.dimX * c.dimY)
    (hi : i < c.dimX) (hj : j < c.dimY)
    (hb : i = 0 ∨ i + 1 = c.dimX ∨ j = 0 ∨ j + 1 = c.dimY) :
    (calcRainMap c).CloudMap.getD (i * c.dimY + j) true = false
      ∧ (calcRainMap c).RainMap.getD (i * c.dimY + j) true = false := by
  have hidx : i * c.dimY + j < c.dimX * c.dimY := idx_lt hi hj
  unfold calcRainMap
  dsimp only
  rw [calcRainClear_frame (fun s => s.dimX) (fun _ _ _ => rfl),
    calcRainClear_frame (fun s => s.dimY) (fun _ _ _ => rfl),
    calcRainClear_frame (fun s => s.WindDirection) (fun _ _ _ => rfl)]
  refine foldl_keep _ (fun (s : Climate) => s.CloudMap.getD (i * c.dimY + j) true = false
    ∧ s.RainMap.getD (i * c.dimY + j) true = false) _ ?_ _ ?_
  · intro s a ha hs
    refine foldl_keep _ (fun (s : Climate) => s.CloudMap.getD (i * c.dimY + j) true = false
      ∧ s.RainMap.getD (i * c.dimY + j) true = false) _ ?_ s hs
    intro s b hb2 hs
    have h := calcRainCell_flags_ne
      (goCopy (List.replicate (c.dimX * c.dimY) false) c.CloudMap)
      (goCopy (List.replicate (c.dimX * c.dimY) false) c.RainMap)
      c.dimX c.dimY c.WindDirection.1 c.WindDirection.2 s a b (i * c.dimY + j) true
      (border_ne_interior hj (by omega) ha hb2)
    exact ⟨h.1.trans hs.1, h.2.trans hs.2⟩
  · refine calcRainClear_cleared c _ _ ?_ (by rw [hC]; exact hidx) (by rw [hR]; exact hidx)
    rw [goCopy_of_length false _ _ hR, hR]
    exact hidx

/-- C37 (counterexample): the boundary cell `(0, 0)` of a state that is cloudy
and raining everywhere has neither cloud nor rain after `calcRainMap`. -/
theorem C37_boundary_flags_cleared :
    cloudyGrid.CloudMap.getD 0 false = true
    ∧ cloudyGrid.RainMap.getD 0 false = true
    ∧ (calcRainMap cloudyGrid).CloudMap.getD 0 true = false
    ∧ (calcRainMap cloudyGrid).RainMap.getD 0 true = false := by
  decide!

/-- C37 (amended): `calcRainMap` clears both fields before it classifies the
interior, so after the call `CloudMap` and `RainMap` are false at every
boundary cell, whatever they held before; a boundary value is kept exactly
when it was false.  The classification itself leaves the boundary cells out,
as the temperature and humidity steps do. -/
theorem C37_boundary_flags_false (c : Climate) (i j : Nat)
    (hC : c.CloudMap.length = c.dimX * c.dimY) (hR : c.RainMap.length = c.dimX * c.dimY)
    (hi : i < c.dimX) (hj : j < c.dimY)
    (hb : i = 0 ∨ i + 1 = c.dimX ∨ j = 0 ∨ j + 1 = c.dimY) :
    (calcRainMap c).CloudMap.getD (i * c.dimY + j) true = false
    ∧ (calcRainMap c).RainMap.getD (i * c.dimY + j) true = false
    ∧ ((calcRainMap c).CloudMap.getD (i * c.dimY + j) true
          = c.CloudMap.getD (i * c.dimY + j) true
        ↔ c.CloudMap.getD (i * c.dimY + j) true = false)
    ∧ ((calcRainMap c).RainMap.getD (i * c.dimY + j) true
          = c.RainMap.getD (i * c.dimY + j) true
        ↔ c.RainMap.getD (i * c.dimY + j) true = false) := by
  obtain ⟨h1, h2⟩ := calcRainMap_border c i j hC hR hi hj hb
  refine ⟨h1, h2, ?_, ?_⟩
  · rw [h1]
    exact eq_comm
  · rw [h2]
    exact eq_comm

/-- C37 (witness): the boundary cell `(3, 2)` of the state that is cloudy and
raining everywhere. -/
theorem C37_boundary_flags_false_witness :
    (calcRainMap cloudyGrid).CloudMap.getD (3 * cloudyGrid.dimY + 2) true = false
    ∧ (calcRainMap cloudyGrid).RainMap.getD (3 * cloudyGrid.dimY + 2) true = false :=
  ⟨(C37_boundary_flags_false cloudyGrid 3 2 (by decide) (by decide) (by decide) (by decide)
      (by decide)).1,
    (C37_boundary_flags_false cloudyGrid 3 2 (by decide) (by decide) (by decide) (by decide)
      (by decide)).2.1⟩

/-! ## Index safety of the step functions -/

theorem readIdx_cast {α : Type} (l : List α) (i : Int) (n : Nat) (d : α) (hi : i = (n : Int))
    (h : n < l.length) : readIdx l i = some (l.getD n d) := by
  unfold readIdx
  rw [hi, if_neg (by omega), Int.toNat_ofNat, List.getD_eq_getElem?_getD,
    List.getElem?_eq_getElem h]
  rfl

theorem writeIdx_cast {α : Type} (l : List α) (i : Int) (n : Nat) (v : α) (hi : i = (n : Int))
    (h : n < l.length) : writeIdx l i v = some (l.set n v) := by
  unfold writeIdx
  rw [hi, if_neg (by omega), Int.toNat_ofNat, if_pos h]

theorem upwindIndexChecked_some (c : Climate) (dx dy dyl : Nat) (wdx wdy : ℚ) (i j : Nat)
    (h : i * dy + j < c.WindMap.length) :
    upwindIndexChecked c dx dy dyl wdx wdy i j
      = some (((upwind i (truncQ (2 * c.WindMap.getD (i * dy + j) 0 * wdx)) dx * dy
          + upwind j (truncQ (2 * c.WindMap.getD (i * dy + j) 0 * wdy)) dyl : Nat) : Int)) := by
  unfold upwindIndexChecked
  rw [readIdx_cast c.WindMap _ (i * dy + j) 0 (by push_cast; ring) h]
  simp only [Option.some_bind]
  push_cast
  rfl

theorem stencilTempChecked_some (t : List ℚ) (n dy : Nat) (h1 : dy + 1 ≤ n)
    (h2 : n + dy + 1 < t.length) :
    stencilTempChecked t n dy
      = some ((t.getD (n - dy - 1) 0 + t.getD (n + dy - 1) 0 + t.getD (n + dy + 1) 0
          + t.getD (n - dy + 1) 0 + t.getD n 0) / 5) := by
  unfold stencilTempChecked
  rw [readIdx_cast t _ (n - dy - 1) 0 (by omega) (by omega),
    readIdx_cast t _ (n + dy - 1) 0 (by omega) (by omega),
    readIdx_cast t _ (n + dy + 1) 0 (by omega) (by omega),
    readIdx_cast t _ (n - dy + 1) 0 (by omega) (by omega),
    readIdx_cast t _ n 0 rfl (by omega)]
  rfl

theorem stencilHumidityChecked_some (m : List ℚ) (n dy : Nat) (h1 : dy + 1 ≤ n)
    (h2 : n + dy + 1 < m.length) :
    stencilHumidityChecked m n dy
      = some ((m.getD (n - dy - 1) 0 + m.getD (n + dy - 1) 0 + m.getD (n + dy + 1) 0
          + m.getD (n - dy + 1) 0 + m.getD n 0 + m.getD (n + 1) 0 + m.getD (n - 1) 0
          + m.getD (n + dy) 0 + m.getD (n - dy) 0) / 9) := by
  unfold stencilHumidityChecked
  rw [readIdx_cast m _ (n - dy - 1) 0 (by omega) (by omega),
    readIdx_cast m _ (n + dy - 1) 0 (by omega) (by omega),
    readIdx_cast m _ (n + dy + 1) 0 (by omega) (by omega),
    readIdx_cast m _ (n - dy + 1) 0 (by omega) (by omega),
    readIdx_cast m _ n 0 rfl (by omega),
    readIdx_cast m _ (n + 1) 0 (by omega) (by omega),
    readIdx_cast m _ (n - 1) 0 (by omega) (by omega),
    readIdx_cast m _ (n + dy) 0 (by omega) (by omega),
    readIdx_cast m _ (n - dy) 0 (by omega) (by omega)]
  rfl

theorem tempUpdateChecked_some (c : Climate) (n : Nat) (m : ℚ) (hW : n < c.WindMap.length)
    (hC : n < c.CloudMap.length) (hh : n < c.heightmap.length) (hR : n < c.RainMap.length) :
    tempUpdateChecked c n m = some (tempUpdate c n m) := by
  unfold tempUpdateChecked tempUpdate
  rw [readIdx_cast c.WindMap _ n 0 rfl hW, readIdx_cast c.CloudMap _ n false rfl hC,
    readIdx_cast c.heightmap _ n 0 rfl hh, readIdx_cast c.RainMap _ n false rfl hR]
  simp only [Option.some_bind]
  cases c.CloudMap.getD n false <;> rfl

theorem humidityUpdateChecked_some (c : Climate) (n : Nat) (m : ℚ)
    (hT : n < c.TempMap.length)
    (hC : n < c.CloudMap.length) (hh : n < c.heightmap.length) (hR : n < c.RainMap.length) :
    humidityUpdateChecked c n m = some (humidityUpdate c n m) := by
  unfold humidityUpdateChecked humidityUpdate
  rw [readIdx_cast c.TempMap _ n 0 rfl hT, readIdx_cast c.CloudMap _ n false rfl hC,
    readIdx_cast c.heightmap _ n 0 rfl hh, readIdx_cast c.RainMap _ n false rfl hR]
  simp only [Option.some_bind]
  cases c.CloudMap.getD n false
  · by_cases h : c.heightmap.getD n 0 ≤ 200
    · simp only [Bool.not_false, if_true, Option.some_bind, if_pos h]
    · simp only [Bool.not_false, if_true, Option.some_bind, if_neg h]
  · rfl

theorem calcTempCellChecked_some (old : List ℚ) (dx dy : Nat) (wdx wdy : ℚ) (c : Climate)
    (i j : Nat) (hi : 0 < i ∧ i + 1 < dx) (hj : 0 < j ∧ j + 1 < dy)
    (hs : StepShape dx dy c) (hold : old.length = dx * dy) :
    calcTempCellChecked old dx dy wdx wdy c i j = some (calcTempCell old dx dy wdx wdy c i j)
      ∧ StepShape dx dy (calcTempCell old dx dy wdx wdy c i j) := by
  obtain ⟨hn1, hn2⟩ := interior_neighbours hi hj
  obtain ⟨⟨hT, hH, hC, hR, hW⟩, hh, hd⟩ := hs
  have hup : upwind i (truncQ (2 * c.WindMap.getD (i * dy + j) 0 * wdx)) dx * dy
      + upwind j (truncQ (2 * c.WindMap.getD (i * dy + j) 0 * wdy)) dy < dx * dy :=
    idx_lt (upwind_lt _ _ _ (by omega)) (upwind_lt _ _ _ (by omega))
  have hcast : (i : Int) * dy + j = ((i * dy + j : Nat) : Int) := by push_cast; ring
  constructor
  · unfold calcTempCellChecked
    rw [upwindIndexChecked_some c dx dy dy wdx wdy i j (by omega), hcast]
    simp only [Option.some_bind]
    rw [readIdx_cast old _ _ 0 rfl (by rw [hold]; exact hup)]
    simp only [Option.some_bind]
    rw [writeIdx_cast c.TempMap _ (i * dy + j) _ rfl (by omega)]
    simp only [Option.some_bind]
    rw [stencilTempChecked_some _ (i * dy + j) dy hn1 (by rw [List.length_set]; omega)]
    simp only [Option.some_bind]
    rw [tempUpdateChecked_some c (i * dy + j) _ (by omega) (by omega) (by omega) (by omega)]
    simp only [Option.some_bind]
    rw [writeIdx_cast _ _ (i * dy + j) _ rfl (by rw [List.length_set]; omega)]
    rfl
  · refine ⟨⟨?_, hH, hC, hR, hW⟩, hh, hd⟩
    unfold calcTempCell
    dsimp only
    rw [List.length_set, List.length_set]
    exact hT

theorem calcHumidityCellChecked_some (old : List ℚ) (dx dy : Nat) (wdx wdy : ℚ) (c : Climate)
    (i j : Nat) (hi : 0 < i ∧ i + 1 < dx) (hj : 0 < j ∧ j + 1 < dy)
    (hs : StepShape dx dy c) (hold : old.length = dx * dy) :
    calcHumidityCellChecked old dx dy wdx wdy c i j
        = some (calcHumidityCell old dx dy wdx wdy c i j)
      ∧ StepShape dx dy (calcHumidityCell old dx dy wdx wdy c i j) := by
  obtain ⟨hn1, hn2⟩ := interior_neighbours hi hj
  obtain ⟨⟨hT, hH, hC, hR, hW⟩, hh, hd⟩ := hs
  have hup : upwind i (truncQ (2 * c.WindMap.getD (i * dy + j) 0 * wdx)) dx * dy
      + upwind j (truncQ (2 * c.WindMap.getD (i * dy + j) 0 * wdy)) c.dimY < dx * dy := by
    rw [hd]
    exact idx_lt (upwind_lt _ _ _ (by omega)) (upwind_lt _ _ _ (by omega))
  have hcast : (i : Int) * dy + j = ((i * dy + j : Nat) : Int) := by push_cast; ring
  constructor
  · unfold calcHumidityCellChecked
    rw [upwindIndexChecked_some c dx dy c.dimY wdx wdy i j (by omega), hcast]
    simp only [Option.some_bind]
    rw [readIdx_cast old _ _ 0 rfl (by rw [hold]; exact hup)]
    simp only [Option.some_bind]
    rw [writeIdx_cast c.HumidityMap _ (i * dy + j) _ rfl (by omega)]
    simp only [Option.some_bind]
    rw [stencilHumidityChecked_some _ (i * dy + j) dy hn1 (by rw [List.length_set]; omega)]
    simp only [Option.some_bind]
    rw [humidityUpdateChecked_some c (i * dy + j) _ (by omega) (by omega) (by omega)
      (by omega)]
    simp only [Option.some_bind]
    rw [writeIdx_cast _ _ (i * dy + j) _ rfl (by rw [List.length_set]; omega)]
    rfl
  · refine ⟨⟨hT, ?_, hC, hR, hW⟩, hh, hd⟩
    unfold calcHumidityCell
    dsimp only
    rw [List.length_set, List.length_set]
    exact hH

theorem calcRainCellChecked_some (oc orn : List Bool) (dx dy : Nat) (wdx wdy : ℚ)
    (c : Climate) (i j : Nat) (hi : 0 < i ∧ i + 1 < dx) (hj : 0 < j ∧ j + 1 < dy)
    (hs : StepShape dx dy c) (hoc : oc.length = dx * dy) (horn : orn.length = dx * dy) :
    calcRainCellChecked oc orn dx dy wdx wdy c i j
        = some (calcRainCell oc orn dx dy wdx wdy c i j)
      ∧ StepShape dx dy (calcRainCell oc orn dx dy wdx wdy c i j) := by
  obtain ⟨hn1, hn2⟩ := interior_neighbours hi hj
  obtain ⟨⟨hT, hH, hC, hR, hW⟩, hh, hd⟩ := hs
  have hup : upwind i (truncQ (2 * c.WindMap.getD (i * dy + j) 0 * wdx)) dx * dy
      + upwind j (truncQ (2 * c.WindMap.getD (i * dy + j) 0 * wdy)) dy < dx * dy :=
    idx_lt (upwind_lt _ _ _ (by omega)) (upwind_lt _ _ _ (by omega))
  have hcast : (i : Int) * dy + j = ((i * dy + j : Nat) : Int) := by push_cast; ring
  constructor
  · unfold calcRainCellChecked calcRainCell
    rw [upwindIndexChecked_some c dx dy dy wdx wdy i j (by omega), hcast]
    simp only [Option.some_bind]
    rw [readIdx_cast c.HumidityMap _ (i * dy + j) 0 rfl (by omega),
      readIdx_cast c.TempMap _ (i * dy + j) 0 rfl (by omega)]
    simp only [Option.some_bind]
    split_ifs with h1 h2
    · rw [writeIdx_cast c.RainMap _ (i * dy + j) _ rfl (by omega)]
      simp only [Option.some_bind]
      rw [readIdx_cast oc _ _ false rfl (by rw [hoc]; exact hup)]
      simp only [Option.some_bind]
      rw [writeIdx_cast c.CloudMap _ (i * dy + j) _ rfl (by omega)]
      rfl
    · rw [writeIdx_cast c.CloudMap _ (i * dy + j) _ rfl (by omega)]
      simp only [Option.some_bind]
      rw [readIdx_cast orn _ _ false rfl (by rw [horn]; exact hup)]
      simp only [Option.some_bind]
      rw [writeIdx_cast c.RainMap _ (i * dy + j) _ rfl (by omega)]
      rfl
    · rw [writeIdx_cast c.CloudMap _ (i * dy + j) _ rfl (by omega)]
      simp only [Option.some_bind]
      rw [writeIdx_cast c.RainMap _ (i * dy + j) _ rfl (by omega)]
      rfl
  · refine ⟨?_, ?_, ?_⟩
    · unfold calcRainCell
      dsimp only
      split_ifs <;> exact ⟨hT, hH, by rw [List.length_set]; exact hC,
        by rw [List.length_set]; exact hR, hW⟩
    · rw [calcRainCell_frame (fun s => s.heightmap.length) (fun _ _ _ => rfl)]
      exact hh
    · rw [calcRainCell_frame (fun s => s.dimY) (fun _ _ _ => rfl)]
      exact hd

theorem calcRainClearCellChecked_some (dx dy : Nat) (c : Climate) (i : Nat)
    (hi : i < dx * dy) (hs : StepShape dx dy c) :
    calcRainClearCellChecked c i = some (calcRainClearCell c i)
      ∧ StepShape dx dy (calcRainClearCell c i) := by
  obtain ⟨⟨hT, hH, hC, hR, hW⟩, hh, hd⟩ := hs
  constructor
  · unfold calcRainClearCellChecked calcRainClearCell
    rw [writeAt_some _ _ _ (by omega), writeAt_some _ _ _ (by omega)]
    rfl
  · unfold calcRainClearCell
    exact ⟨⟨hT, hH, by dsimp only; rw [List.length_set]; exact hC,
      by dsimp only; rw [List.length_set]; exact hR, hW⟩, hh, hd⟩

/-- A double loop over the interior with index checks whose iterations all
succeed returns what the unchecked double loop returns. -/
theorem interior_loopM_some (f : Climate → Nat → Nat → Climate)
    (g : Climate → Nat → Nat → Option Climate) (Inv : Climate → Prop) (dx dy : Nat)
    (h : ∀ s i j, 0 < i ∧ i + 1 < dx → 0 < j ∧ j + 1 < dy → Inv s →
      g s i j = some (f s i j) ∧ Inv (f s i j)) (c : Climate) (hc : Inv c) :
    (List.range' 1 (dx - 2)).foldlM
        (fun c i => (List.range' 1 (dy - 2)).foldlM (fun c j => g c i j) c) c
      = some ((List.range' 1 (dx - 2)).foldl
        (fun c i => (List.range' 1 (dy - 2)).foldl (fun c j => f c i j) c) c) := by
  refine (foldlM_some _ _ Inv _ ?_ c hc).1
  intro s a ha hs
  refine foldlM_some _ _ Inv _ ?_ s hs
  intro s b hb hs
  exact h s a b (mem_interior.1 ha) (mem_interior.1 hb) hs

/-- With all fields and the heightmap of length `dimX * dimY`, `calcTempMap`
runs without an index panic. -/
theorem calcTempMapChecked_some (c : Climate) (hs : Sized (c.dimX * c.dimY) c)
    (hh : c.heightmap.length = c.dimX * c.dimY) :
    calcTempMapChecked c = some (calcTempMap c) := by
  unfold calcTempMapChecked calcTempMap
  dsimp only
  refine interior_loopM_some _ _ (StepShape c.dimX c.dimY) _ _ ?_ c ⟨hs, hh, rfl⟩
  intro s i j hi hj hss
  exact calcTempCellChecked_some _ _ _ _ _ s i j hi hj hss
    (by rw [goCopy_of_length 0 _ _ hs.1]; exact hs.1)

/-- With all fields and the heightmap of length `dimX * dimY`,
`calcHumidityMap` runs without an index panic. -/
theorem calcHumidityMapChecked_some (c : Climate) (hs : Sized (c.dimX * c.dimY) c)
    (hh : c.heightmap.length = c.dimX * c.dimY) :
    calcHumidityMapChecked c = some (calcHumidityMap c) := by
  unfold calcHumidityMapChecked calcHumidityMap
  dsimp only
  refine interior_loopM_some _ _ (StepShape c.dimX c.dimY) _ _ ?_ c ⟨hs, hh, rfl⟩
  intro s i j hi hj hss
  exact calcHumidityCellChecked_some _ _ _ _ _ s i j hi hj hss
    (by rw [goCopy_of_length 0 _ _ hs.2.1]; exact hs.2.1)

/-- With all fields and the heightmap of length `dimX * dimY`, `calcRainMap`
runs without an index panic. -/
theorem calcRainMapChecked_some (c : Climate) (hs : Sized (c.dimX * c.dimY) c)
    (hh : c.heightmap.length = c.dimX * c.dimY) :
    calcRainMapChecked c = some (calcRainMap c) := by
  unfold calcRainMapChecked calcRainMap
  dsimp only
  have hclear := foldlM_some calcRainClearCell calcRainClearCellChecked
    (StepShape c.dimX c.dimY)
    (List.range (goCopy (List.replicate (c.dimX * c.dimY) false) c.RainMap).length)
    (fun s a ha hss => calcRainClearCellChecked_some c.dimX c.dimY s a
      (by
        have := List.mem_range.1 ha
        rw [goCopy_of_length false _ _ hs.2.2.2.1, hs.2.2.2.1] at this
        exact this) hss) c ⟨hs, hh, rfl⟩
  rw [hclear.1]
  simp only [Option.some_bind]
  rw [calcRainClear_frame (fun s => s.dimX) (fun _ _ _ => rfl),
    calcRainClear_frame (fun s => s.dimY) (fun _ _ _ => rfl),
    calcRainClear_frame (fun s => s.WindDirection) (fun _ _ _ => rfl)]
  refine interior_loopM_some _ _ (StepShape c.dimX c.dimY) _ _ ?_ _ hclear.2
  intro s i j hi hj hss
  exact calcRainCellChecked_some _ _ _ _ _ _ s i j hi hj hss
    (by rw [goCopy_of_length false _ _ hs.2.2.1]; exact hs.2.2.1)
    (by rw [goCopy_of_length false _ _ hs.2.2.2.1]; exact hs.2.2.2.1)

/-- C38: when all five fields and the heightmap have length `dimX * dimY`,
whatever the wind direction and the wind speeds are, `calcWind`, `calcTempMap`,
`calcHumidityMap` and `calcRainMap` run without a slice index out of range, and
so does a whole simulated day: with the index checks of the language they
return what the functions without the checks return. -/
theorem C38_index_safety (c : Climate) (day : Int) (hs : Sized (c.dimX * c.dimY) c)
    (hh : c.heightmap.length = c.dimX * c.dimY) :
    calcWindChecked c day = some (calcWind c day)
    ∧ calcTempMapChecked c = some (calcTempMap c)
    ∧ calcHumidityMapChecked c = some (calcHumidityMap c)
    ∧ calcRainMapChecked c = some (calcRainMap c)
    ∧ runSimulationChecked c day = some (runSimulation c day) := by
  have hw := calcWindChecked_some c day (le_of_eq hh.symm) hs
  refine ⟨hw, calcTempMapChecked_some c hs hh, calcHumidityMapChecked_some c hs hh,
    calcRainMapChecked_some c hs hh, ?_⟩
  have hx1 : (calcWind c day).dimX = c.dimX :=
    calcWind_frame (fun s => s.dimX) (fun _ _ => rfl) (fun _ _ => rfl) c day
  have hy1 : (calcWind c day).dimY = c.dimY :=
    calcWind_frame (fun s => s.dimY) (fun _ _ => rfl) (fun _ _ => rfl) c day
  have hs1 : Sized ((calcWind c day).dimX * (calcWind c day).dimY) (calcWind c day) := by
    rw [hx1, hy1]
    exact calcWind_sized _ c day hs
  have hh1 : (calcWind c day).heightmap.length = (calcWind c day).dimX * (calcWind c day).dimY := by
    rw [hx1, hy1, calcWind_heightmap]
    exact hh
  have hx2 : (calcTempMap (calcWind c day)).dimX = (calcWind c day).dimX :=
    calcTempMap_frame (fun s => s.dimX) (fun _ _ => rfl) _
  have hy2 : (calcTempMap (calcWind c day)).dimY = (calcWind c day).dimY :=
    calcTempMap_frame (fun s => s.dimY) (fun _ _ => rfl) _
  have hs2 : Sized ((calcTempMap (calcWind c day)).dimX * (calcTempMap (calcWind c day)).dimY)
      (calcTempMap (calcWind c day)) := by
    rw [hx2, hy2]
    exact calcTempMap_sized _ _ hs1
  have hh2 : (calcTempMap (calcWind c day)).heightmap.length
      = (calcTempMap (calcWind c day)).dimX * (calcTempMap (calcWind c day)).dimY := by
    rw [hx2, hy2, calcTempMap_frame (fun s => s.heightmap.length) (fun _ _ => rfl)]
    exact hh1
  have hx3 : (calcHumidityMap (calcTempMap (calcWind c day))).dimX
      = (calcTempMap (calcWind c day)).dimX :=
    calcHumidityMap_frame (fun s => s.dimX) (fun _ _ => rfl) _
  have hy3 : (calcHumidityMap (calcTempMap (calcWind c day))).dimY
      = (calcTempMap (calcWind c day)).dimY :=
    calcHumidityMap_frame (fun s => s.dimY) (fun _ _ => rfl) _
  have hs3 : Sized ((calcHumidityMap (calcTempMap (calcWind c day))).dimX
      * (calcHumidityMap (calcTempMap (calcWind c day))).dimY)
      (calcHumidityMap (calcTempMap (calcWind c day))) := by
    rw [hx3, hy3]
    exact calcHumidityMap_sized _ _ hs2
  have hh3 : (calcHumidityMap (calcTempMap (calcWind c day))).heightmap.length
      = (calcHumidityMap (calcTempMap (calcWind c day))).dimX
        * (calcHumidityMap (calcTempMap (calcWind c day))).dimY := by
    rw [hx3, hy3, calcHumidityMap_frame (fun s => s.heightmap.length) (fun _ _ => rfl)]
    exact hh2
  unfold runSimulationChecked runSimulation
  rw [hw]
  simp only [Option.some_bind]
  rw [calcTempMapChecked_some _ hs1 hh1]
  simp only [Option.some_bind]
  rw [calcHumidityMapChecked_some _ hs2 hh2]
  simp only [Option.some_bind]
  exact calcRainMapChecked_some _ hs3 hh3

/-- C38 (witness): a simulated day on the 4 x 4 state with wind speed 1000000
and wind direction `(-3, 7)`. -/
theorem C38_index_safety_witness :
    runSimulationChecked wildGrid 3 = some (runSimulation wildGrid 3) :=
  (C38_index_safety wildGrid 3 (by unfold Sized; decide) (by decide)).2.2.2.2

/-! ## Where the jitter decides -/

/-- Away from the margins the jitter test of a dry cell succeeds whatever the
generator returns. -/
theorem rockyTest_inner (rand : Nat → Nat) (n : Nat) (avg : ℚ) (x y : Nat)
    (h : avg < 1 / 1000) (hx : 8 ≤ x ∧ x ≤ 93) (hy : 8 ≤ y ∧ y ≤ 93) :
    (rockyTest rand n avg x y).1 = true := by
  have r0 := Nat.mod_lt (rand n) (show 0 < 4 by norm_num)
  have r1 := Nat.mod_lt (rand (n + 1)) (show 0 < 4 by norm_num)
  have r2 := Nat.mod_lt (rand (n + 2)) (show 0 < 4 by norm_num)
  have r3 := Nat.mod_lt (rand (n + 3)) (show 0 < 4 by norm_num)
  unfold rockyTest
  rw [if_pos h, if_pos (by omega), if_pos (by omega), if_pos (by omega), if_pos (by omega)]

/-- On the margins the jitter test fails whatever the generator returns. -/
theorem rockyTest_margin (rand : Nat → Nat) (n : Nat) (avg : ℚ) (x y : Nat)
    (hm : x ≤ 4 ∨ 97 ≤ x ∨ y ≤ 4 ∨ 97 ≤ y) : (rockyTest rand n avg x y).1 = false := by
  have r0 := Nat.mod_lt (rand n) (show 0 < 4 by norm_num)
  have r1 := Nat.mod_lt (rand (n + 1)) (show 0 < 4 by norm_num)
  have r2 := Nat.mod_lt (rand (n + 2)) (show 0 < 4 by norm_num)
  have r3 := Nat.mod_lt (rand (n + 3)) (show 0 < 4 by norm_num)
  unfold rockyTest
  split_ifs <;> first | rfl | (exfalso; omega)

/-- C39: for a cell of the hills band with an average rain below 0.001, at
`x = i / dimY`, `y = i % dimY`: `genBiome` assigns 6 whatever the random draws
are when `8 <= x <= 93` and `8 <= y <= 93`, never assigns 6 when `x <= 4`,
`x >= 97`, `y <= 4` or `y >= 97`, and when neither coordinate lies in 5..7 or
94..96 the code assigned is the same for every two sequences of draws. -/
theorem C39_jitter_margins (rand rand2 : Nat → Nat) (c : Climate) (n : Nat)
    (hn : n < c.heightmap.length) (hb : n < c.biomeMap.length)
    (h1 : 600 < c.heightmap.getD n 0) (h2 : c.heightmap.getD n 0 ≤ 1300)
    (hdry : c.AvgRainMap.getD n 0 < 1 / 1000) :
    (8 ≤ n / c.dimY ∧ n / c.dimY ≤ 93 → 8 ≤ n % c.dimY ∧ n % c.dimY ≤ 93 →
      (genBiome rand c).biomeMap[n]? = some 6)
    ∧ (n / c.dimY ≤ 4 ∨ 97 ≤ n / c.dimY ∨ n % c.dimY ≤ 4 ∨ 97 ≤ n % c.dimY →
      (genBiome rand c).biomeMap[n]? ≠ some 6)
    ∧ (¬(5 ≤ n / c.dimY ∧ n / c.dimY ≤ 7) → ¬(94 ≤ n / c.dimY ∧ n / c.dimY ≤ 96) →
      ¬(5 ≤ n % c.dimY ∧ n % c.dimY ≤ 7) → ¬(94 ≤ n % c.dimY ∧ n % c.dimY ≤ 96) →
      (genBiome rand c).biomeMap[n]? = (genBiome rand2 c).biomeMap[n]?) := by
  have hcode : ∀ r : Bool, biomeCode (c.heightmap.getD n 0) (c.AvgRainMap.getD n 0) r
      = if r then 6 else if c.heightmap.getD n 0 ≤ 1100 then 7 else 8 := by
    intro r
    unfold biomeCode
    rw [if_neg (by linarith), if_neg (by linarith), if_neg (by linarith), if_neg (by linarith),
      if_neg (by linarith), if_pos h2]
  rw [genBiome_value rand c n hn hb, genBiome_value rand2 c n hn hb]
  refine ⟨?_, ?_, ?_⟩
  · intro hx hy
    rw [rockyTest_inner rand _ _ _ _ hdry hx hy, hcode, if_pos rfl]
  · intro hm
    rw [rockyTest_margin rand _ _ _ _ hm, hcode, if_neg (by simp)]
    split_ifs
    · exact fun h => by cases h
    · exact fun h => by cases h
  · intro a1 a2 a3 a4
    by_cases hm : n / c.dimY ≤ 4 ∨ 97 ≤ n / c.dimY ∨ n % c.dimY ≤ 4 ∨ 97 ≤ n % c.dimY
    · rw [rockyTest_margin rand _ _ _ _ hm, rockyTest_margin rand2 _ _ _ _ hm]
    · rw [rockyTest_inner rand _ _ _ _ hdry (by omega) (by omega),
        rockyTest_inner rand2 _ _ _ _ hdry (by omega) (by omega)]

/-- C39 (witness): the dry hills cell `(8, 8)` of the 9 x 9 example state is
rocky whatever the generator returns, here the sequence 0, 1, 2, .... -/
theorem C39_jitter_margins_witness :
    (genBiome (fun k => k) jitterGrid).biomeMap[80]? = some 6 :=
  (C39_jitter_margins (fun k => k) (fun _ => 3) jitterGrid 80 (by decide) (by decide)
    (by decide!) (by decide!) (by decide!)).1 (by decide) (by decide)

/-! ## Boundary cells never rain -/

/-- After one simulated day on a state of full size the two flags of a boundary cell are
false. -/
theorem runSimulation_border_flags (c : Climate) (day : Int) (i j : Nat)
    (hs : Sized (c.dimX * c.dimY) c) (hi : i < c.dimX) (hj : j < c.dimY)
    (hb : i = 0 ∨ i + 1 = c.dimX ∨ j = 0 ∨ j + 1 = c.dimY) :
    (runSimulation c day).CloudMap[i * c.dimY + j]? = some false
      ∧ (runSimulation c day).RainMap[i * c.dimY + j]? = some false := by
  have hs3 : Sized (c.dimX * c.dimY) (calcHumidityMap (calcTempMap (calcWind c day))) :=
    calcHumidityMap_sized _ _ (calcTempMap_sized _ _ (calcWind_sized _ _ day hs))
  have hX : (calcHumidityMap (calcTempMap (calcWind c day))).dimX = c.dimX := by
    exact ((calcHumidityMap_frame (fun s => s.dimX) (fun _ _ => rfl) _).trans
      (calcTempMap_frame (fun s => s.dimX) (fun _ _ => rfl) _)).trans
      (calcWind_frame (fun s => s.dimX) (fun _ _ => rfl) (fun _ _ => rfl) c day)
  have hY : (calcHumidityMap (calcTempMap (calcWind c day))).dimY = c.dimY := by
    exact ((calcHumidityMap_frame (fun s => s.dimY) (fun _ _ => rfl) _).trans
      (calcTempMap_frame (fun s => s.dimY) (fun _ _ => rfl) _)).trans
      (calcWind_frame (fun s => s.dimY) (fun _ _ => rfl) (fun _ _ => rfl) c day)
  have h := calcRainMap_border (calcHumidityMap (calcTempMap (calcWind c day))) i j
    (by rw [hX, hY]; exact hs3.2.2.1) (by rw [hX, hY]; exact hs3.2.2.2.1)
    (by rw [hX]; exact hi) (by rw [hY]; exact hj) (by rw [hX, hY]; exact hb)
  rw [hY] at h
  have hs4 := runSimulation_sized _ c day hs
  have hlt := idx_lt hi hj
  constructor
  · rw [getD_of_getElem? _ _ true (by rw [hs4.2.2.1]; exact hlt)]
    exact congrArg some h.1
  · rw [getD_of_getElem? _ _ true (by rw [hs4.2.2.2.1]; exact hlt)]
    exact congrArg some h.2

/-- In the state built by the constructor and after any number of simulated days the two
flags of a boundary cell are false. -/
theorem runDays_border_flags (noise : Int → ℚ → ℚ → ℚ) (dimX dimY : Nat) (day seed : Int)
    (heightmap : List ℚ) (days : List Int) (i j : Nat) (hi : i < dimX) (hj : j < dimY)
    (hb : i = 0 ∨ i + 1 = dimX ∨ j = 0 ∨ j + 1 = dimY) :
    (runDays (NewClimate noise dimX dimY day seed heightmap) days).CloudMap[i * dimY + j]?
        = some false
      ∧ (runDays (NewClimate noise dimX dimY day seed heightmap) days).RainMap[i * dimY + j]?
        = some false := by
  have hlt := idx_lt hi hj
  have key : ∀ (l : List Int) (s : Climate), s.dimX = dimX → s.dimY = dimY →
      Sized (dimX * dimY) s → s.CloudMap[i * dimY + j]? = some false →
      s.RainMap[i * dimY + j]? = some false →
      (runDays s l).CloudMap[i * dimY + j]? = some false
        ∧ (runDays s l).RainMap[i * dimY + j]? = some false := by
    intro l
    induction l with
    | nil => intro s _ _ _ h1 h2; exact ⟨h1, h2⟩
    | cons d ds ih =>
      intro s hX hY hs _ _
      rw [runDays_cons]
      have h := runSimulation_border_flags s d i j (by rw [hX, hY]; exact hs)
        (by rw [hX]; exact hi) (by rw [hY]; exact hj) (by rw [hX, hY]; exact hb)
      rw [hY] at h
      refine ih (runSimulation s d) ?_ ?_ (runSimulation_sized _ s d hs) h.1 h.2
      · exact (runSimulation_frame (fun s => s.dimX) static_dimX s d).trans hX
      · exact (runSimulation_frame (fun s => s.dimY) static_dimY s d).trans hY
  have hs0 := NewClimate_sized noise dimX dimY day seed heightmap
  have hf := NewClimate_flags noise dimX dimY day seed heightmap (i * dimY + j)
  refine key days _ (NewClimate_dimX _ _ _ _ _ _) (NewClimate_dimY _ _ _ _ _ _) hs0 ?_ ?_
  · rw [getD_of_getElem? _ _ false (by rw [hs0.2.2.1]; exact hlt)]
    exact congrArg some hf.1
  · rw [getD_of_getElem? _ _ false (by rw [hs0.2.2.2.1]; exact hlt)]
    exact congrArg some hf.2

/-- The yearly averaging leaves the rain and cloud averages of a boundary cell at zero. -/
theorem calcAverage_border_zero (noise : Int → ℚ → ℚ → ℚ) (c : Climate) (i j : Nat)
    (hh : c.heightmap.length = c.dimX * c.dimY)
    (hR : c.AvgRainMap.length = c.dimX * c.dimY)
    (hC : c.AvgCloudMap.length = c.dimX * c.dimY)
    (hi : i < c.dimX) (hj : j < c.dimY)
    (hb : i = 0 ∨ i + 1 = c.dimX ∨ j = 0 ∨ j + 1 = c.dimY) :
    (calcAverage noise c).AvgRainMap.getD (i * c.dimY + j) 0 = 0
      ∧ (calcAverage noise c).AvgCloudMap.getD (i * c.dimY + j) 0 = 0 := by
  have hlt := idx_lt hi hj
  have hflags : ∀ k : Nat,
      ((calcAverageFor noise c k).2).CloudMap.getD (i * c.dimY + j) false = false
        ∧ ((calcAverageFor noise c k).2).RainMap.getD (i * c.dimY + j) false = false := by
    intro k
    rw [calcAverageFor_simulation]
    have h := runDays_border_flags noise c.dimX c.dimY 0 c.seed c.heightmap (firstDays k)
      i j hi hj hb
    rw [List.getD_eq_getElem?_getD, List.getD_eq_getElem?_getD, h.1, h.2]
    exact ⟨rfl, rfl⟩
  rw [calcAverage_eq]
  constructor
  · rw [calcAverageFor_AvgRainMap noise c _ 364 (by rw [hh]; exact hlt) (by rw [hR]; exact hlt)]
    rw [Finset.sum_eq_zero, zero_div]
    intro k _
    rw [(hflags (k + 1)).2]
    rfl
  · rw [calcAverageFor_AvgCloudMap noise c _ 364 (by rw [hh]; exact hlt)
      (by rw [hC]; exact hlt)]
    rw [Finset.sum_eq_zero, zero_div]
    intro k _
    rw [(hflags (k + 1)).1]
    rfl

/-- C40: boundary cells never rain.  In the state built by `NewClimate` and after any
list of simulated days `CloudMap` and `RainMap` are false at every boundary cell;
`calcAverage` on that state leaves `AvgRainMap` and `AvgCloudMap` at zero there, and
`genBiome` afterwards gives every boundary cell with elevation in `(220, 600]` the
code 5 of the dry plains. -/
theorem C40_boundary_never_rains (noise : Int → ℚ → ℚ → ℚ) (rand : Nat → Nat)
    (dimX dimY : Nat) (day seed : Int) (heightmap : List ℚ) (days : List Int) (i j : Nat)
    (hlen : heightmap.length = dimX * dimY) (hi : i < dimX) (hj : j < dimY)
    (hb : i = 0 ∨ i + 1 = dimX ∨ j = 0 ∨ j + 1 = dimY) :
    (runDays (NewClimate noise dimX dimY day seed heightmap) days).CloudMap[i * dimY + j]?
        = some false
    ∧ (runDays (NewClimate noise dimX dimY day seed heightmap) days).RainMap[i * dimY + j]?
        = some false
    ∧ (calcAverage noise (NewClimate noise dimX dimY day seed heightmap)).AvgRainMap.getD
        (i * dimY + j) 0 = 0
    ∧ (calcAverage noise (NewClimate noise dimX dimY day seed heightmap)).AvgCloudMap.getD
        (i * dimY + j) 0 = 0
    ∧ (220 < heightmap.getD (i * dimY + j) 0 → heightmap.getD (i * dimY + j) 0 ≤ 600 →
        (genBiome rand
          (calcAverage noise (NewClimate noise dimX dimY day seed heightmap))).biomeMap[
            i * dimY + j]? = some 5) := by
  have hlt := idx_lt hi hj
  have hX := NewClimate_dimX noise dimX dimY day seed heightmap
  have hY := NewClimate_dimY noise dimX dimY day seed heightmap
  have hH := NewClimate_heightmap noise dimX dimY day seed heightmap
  have hA := NewClimate_avgSized noise dimX dimY day seed heightmap
  have hB : (NewClimate noise dimX dimY day seed heightmap).biomeMap.length = dimX * dimY := by
    rw [NewClimate_frame (fun s => s.biomeMap.length)
      ⟨fun _ _ => rfl, fun _ _ => rfl, fun _ _ => rfl, fun _ _ => rfl, fun _ _ _ => rfl⟩]
    exact List.length_replicate _ _
  have hz := calcAverage_border_zero noise (NewClimate noise dimX dimY day seed heightmap) i j
    (by rw [hH, hX, hY]; exact hlen) (by rw [hX, hY]; exact hA.1)
    (by rw [hX, hY]; exact hA.2.2.1) (by rw [hX]; exact hi) (by rw [hY]; exact hj)
    (by rw [hX, hY]; exact hb)
  rw [hY] at hz
  have hf := runDays_border_flags noise dimX dimY day seed heightmap days i j hi hj hb
  refine ⟨hf.1, hf.2, hz.1, hz.2, ?_⟩
  intro h1 h2
  have hH2 : (calcAverage noise (NewClimate noise dimX dimY day seed heightmap)).heightmap
      = heightmap := by
    rw [calcAverage_eq, calcAverageFor_frame (fun s => s.heightmap) (fun _ _ _ _ _ _ => rfl)]
    exact hH
  have hB2 : (calcAverage noise
      (NewClimate noise dimX dimY day seed heightmap)).biomeMap.length = dimX * dimY := by
    rw [calcAverage_eq,
      calcAverageFor_frame (fun s => s.biomeMap.length) (fun _ _ _ _ _ _ => rfl)]
    exact hB
  rw [genBiome_value rand _ _ (by rw [hH2, hlen]; exact hlt) (by rw [hB2]; exact hlt),
    hH2, hz.1]
  unfold biomeCode
  rw [if_neg (by linarith), if_neg (by linarith), if_neg (by linarith), if_neg (by linarith),
    if_pos h2, if_neg (by norm_num)]

/-- C40 (witness): the corner cell `(0, 0)` of a 3 x 3 state built by the constructor
lies in the plains band and becomes dry plains. -/
theorem C40_boundary_never_rains_witness :
    (genBiome (fun k => k) (calcAverage (fun _ _ _ => 1 / 10)
      (NewClimate (fun _ _ _ => 1 / 10) 3 3 0 0
        [300, 100, 100, 100, 300, 100, 100, 100, 100]))).biomeMap[0 * 3 + 0]? = some 5 :=
  (C40_boundary_never_rains (fun _ _ _ => 1 / 10) (fun k => k) 3 3 0 0
    [300, 100, 100, 100, 300, 100, 100, 100, 100] [] 0 0 (by decide) (by decide) (by decide)
    (by decide)).2.2.2.2 (by decide!) (by decide!)

end Genmap2derosion

namespace Genworldvoronoi

/-! ## Binning and lookup -/

theorem index_of_lt {α : Type} (t : List α) (i : Int) (h0 : 0 ≤ i) (h1 : i.toNat < t.length) :
    index t i = some (t.get ⟨i.toNat, h1⟩) := by
  unfold index
  rw [if_neg (by omega), List.getElem?_eq_getElem h1]
  rfl

/-- A lookup `T[i][j]` in a table of `R` rows of `C` columns succeeds for
`0 <= i < R` and `0 <= j < C`. -/
theorem lookup_some (T : List (List Int)) (R C : Nat) (hT : T.length = R)
    (hrow : ∀ r ∈ T, r.length = C) (i j : Int) (hi0 : 0 ≤ i) (hi1 : i < (R : Int))
    (hj0 : 0 ≤ j) (hj1 : j < (C : Int)) :
    ∃ row v, index T i = some row ∧ index row j = some v
      ∧ (index T i).bind (fun row => index row j) = some v := by
  have h1 : i.toNat < T.length := by omega
  have hmem : T.get ⟨i.toNat, h1⟩ ∈ T := List.get_mem _ _ _
  have h2 : j.toNat < (T.get ⟨i.toNat, h1⟩).length := by
    rw [hrow _ hmem]
    omega
  refine ⟨T.get ⟨i.toNat, h1⟩, (T.get ⟨i.toNat, h1⟩).get ⟨j.toNat, h2⟩,
    index_of_lt T i hi0 h1, index_of_lt _ j hj0 h2, ?_⟩
  rw [index_of_lt T i hi0 h1, Option.some_bind, index_of_lt _ j hj0 h2]

theorem whittakerTemperatureIndex_cases (t : Int) :
    (t ≤ -15 ∧ WhittakerClampTemperatureToIndex t = 44)
      ∨ (-15 < t ∧ WhittakerClampTemperatureToIndex t = 0) := by
  unfold WhittakerClampTemperatureToIndex minTemperatureC
  split_ifs with h1 h2
  · exact Or.inl ⟨h1, rfl⟩
  · exact Or.inr ⟨by omega, rfl⟩
  · omega

theorem whittakerPrecipitationIndex_cases (p : Int) :
    (p ≤ 0 ∧ WhittakerClampPrecipitationToIndex p = 0)
      ∨ (45 ≤ p ∧ WhittakerClampPrecipitationToIndex p = 44)
      ∨ (0 < p ∧ p < 45 ∧ WhittakerClampPrecipitationToIndex p = p) := by
  unfold WhittakerClampPrecipitationToIndex maxPrecipitationDM minPrecipitationDM
  split_ifs with h1 h2
  · exact Or.inr (Or.inl ⟨h1, rfl⟩)
  · exact Or.inl ⟨h2, rfl⟩
  · exact Or.inr (Or.inr ⟨by omega, by omega, rfl⟩)

theorem whittakerTemperatureIndex_clamp (t : Int) :
    WhittakerClampTemperatureToIndex (clamp t (-15) 30) = WhittakerClampTemperatureToIndex t := by
  unfold WhittakerClampTemperatureToIndex minTemperatureC clamp
  simp only [max_def, min_def]
  split_ifs <;> omega

theorem whittakerPrecipitationIndex_clamp (p : Int) :
    WhittakerClampPrecipitationToIndex (clamp p 0 45) = WhittakerClampPrecipitationToIndex p := by
  unfold WhittakerClampPrecipitationToIndex maxPrecipitationDM minPrecipitationDM clamp
  simp only [max_def, min_def]
  split_ifs <;> omega

/-- C11: `GetWhittakerBiome` and `GetWhittakerModBiome` give the same result at
`(t, p)` and at `(clamp(t, -15, 30), clamp(p, 0, 45))`; in particular for
`t < -15` and `p > 45` they give their result at `(-15, 45)`. -/
theorem C11_lookup_clamping (t p : Int) :
    GetWhittakerBiome t p = GetWhittakerBiome (clamp t (-15) 30) (clamp p 0 45)
    ∧ GetWhittakerModBiome t p = GetWhittakerModBiome (clamp t (-15) 30) (clamp p 0 45)
    ∧ (t < -15 → p > 45 →
        GetWhittakerBiome t p = GetWhittakerBiome (-15) 45
        ∧ GetWhittakerModBiome t p = GetWhittakerModBiome (-15) 45) := by
  have h1 : GetWhittakerBiome t p
      = GetWhittakerBiome (clamp t (-15) 30) (clamp p 0 45) := by
    unfold GetWhittakerBiome
    simp only [whittakerTemperatureIndex_clamp, whittakerPrecipitationIndex_clamp]
  have h2 : GetWhittakerModBiome t p
      = GetWhittakerModBiome (clamp t (-15) 30) (clamp p 0 45) := by
    unfold GetWhittakerModBiome
    simp only [whittakerTemperatureIndex_clamp, whittakerPrecipitationIndex_clamp]
  refine ⟨h1, h2, ?_⟩
  intro ht hp
  have hct : clamp t (-15) 30 = -15 := by
    unfold clamp
    simp only [max_def, min_def]
    split_ifs <;> omega
  have hcp : clamp p 0 45 = 45 := by
    unfold clamp
    simp only [max_def, min_def]
    split_ifs <;> omega
  rw [hct, hcp] at h1 h2
  exact ⟨h1, h2⟩

/-- C11 (witness): temperature -20 and precipitation 50. -/
theorem C11_lookup_clamping_witness :
    GetWhittakerBiome (-20) 50 = GetWhittakerBiome (-15) 45
    ∧ GetWhittakerModBiome (-20) 50 = GetWhittakerModBiome (-15) 45 :=
  (C11_lookup_clamping (-20) 50).2.2 (by decide) (by decide)

/-- C12 (as amended): for `-15 < t < 30` the linear bin of
`WhittakerClampTemperatureToIndex`, the value `44 - (t + 15)` of its last
statement, is `29 - t` (column 0 is the +30 °C column and column 44 the -15 °C
column), lies between 0 and 43 and differs for different temperatures; the
column the function returns is 0 or that bin. -/
theorem C12_temperature_linear_bin (t u : Int) (ht : -15 < t ∧ t < 30) :
    whittakerLinearIndex t = 44 - (t - minTemperatureC)
    ∧ whittakerLinearIndex t = 29 - t
    ∧ 0 ≤ whittakerLinearIndex t ∧ whittakerLinearIndex t ≤ 43
    ∧ (whittakerLinearIndex t = whittakerLinearIndex u → t = u)
    ∧ (WhittakerClampTemperatureToIndex t = 0
        ∨ WhittakerClampTemperatureToIndex t = whittakerLinearIndex t) := by
  unfold whittakerLinearIndex minTemperatureC
  refine ⟨by omega, by omega, by omega, by omega, fun h => by omega, ?_⟩
  rcases whittakerTemperatureIndex_cases t with ⟨h, _⟩ | ⟨_, h⟩
  · omega
  · exact Or.inl h

/-- C12 (witness): temperatures 0 and 10. -/
theorem C12_temperature_linear_bin_witness :
    whittakerLinearIndex 0 = 29 - 0
    ∧ (whittakerLinearIndex 0 = whittakerLinearIndex 10 → (0 : Int) = 10) :=
  ⟨(C12_temperature_linear_bin 0 10 (by decide)).2.1,
    (C12_temperature_linear_bin 0 10 (by decide)).2.2.2.2.1⟩

/-- C12 (counterexample): at temperature 0 the function returns column 0, not
`0 + 15`, and the distinct temperatures 0 and 10 select the same column. -/
theorem C12_temperature_bin_not_linear :
    WhittakerClampTemperatureToIndex 0 = 0
    ∧ WhittakerClampTemperatureToIndex 0 ≠ 0 + 15
    ∧ WhittakerClampTemperatureToIndex 0 = WhittakerClampTemperatureToIndex 10 := by
  decide

/-- C13 (as amended): `WhittakerClampTemperatureToIndex` maps every temperature
at or below the minimum (`t <= -15`) to the last bin, 44, the -15 °C column, and
every temperature at or above the maximum (`t >= 30`) to bin 0, the +30 °C
column. -/
theorem C13_temperature_extremes (t : Int) :
    (t ≤ minTemperatureC → WhittakerClampTemperatureToIndex t = 44)
    ∧ (t ≥ maxTemperatureC → WhittakerClampTemperatureToIndex t = 0) := by
  unfold minTemperatureC maxTemperatureC
  constructor
  · intro h
    rcases whittakerTemperatureIndex_cases t with ⟨_, h1⟩ | ⟨h2, _⟩
    · exact h1
    · omega
  · intro h
    rcases whittakerTemperatureIndex_cases t with ⟨h2, _⟩ | ⟨_, h1⟩
    · omega
    · exact h1

/-- C13 (witness): temperatures -20 and 35. -/
theorem C13_temperature_extremes_witness :
    WhittakerClampTemperatureToIndex (-20) = 44 ∧ WhittakerClampTemperatureToIndex 35 = 0 :=
  ⟨(C13_temperature_extremes (-20)).1 (by decide), (C13_temperature_extremes 35).2 (by decide)⟩

/-- C13 (counterexample): the minimum temperature goes to bin 44, not 0, and
the maximum to bin 0, not 44. -/
theorem C13_extremes_reversed :
    WhittakerClampTemperatureToIndex (-15) = 44 ∧ WhittakerClampTemperatureToIndex (-15) ≠ 0
    ∧ WhittakerClampTemperatureToIndex 30 = 0 ∧ WhittakerClampTemperatureToIndex 30 ≠ 44 := by
  decide

/-- C14: `WhittakerClampPrecipitationToIndex(p)` is 0 for `p <= 0`, 44 for
`p >= 45` and `p` for `0 < p < 45`; it is monotone non-decreasing. -/
theorem C14_precipitation_binning (p q : Int) (hpq : p ≤ q) :
    (p ≤ 0 → WhittakerClampPrecipitationToIndex p = 0)
    ∧ (p ≥ 45 → WhittakerClampPrecipitationToIndex p = 44)
    ∧ (0 < p → p < 45 → WhittakerClampPrecipitationToIndex p = p)
    ∧ WhittakerClampPrecipitationToIndex p ≤ WhittakerClampPrecipitationToIndex q := by
  rcases whittakerPrecipitationIndex_cases p with ⟨h1, h2⟩ | ⟨h1, h2⟩ | ⟨h0, h1, h2⟩ <;>
    rcases whittakerPrecipitationIndex_cases q with ⟨k1, k2⟩ | ⟨k1, k2⟩ | ⟨k0, k1, k2⟩ <;>
    refine ⟨fun _ => by omega, fun _ => by omega, fun _ _ => by omega, by omega⟩

/-- C14 (witness): precipitation 10 and 50. -/
theorem C14_precipitation_binning_witness :
    WhittakerClampPrecipitationToIndex 10 = 10
    ∧ WhittakerClampPrecipitationToIndex 10 ≤ WhittakerClampPrecipitationToIndex 50 :=
  ⟨(C14_precipitation_binning 10 50 (by decide)).2.2.1 (by decide) (by decide),
    (C14_precipitation_binning 10 50 (by decide)).2.2.2⟩

theorem redblobHeightIndex_range (h : Int) :
    0 ≤ RedblobClampHeightToIndex h ∧ RedblobClampHeightToIndex h < 4 := by
  unfold RedblobClampHeightToIndex
  split_ifs <;> omega

theorem redblobMoistureIndex_range (m : Int) :
    0 ≤ RedblobClampMoistureToIndex m ∧ RedblobClampMoistureToIndex m < 6 := by
  unfold RedblobClampMoistureToIndex
  split_ifs <;> omega

theorem whittakerTemperatureIndex_range (t : Int) :
    0 ≤ WhittakerClampTemperatureToIndex t ∧ WhittakerClampTemperatureToIndex t < 45 := by
  rcases whittakerTemperatureIndex_cases t with ⟨_, h⟩ | ⟨_, h⟩ <;> omega

theorem whittakerPrecipitationIndex_range (p : Int) :
    0 ≤ WhittakerClampPrecipitationToIndex p ∧ WhittakerClampPrecipitationToIndex p < 45 := by
  rcases whittakerPrecipitationIndex_cases p with ⟨_, h⟩ | ⟨_, h⟩ | ⟨_, _, h⟩ <;> omega

/-- C15: the three tables have 45 x 45, 45 x 45 and 4 x 6 entries, and for all
integer inputs `GetWhittakerBiome`, `GetWhittakerModBiome` and `GetRedblobBiome`
index a row that exists and a column that exists in it, so each returns a
table entry. -/
theorem C15_lookups_never_fail (t p height moisture : Int) :
    (WhittakerLookupTable.length = 45 ∧ ∀ r ∈ WhittakerLookupTable, r.length = 45)
    ∧ (WhittakerLookupTableModified.length = 45
        ∧ ∀ r ∈ WhittakerLookupTableModified, r.length = 45)
    ∧ (RedblobLookupTable.length = 4 ∧ ∀ r ∈ RedblobLookupTable, r.length = 6)
    ∧ (∃ row v, index WhittakerLookupTable (WhittakerClampPrecipitationToIndex p) = some row
        ∧ index row (WhittakerClampTemperatureToIndex t) = some v
        ∧ GetWhittakerBiome t p = some v)
    ∧ (∃ row v,
        index WhittakerLookupTableModified (WhittakerClampPrecipitationToIndex p) = some row
        ∧ index row (WhittakerClampTemperatureToIndex t) = some v
        ∧ GetWhittakerModBiome t p = some v)
    ∧ (∃ row v, index RedblobLookupTable (RedblobClampHeightToIndex height) = some row
        ∧ index row (RedblobClampMoistureToIndex moisture) = some v
        ∧ GetRedblobBiome height moisture = some v) := by
  have hW : WhittakerLookupTable.length = 45 ∧ ∀ r ∈ WhittakerLookupTable, r.length = 45 := by
    decide
  have hM : WhittakerLookupTableModified.length = 45
      ∧ ∀ r ∈ WhittakerLookupTableModified, r.length = 45 := by
    decide
  have hR : RedblobLookupTable.length = 4 ∧ ∀ r ∈ RedblobLookupTable, r.length = 6 := by
    decide
  have ht := whittakerTemperatureIndex_range t
  have hp := whittakerPrecipitationIndex_range p
  have hh := redblobHeightIndex_range height
  have hm := redblobMoistureIndex_range moisture
  exact ⟨hW, hM, hR,
    lookup_some _ 45 45 hW.1 hW.2 _ _ hp.1 (by exact_mod_cast hp.2) ht.1 (by exact_mod_cast ht.2),
    lookup_some _ 45 45 hM.1 hM.2 _ _ hp.1 (by exact_mod_cast hp.2) ht.1 (by exact_mod_cast ht.2),
    lookup_some _ 4 6 hR.1 hR.2 _ _ hh.1 (by exact_mod_cast hh.2) hm.1 (by exact_mod_cast hm.2)⟩

/-! ## Resource flags -/

theorem and_two_pow_ne_zero (r i : Nat) : r &&& 2 ^ i ≠ 0 ↔ r.testBit i = true := by
  constructor
  · intro h
    by_contra hb
    apply h
    apply Nat.eq_of_testBit_eq
    intro j
    rw [Nat.testBit_and, Nat.zero_testBit, Nat.testBit_two_pow]
    by_cases hij : i = j
    · subst hij
      simp [hb]
    · simp [hij]
  · intro h h0
    have := Nat.testBit_and r (2 ^ i) i
    rw [h0, Nat.zero_testBit, h, Nat.testBit_two_pow_self] at this
    simp at this

theorem sumResourcesStep_eq (r sum i : Nat) (hi : i < 8) :
    sumResourcesStep r sum i = sum + (if r.testBit i then i + 1 else 0) := by
  unfold sumResourcesStep
  have h256 : (1 <<< i) % 256 = 2 ^ i := by
    rw [Nat.one_shiftLeft]
    apply Nat.mod_eq_of_lt
    calc 2 ^ i < 2 ^ 8 := Nat.pow_lt_pow_right (by norm_num) hi
      _ = 256 := by norm_num
  rw [h256]
  by_cases h : r.testBit i = true
  · rw [if_pos ((and_two_pow_ne_zero r i).2 h), if_pos h]
  · rw [if_neg (fun h2 => h ((and_two_pow_ne_zero r i).1 h2)), if_neg h]
    rfl

/-- The value of `sumResources` as a sum over the eight bit positions. -/
theorem sumResources_eq (r : Nat) :
    sumResources r = ∑ i ∈ Finset.range 8, if r.testBit i then i + 1 else 0 := by
  unfold sumResources
  simp only [List.range_succ, List.range_zero, List.nil_append, List.cons_append,
    List.foldl_cons, List.foldl_nil]
  rw [sumResourcesStep_eq _ _ _ (by norm_num), sumResourcesStep_eq _ _ _ (by norm_num),
    sumResourcesStep_eq _ _ _ (by norm_num), sumResourcesStep_eq _ _ _ (by norm_num),
    sumResourcesStep_eq _ _ _ (by norm_num), sumResourcesStep_eq _ _ _ (by norm_num),
    sumResourcesStep_eq _ _ _ (by norm_num), sumResourcesStep_eq _ _ _ (by norm_num)]
  simp only [Finset.sum_range_succ, Finset.sum_range_zero]

/-- C32: `sumResources(r)` is the sum of `i + 1` over the bit positions
`i` in 0..7 that are set in `r`; so it is 0 for 0, `i + 1` for `1 << i`, 36 for
255, and additive over bytes without a common bit. -/
theorem C32_sumResources (r a b i : Nat) (hi : i < 8) (hab : a &&& b = 0) :
    sumResources r = ∑ k ∈ Finset.range 8, (if r.testBit k then k + 1 else 0)
    ∧ sumResources 0 = 0
    ∧ sumResources (1 <<< i) = i + 1
    ∧ sumResources 255 = 36
    ∧ sumResources (a ||| b) = sumResources a + sumResources b := by
  refine ⟨sumResources_eq r, by decide, ?_, by decide, ?_⟩
  · rw [sumResources_eq, Nat.one_shiftLeft]
    simp only [Nat.testBit_two_pow, decide_eq_true_eq]
    rw [Finset.sum_eq_single i]
    · rw [if_pos rfl]
    · intro k _ hk
      rw [if_neg (fun h => hk h.symm)]
    · intro h
      exact absurd (Finset.mem_range.2 hi) h
  · rw [sumResources_eq, sumResources_eq, sumResources_eq, ← Finset.sum_add_distrib]
    apply Finset.sum_congr rfl
    intro k _
    have hk := Nat.testBit_and a b k
    rw [hab, Nat.zero_testBit] at hk
    rw [Nat.testBit_or]
    cases ha : a.testBit k <;> cases hb : b.testBit k <;> simp_all

/-- C32 (witness): bit 3, and the bytes 5 and 0x50. -/
theorem C32_sumResources_witness :
    sumResources (1 <<< 3) = 3 + 1 ∧ sumResources (5 ||| 80) = sumResources 5 + sumResources 80 :=
  ⟨(C32_sumResources 0 5 80 3 (by decide) (by decide)).2.2.1,
    (C32_sumResources 0 5 80 3 (by decide) (by decide)).2.2.2.2⟩

/-! ## The table and its diagram -/

/-- C33: the table differs from the diagram at three of the 24 cells:
elevation zone 2 with moisture zone 6 is tropical rain forest in the table and
temperate rain forest in the diagram, elevation zone 1 with moisture zone 3 or
4 is temperate seasonal forest in the table and tropical seasonal forest in
the diagram; the other cells agree, for instance zone 4 with moisture 1 is
scorched. -/
theorem C33_redblob_table_against_diagram :
    GetRedblobBiome 2 6 = some RedblobBiomeTropicalRainForest
    ∧ redblobDiagramBiome 2 6 = some RedblobBiomeTemperateRainForest
    ∧ GetRedblobBiome 1 3 = some RedblobBiomeTemperateSeasonalForest
    ∧ GetRedblobBiome 1 4 = some RedblobBiomeTemperateSeasonalForest
    ∧ redblobDiagramBiome 1 3 = some RedblobBiomeTropicalSeasonalForest
    ∧ redblobDiagramBiome 1 4 = some RedblobBiomeTropicalSeasonalForest
    ∧ GetRedblobBiome 4 1 = some RedblobBiomeScorched
    ∧ ((List.range 4).flatMap (fun h => (List.range 6).filterMap (fun m =>
        if GetRedblobBiome ((h : Int) + 1) ((m : Int) + 1)
            = redblobDiagramBiome ((h : Int) + 1) ((m : Int) + 1)
        then none else some ((h : Int) + 1, (m : Int) + 1))))
      = [(1, 3), (1, 4), (2, 6)] := by
  decide

end Genworldvoronoi

namespace Genpotions

/-! ## Shared effects and craftability -/

theorem hasEffectLoop_iff (effect : String) (l : List String) :
    hasEffectLoop effect l = true ↔ effect ∈ l := by
  induction l with
  | nil => simp [hasEffectLoop]
  | cons e rest ih =>
    unfold hasEffectLoop
    split_ifs with h
    · simp [h]
    · rw [ih, List.mem_cons]
      constructor
      · exact fun h2 => Or.inr h2
      · rintro (h2 | h2)
        · exact absurd h2.symm h
        · exact h2

theorem hasEffect_iff (ing : Ingredient) (effect : String) :
    hasEffect ing effect = true ↔ effect ∈ ing.Effects :=
  hasEffectLoop_iff effect ing.Effects

theorem foldl_append_if {α : Type} (p : α → Bool) (l acc : List α) :
    l.foldl (fun effects e => if p e then effects ++ [e] else effects) acc
      = acc ++ l.filter p := by
  induction l generalizing acc with
  | nil => simp
  | cons a l ih =>
    rw [List.foldl_cons, ih, List.filter_cons]
    split_ifs <;> simp

/-- What `getSharedEffects` returns: the effects of the receiver that `other`
does NOT have, in the order of the receiver. -/
theorem getSharedEffects_eq (ing other : Ingredient) :
    getSharedEffects ing other = ing.Effects.filter (fun e => !hasEffect other e) := by
  unfold getSharedEffects
  rw [foldl_append_if (fun e => !hasEffect other e)]
  rfl

/-- C27: for `a` with the effects x, y and `b` with the effect y,
`a.getSharedEffects(b)` returns x, which `b` does not have, and leaves out y,
the one effect present in both. -/
theorem C27_shared_effects_negated :
    getSharedEffects ⟨"a", ["x", "y"]⟩ ⟨"b", ["y"]⟩ = ["x"]
    ∧ hasEffect ⟨"b", ["y"]⟩ "x" = false
    ∧ hasEffect ⟨"a", ["x", "y"]⟩ "y" = true
    ∧ hasEffect ⟨"b", ["y"]⟩ "y" = true := by
  decide

theorem hasSomeEffects_iff (ing : Ingredient) (effects : List String) :
    hasSomeEffects ing effects = true ↔ ∃ e ∈ effects, e ∈ ing.Effects := by
  unfold hasSomeEffects
  induction effects with
  | nil => simp [hasSomeEffectsLoop]
  | cons e rest ih =>
    unfold hasSomeEffectsLoop
    split_ifs with h
    · simp only [true_iff]
      exact ⟨e, List.mem_cons_self _ _, (hasEffect_iff ing e).1 h⟩
    · rw [ih]
      constructor
      · rintro ⟨x, hx, hx2⟩
        exact ⟨x, List.mem_cons_of_mem _ hx, hx2⟩
      · rintro ⟨x, hx, hx2⟩
        rcases List.mem_cons.1 hx with rfl | hx
        · exact absurd ((hasEffect_iff ing x).2 hx2) h
        · exact ⟨x, hx, hx2⟩

theorem canCraftInner_iff (in1 : Ingredient) (l : List Ingredient) :
    canCraftInner in1 l = true
      ↔ ∃ in2 ∈ l, in1.Name ≠ in2.Name ∧ ∃ e ∈ in2.Effects, e ∈ in1.Effects := by
  induction l with
  | nil => simp [canCraftInner]
  | cons in2 rest ih =>
    unfold canCraftInner
    split_ifs with h1 h2
    · rw [ih]
      constructor
      · rintro ⟨x, hx, hx2⟩
        exact ⟨x, List.mem_cons_of_mem _ hx, hx2⟩
      · rintro ⟨x, hx, hx2⟩
        rcases List.mem_cons.1 hx with rfl | hx
        · exact absurd h1 hx2.1
        · exact ⟨x, hx, hx2⟩
    · simp only [true_iff]
      exact ⟨in2, List.mem_cons_self _ _, h1, (hasSomeEffects_iff in1 in2.Effects).1 h2⟩
    · rw [ih]
      constructor
      · rintro ⟨x, hx, hx2⟩
        exact ⟨x, List.mem_cons_of_mem _ hx, hx2⟩
      · rintro ⟨x, hx, hx2⟩
        rcases List.mem_cons.1 hx with rfl | hx
        · exact absurd ((hasSomeEffects_iff in1 x.Effects).2 hx2.2) h2
        · exact ⟨x, hx, hx2⟩

theorem canCraftOuter_iff (ingredients l : List Ingredient) :
    canCraftOuter ingredients l = true ↔ ∀ in1 ∈ l, canCraftInner in1 ingredients = true := by
  induction l with
  | nil => simp [canCraftOuter]
  | cons in1 rest ih =>
    unfold canCraftOuter
    cases h : canCraftInner in1 ingredients with
    | false => simp [h]
    | true => simp [h, ih]

/-- C28 (counterexample): two ingredients of the same name that share the
effect s; each shares an effect with the ingredient at the other position, yet
`CanCraftPotion` returns false. -/
theorem C28_same_name_not_compared :
    ¬ (CanCraftPotion [⟨"a", ["s"]⟩, ⟨"a", ["s"]⟩] = true
      ↔ ∀ i : Fin 2, ∃ j : Fin 2, j ≠ i
          ∧ ∃ e ∈ (([⟨"a", ["s"]⟩, ⟨"a", ["s"]⟩] : List Ingredient).get i).Effects,
            e ∈ (([⟨"a", ["s"]⟩, ⟨"a", ["s"]⟩] : List Ingredient).get j).Effects) := by
  decide

/-- C28 (amended): `CanCraftPotion` returns true if and only if each ingredient
of the list shares at least one effect with at least one ingredient of the list
whose `Name` is different (ingredients are told apart by name, not by
position). -/
theorem C28_craftable_iff (ingredients : List Ingredient) :
    CanCraftPotion ingredients = true
      ↔ ∀ in1 ∈ ingredients, ∃ in2 ∈ ingredients,
          in1.Name ≠ in2.Name ∧ ∃ e ∈ in2.Effects, e ∈ in1.Effects := by
  unfold CanCraftPotion
  rw [canCraftOuter_iff]
  constructor
  · intro h in1 h1
    exact (canCraftInner_iff in1 ingredients).1 (h in1 h1)
  · intro h in1 h1
    exact (canCraftInner_iff in1 ingredients).2 (h in1 h1)

/-! ## The effects of a potion -/

theorem counted_nil : Counted [] (([] : List String), fun (_ : String) => (none : Option Nat)) :=
  ⟨fun _ => rfl, fun _ => Iff.rfl, List.Pairwise.nil⟩

theorem counted_step (s : List String) (st : List String × (String → Option Nat))
    (e : String) (h : Counted s st) : Counted (s ++ [e]) (craftCount st e) := by
  have hsome : (st.2 e).isSome = true ↔ e ∈ s := by
    rw [h.count e]
    split_ifs with h0
    · simp [List.count_eq_zero.1 h0]
    · simp [List.count_pos_iff.1 (Nat.pos_of_ne_zero h0)]
  have hget : (st.2 e).getD 0 = s.count e := by
    rw [h.count e]
    split_ifs with h0
    · exact h0.symm
    · rfl
  refine ⟨?_, ?_, ?_⟩
  · intro k
    unfold craftCount
    dsimp only
    rw [List.count_append, List.count_singleton]
    by_cases hk : k = e
    · subst hk
      rw [if_pos rfl, hget]
      simp
    · rw [if_neg hk, h.count k]
      have : (e == k) = false := by
        rw [beq_eq_false_iff_ne]
        exact fun h2 => hk h2.symm
      simp [this]
  · intro k
    unfold craftCount
    dsimp only
    by_cases he : e ∈ s
    · rw [if_pos (hsome.2 he), h.mem k, List.mem_append, List.mem_singleton]
      constructor
      · exact fun h2 => Or.inl h2
      · rintro (h2 | h2)
        · exact h2
        · rw [h2]
          exact he
    · rw [if_neg (fun h2 => he (hsome.1 h2)), List.mem_append, List.mem_append, h.mem k]
  · have hold : st.1.Pairwise (fun a b => (s ++ [e]).indexOf a < (s ++ [e]).indexOf b) := by
      refine List.Pairwise.imp_of_mem ?_ h.order
      intro a b ha hb hab
      rw [List.indexOf_append_of_mem ((h.mem a).1 ha),
        List.indexOf_append_of_mem ((h.mem b).1 hb)]
      exact hab
    unfold craftCount
    dsimp only
    by_cases he : e ∈ s
    · rw [if_pos (hsome.2 he)]
      exact hold
    · rw [if_neg (fun h2 => he (hsome.1 h2)), List.pairwise_append]
      refine ⟨hold, List.pairwise_singleton _ _, ?_⟩
      intro a ha b hb
      rw [List.mem_singleton.1 hb, List.indexOf_append_of_mem ((h.mem a).1 ha),
        List.indexOf_append_of_not_mem he]
      have := List.indexOf_lt_length.2 ((h.mem a).1 ha)
      omega

theorem counted_foldl (l s : List String) (st : List String × (String → Option Nat))
    (h : Counted s st) : Counted (s ++ l) (l.foldl craftCount st) := by
  induction l generalizing s st with
  | nil =>
    rw [List.append_nil]
    exact h
  | cons e l ih =>
    rw [List.foldl_cons]
    have := ih (s ++ [e]) _ (counted_step s st e h)
    rw [List.append_assoc] at this
    exact this

/-- The counting loops of `CraftPotion` run over the effects of all ingredients. -/
theorem craftCount_loops (ingredients : List Ingredient)
    (st : List String × (String → Option Nat)) :
    ingredients.foldl (fun st ing => ing.Effects.foldl craftCount st) st
      = (allEffects ingredients).foldl craftCount st := by
  unfold allEffects
  rw [List.foldl_flatten, List.foldl_map]

theorem foldl_append_ite {α : Type} (P : α → Prop) [DecidablePred P] (l acc : List α) :
    l.foldl (fun effects e => if P e then effects ++ [e] else effects) acc
      = acc ++ l.filter (fun e => decide (P e)) := by
  induction l generalizing acc with
  | nil => simp
  | cons a l ih =>
    rw [List.foldl_cons, ih, List.filter_cons]
    by_cases h : P a <;> simp [h]

/-- The effects of the potion `CraftPotion` returns. -/
theorem CraftPotion_effects (ingredients : List Ingredient) (p : Potion)
    (h : CraftPotion ingredients = some p) :
    p.Ingredients = ingredients
    ∧ p.Name = "Potion of " ++ ", ".intercalate p.Effects
    ∧ ∃ st, Counted (allEffects ingredients) st
        ∧ p.Effects = st.1.filter (fun e => decide ((st.2 e).getD 0 > 1)) := by
  unfold CraftPotion at h
  split_ifs at h with h1
  dsimp only at h
  rw [craftCount_loops, foldl_append_ite, List.nil_append] at h
  cases h
  refine ⟨rfl, rfl, _, ?_, rfl⟩
  have := counted_foldl (allEffects ingredients) [] _ counted_nil
  rw [List.nil_append] at this
  exact this

/-- C29 (counterexample): ingredient a lists the effect x twice and shares s
with ingredient b; the potion has the effects x, s although x is an effect of
one ingredient only. -/
theorem C29_effect_listed_twice :
    (CraftPotion [⟨"a", ["x", "x", "s"]⟩, ⟨"b", ["s"]⟩]).map (fun p => p.Effects)
      = some ["x", "s"]
    ∧ ¬ ∃ i : Fin 2, ∃ j : Fin 2, i ≠ j
        ∧ "x" ∈ (([⟨"a", ["x", "x", "s"]⟩, ⟨"b", ["s"]⟩] : List Ingredient).get i).Effects
        ∧ "x" ∈ (([⟨"a", ["x", "x", "s"]⟩, ⟨"b", ["s"]⟩] : List Ingredient).get j).Effects := by
  decide

/-- C29 (amended): `CraftPotion` returns `(nil, false)` exactly when
`CanCraftPotion` rejects the ingredients; when it succeeds, the potion's
`Effects` contain no duplicates, are in the order of their first appearance
among the effects of all ingredients, and are exactly the effects that occur at
least twice there, occurrences counted with multiplicity (so an effect listed
twice by one ingredient is kept). -/
theorem C29_potion_effects (ingredients : List Ingredient) :
    (CraftPotion ingredients = none ↔ CanCraftPotion ingredients = false)
    ∧ ∀ p, CraftPotion ingredients = some p →
        p.Effects.Nodup
        ∧ p.Effects.Pairwise (fun a b =>
            (allEffects ingredients).indexOf a < (allEffects ingredients).indexOf b)
        ∧ ∀ e, e ∈ p.Effects ↔ 2 ≤ (allEffects ingredients).count e := by
  constructor
  · unfold CraftPotion
    cases h : CanCraftPotion ingredients <;> simp
  · intro p hp
    obtain ⟨_, _, st, hst, hE⟩ := CraftPotion_effects ingredients p hp
    have hord : p.Effects.Pairwise (fun a b =>
        (allEffects ingredients).indexOf a < (allEffects ingredients).indexOf b) := by
      rw [hE]
      exact hst.order.filter _
    refine ⟨?_, hord, ?_⟩
    · exact hord.imp (fun hab heq => by rw [heq] at hab; exact lt_irrefl _ hab)
    · intro e
      rw [hE, List.mem_filter, hst.mem e, hst.count e]
      constructor
      · rintro ⟨_, h2⟩
        split_ifs at h2 with h0
        · simp at h2
        · simpa using h2
      · intro h2
        have hpos : 0 < (allEffects ingredients).count e := by omega
        refine ⟨List.count_pos_iff.1 hpos, ?_⟩
        rw [if_neg (by omega)]
        simpa using h2

/-- C29 (witness): the potion of two ingredients that share the effect s. -/
theorem C29_potion_effects_witness :
    ∀ e, e ∈ ["s"] ↔ 2 ≤ (allEffects [⟨"a", ["x", "s"]⟩, ⟨"b", ["s", "y"]⟩]).count e :=
  ((C29_potion_effects [⟨"a", ["x", "s"]⟩, ⟨"b", ["s", "y"]⟩]).2
    ⟨"Potion of s", [⟨"a", ["x", "s"]⟩, ⟨"b", ["s", "y"]⟩], ["s"]⟩ (by decide)).2.2

end Genpotions

namespace Gamerogueish

/-! ## Overlap of rooms -/

/-- A sum inside the range of `int` is the exact sum. -/
theorem addInt_exact (a b : Int) (h : IsInt (a + b)) : addInt a b = a + b := by
  unfold IsInt at h
  unfold addInt wrapInt
  omega

/-- What the two tests of `Overlaps` let through. -/
theorem Overlaps_iff (r : Room) (rooms : List Room) :
    Overlaps r rooms = true
      ↔ ∃ room ∈ rooms, room.X ≤ addInt r.X r.W ∧ r.X ≤ addInt room.X room.W
          ∧ room.Y ≤ addInt r.Y r.H ∧ r.Y ≤ addInt room.Y room.H := by
  induction rooms with
  | nil => simp [Overlaps]
  | cons room rest ih =>
    unfold Overlaps
    split_ifs with h1 h2
    · rw [ih]
      constructor
      · rintro ⟨x, hx, hx2⟩
        exact ⟨x, List.mem_cons_of_mem _ hx, hx2⟩
      · rintro ⟨x, hx, hx2⟩
        rcases List.mem_cons.1 hx with rfl | hx
        · omega
        · exact ⟨x, hx, hx2⟩
    · rw [ih]
      constructor
      · rintro ⟨x, hx, hx2⟩
        exact ⟨x, List.mem_cons_of_mem _ hx, hx2⟩
      · rintro ⟨x, hx, hx2⟩
        rcases List.mem_cons.1 hx with rfl | hx
        · omega
        · exact ⟨x, hx, hx2⟩
    · simp only [true_iff]
      exact ⟨room, List.mem_cons_self _ _, by omega, by omega, by omega, by omega⟩

/-- The test of one axis: with extents of at least 1 it lets a pair through exactly
when neither sum wraps and the two closed intervals meet. -/
theorem axis_iff (a w b v : Int) (ha : IsInt a) (hw : IsInt w) (hb : IsInt b) (hv : IsInt v)
    (h1 : 1 ≤ w) (h2 : 1 ≤ v) :
    (b ≤ addInt a w ∧ a ≤ addInt b v)
      ↔ (a + w < 9223372036854775808 ∧ b + v < 9223372036854775808
          ∧ b ≤ a + w ∧ a ≤ b + v) := by
  unfold IsInt at ha hw hb hv
  unfold addInt wrapInt
  omega

/-- Overflow case: the sum `1 + MaxInt64` wraps to `MinInt64`, so the second room is
skipped although the two rectangles of the plane have the point `(1, 0)` in common. -/
theorem Overlaps_wraps :
    Overlaps ⟨0, 0, 9223372036854775807, 1⟩ [⟨1, 0, 9223372036854775807, 1⟩] = false := by
  decide

/-- C30 (counterexample): the 2 x 2 rooms at `(0, 0)` and `(2, 0)` lie side by
side and share no cell, yet `Overlaps` returns true. -/
theorem C30_touching_rooms_overlap :
    Overlaps ⟨0, 0, 2, 2⟩ [⟨2, 0, 2, 2⟩] = true
    ∧ ¬ ∃ x y, carves ⟨0, 0, 2, 2⟩ x y ∧ carves ⟨2, 0, 2, 2⟩ x y := by
  refine ⟨by decide, ?_⟩
  rintro ⟨x, y, h1, h2⟩
  unfold carves addInt wrapInt at h1 h2
  dsimp only at h1 h2
  omega

/-- C30 (amended): for rooms with `W, H >= 1`, `r.Overlaps(rooms)` is true if
and only if, for some room of the list, the sums `X+W` and `Y+H` of `r` and of
that room stay inside the range of `int` and the closed rectangles
`X <= x <= X+W`, `Y <= y <= Y+H` of the two share a point.  So it is true
whenever `r` shares a carved cell with some room of the list, and also for rooms
that only touch; a room one of whose sums wraps around is never reported. -/
theorem C30_overlaps_closed_rectangles (r : Room) (rooms : List Room)
    (hr : 1 ≤ r.W ∧ 1 ≤ r.H) (hrooms : ∀ room ∈ rooms, 1 ≤ room.W ∧ 1 ≤ room.H)
    (hir : r.IsRoom) (hirooms : ∀ room ∈ rooms, room.IsRoom) :
    (Overlaps r rooms = true
      ↔ ∃ room ∈ rooms, r.Fits ∧ room.Fits ∧ ∃ x y, reaches r x y ∧ reaches room x y)
    ∧ ((∃ room ∈ rooms, ∃ x y, carves r x y ∧ carves room x y) → Overlaps r rooms = true)
    ∧ (r.Fits → (∀ room ∈ rooms, room.Fits) →
        (Overlaps r rooms = true
          ↔ ∃ room ∈ rooms, ∃ x y, reaches r x y ∧ reaches room x y)) := by
  have key : Overlaps r rooms = true
      ↔ ∃ room ∈ rooms, r.Fits ∧ room.Fits ∧ ∃ x y, reaches r x y ∧ reaches room x y := by
    rw [Overlaps_iff]
    constructor
    · rintro ⟨room, hm, hx1, hx2, hy1, hy2⟩
      have hw := hrooms room hm
      have hq := hirooms room hm
      have hX := (axis_iff r.X r.W room.X room.W hir.1 hir.2.2.1 hq.1 hq.2.2.1 hr.1 hw.1).1
        ⟨hx1, hx2⟩
      have hY := (axis_iff r.Y r.H room.Y room.H hir.2.1 hir.2.2.2 hq.2.1 hq.2.2.2 hr.2 hw.2).1
        ⟨hy1, hy2⟩
      refine ⟨room, hm, ⟨hX.1, hY.1⟩, ⟨hX.2.1, hY.2.1⟩, max r.X room.X, max r.Y room.Y, ?_, ?_⟩
      · unfold reaches
        refine ⟨le_max_left _ _, max_le (by omega) (by omega), le_max_left _ _,
          max_le (by omega) (by omega)⟩
      · unfold reaches
        refine ⟨le_max_right _ _, max_le (by omega) (by omega), le_max_right _ _,
          max_le (by omega) (by omega)⟩
    · rintro ⟨room, hm, hf1, hf2, x, y, h1, h2⟩
      have hw := hrooms room hm
      have hq := hirooms room hm
      unfold reaches at h1 h2
      unfold Room.Fits at hf1 hf2
      have hX := (axis_iff r.X r.W room.X room.W hir.1 hir.2.2.1 hq.1 hq.2.2.1 hr.1 hw.1).2
        ⟨hf1.1, hf2.1, by omega, by omega⟩
      have hY := (axis_iff r.Y r.H room.Y room.H hir.2.1 hir.2.2.2 hq.2.1 hq.2.2.2 hr.2 hw.2).2
        ⟨hf1.2, hf2.2, by omega, by omega⟩
      exact ⟨room, hm, hX.1, hX.2, hY.1, hY.2⟩
  refine ⟨key, ?_, ?_⟩
  · rintro ⟨room, hm, x, y, h1, h2⟩
    rw [Overlaps_iff]
    have hw := hrooms room hm
    have hq := hirooms room hm
    unfold carves at h1 h2
    exact ⟨room, hm, by omega, by omega, by omega, by omega⟩
  · intro hf hfs
    rw [key]
    constructor
    · rintro ⟨room, hm, _, _, h⟩
      exact ⟨room, hm, h⟩
    · rintro ⟨room, hm, h⟩
      exact ⟨room, hm, hf, hfs room hm, h⟩

/-- C30 (witness): two rooms with the corner cell `(3, 3)` in common. -/
theorem C30_overlaps_closed_rectangles_witness :
    Overlaps ⟨0, 0, 4, 4⟩ [⟨10, 10, 4, 4⟩, ⟨3, 3, 5, 5⟩] = true :=
  (C30_overlaps_closed_rectangles ⟨0, 0, 4, 4⟩ [⟨10, 10, 4, 4⟩, ⟨3, 3, 5, 5⟩]
    (by decide) (by decide) (by decide) (by decide)).2.1
    ⟨⟨3, 3, 5, 5⟩, by decide, 3, 3, by unfold carves; decide, by unfold carves; decide⟩

end Gamerogueish

namespace Genheightmap

/-! ## Minimum and maximum -/

theorem minMax_loop (l : List ℚ) (a b : ℚ) :
    ((l.foldl minMaxStep (a, b)).1 = a ∨ (l.foldl minMaxStep (a, b)).1 ∈ l)
    ∧ ((l.foldl minMaxStep (a, b)).2 = b ∨ (l.foldl minMaxStep (a, b)).2 ∈ l)
    ∧ (l.foldl minMaxStep (a, b)).1 ≤ a ∧ b ≤ (l.foldl minMaxStep (a, b)).2
    ∧ ∀ h ∈ l, (l.foldl minMaxStep (a, b)).1 ≤ h ∧ h ≤ (l.foldl minMaxStep (a, b)).2 := by
  induction l generalizing a b with
  | nil => simp
  | cons x l ih =>
    have hstep : minMaxStep (a, b) x = (if x < a then x else a, if x > b then x else b) := rfl
    rw [List.foldl_cons, hstep]
    obtain ⟨h1, h2, h3, h4, h5⟩ := ih (if x < a then x else a) (if x > b then x else b)
    refine ⟨?_, ?_, ?_, ?_, ?_⟩
    · rcases h1 with h1 | h1
      · rw [h1]
        split_ifs
        · exact Or.inr (List.mem_cons_self _ _)
        · exact Or.inl rfl
      · exact Or.inr (List.mem_cons_of_mem _ h1)
    · rcases h2 with h2 | h2
      · rw [h2]
        split_ifs
        · exact Or.inr (List.mem_cons_self _ _)
        · exact Or.inl rfl
      · exact Or.inr (List.mem_cons_of_mem _ h2)
    · refine le_trans h3 ?_
      split_ifs with h
      · exact le_of_lt h
      · exact le_refl _
    · refine le_trans ?_ h4
      split_ifs with h
      · exact le_of_lt h
      · exact le_refl _
    · intro h hh
      rcases List.mem_cons.1 hh with rfl | hh
      · constructor
        · refine le_trans h3 ?_
          split_ifs with hlt
          · exact le_refl _
          · exact not_lt.1 hlt
        · refine le_trans ?_ h4
          split_ifs with hgt
          · exact le_refl _
          · exact not_lt.1 hgt
      · exact h5 h hh

/-- C31: for a non-empty slice `MinMax` returns two of its elements, the first
below and the second above every element; for the empty slice it returns
`(0, 0)`. -/
theorem C31_minMax (hm : List ℚ) :
    (hm ≠ [] →
      (MinMax hm).1 ∈ hm ∧ (MinMax hm).2 ∈ hm
      ∧ ∀ h ∈ hm, (MinMax hm).1 ≤ h ∧ h ≤ (MinMax hm).2)
    ∧ (hm = [] → MinMax hm = (0, 0)) := by
  constructor
  · intro hne
    cases hm with
    | nil => exact absurd rfl hne
    | cons x l =>
      unfold MinMax
      rw [if_neg (by simp)]
      have hx : (x :: l).getD 0 0 = x := rfl
      rw [hx]
      obtain ⟨h1, h2, -, -, h5⟩ := minMax_loop (x :: l) x x
      refine ⟨?_, ?_, h5⟩
      · rcases h1 with h1 | h1
        · rw [h1]
          exact List.mem_cons_self _ _
        · exact h1
      · rcases h2 with h2 | h2
        · rw [h2]
          exact List.mem_cons_self _ _
        · exact h2
  · intro h
    rw [h]
    rfl

/-- C31 (witness): a slice of four heights. -/
theorem C31_minMax_witness :
    (MinMax [3, -1, 7, 2]).1 ∈ [(3 : ℚ), -1, 7, 2] ∧ (MinMax [3, -1, 7, 2]).2 ∈ [(3 : ℚ), -1, 7, 2]
      ∧ ∀ h ∈ [(3 : ℚ), -1, 7, 2], (MinMax [3, -1, 7, 2]).1 ≤ h ∧ h ≤ (MinMax [3, -1, 7, 2]).2 :=
  (C31_minMax [3, -1, 7, 2]).1 (by decide)

end Genheightmap
